import Mathlib

/-!
# NTBTLS client handshake (`src/protocol-cli.c`): shallow embedding

The C functions of `protocol-cli.c` are translated one by one into pure
functions over an explicit context record.  A function that has outcomes
depending on a collaborator outside this file (record layer, crypto
library, random source) takes those outcomes from an `Env` record.

Conventions
* `unsigned char` values are `Nat`s read modulo 256 (`rd`).
* A pointer into a buffer is the suffix of the buffer that starts at it
  (`buf + k` is `buf.drop k`).
* `size_t` and `int` values are `Nat`; every subtraction in the source is
  guarded before it is taken.
* `gpg_error_t` / `int` return codes are values of `Ret`; `Ret.ok` is `0`.
-/

namespace Ntbtls

/-! ## Return codes -/

/-- Return codes of the handshake functions: `ok` is the value `0`, the
named constructors are `gpg_error (GPG_ERR_...)` values produced in this
file, and `other n` is any further non-zero code handed back by a
collaborator. -/
inductive Ret where
  | ok
  | BAD_HS_SERVER_HELLO
  | BAD_HS_SERVER_KEX
  | BAD_HS_CERT
  | BAD_HS_CERT_REQ
  | BAD_HS_SERVER_HELLO_DONE
  | BAD_TICKET
  | UNEXPECTED_MSG
  | UNSUPPORTED_PROTOCOL
  | INV_ARG
  | INV_STATE
  | INTERNAL
  | NO_SECKEY
  | WRONG_PUBKEY_ALGO
  | NOT_IMPLEMENTED
  | other (n : Nat)
  deriving DecidableEq, Repr

/-! ## Constants of `ntbtls-int.h`

The header is not part of the sources.  The values below are the ones the
specification and the RFCs it cites give for them. -/

/-- Modelled from the spec: handshake states, numbered in the order of the
`State` list of section 3 (the header that declares the enum is missing). -/
@[simp] def TLS_HELLO_REQUEST : Nat := 0
/-- Modelled from the spec: second state of the `State` list. -/
@[simp] def TLS_CLIENT_HELLO : Nat := 1
/-- Modelled from the spec: third state of the `State` list. -/
@[simp] def TLS_SERVER_HELLO : Nat := 2
/-- Modelled from the spec: fourth state of the `State` list. -/
@[simp] def TLS_SERVER_CERTIFICATE : Nat := 3
/-- Modelled from the spec: fifth state of the `State` list. -/
@[simp] def TLS_SERVER_KEY_EXCHANGE : Nat := 4
/-- Modelled from the spec: sixth state of the `State` list. -/
@[simp] def TLS_CERTIFICATE_REQUEST : Nat := 5
/-- Modelled from the spec: seventh state of the `State` list. -/
@[simp] def TLS_SERVER_HELLO_DONE : Nat := 6
/-- Modelled from the spec: eighth state of the `State` list. -/
@[simp] def TLS_CLIENT_CERTIFICATE : Nat := 7
/-- Modelled from the spec: ninth state of the `State` list. -/
@[simp] def TLS_CLIENT_KEY_EXCHANGE : Nat := 8
/-- Modelled from the spec: tenth state of the `State` list. -/
@[simp] def TLS_CERTIFICATE_VERIFY : Nat := 9
/-- Modelled from the spec: eleventh state of the `State` list. -/
@[simp] def TLS_CLIENT_CHANGE_CIPHER_SPEC : Nat := 10
/-- Modelled from the spec: twelfth state of the `State` list. -/
@[simp] def TLS_CLIENT_FINISHED : Nat := 11
/-- Modelled from the spec: thirteenth state of the `State` list. -/
@[simp] def TLS_SERVER_CHANGE_CIPHER_SPEC : Nat := 12
/-- Modelled from the spec: fourteenth state of the `State` list. -/
@[simp] def TLS_SERVER_FINISHED : Nat := 13
/-- Modelled from the spec: fifteenth state of the `State` list. -/
@[simp] def TLS_FLUSH_BUFFERS : Nat := 14
/-- Modelled from the spec: sixteenth state of the `State` list. -/
@[simp] def TLS_HANDSHAKE_WRAPUP : Nat := 15
/-- Modelled from the spec: last state of the `State` list. -/
@[simp] def TLS_HANDSHAKE_OVER : Nat := 16

/-- Modelled from the spec: record content type `handshake` of RFC 5246. -/
@[simp] def TLS_MSG_HANDSHAKE : Nat := 22

/-- Modelled from the spec: handshake type `client_hello` of RFC 5246. -/
@[simp] def TLS_HS_CLIENT_HELLO : Nat := 1
/-- Modelled from the spec: handshake type `server_hello` of RFC 5246. -/
@[simp] def TLS_HS_SERVER_HELLO : Nat := 2
/-- Modelled from the spec: handshake type `new_session_ticket` of RFC 5077. -/
@[simp] def TLS_HS_NEW_SESSION_TICKET : Nat := 4
/-- Modelled from the spec: handshake type `server_key_exchange`. -/
@[simp] def TLS_HS_SERVER_KEY_EXCHANGE : Nat := 12
/-- Modelled from the spec: handshake type `certificate_request`. -/
@[simp] def TLS_HS_CERTIFICATE_REQUEST : Nat := 13
/-- Modelled from the spec: handshake type `server_hello_done`. -/
@[simp] def TLS_HS_SERVER_HELLO_DONE : Nat := 14
/-- Modelled from the spec: handshake type `certificate_verify`. -/
@[simp] def TLS_HS_CERTIFICATE_VERIFY : Nat := 15
/-- Modelled from the spec: handshake type `client_key_exchange`. -/
@[simp] def TLS_HS_CLIENT_KEY_EXCHANGE : Nat := 16

/-- Modelled from the spec: the major version byte of every TLS version
(section 6, version field `{3, minor}`). -/
@[simp] def SSL_MAJOR_VERSION_3 : Nat := 3
/-- Modelled from the spec: minor version of SSL 3.0. -/
@[simp] def SSL_MINOR_VERSION_0 : Nat := 0
/-- Modelled from the spec: minor version of TLS 1.2. -/
@[simp] def SSL_MINOR_VERSION_3 : Nat := 3
/-- Modelled from the spec: the highest major version the library offers. -/
@[simp] def TLS_MAX_MAJOR_VERSION : Nat := 3
/-- Modelled from the spec: the highest minor version the library offers
(TLS 1.2). -/
@[simp] def TLS_MAX_MINOR_VERSION : Nat := 3

/-- Modelled from the spec: compression method `null`. -/
@[simp] def TLS_COMPRESS_NULL : Nat := 0
/-- Modelled from the spec: compression method `deflate`. -/
@[simp] def TLS_COMPRESS_DEFLATE : Nat := 1

/-- Modelled from the spec: extension type `server_name` (table of 4.2). -/
@[simp] def TLS_EXT_SERVERNAME : Nat := 0
/-- Modelled from the spec: extension type `max_fragment_length`. -/
@[simp] def TLS_EXT_MAX_FRAGMENT_LENGTH : Nat := 1
/-- Modelled from the spec: extension type `truncated_hmac`. -/
@[simp] def TLS_EXT_TRUNCATED_HMAC : Nat := 4
/-- Modelled from the spec: extension type `supported_elliptic_curves`. -/
@[simp] def TLS_EXT_SUPPORTED_ELLIPTIC_CURVES : Nat := 10
/-- Modelled from the spec: extension type `ec_point_formats`. -/
@[simp] def TLS_EXT_SUPPORTED_POINT_FORMATS : Nat := 11
/-- Modelled from the spec: extension type `signature_algorithms`. -/
@[simp] def TLS_EXT_SIG_ALG : Nat := 13
/-- Modelled from the spec: extension type `ALPN`. -/
@[simp] def TLS_EXT_ALPN : Nat := 16
/-- Modelled from the spec: extension type `session_ticket`. -/
@[simp] def TLS_EXT_SESSION_TICKET : Nat := 35
/-- Modelled from the spec: extension type `renegotiation_info`. -/
@[simp] def TLS_EXT_RENEGOTIATION_INFO : Nat := 0xFF01

/-- Modelled from the spec: the signalling ciphersuite value `0x00FF`. -/
@[simp] def SSL_EMPTY_RENEGOTIATION_INFO : Nat := 0xFF

/-- Modelled from the spec: `renegotiation` value of a first handshake. -/
@[simp] def SSL_INITIAL_HANDSHAKE : Nat := 0
/-- Modelled from the spec: `renegotiation` value of a renegotiation. -/
@[simp] def TLS_RENEGOTIATION : Nat := 1
/-- Modelled from the spec: `secure_renegotiation` value when the peer has
not shown RFC 5746 support. -/
@[simp] def TLS_LEGACY_RENEGOTIATION : Nat := 0
/-- Modelled from the spec: `secure_renegotiation` value when the peer
supports RFC 5746. -/
@[simp] def TLS_SECURE_RENEGOTIATION : Nat := 1
/-- Modelled from the spec: legacy policy `no_renegotiation`. -/
@[simp] def TLS_LEGACY_NO_RENEGOTIATION : Nat := 0
/-- Modelled from the spec: legacy policy `allow`. -/
@[simp] def TLS_LEGACY_ALLOW_RENEGOTIATION : Nat := 1
/-- Modelled from the spec: legacy policy `break_handshake`. -/
@[simp] def TLS_LEGACY_BREAK_HANDSHAKE : Nat := 2

/-- Modelled from the spec: `max_fragment_length` configuration `none`. -/
@[simp] def SSL_MAX_FRAG_LEN_NONE : Nat := 0
/-- Modelled from the spec: `truncated_hmac` configuration `disabled`. -/
@[simp] def SSL_TRUNC_HMAC_DISABLED : Nat := 0
/-- Modelled from the spec: `truncated_hmac` configuration `enabled`. -/
@[simp] def SSL_TRUNC_HMAC_ENABLED : Nat := 1
/-- Modelled from the spec: `session_tickets` configuration `disabled`. -/
@[simp] def SSL_SESSION_TICKETS_DISABLED : Nat := 0

/-- Modelled from the spec: EC point format `uncompressed` of RFC 4492. -/
@[simp] def POLARSSL_ECP_PF_UNCOMPRESSED : Nat := 0
/-- Modelled from the spec: EC point format `ansiX962_compressed_prime`. -/
@[simp] def POLARSSL_ECP_PF_COMPRESSED : Nat := 1

/-- Modelled from the spec: client certificate type `rsa_sign`. -/
@[simp] def SSL_CERT_TYPE_RSA_SIGN : Nat := 1
/-- Modelled from the spec: client certificate type `ecdsa_sign`. -/
@[simp] def SSL_CERT_TYPE_ECDSA_SIGN : Nat := 64

/-- Modelled from the spec: `HashAlgorithm` value `sha1` (comment in
`write_signature_algorithms_ext`). -/
@[simp] def TLS_HASH_SHA1 : Nat := 2
/-- Modelled from the spec: `HashAlgorithm` value `sha224`. -/
@[simp] def TLS_HASH_SHA224 : Nat := 3
/-- Modelled from the spec: `HashAlgorithm` value `sha256`. -/
@[simp] def TLS_HASH_SHA256 : Nat := 4
/-- Modelled from the spec: `HashAlgorithm` value `sha384`. -/
@[simp] def TLS_HASH_SHA384 : Nat := 5
/-- Modelled from the spec: `HashAlgorithm` value `sha512`. -/
@[simp] def TLS_HASH_SHA512 : Nat := 6
/-- Modelled from the spec: `SignatureAlgorithm` value `rsa`. -/
@[simp] def TLS_SIG_RSA : Nat := 1
/-- Modelled from the spec: `SignatureAlgorithm` value `ecdsa`. -/
@[simp] def TLS_SIG_ECDSA : Nat := 3

/-- Modelled from the spec: capacity of the premaster buffer (section 3,
`Premaster`, at most 384 bytes). -/
@[simp] def POLARSSL_PREMASTER_SIZE : Nat := 384

/-! ## Buffers -/

/-- A byte buffer. -/
abbrev Bytes := List Nat

/-- The `unsigned char` at index `i` of a buffer (`buf[i]`). -/
def rd (buf : Bytes) (i : Nat) : Nat := buf.getD i 0 % 256

/-- The `n` bytes found at the start of a buffer. -/
def rdn (buf : Bytes) (n : Nat) : Bytes := (List.range n).map (rd buf)

/-- Buffer `buf` after `data` has been written at offset `off`. -/
def store (buf : Bytes) (off : Nat) (data : Bytes) : Bytes :=
  (buf.take off ++ List.replicate (off - buf.length) 0) ++ data
    ++ buf.drop (off + data.length)

/-- The C call `memcpy (dst + off, src, n)`. -/
def memcpy (dst : Bytes) (off : Nat) (src : Bytes) (n : Nat) : Bytes :=
  store dst off (rdn src n)

/-- The C test `memcmp (a, b, n) == 0` (also `safer_memcmp`, which differs
only in running time). -/
def memeq (a b : Bytes) (n : Nat) : Bool :=
  (List.range n).all fun i => rd a i == rd b i

/-- The C expression `(hi << 8) | lo`. -/
def shl8_or (hi lo : Nat) : Nat := (hi <<< 8) ||| lo

/-- The cast `(unsigned char) x`. -/
def u8 (x : Nat) : Nat := x % 256

/-! ## Data model -/

/-- Key exchange methods (`key_exchange` of a ciphersuite). -/
inductive key_exchange_type_t where
  | NONE | RSA | DHE_RSA | ECDHE_RSA | ECDHE_ECDSA | PSK | DHE_PSK
  | RSA_PSK | ECDHE_PSK | ECDH_RSA | ECDH_ECDSA
  deriving DecidableEq, Repr

/-- Message digests (`md_type_t`); `NONE` is the value `0`. -/
inductive md_type_t where
  | NONE | MD5 | SHA1 | SHA224 | SHA256 | SHA384 | SHA512
  deriving DecidableEq, Repr

/-- Public key kinds (`pk_type_t`); `NONE` is the value `0`. -/
inductive pk_type_t where
  | NONE | RSA | ECKEY | ECKEY_DH | ECDSA
  deriving DecidableEq, Repr

/-- The fields of `ssl_ciphersuite_t` this file reads. -/
structure ssl_ciphersuite_t where
  id : Nat
  key_exchange : key_exchange_type_t
  mac : md_type_t
  min_minor_ver : Nat
  max_minor_ver : Nat
  deriving DecidableEq, Repr

/-- A public key context (`pk_context`), known here by its kind only. -/
structure pk_context where
  pk_type : pk_type_t
  deriving DecidableEq, Repr

/-- The session being negotiated (`ssl->session_negotiate`). -/
structure session_t where
  start : Nat := 0
  ciphersuite : Nat := 0
  compression : Nat := 0
  length : Nat := 0
  id : Bytes := List.replicate 32 0
  peer_cert : pk_context := ⟨pk_type_t.NONE⟩
  ticket : Option Bytes := none
  ticket_len : Nat := 0
  ticket_lifetime : Nat := 0
  trunc_hmac : Nat := 0
  deriving DecidableEq, Repr

/-- The handshake parameters (`ssl->handshake`); `ecdh_point_format`,
`ecdh_grp_id` and `dhm_len` are `ecdh_ctx.point_format`, `ecdh_ctx.grp.id`
and `dhm_ctx.len`. -/
structure handshake_t where
  resume : Nat := 0
  randbytes : Bytes := List.replicate 64 0
  new_session_ticket : Nat := 0
  cert_type : Nat := 0
  ecdh_point_format : Nat := 0
  ecdh_grp_id : Nat := 0
  dhm_len : Nat := 0
  premaster : Bytes := []
  pmslen : Nat := 0
  deriving DecidableEq, Repr

/-- The TLS context (`ntbtls_t`): the fields this file reads or writes.
`ciphersuite_info` is `transform_negotiate->ciphersuite_info`; a `NULL`
pointer is `none`.  `ciphersuite_list v` is the array
`ciphersuite_list[v]`: the listed ids followed by the terminating `0`.
`curve_list` is the array of group ids before its terminator. -/
structure ntbtls_t where
  state : Nat := 0
  renegotiation : Nat := 0
  secure_renegotiation : Nat := 0
  allow_legacy_renegotiation : Nat := 0
  major_ver : Nat := 0
  minor_ver : Nat := 0
  min_major_ver : Nat := 3
  min_minor_ver : Nat := 1
  max_major_ver : Nat := 3
  max_minor_ver : Nat := 3
  hostname : Option Bytes := none
  hostname_len : Nat := 0
  verify_data_len : Nat := 0
  own_verify_data : Bytes := List.replicate 36 0
  peer_verify_data : Bytes := List.replicate 36 0
  curve_list : List Nat := []
  mfl_code : Nat := 0
  trunc_hmac : Nat := 0
  session_tickets : Nat := 0
  alpn_list : Option (List Bytes) := none
  alpn_chosen : Option Bytes := none
  ciphersuite_list : Nat → List Nat := fun _ => []
  in_msgtype : Nat := 0
  in_msg : Bytes := []
  in_hslen : Nat := 0
  out_msgtype : Nat := 0
  out_msg : Bytes := []
  out_msglen : Nat := 0
  session_negotiate : session_t := {}
  handshake : handshake_t := {}
  ciphersuite_info : Option ssl_ciphersuite_t := none
  record_read : Nat := 0
  client_auth : Nat := 0
  psk : Option Bytes := none
  psk_identity : Option Bytes := none
  psk_identity_len : Nat := 0
  own_cert : Bool := false
  own_key : Option pk_context := none

/-- What the collaborators of this file answer during one handshake step:
the record layer, the crypto library, the random source, the clock, the
ciphersuite and curve tables, and the handlers that live in other modules. -/
structure Env where
  /-- Return code of `_ntbtls_flush_output`. -/
  flush_output : Ret := Ret.ok
  /-- Return code of `_ntbtls_read_record`. -/
  read_record : Ret := Ret.ok
  /-- Content type a successful read leaves in `in_msgtype`. -/
  in_msgtype : Nat := 22
  /-- Message a successful read leaves in `in_msg`. -/
  in_msg : Bytes := []
  /-- Handshake length a successful read leaves in `in_hslen`. -/
  in_hslen : Nat := 0
  /-- Return code of `_ntbtls_write_record` / `ssl_write_record`. -/
  write_record : Ret := Ret.ok
  /-- Return code of `ssl_send_fatal_handshake_failure`. -/
  send_fatal_handshake_failure : Ret := Ret.ok
  /-- Return code of `_ntbtls_derive_keys`. -/
  derive_keys : Ret := Ret.ok
  /-- The ciphersuite table `ssl_ciphersuite_from_id`. -/
  ssl_ciphersuite_from_id : Nat → Option ssl_ciphersuite_t := fun _ => none
  /-- Value of `time (NULL)`. -/
  time : Nat := 0
  /-- The 28 bytes `gcry_create_nonce` delivers. -/
  nonce : Bytes := List.replicate 28 0
  /-- Return code of `f_rng`. -/
  f_rng : Ret := Ret.ok
  /-- The bytes `f_rng` delivers, for a request of the given length. -/
  rng_bytes : Nat → Bytes := fun n => List.replicate n 0
  /-- The indeterminate value of a local variable read before any
  assignment. -/
  indeterminate : Ret := Ret.ok
  /-- Whether `malloc` succeeds. -/
  malloc_ok : Bool := true
  /-- Return code `gpg_error_from_syserror ()` after a failed `malloc`. -/
  syserror : Ret := Ret.other 0
  /-- The curve table `ecp_curve_info_from_grp_id`: the TLS id of a known
  group. -/
  ecp_curve_info_from_grp_id : Nat → Option Nat := fun _ => none
  /-- The predicate `ssl_curve_is_acceptable`. -/
  ssl_curve_is_acceptable : Nat → Bool := fun _ => false
  /-- The table `_ntbtls_md_alg_from_hash`. -/
  md_alg_from_hash : Nat → md_type_t := fun _ => md_type_t.NONE
  /-- The table `_ntbtls_pk_alg_from_sig`. -/
  pk_alg_from_sig : Nat → pk_type_t := fun _ => pk_type_t.NONE
  /-- The table `ssl_get_ciphersuite_sig_pk_alg`. -/
  ssl_get_ciphersuite_sig_pk_alg : ssl_ciphersuite_t → pk_type_t :=
    fun _ => pk_type_t.NONE
  /-- The predicate `pk_can_do`. -/
  pk_can_do : pk_context → pk_type_t → Bool := fun _ _ => false
  /-- Function `dhm_read_params` on the bytes at `*p` with `end - *p`
  bytes available: return code, bytes consumed, resulting `dhm_ctx.len`. -/
  dhm_read_params : Bytes → Nat → Ret × Nat × Nat := fun _ _ => (Ret.ok, 0, 0)
  /-- Function `ecdh_read_params` on the bytes at `*p` with `end - *p`
  bytes available: return code, bytes consumed, resulting group id. -/
  ecdh_read_params : Bytes → Nat → Ret × Nat × Nat := fun _ _ => (Ret.ok, 0, 0)
  /-- Function `ecdh_get_params` on the peer key: return code and
  resulting group id. -/
  ecdh_get_params : pk_context → Ret × Nat := fun _ => (Ret.ok, 0)
  /-- Return code of `md_init_ctx` for a digest. -/
  md_init_ctx : md_type_t → Ret := fun _ => Ret.ok
  /-- The digest of a byte string. -/
  md : md_type_t → Bytes → Bytes := fun _ _ => []
  /-- Function `pk_verify`: key, digest kind, hash, hash length, signature. -/
  pk_verify : pk_context → md_type_t → Bytes → Nat → Bytes → Ret :=
    fun _ _ _ _ _ => Ret.ok
  /-- Function `pk_encrypt`: key, input, output capacity; return code and
  ciphertext. -/
  pk_encrypt : pk_context → Bytes → Nat → Ret × Bytes := fun _ _ _ => (Ret.ok, [])
  /-- Function `pk_sign`: key, digest kind, hash, hash length; return code
  and signature. -/
  pk_sign : pk_context → md_type_t → Bytes → Nat → Ret × Bytes :=
    fun _ _ _ _ => (Ret.ok, [])
  /-- Function `dhm_make_public`: return code and the `n` bytes written. -/
  dhm_make_public : Nat → Ret × Bytes := fun n => (Ret.ok, List.replicate n 0)
  /-- Function `dhm_calc_secret`: return code and the premaster written. -/
  dhm_calc_secret : Ret × Bytes := (Ret.ok, [])
  /-- Function `ecdh_make_public` with the given capacity: return code and
  the bytes written. -/
  ecdh_make_public : Nat → Ret × Bytes := fun _ => (Ret.ok, [])
  /-- Function `ecdh_calc_secret`: return code and the premaster written. -/
  ecdh_calc_secret : Ret × Bytes := (Ret.ok, [])
  /-- Function `ssl_psk_derive_premaster`: return code and the premaster
  and its length afterwards. -/
  ssl_psk_derive_premaster : key_exchange_type_t → Bytes → Ret × Bytes :=
    fun _ pms => (Ret.ok, pms)
  /-- The handshake digest `calc_verify` writes. -/
  calc_verify : Bytes := List.replicate 48 0
  /-- Handler `_ntbtls_parse_certificate` of the certificate module. -/
  parse_certificate : ntbtls_t → Ret × ntbtls_t := fun s => (Ret.ok, s)
  /-- Handler `_ntbtls_write_certificate` of the certificate module. -/
  write_certificate : ntbtls_t → Ret × ntbtls_t := fun s => (Ret.ok, s)
  /-- Handler `_ntbtls_write_change_cipher_spec` of the record module. -/
  write_change_cipher_spec : ntbtls_t → Ret × ntbtls_t := fun s => (Ret.ok, s)
  /-- Handler `_ntbtls_write_finished` of the record module. -/
  write_finished : ntbtls_t → Ret × ntbtls_t := fun s => (Ret.ok, s)
  /-- Handler `_ntbtls_parse_change_cipher_spec` of the record module. -/
  parse_change_cipher_spec : ntbtls_t → Ret × ntbtls_t := fun s => (Ret.ok, s)
  /-- Handler `_ntbtls_parse_finished` of the record module. -/
  parse_finished : ntbtls_t → Ret × ntbtls_t := fun s => (Ret.ok, s)
  /-- Procedure `_ntbtls_handshake_wrapup` of the record module. -/
  handshake_wrapup : ntbtls_t → ntbtls_t := fun s => s

/-! ## ClientHello extension writers

Every writer returns the bytes it stores from `buf` on; the value it
reports in `*olen` is the length of that list. -/

/-- The two bytes `(x >> 8) & 0xFF` and `x & 0xFF`, each cast to
`unsigned char`. -/
def be16_bytes (x : Nat) : Bytes := [u8 ((x >>> 8) &&& 0xFF), u8 (x &&& 0xFF)]

/-- Function `write_hostname_ext` (lines 32-79). -/
def write_hostname_ext (ssl : ntbtls_t) : Bytes :=
  match ssl.hostname with
  | none => []
  | some hostname =>
    be16_bytes TLS_EXT_SERVERNAME
      ++ be16_bytes (ssl.hostname_len + 5)
      ++ be16_bytes (ssl.hostname_len + 3)
      ++ [u8 (TLS_EXT_SERVERNAME &&& 0xFF)]
      ++ be16_bytes ssl.hostname_len
      ++ rdn hostname ssl.hostname_len

/-- Function `write_cli_renegotiation_ext` (lines 82-108). -/
def write_cli_renegotiation_ext (ssl : ntbtls_t) : Bytes :=
  if ssl.renegotiation ≠ TLS_RENEGOTIATION then []
  else
    be16_bytes TLS_EXT_RENEGOTIATION_INFO
      ++ [0x00, u8 ((ssl.verify_data_len + 1) &&& 0xFF),
          u8 (ssl.verify_data_len &&& 0xFF)]
      ++ rdn ssl.own_verify_data ssl.verify_data_len

/-- Function `write_signature_algorithms_ext` (lines 111-178); the list is
`sig_alg_list`, written at `buf + 6`. -/
def write_signature_algorithms_ext (ssl : ntbtls_t) : Bytes :=
  if ssl.max_minor_ver ≠ SSL_MINOR_VERSION_3 then []
  else
    let sig_alg_list : Bytes :=
      [TLS_HASH_SHA512, TLS_SIG_RSA, TLS_HASH_SHA384, TLS_SIG_RSA,
       TLS_HASH_SHA256, TLS_SIG_RSA, TLS_HASH_SHA224, TLS_SIG_RSA,
       TLS_HASH_SHA1, TLS_SIG_RSA,
       TLS_HASH_SHA512, TLS_SIG_ECDSA, TLS_HASH_SHA384, TLS_SIG_ECDSA,
       TLS_HASH_SHA256, TLS_SIG_ECDSA, TLS_HASH_SHA224, TLS_SIG_ECDSA,
       TLS_HASH_SHA1, TLS_SIG_ECDSA]
    let sig_alg_len := sig_alg_list.length
    be16_bytes TLS_EXT_SIG_ALG ++ be16_bytes (sig_alg_len + 2)
      ++ be16_bytes sig_alg_len ++ sig_alg_list

/-- The `for` loop of `write_supported_elliptic_curves_ext`
(lines 195-200) over the array `curve_list`, which the group id
`POLARSSL_ECP_DP_NONE` (`0`) terminates: the bytes of `elliptic_curve_list`.
The source reads `info->tls_id` without testing `info`; a group the table
does not know is given the id `0` here. -/
def write_supported_elliptic_curves_list (env : Env) : List Nat → Bytes
  | [] => []
  | grp_id :: rest =>
    if grp_id = 0 then []
    else
      let tls_id := (env.ecp_curve_info_from_grp_id grp_id).getD 0
      [u8 (tls_id >>> 8), u8 (tls_id &&& 0xFF)]
        ++ write_supported_elliptic_curves_list env rest

/-- Function `write_supported_elliptic_curves_ext` (lines 181-215), which
`write_client_hello` calls as `ssl_write_supported_elliptic_curves_ext`. -/
def write_supported_elliptic_curves_ext (env : Env) (ssl : ntbtls_t) : Bytes :=
  let elliptic_curve_list := write_supported_elliptic_curves_list env ssl.curve_list
  let elliptic_curve_len := elliptic_curve_list.length
  if elliptic_curve_len = 0 then []
  else
    be16_bytes TLS_EXT_SUPPORTED_ELLIPTIC_CURVES
      ++ be16_bytes (elliptic_curve_len + 2)
      ++ be16_bytes elliptic_curve_len ++ elliptic_curve_list

/-- Function `write_cli_supported_point_formats_ext` (lines 218-239). -/
def write_cli_supported_point_formats_ext (_ssl : ntbtls_t) : Bytes :=
  be16_bytes TLS_EXT_SUPPORTED_POINT_FORMATS
    ++ [0x00, 2, 1, POLARSSL_ECP_PF_UNCOMPRESSED]

/-- Function `write_cli_max_fragment_length_ext` (lines 242-265). -/
def write_cli_max_fragment_length_ext (ssl : ntbtls_t) : Bytes :=
  if ssl.mfl_code = SSL_MAX_FRAG_LEN_NONE then []
  else be16_bytes TLS_EXT_MAX_FRAGMENT_LENGTH ++ [0x00, 1, u8 ssl.mfl_code]

/-- Function `write_cli_truncated_hmac_ext` (lines 268-289). -/
def write_cli_truncated_hmac_ext (ssl : ntbtls_t) : Bytes :=
  if ssl.trunc_hmac = SSL_TRUNC_HMAC_DISABLED then []
  else be16_bytes TLS_EXT_TRUNCATED_HMAC ++ [0x00, 0x00]

/-- Function `write_cli_session_ticket_ext` (lines 292-326). -/
def write_cli_session_ticket_ext (ssl : ntbtls_t) : Bytes :=
  let tlen := ssl.session_negotiate.ticket_len
  if ssl.session_tickets = SSL_SESSION_TICKETS_DISABLED then []
  else
    let hdr := be16_bytes TLS_EXT_SESSION_TICKET ++ be16_bytes tlen
    match ssl.session_negotiate.ticket with
    | none => hdr
    | some ticket =>
      if ssl.session_negotiate.ticket_len = 0 then hdr
      else hdr ++ rdn ticket tlen

/-- The `for` loop of `write_cli_alpn_ext` (lines 357-362): per name one
length byte `strlen & 0xFF` and that many bytes of the name. -/
def write_cli_alpn_list : List Bytes → Bytes
  | [] => []
  | cur :: rest =>
    [u8 (cur.length &&& 0xFF)] ++ rdn cur (u8 (cur.length &&& 0xFF))
      ++ write_cli_alpn_list rest

/-- Function `write_cli_alpn_ext` (lines 329-373): the list is written
first, then `*olen = p - buf` and the two length fields. -/
def write_cli_alpn_ext (ssl : ntbtls_t) : Bytes :=
  match ssl.alpn_list with
  | none => []
  | some alpn_list =>
    let names := write_cli_alpn_list alpn_list
    let olen := 6 + names.length
    be16_bytes TLS_EXT_ALPN ++ be16_bytes (olen - 4) ++ be16_bytes (olen - 6)
      ++ names

/-! ## Record layer -/

/-- Modelled from the spec: `_ntbtls_read_record` (record module, not in the
sources).  A successful read leaves the content type, the message and the
handshake length in the context; a failed read (`WouldBlock`, reset, ...)
preserves the context (section 5). -/
def _ntbtls_read_record (env : Env) (ssl : ntbtls_t) : Ret × ntbtls_t :=
  if env.read_record ≠ Ret.ok then (env.read_record, ssl)
  else (Ret.ok, { ssl with in_msgtype := env.in_msgtype,
                           in_msg := env.in_msg,
                           in_hslen := env.in_hslen })

/-! ## ServerHello extension parsers -/

/-- Function `ssl_parse_renegotiation_info` (lines 579-619). -/
def ssl_parse_renegotiation_info (env : Env) (ssl : ntbtls_t)
    (buf : Bytes) (len : Nat) : Ret × ntbtls_t :=
  if ssl.renegotiation = SSL_INITIAL_HANDSHAKE then
    if len ≠ 1 ∨ rd buf 0 ≠ 0x0 then
      if env.send_fatal_handshake_failure ≠ Ret.ok then
        (env.send_fatal_handshake_failure, ssl)
      else (Ret.BAD_HS_SERVER_HELLO, ssl)
    else
      (Ret.ok, { ssl with secure_renegotiation := TLS_SECURE_RENEGOTIATION })
  else
    if len ≠ 1 + ssl.verify_data_len * 2 ∨
        rd buf 0 ≠ ssl.verify_data_len * 2 ∨
        memeq (buf.drop 1) ssl.own_verify_data ssl.verify_data_len = false ∨
        memeq (buf.drop (1 + ssl.verify_data_len)) ssl.peer_verify_data
          ssl.verify_data_len = false then
      if env.send_fatal_handshake_failure ≠ Ret.ok then
        (env.send_fatal_handshake_failure, ssl)
      else (Ret.BAD_HS_SERVER_HELLO, ssl)
    else (Ret.ok, ssl)

/-- Function `ssl_parse_max_fragment_length_ext` (lines 622-637). -/
def ssl_parse_max_fragment_length_ext (ssl : ntbtls_t)
    (buf : Bytes) (len : Nat) : Ret × ntbtls_t :=
  if ssl.mfl_code = SSL_MAX_FRAG_LEN_NONE ∨ len ≠ 1 ∨ rd buf 0 ≠ ssl.mfl_code then
    (Ret.BAD_HS_SERVER_HELLO, ssl)
  else (Ret.ok, ssl)

/-- Function `ssl_parse_truncated_hmac_ext` (lines 641-655). -/
def ssl_parse_truncated_hmac_ext (ssl : ntbtls_t)
    (_buf : Bytes) (len : Nat) : Ret × ntbtls_t :=
  if ssl.trunc_hmac = SSL_TRUNC_HMAC_DISABLED ∨ len ≠ 0 then
    (Ret.BAD_HS_SERVER_HELLO, ssl)
  else
    (Ret.ok, { ssl with session_negotiate :=
      { ssl.session_negotiate with trunc_hmac := SSL_TRUNC_HMAC_ENABLED } })

/-- Function `ssl_parse_session_ticket_ext` (lines 658-672). -/
def ssl_parse_session_ticket_ext (ssl : ntbtls_t)
    (_buf : Bytes) (len : Nat) : Ret × ntbtls_t :=
  if ssl.session_tickets = SSL_SESSION_TICKETS_DISABLED ∨ len ≠ 0 then
    (Ret.BAD_HS_SERVER_HELLO, ssl)
  else
    (Ret.ok, { ssl with handshake :=
      { ssl.handshake with new_session_ticket := 1 } })

/-- The `while (list_size > 0)` loop of
`ssl_parse_supported_point_formats_ext` (lines 690-705): `p` is the
pointer into the list. -/
def ssl_parse_supported_point_formats_loop (ssl : ntbtls_t) :
    Nat → Bytes → Ret × ntbtls_t
  | 0, _ => (Ret.BAD_HS_SERVER_HELLO, ssl)
  | list_size + 1, p =>
    if rd p 0 = POLARSSL_ECP_PF_UNCOMPRESSED ∨
        rd p 0 = POLARSSL_ECP_PF_COMPRESSED then
      (Ret.ok, { ssl with handshake :=
        { ssl.handshake with ecdh_point_format := rd p 0 } })
    else ssl_parse_supported_point_formats_loop ssl list_size (p.drop 1)

/-- Function `ssl_parse_supported_point_formats_ext` (lines 675-706). -/
def ssl_parse_supported_point_formats_ext (ssl : ntbtls_t)
    (buf : Bytes) (len : Nat) : Ret × ntbtls_t :=
  let list_size := rd buf 0
  if list_size + 1 ≠ len then (Ret.BAD_HS_SERVER_HELLO, ssl)
  else ssl_parse_supported_point_formats_loop ssl list_size (buf.drop 1)

/-- The `for` loop over `alpn_list` in `ssl_parse_alpn_ext`
(lines 742-751); `strlen (*p)` is the length of the configured name. -/
def ssl_parse_alpn_loop (ssl : ntbtls_t) (buf : Bytes) (name_len : Nat) :
    List Bytes → Ret × ntbtls_t
  | [] => (Ret.BAD_HS_SERVER_HELLO, ssl)
  | p :: rest =>
    if name_len = p.length ∧ memeq (buf.drop 3) p name_len = true then
      (Ret.ok, { ssl with alpn_chosen := some p })
    else ssl_parse_alpn_loop ssl buf name_len rest

/-- Function `ssl_parse_alpn_ext` (lines 709-752). -/
def ssl_parse_alpn_ext (ssl : ntbtls_t) (buf : Bytes) (len : Nat) :
    Ret × ntbtls_t :=
  match ssl.alpn_list with
  | none => (Ret.BAD_HS_SERVER_HELLO, ssl)
  | some alpn_list =>
    if len < 4 then (Ret.BAD_HS_SERVER_HELLO, ssl) else
    let list_len := shl8_or (rd buf 0) (rd buf 1)
    if list_len ≠ len - 2 then (Ret.BAD_HS_SERVER_HELLO, ssl) else
    let name_len := rd buf 2
    if name_len ≠ list_len - 1 then (Ret.BAD_HS_SERVER_HELLO, ssl) else
    ssl_parse_alpn_loop ssl buf name_len alpn_list

/-! ## ServerHello -/

/-- The `switch (ext_id)` of `parse_server_hello` (lines 948-1017): the
return code of the extension parser, the context and
`renegotiation_info_seen` afterwards.  `buf` is `ext + 4`. -/
def parse_server_hello_ext_switch (env : Env) (ssl : ntbtls_t)
    (ext_id : Nat) (buf : Bytes) (ext_size : Nat)
    (renegotiation_info_seen : Nat) : Ret × ntbtls_t × Nat :=
  if ext_id = TLS_EXT_RENEGOTIATION_INFO then
    let r := ssl_parse_renegotiation_info env ssl buf ext_size
    (r.1, r.2, 1)
  else if ext_id = TLS_EXT_MAX_FRAGMENT_LENGTH then
    let r := ssl_parse_max_fragment_length_ext ssl buf ext_size
    (r.1, r.2, renegotiation_info_seen)
  else if ext_id = TLS_EXT_TRUNCATED_HMAC then
    let r := ssl_parse_truncated_hmac_ext ssl buf ext_size
    (r.1, r.2, renegotiation_info_seen)
  else if ext_id = TLS_EXT_SESSION_TICKET then
    let r := ssl_parse_session_ticket_ext ssl buf ext_size
    (r.1, r.2, renegotiation_info_seen)
  else if ext_id = TLS_EXT_SUPPORTED_POINT_FORMATS then
    let r := ssl_parse_supported_point_formats_ext ssl buf ext_size
    (r.1, r.2, renegotiation_info_seen)
  else if ext_id = TLS_EXT_ALPN then
    let r := ssl_parse_alpn_ext ssl buf ext_size
    (r.1, r.2, renegotiation_info_seen)
  else (Ret.ok, ssl, renegotiation_info_seen)

/-- The `while (ext_len)` loop of `parse_server_hello` (lines 937-1027):
`ext` is the pointer into the message, `ext_len` the bytes of the block
still to parse.  Returns the code with which the loop leaves the function
(`ok` when the loop ends), the context and `renegotiation_info_seen`. -/
def parse_server_hello_ext_loop (env : Env) (ssl : ntbtls_t) (ext : Bytes)
    (ext_len : Nat) (renegotiation_info_seen : Nat) : Ret × ntbtls_t × Nat :=
  if h0 : ext_len = 0 then (Ret.ok, ssl, renegotiation_info_seen) else
  let ext_id := shl8_or (rd ext 0) (rd ext 1)
  let ext_size := shl8_or (rd ext 2) (rd ext 3)
  if h1 : ext_size + 4 > ext_len then
    (Ret.BAD_HS_SERVER_HELLO, ssl, renegotiation_info_seen)
  else
    let r := parse_server_hello_ext_switch env ssl ext_id (ext.drop 4)
      ext_size renegotiation_info_seen
    if r.1 ≠ Ret.ok then r else
    if 0 < ext_len - (4 + ext_size) ∧ ext_len - (4 + ext_size) < 4 then
      (Ret.BAD_HS_SERVER_HELLO, r.2.1, r.2.2)
    else
      parse_server_hello_ext_loop env r.2.1 (ext.drop (4 + ext_size))
        (ext_len - (4 + ext_size)) r.2.2
termination_by ext_len
decreasing_by omega

/-- The `while (1)` search of `parse_server_hello` (lines 908-922) through
the zero-terminated array `ciphersuite_list[minor_ver]`: `true` when the
loop leaves by `break`, `false` when it meets the terminator. -/
def parse_server_hello_find_ciphersuite : List Nat → Nat → Bool
  | [], _ => false
  | c :: rest, ciphersuite =>
    if c = 0 then false
    else if c = ciphersuite then true
    else parse_server_hello_find_ciphersuite rest ciphersuite

/-- The renegotiation security checks of `parse_server_hello`
(lines 1032-1058): the value of `handshake_failure`. -/
def parse_server_hello_handshake_failure (ssl : ntbtls_t)
    (renegotiation_info_seen : Nat) : Nat :=
  if ssl.secure_renegotiation = TLS_LEGACY_RENEGOTIATION ∧
      ssl.allow_legacy_renegotiation = TLS_LEGACY_BREAK_HANDSHAKE then 1
  else if ssl.renegotiation = TLS_RENEGOTIATION ∧
      ssl.secure_renegotiation = TLS_SECURE_RENEGOTIATION ∧
      renegotiation_info_seen = 0 then 1
  else if ssl.renegotiation = TLS_RENEGOTIATION ∧
      ssl.secure_renegotiation = TLS_LEGACY_RENEGOTIATION ∧
      ssl.allow_legacy_renegotiation = TLS_LEGACY_NO_RENEGOTIATION then 1
  else if ssl.renegotiation = TLS_RENEGOTIATION ∧
      ssl.secure_renegotiation = TLS_LEGACY_RENEGOTIATION ∧
      renegotiation_info_seen = 1 then 1
  else 0

/-- The local `n` of `parse_server_hello`: the session id length
`buf[38]`. -/
def server_hello_n (buf : Bytes) : Nat := rd buf 38

/-- The local `ext_len` of `parse_server_hello` (lines 843-852): the
16-bit field at `42 + n` when the message is longer than `42 + n`, else
the initial `0`. -/
def server_hello_ext_len (buf : Bytes) (in_hslen : Nat) : Nat :=
  if in_hslen > 42 + server_hello_n buf then
    shl8_or (rd buf (42 + server_hello_n buf)) (rd buf (43 + server_hello_n buf))
  else 0

/-- The local `i` of `parse_server_hello` (line 854): the ciphersuite id. -/
def server_hello_i (buf : Bytes) : Nat :=
  shl8_or (rd buf (39 + server_hello_n buf)) (rd buf (40 + server_hello_n buf))

/-- The local `comp` of `parse_server_hello` (line 855). -/
def server_hello_comp (buf : Bytes) : Nat := rd buf (41 + server_hello_n buf)

/-- Lines 783-816 of `parse_server_hello`: content type, handshake type
and version checks.  The alert sent before `GPG_ERR_UNSUPPORTED_PROTOCOL`
has its return code ignored by the source. -/
def parse_server_hello_version (ssl : ntbtls_t) : Ret × ntbtls_t :=
  let buf := ssl.in_msg
  if ssl.in_msgtype ≠ TLS_MSG_HANDSHAKE then (Ret.UNEXPECTED_MSG, ssl) else
  if ssl.in_hslen < 42 ∨ rd buf 0 ≠ TLS_HS_SERVER_HELLO ∨
      rd buf 4 ≠ SSL_MAJOR_VERSION_3 then
    (Ret.BAD_HS_SERVER_HELLO, ssl) else
  if rd buf 5 > ssl.max_minor_ver then (Ret.BAD_HS_SERVER_HELLO, ssl) else
  let ssl := { ssl with minor_ver := rd buf 5 }
  if ssl.minor_ver < ssl.min_minor_ver then (Ret.UNSUPPORTED_PROTOCOL, ssl) else
  (Ret.ok, ssl)

/-- Lines 818-868 of `parse_server_hello`: server random, session id
length, extension block length, ciphersuite lookup.
`ssl_optimize_checksum` and the unused `t` touch no modelled field. -/
def parse_server_hello_fields (env : Env) (ssl : ntbtls_t) : Ret × ntbtls_t :=
  let buf := ssl.in_msg
  let ssl := { ssl with handshake :=
    { ssl.handshake with
      randbytes := memcpy ssl.handshake.randbytes 32 (buf.drop 6) 32 } }
  let n := server_hello_n buf
  if n > 32 then (Ret.BAD_HS_SERVER_HELLO, ssl) else
  let ext_len := server_hello_ext_len buf ssl.in_hslen
  if ssl.in_hslen > 42 + n ∧
      ((ext_len > 0 ∧ ext_len < 4) ∨ ssl.in_hslen ≠ 44 + n + ext_len) then
    (Ret.BAD_HS_SERVER_HELLO, ssl) else
  let i := server_hello_i buf
  let ssl := { ssl with ciphersuite_info := env.ssl_ciphersuite_from_id i }
  if ssl.ciphersuite_info = none then (Ret.INV_ARG, ssl) else
  (Ret.ok, ssl)

/-- Lines 873-900 of `parse_server_hello`: the resumption decision. -/
def parse_server_hello_resume (env : Env) (ssl : ntbtls_t) : Ret × ntbtls_t :=
  let buf := ssl.in_msg
  let n := server_hello_n buf
  let i := server_hello_i buf
  let comp := server_hello_comp buf
  if ssl.renegotiation ≠ SSL_INITIAL_HANDSHAKE ∨
      ssl.handshake.resume = 0 ∨ n = 0 ∨
      ssl.session_negotiate.ciphersuite ≠ i ∨
      ssl.session_negotiate.compression ≠ comp ∨
      ssl.session_negotiate.length ≠ n ∨
      memeq ssl.session_negotiate.id (buf.drop 39) n = false then
    (Ret.ok, { ssl with
      state := ssl.state + 1,
      handshake := { ssl.handshake with resume := 0 },
      session_negotiate := { ssl.session_negotiate with
        start := env.time,
        ciphersuite := i,
        compression := comp,
        length := n,
        id := memcpy ssl.session_negotiate.id 0 (buf.drop 39) n } })
  else
    let ssl := { ssl with state := TLS_SERVER_CHANGE_CIPHER_SPEC }
    if env.derive_keys ≠ Ret.ok then (env.derive_keys, ssl) else (Ret.ok, ssl)

/-- Lines 908-1070 of `parse_server_hello`: ciphersuite search,
compression check, extension loop, renegotiation checks. -/
def parse_server_hello_tail (env : Env) (ssl : ntbtls_t) : Ret × ntbtls_t :=
  let buf := ssl.in_msg
  let n := server_hello_n buf
  let comp := server_hello_comp buf
  let ext_len := server_hello_ext_len buf ssl.in_hslen
  if parse_server_hello_find_ciphersuite (ssl.ciphersuite_list ssl.minor_ver)
      ssl.session_negotiate.ciphersuite = false then
    (Ret.BAD_HS_SERVER_HELLO, ssl)
  else if comp ≠ TLS_COMPRESS_NULL ∧ comp ≠ TLS_COMPRESS_DEFLATE then
    (Ret.BAD_HS_SERVER_HELLO, ssl)
  else
    let ssl := { ssl with session_negotiate :=
      { ssl.session_negotiate with compression := comp } }
    let r := parse_server_hello_ext_loop env ssl (buf.drop (44 + n)) ext_len 0
    if r.1 ≠ Ret.ok then (r.1, r.2.1) else
    let ssl := r.2.1
    if parse_server_hello_handshake_failure ssl r.2.2 = 1 then
      if env.send_fatal_handshake_failure ≠ Ret.ok then
        (env.send_fatal_handshake_failure, ssl)
      else (Ret.BAD_HS_SERVER_HELLO, ssl)
    else (Ret.ok, ssl)

/-- Function `parse_server_hello` (lines 755-1071), as the sequence of its
parts; every part that returns a non-zero code ends the function. -/
def parse_server_hello (env : Env) (ssl : ntbtls_t) : Ret × ntbtls_t :=
  let r := _ntbtls_read_record env ssl
  if r.1 ≠ Ret.ok then r else
  let r := parse_server_hello_version r.2
  if r.1 ≠ Ret.ok then r else
  let r := parse_server_hello_fields env r.2
  if r.1 ≠ Ret.ok then r else
  let r := parse_server_hello_resume env r.2
  if r.1 ≠ Ret.ok then r else
  parse_server_hello_tail env r.2

/-! ## ClientHello -/

/-- The `for` loop of `write_client_hello` over the zero-terminated array
`ciphersuites` (lines 492-509): the ids it writes, in order. -/
def write_client_hello_ciphersuites (env : Env) (tls : ntbtls_t) :
    List Nat → List Nat
  | [] => []
  | c :: rest =>
    if c = 0 then []
    else
      match env.ssl_ciphersuite_from_id c with
      | none => write_client_hello_ciphersuites env tls rest
      | some ciphersuite_info =>
        if ciphersuite_info.min_minor_ver > tls.max_minor_ver ∨
            ciphersuite_info.max_minor_ver < tls.min_minor_ver then
          write_client_hello_ciphersuites env tls rest
        else c :: write_client_hello_ciphersuites env tls rest

/-- The bytes `(unsigned char) (c >> 8)` and `(unsigned char) c` of every
id of a list. -/
def ciphersuite_bytes : List Nat → Bytes
  | [] => []
  | c :: rest => [u8 (c >>> 8), u8 c] ++ ciphersuite_bytes rest

/-- The extension block of `write_client_hello` (lines 524-550): the nine
writers in the order of the calls, each storing at `p + 2 + ext_len`. -/
def write_client_hello_extensions (env : Env) (ssl : ntbtls_t) : Bytes :=
  write_hostname_ext ssl
    ++ write_cli_renegotiation_ext ssl
    ++ write_signature_algorithms_ext ssl
    ++ write_supported_elliptic_curves_ext env ssl
    ++ write_cli_supported_point_formats_ext ssl
    ++ write_cli_max_fragment_length_ext ssl
    ++ write_cli_truncated_hmac_ext ssl
    ++ write_cli_session_ticket_ext ssl
    ++ write_cli_alpn_ext ssl

/-- Lines 390-400 of `write_client_hello`: the version fields. -/
def write_client_hello_versions (tls : ntbtls_t) : ntbtls_t :=
  let tls :=
    if tls.renegotiation = SSL_INITIAL_HANDSHAKE then
      { tls with major_ver := tls.min_major_ver, minor_ver := tls.min_minor_ver }
    else tls
  if tls.max_major_ver = 0 ∧ tls.max_minor_ver = 0 then
    { tls with max_major_ver := TLS_MAX_MAJOR_VERSION,
               max_minor_ver := TLS_MAX_MINOR_VERSION }
  else tls

/-- Lines 409-427 of `write_client_hello`: the bytes written from `buf + 4`
to `buf + 37`: version, time, nonce. -/
def write_client_hello_head (env : Env) (tls : ntbtls_t) : Bytes :=
  let t := env.time
  [u8 tls.max_major_ver, u8 tls.max_minor_ver,
   u8 (t >>> 24), u8 (t >>> 16), u8 (t >>> 8), u8 t] ++ rdn env.nonce 28

/-- Lines 443-449 of `write_client_hello`: the session id length `n` before
the ticket test. -/
def write_client_hello_sid_len (tls : ntbtls_t) : Nat :=
  let n := tls.session_negotiate.length
  if tls.renegotiation ≠ SSL_INITIAL_HANDSHAKE ∨ n < 16 ∨ n > 32 ∨
      tls.handshake.resume = 0 then 0 else n

/-- The test of lines 455-457 of `write_client_hello`: a ticket is
presented on an initial handshake. -/
def write_client_hello_with_ticket (tls : ntbtls_t) : Bool :=
  tls.renegotiation = SSL_INITIAL_HANDSHAKE ∧
    tls.session_negotiate.ticket ≠ none ∧
    tls.session_negotiate.ticket_len ≠ 0

/-- Lines 467-559 of `write_client_hello`: the bytes written after the
random, for a session id of length `n`: session id, ciphersuite list,
compression methods, extension block. -/
def write_client_hello_rest (env : Env) (tls : ntbtls_t) (n : Nat) : Bytes :=
  let sid : Bytes := [u8 n] ++ rdn tls.session_negotiate.id n
  let ciphersuites := tls.ciphersuite_list tls.minor_ver
  let scsv : List Nat :=
    if tls.renegotiation = SSL_INITIAL_HANDSHAKE then
      [SSL_EMPTY_RENEGOTIATION_INFO] else []
  let suites := scsv ++ write_client_hello_ciphersuites env tls ciphersuites
  let n := suites.length
  let suite_block : Bytes :=
    [u8 (n >>> 7), u8 (n <<< 1)] ++ ciphersuite_bytes suites
  let comp : Bytes := [2, TLS_COMPRESS_DEFLATE, TLS_COMPRESS_NULL]
  let exts := write_client_hello_extensions env tls
  let ext_len := exts.length
  let ext_block : Bytes :=
    if ext_len > 0 then be16_bytes ext_len ++ exts else []
  sid ++ suite_block ++ comp ++ ext_block

/-- Function `write_client_hello` (lines 376-577).  The local `ret` is
assigned only by the call of `f_rng`; the error path after
`_ntbtls_write_record` returns `ret`, which is indeterminate when `f_rng`
was not called.  The source writes both `TLS_INITIAL_HANDSHAKE` and
`SSL_INITIAL_HANDSHAKE`; they are taken to be one enumerator. -/
def write_client_hello (env : Env) (tls : ntbtls_t) : Ret × ntbtls_t :=
  let tls := write_client_hello_versions tls
  let head := write_client_hello_head env tls
  let tls := { tls with
    out_msg := store tls.out_msg 4 head,
    handshake := { tls.handshake with
      randbytes := memcpy tls.handshake.randbytes 0 (head.drop 2) 32 } }
  let n := write_client_hello_sid_len tls
  let with_ticket := write_client_hello_with_ticket tls
  if with_ticket = true ∧ env.f_rng ≠ Ret.ok then (env.f_rng, tls) else
  let ret := if with_ticket = true then env.f_rng else env.indeterminate
  let tls :=
    if with_ticket = true then
      { tls with session_negotiate := { tls.session_negotiate with
          id := store tls.session_negotiate.id 0 (rdn (env.rng_bytes 32) 32),
          length := 32 } }
    else tls
  let n := if with_ticket = true then 32 else n
  let body := head ++ write_client_hello_rest env tls n
  let tls := { tls with
    out_msg := store (store tls.out_msg 4 body) 0 [TLS_HS_CLIENT_HELLO],
    out_msglen := 4 + body.length,
    out_msgtype := TLS_MSG_HANDSHAKE,
    state := tls.state + 1 }
  if env.write_record ≠ Ret.ok then (ret, tls) else (Ret.ok, tls)

/-! ## ServerKeyExchange -/

/-- Modelled from the spec: capacity of a record payload
(`SSL_MAX_CONTENT_LEN`, the TLS limit of 2^14 bytes). -/
@[simp] def SSL_MAX_CONTENT_LEN : Nat := 16384

/-- Function `ssl_parse_server_dh_params` (lines 1074-1106); `p` and `e`
are the offsets of `*p` and `end` in `in_msg`.  Returns the code, the
context and the new `*p`. -/
def ssl_parse_server_dh_params (env : Env) (ssl : ntbtls_t) (p e : Nat) :
    Ret × ntbtls_t × Nat :=
  let r := env.dhm_read_params (ssl.in_msg.drop p) (e - p)
  if r.1 ≠ Ret.ok then (r.1, ssl, p) else
  let ssl := { ssl with handshake := { ssl.handshake with dhm_len := r.2.2 } }
  let p := p + r.2.1
  if ssl.handshake.dhm_len < 64 ∨ ssl.handshake.dhm_len > 512 then
    (Ret.BAD_HS_SERVER_KEX, ssl, p)
  else (Ret.ok, ssl, p)

/-- Function `ssl_check_server_ecdh_params` (lines 1109-1129); the value
`-1` is `Ret.other 0`. -/
def ssl_check_server_ecdh_params (env : Env) (ssl : ntbtls_t) : Ret :=
  match env.ecp_curve_info_from_grp_id ssl.handshake.ecdh_grp_id with
  | none => Ret.INTERNAL
  | some _ =>
    if env.ssl_curve_is_acceptable ssl.handshake.ecdh_grp_id = false then
      Ret.other 0
    else Ret.ok

/-- Function `ssl_parse_server_ecdh_params` (lines 1132-1160). -/
def ssl_parse_server_ecdh_params (env : Env) (ssl : ntbtls_t) (p e : Nat) :
    Ret × ntbtls_t × Nat :=
  let r := env.ecdh_read_params (ssl.in_msg.drop p) (e - p)
  if r.1 ≠ Ret.ok then (r.1, ssl, p) else
  let ssl := { ssl with handshake := { ssl.handshake with ecdh_grp_id := r.2.2 } }
  let p := p + r.2.1
  if ssl_check_server_ecdh_params env ssl ≠ Ret.ok then
    (Ret.BAD_HS_SERVER_KEX, ssl, p)
  else (Ret.ok, ssl, p)

/-- Function `ssl_parse_server_psk_hint` (lines 1163-1192): the code and
the new `*p`. -/
def ssl_parse_server_psk_hint (ssl : ntbtls_t) (p e : Nat) : Ret × Nat :=
  let len := shl8_or (rd ssl.in_msg p) (rd ssl.in_msg (p + 1))
  let p := p + 2
  if p + len > e then (Ret.BAD_HS_SERVER_KEX, p)
  else (Ret.ok, p + len)

/-- Function `ssl_parse_signature_algorithm` (lines 1255-1299): the code,
the new `*p`, `*md_alg` and `*pk_alg`. -/
def ssl_parse_signature_algorithm (env : Env) (ssl : ntbtls_t) (p e : Nat) :
    Ret × Nat × md_type_t × pk_type_t :=
  if ssl.minor_ver ≠ SSL_MINOR_VERSION_3 then
    (Ret.ok, p, md_type_t.NONE, pk_type_t.NONE) else
  if p + 2 > e then
    (Ret.BAD_HS_SERVER_KEX, p, md_type_t.NONE, pk_type_t.NONE) else
  let md_alg := env.md_alg_from_hash (rd ssl.in_msg p)
  if md_alg = md_type_t.NONE then
    (Ret.BAD_HS_SERVER_KEX, p, md_alg, pk_type_t.NONE) else
  let pk_alg := env.pk_alg_from_sig (rd ssl.in_msg (p + 1))
  if pk_alg = pk_type_t.NONE then
    (Ret.BAD_HS_SERVER_KEX, p, md_alg, pk_alg) else
  (Ret.ok, p + 2, md_alg, pk_alg)

/-- Function `ssl_get_ecdh_params_from_cert` (lines 1302-1330). -/
def ssl_get_ecdh_params_from_cert (env : Env) (ssl : ntbtls_t) :
    Ret × ntbtls_t :=
  if env.pk_can_do ssl.session_negotiate.peer_cert pk_type_t.ECKEY = false then
    (Ret.WRONG_PUBKEY_ALGO, ssl) else
  let r := env.ecdh_get_params ssl.session_negotiate.peer_cert
  if r.1 ≠ Ret.ok then (r.1, ssl) else
  let ssl := { ssl with handshake := { ssl.handshake with ecdh_grp_id := r.2 } }
  if ssl_check_server_ecdh_params env ssl ≠ Ret.ok then (Ret.BAD_HS_CERT, ssl)
  else (Ret.ok, ssl)

/-- The signature part of `parse_server_key_exchange` (lines 1449-1548)
for the suites `DHE_RSA`, `ECDHE_RSA` and `ECDHE_ECDSA`; `p` is the offset
reached after the parameters, `e` the offset of `end`. -/
def parse_server_key_exchange_signature (env : Env) (ssl : ntbtls_t)
    (ciphersuite_info : ssl_ciphersuite_t) (p e : Nat) : Ret :=
  let params_len := p - 4
  if ssl.minor_ver = SSL_MINOR_VERSION_3 then
    let r := ssl_parse_signature_algorithm env ssl p e
    if r.1 ≠ Ret.ok then Ret.BAD_HS_SERVER_KEX else
    let p := r.2.1
    let md_alg := r.2.2.1
    let pk_alg := r.2.2.2
    if pk_alg ≠ env.ssl_get_ciphersuite_sig_pk_alg ciphersuite_info then
      Ret.BAD_HS_SERVER_KEX else
    let sig_len := shl8_or (rd ssl.in_msg p) (rd ssl.in_msg (p + 1))
    let p := p + 2
    if e ≠ p + sig_len then Ret.BAD_HS_SERVER_KEX else
    if md_alg ≠ md_type_t.NONE then
      if env.md_init_ctx md_alg ≠ Ret.ok then env.md_init_ctx md_alg else
      let hash := env.md md_alg
        (rdn ssl.handshake.randbytes 64 ++ rdn (ssl.in_msg.drop 4) params_len)
      let hashlen := 0
      if env.pk_can_do ssl.session_negotiate.peer_cert pk_alg = false then
        Ret.WRONG_PUBKEY_ALGO else
      let ret := env.pk_verify ssl.session_negotiate.peer_cert md_alg hash
        hashlen (rdn (ssl.in_msg.drop p) sig_len)
      if ret ≠ Ret.ok then ret else Ret.ok
    else Ret.INTERNAL
  else Ret.INTERNAL

/-- Lines 1407-1446 of `parse_server_key_exchange`: the PSK identity hint
and the key exchange parameters; `p` and `e` are the offsets of `p` and
`end`.  Returns the code with which the function leaves (`ok` to go on),
the context and the new `p`. -/
def parse_server_key_exchange_params (env : Env) (ssl : ntbtls_t)
    (kx : key_exchange_type_t) (p e : Nat) : Ret × ntbtls_t × Nat :=
  let hint : Ret × Nat :=
    if kx = key_exchange_type_t.PSK ∨ kx = key_exchange_type_t.RSA_PSK ∨
        kx = key_exchange_type_t.DHE_PSK ∨ kx = key_exchange_type_t.ECDHE_PSK then
      ssl_parse_server_psk_hint ssl p e
    else (Ret.ok, p)
  if hint.1 ≠ Ret.ok then (Ret.BAD_HS_SERVER_KEX, ssl, p) else
  let p := hint.2
  if kx = key_exchange_type_t.PSK ∨ kx = key_exchange_type_t.RSA_PSK then
    (Ret.ok, ssl, p)
  else if kx = key_exchange_type_t.DHE_RSA ∨ kx = key_exchange_type_t.DHE_PSK then
    let r := ssl_parse_server_dh_params env ssl p e
    if r.1 ≠ Ret.ok then (Ret.BAD_HS_SERVER_KEX, r.2) else r
  else if kx = key_exchange_type_t.ECDHE_RSA ∨
      kx = key_exchange_type_t.ECDHE_PSK ∨
      kx = key_exchange_type_t.ECDHE_ECDSA then
    let r := ssl_parse_server_ecdh_params env ssl p e
    if r.1 ≠ Ret.ok then (Ret.BAD_HS_SERVER_KEX, r.2) else r
  else (Ret.INTERNAL, ssl, p)

/-- Lines 1380-1555 of `parse_server_key_exchange`: the handling of the
record that was read. -/
def parse_server_key_exchange_message (env : Env) (ssl : ntbtls_t)
    (ciphersuite_info : ssl_ciphersuite_t) : Ret × ntbtls_t :=
  let kx := ciphersuite_info.key_exchange
  if ssl.in_msgtype ≠ TLS_MSG_HANDSHAKE then (Ret.UNEXPECTED_MSG, ssl) else
  if rd ssl.in_msg 0 ≠ TLS_HS_SERVER_KEY_EXCHANGE then
    if kx = key_exchange_type_t.PSK ∨ kx = key_exchange_type_t.RSA_PSK then
      (Ret.ok, { ssl with record_read := 1, state := ssl.state + 1 })
    else (Ret.UNEXPECTED_MSG, ssl)
  else
  let e := ssl.in_hslen
  let params := parse_server_key_exchange_params env ssl kx 4 e
  if params.1 ≠ Ret.ok then (params.1, params.2.1) else
  let ssl := params.2.1
  let p := params.2.2
  let sig : Ret :=
    if kx = key_exchange_type_t.DHE_RSA ∨ kx = key_exchange_type_t.ECDHE_RSA ∨
        kx = key_exchange_type_t.ECDHE_ECDSA then
      parse_server_key_exchange_signature env ssl ciphersuite_info p e
    else Ret.ok
  if sig ≠ Ret.ok then (sig, ssl) else
  (Ret.ok, { ssl with state := ssl.state + 1 })

/-- Function `parse_server_key_exchange` (lines 1333-1556).  A `NULL`
`ciphersuite_info` is dereferenced by the source; here it ends in
`GPG_ERR_INTERNAL`. -/
def parse_server_key_exchange (env : Env) (ssl : ntbtls_t) : Ret × ntbtls_t :=
  match ssl.ciphersuite_info with
  | none => (Ret.INTERNAL, ssl)
  | some ciphersuite_info =>
  let kx := ciphersuite_info.key_exchange
  if kx = key_exchange_type_t.RSA then
    (Ret.ok, { ssl with state := ssl.state + 1 }) else
  if kx = key_exchange_type_t.ECDH_RSA ∨ kx = key_exchange_type_t.ECDH_ECDSA then
    let r := ssl_get_ecdh_params_from_cert env ssl
    if r.1 ≠ Ret.ok then r else
    (Ret.ok, { r.2 with state := r.2.state + 1 }) else
  let r := _ntbtls_read_record env ssl
  if r.1 ≠ Ret.ok then r else
  parse_server_key_exchange_message env r.2 ciphersuite_info

/-! ## CertificateRequest and ServerHelloDone -/

/-- The call `pk_can_do (ssl_own_key (ssl), type)`; a missing own key can
do nothing. -/
def own_key_can_do (env : Env) (ssl : ntbtls_t) (type : pk_type_t) : Bool :=
  match ssl.own_key with
  | none => false
  | some key => env.pk_can_do key type

/-- The `while (cert_type_len > 0)` loop of `parse_certificate_request`
(lines 1640-1661); `p` points into the list of certificate types. -/
def parse_certificate_request_cert_types (env : Env) (ssl : ntbtls_t) :
    Nat → Bytes → ntbtls_t
  | 0, _ => ssl
  | cert_type_len + 1, p =>
    if rd p 0 = SSL_CERT_TYPE_RSA_SIGN ∧
        own_key_can_do env ssl pk_type_t.RSA = true then
      { ssl with handshake :=
        { ssl.handshake with cert_type := SSL_CERT_TYPE_RSA_SIGN } }
    else if rd p 0 = SSL_CERT_TYPE_ECDSA_SIGN ∧
        own_key_can_do env ssl pk_type_t.ECDSA = true then
      { ssl with handshake :=
        { ssl.handshake with cert_type := SSL_CERT_TYPE_ECDSA_SIGN } }
    else parse_certificate_request_cert_types env ssl cert_type_len (p.drop 1)

/-- Lines 1592-1607 of `parse_certificate_request`: the record is read
unless the previous handler left it (`record_read`). -/
def parse_certificate_request_read (env : Env) (ssl : ntbtls_t) :
    Ret × ntbtls_t :=
  if ssl.record_read = 0 then
    let r := _ntbtls_read_record env ssl
    if r.1 ≠ Ret.ok then r else
    if r.2.in_msgtype ≠ TLS_MSG_HANDSHAKE then (Ret.UNEXPECTED_MSG, r.2) else
    (Ret.ok, { r.2 with record_read := 1 })
  else (Ret.ok, ssl)

/-- Lines 1609-1694 of `parse_certificate_request`: the handling of the
message at hand. -/
def parse_certificate_request_message (env : Env) (ssl : ntbtls_t) :
    Ret × ntbtls_t :=
  let ssl := { ssl with client_auth := 0, state := ssl.state + 1 }
  let ssl :=
    if rd ssl.in_msg 0 = TLS_HS_CERTIFICATE_REQUEST then
      { ssl with client_auth := ssl.client_auth + 1 }
    else ssl
  if ssl.client_auth = 0 then (Ret.ok, ssl) else
  let ssl := { ssl with record_read := 0 }
  let buf := ssl.in_msg
  let cert_type_len := rd buf 4
  let n := cert_type_len
  if ssl.in_hslen < 6 + n then (Ret.BAD_HS_CERT_REQ, ssl) else
  let ssl := parse_certificate_request_cert_types env ssl cert_type_len (buf.drop 5)
  let tls12 : Bool := ssl.minor_ver = SSL_MINOR_VERSION_3
  let sig_alg_len := shl8_or (rd buf (5 + n)) (rd buf (6 + n))
  let m := if tls12 = true then 2 else 0
  let n := if tls12 = true then n + sig_alg_len else n
  if tls12 = true ∧ ssl.in_hslen < 6 + n then (Ret.BAD_HS_CERT_REQ, ssl) else
  let dn_len := shl8_or (rd buf (5 + m + n)) (rd buf (6 + m + n))
  let n := n + dn_len
  if ssl.in_hslen ≠ 7 + m + n then (Ret.BAD_HS_CERT_REQ, ssl) else
  (Ret.ok, ssl)

/-- Function `parse_certificate_request` (lines 1558-1695).  A `NULL`
`ciphersuite_info` is dereferenced by the source; here it ends in
`GPG_ERR_INTERNAL`. -/
def parse_certificate_request (env : Env) (ssl : ntbtls_t) : Ret × ntbtls_t :=
  match ssl.ciphersuite_info with
  | none => (Ret.INTERNAL, ssl)
  | some ciphersuite_info =>
  let kx := ciphersuite_info.key_exchange
  if kx = key_exchange_type_t.PSK ∨ kx = key_exchange_type_t.RSA_PSK ∨
      kx = key_exchange_type_t.DHE_PSK ∨ kx = key_exchange_type_t.ECDHE_PSK then
    (Ret.ok, { ssl with state := ssl.state + 1 }) else
  let r := parse_certificate_request_read env ssl
  if r.1 ≠ Ret.ok then r else
  parse_certificate_request_message env r.2

/-- Lines 1705-1718 of `parse_server_hello_done`: the record is read
unless the previous handler left it (`record_read`). -/
def parse_server_hello_done_read (env : Env) (ssl : ntbtls_t) :
    Ret × ntbtls_t :=
  if ssl.record_read = 0 then
    let r := _ntbtls_read_record env ssl
    if r.1 ≠ Ret.ok then r else
    if r.2.in_msgtype ≠ TLS_MSG_HANDSHAKE then (Ret.UNEXPECTED_MSG, r.2) else
    (Ret.ok, r.2)
  else (Ret.ok, ssl)

/-- Function `parse_server_hello_done` (lines 1698-1732). -/
def parse_server_hello_done (env : Env) (ssl : ntbtls_t) : Ret × ntbtls_t :=
  let r := parse_server_hello_done_read env ssl
  if r.1 ≠ Ret.ok then r else
  let ssl : ntbtls_t := { r.2 with record_read := 0 }
  if ssl.in_hslen ≠ 4 ∨ rd ssl.in_msg 0 ≠ TLS_HS_SERVER_HELLO_DONE then
    (Ret.BAD_HS_SERVER_HELLO_DONE, ssl) else
  (Ret.ok, { ssl with state := ssl.state + 1 })

/-! ## ClientKeyExchange -/

/-- Function `ssl_write_encrypted_pms` (lines 1198-1252): the code, the
context and `*olen`. -/
def ssl_write_encrypted_pms (env : Env) (ssl : ntbtls_t)
    (offset pms_offset : Nat) : Ret × ntbtls_t × Nat :=
  let len_bytes := if ssl.minor_ver = SSL_MINOR_VERSION_0 then 0 else 2
  let ssl := { ssl with handshake := { ssl.handshake with
    premaster := store ssl.handshake.premaster pms_offset
      [u8 ssl.max_major_ver, u8 ssl.max_minor_ver] } }
  if env.f_rng ≠ Ret.ok then (env.f_rng, ssl, 0) else
  let ssl := { ssl with handshake := { ssl.handshake with
    premaster := store ssl.handshake.premaster (pms_offset + 2)
      (rdn (env.rng_bytes 46) 46),
    pmslen := 48 } }
  if env.pk_can_do ssl.session_negotiate.peer_cert pk_type_t.RSA = false then
    (Ret.WRONG_PUBKEY_ALGO, ssl, 0) else
  let r := env.pk_encrypt ssl.session_negotiate.peer_cert
    (rdn (ssl.handshake.premaster.drop pms_offset) ssl.handshake.pmslen)
    (SSL_MAX_CONTENT_LEN - offset - len_bytes)
  if r.1 ≠ Ret.ok then (r.1, ssl, 0) else
  let olen := r.2.length
  let ssl := { ssl with out_msg := store ssl.out_msg (offset + len_bytes) r.2 }
  if len_bytes = 2 then
    let out := store ssl.out_msg offset [u8 (olen >>> 8), u8 olen]
    (Ret.ok, { ssl with out_msg := out }, olen + 2)
  else (Ret.ok, ssl, olen)

/-- Lines 1746-1778 of `write_client_key_exchange` (suite `DHE_RSA`): the
code, the context, and the locals `i` and `n`. -/
def write_client_key_exchange_dhm (env : Env) (ssl : ntbtls_t) :
    Ret × ntbtls_t × Nat × Nat :=
  let n := ssl.handshake.dhm_len
  let ssl := { ssl with out_msg := store ssl.out_msg 4 [u8 (n >>> 8), u8 n] }
  let i := 6
  let r := env.dhm_make_public n
  if r.1 ≠ Ret.ok then (r.1, ssl, i, n) else
  let ssl := { ssl with
    out_msg := store ssl.out_msg i (rdn r.2 n),
    handshake := { ssl.handshake with pmslen := POLARSSL_PREMASTER_SIZE } }
  let k := env.dhm_calc_secret
  if k.1 ≠ Ret.ok then (k.1, ssl, i, n) else
  (Ret.ok, { ssl with handshake := { ssl.handshake with
      premaster := k.2, pmslen := k.2.length } }, i, n)

/-- Lines 1785-1811 of `write_client_key_exchange` (suites `ECDHE_RSA`,
`ECDHE_ECDSA`, `ECDH_RSA`, `ECDH_ECDSA`). -/
def write_client_key_exchange_ecdh (env : Env) (ssl : ntbtls_t) :
    Ret × ntbtls_t × Nat × Nat :=
  let i := 4
  let r := env.ecdh_make_public 1000
  if r.1 ≠ Ret.ok then (r.1, ssl, i, 0) else
  let n := r.2.length
  let ssl := { ssl with out_msg := store ssl.out_msg i r.2 }
  let k := env.ecdh_calc_secret
  if k.1 ≠ Ret.ok then (k.1, ssl, i, n) else
  (Ret.ok, { ssl with handshake := { ssl.handshake with
      premaster := k.2, pmslen := k.2.length } }, i, n)

/-- Lines 1832-1880 of `write_client_key_exchange`: what follows the PSK
identity, per suite; `i` is the offset reached. -/
def write_client_key_exchange_psk_public (env : Env) (ssl : ntbtls_t)
    (kx : key_exchange_type_t) (i : Nat) : Ret × ntbtls_t × Nat × Nat :=
  if kx = key_exchange_type_t.PSK then (Ret.ok, ssl, i, 0)
  else if kx = key_exchange_type_t.RSA_PSK then
    let w := ssl_write_encrypted_pms env ssl i 2
    (w.1, w.2.1, i, w.2.2)
  else if kx = key_exchange_type_t.DHE_PSK then
    let n := ssl.handshake.dhm_len
    let out := store ssl.out_msg i [u8 (n >>> 8), u8 n]
    let ssl := { ssl with out_msg := out }
    let i := i + 2
    let d := env.dhm_make_public n
    if d.1 ≠ Ret.ok then (d.1, ssl, i, n) else
    (Ret.ok, { ssl with out_msg := store ssl.out_msg i (rdn d.2 n) }, i, n)
  else if kx = key_exchange_type_t.ECDHE_PSK then
    let d := env.ecdh_make_public (SSL_MAX_CONTENT_LEN - i)
    if d.1 ≠ Ret.ok then (d.1, ssl, i, 0) else
    (Ret.ok, { ssl with out_msg := store ssl.out_msg i d.2 }, i, d.2.length)
  else (Ret.INTERNAL, ssl, i, 0)

/-- Lines 1818-1888 of `write_client_key_exchange` (the PSK suites). -/
def write_client_key_exchange_psk (env : Env) (ssl : ntbtls_t)
    (kx : key_exchange_type_t) : Ret × ntbtls_t × Nat × Nat :=
  match ssl.psk, ssl.psk_identity with
  | some _, some psk_identity =>
    let n := ssl.psk_identity_len
    let identity := [u8 (n >>> 8), u8 n] ++ rdn psk_identity ssl.psk_identity_len
    let ssl := { ssl with out_msg := store ssl.out_msg 4 identity }
    let i := 6 + ssl.psk_identity_len
    let r := write_client_key_exchange_psk_public env ssl kx i
    if r.1 ≠ Ret.ok then r else
    let d := env.ssl_psk_derive_premaster kx r.2.1.handshake.premaster
    if d.1 ≠ Ret.ok then (d.1, r.2) else
    (Ret.ok, { r.2.1 with handshake := { r.2.1.handshake with
        premaster := d.2, pmslen := d.2.length } }, r.2.2)
  | _, _ => (Ret.NO_SECKEY, ssl, 0, 0)

/-- The key exchange part of `write_client_key_exchange`
(lines 1744-1900): the code, the context, and the locals `i` and `n`. -/
def write_client_key_exchange_body (env : Env) (ssl : ntbtls_t)
    (kx : key_exchange_type_t) : Ret × ntbtls_t × Nat × Nat :=
  if kx = key_exchange_type_t.DHE_RSA then write_client_key_exchange_dhm env ssl
  else if kx = key_exchange_type_t.ECDHE_RSA ∨
      kx = key_exchange_type_t.ECDHE_ECDSA ∨
      kx = key_exchange_type_t.ECDH_RSA ∨
      kx = key_exchange_type_t.ECDH_ECDSA then
    write_client_key_exchange_ecdh env ssl
  else if kx = key_exchange_type_t.PSK ∨ kx = key_exchange_type_t.RSA_PSK ∨
      kx = key_exchange_type_t.DHE_PSK ∨ kx = key_exchange_type_t.ECDHE_PSK then
    write_client_key_exchange_psk env ssl kx
  else if kx = key_exchange_type_t.RSA then
    let i := 4
    let w := ssl_write_encrypted_pms env ssl i 0
    (w.1, w.2.1, i, w.2.2)
  else (Ret.INTERNAL, ssl, 0, 0)

/-- Function `write_client_key_exchange` (lines 1734-1923).  A `NULL`
`ciphersuite_info` is dereferenced by the source; here it ends in
`GPG_ERR_INTERNAL`. -/
def write_client_key_exchange (env : Env) (ssl : ntbtls_t) : Ret × ntbtls_t :=
  match ssl.ciphersuite_info with
  | none => (Ret.INTERNAL, ssl)
  | some ciphersuite_info =>
  let r := write_client_key_exchange_body env ssl ciphersuite_info.key_exchange
  if r.1 ≠ Ret.ok then (r.1, r.2.1) else
  let ssl := r.2.1
  if env.derive_keys ≠ Ret.ok then (env.derive_keys, ssl) else
  let ssl := { ssl with
    out_msglen := r.2.2.1 + r.2.2.2,
    out_msgtype := TLS_MSG_HANDSHAKE,
    out_msg := store ssl.out_msg 0 [TLS_HS_CLIENT_KEY_EXCHANGE],
    state := ssl.state + 1 }
  if env.write_record ≠ Ret.ok then (env.write_record, ssl) else (Ret.ok, ssl)

/-! ## CertificateVerify -/

/-- Function `write_certificate_verify` (lines 1926-2034).  A `NULL`
`ciphersuite_info` is dereferenced by the source; here it ends in
`GPG_ERR_INTERNAL`. -/
def write_certificate_verify (env : Env) (ssl : ntbtls_t) : Ret × ntbtls_t :=
  match ssl.ciphersuite_info with
  | none => (Ret.INTERNAL, ssl)
  | some ciphersuite_info =>
  let kx := ciphersuite_info.key_exchange
  if kx = key_exchange_type_t.PSK ∨ kx = key_exchange_type_t.RSA_PSK ∨
      kx = key_exchange_type_t.ECDHE_PSK ∨ kx = key_exchange_type_t.DHE_PSK then
    (Ret.ok, { ssl with state := ssl.state + 1 }) else
  if ssl.client_auth = 0 ∨ ssl.own_cert = false then
    (Ret.ok, { ssl with state := ssl.state + 1 }) else
  match ssl.own_key with
  | none => (Ret.NO_SECKEY, ssl)
  | some own_key =>
  let hash := env.calc_verify
  if ssl.minor_ver = SSL_MINOR_VERSION_3 then
    let md_alg :=
      if ciphersuite_info.mac = md_type_t.SHA384 then md_type_t.SHA384
      else md_type_t.SHA256
    let hash_byte :=
      if ciphersuite_info.mac = md_type_t.SHA384 then TLS_HASH_SHA384
      else TLS_HASH_SHA256
    let ssl := { ssl with out_msg := store ssl.out_msg 4 [hash_byte, 0] }
    let hashlen := 0
    let offset := 2
    let r := env.pk_sign own_key md_alg hash hashlen
    if r.1 ≠ Ret.ok then (r.1, ssl) else
    let n := r.2.length
    let ssl := { ssl with out_msg := store ssl.out_msg (6 + offset) r.2 }
    let out := store ssl.out_msg (4 + offset) [u8 (n >>> 8), u8 n]
    let ssl := { ssl with out_msg := out }
    let ssl := { ssl with
      out_msglen := 6 + n + offset,
      out_msgtype := TLS_MSG_HANDSHAKE,
      out_msg := store ssl.out_msg 0 [TLS_HS_CERTIFICATE_VERIFY],
      state := ssl.state + 1 }
    if env.write_record ≠ Ret.ok then (env.write_record, ssl) else (Ret.ok, ssl)
  else (Ret.INTERNAL, ssl)

/-! ## NewSessionTicket -/

/-- Function `parse_new_session_ticket` (lines 2037-2131). -/
def parse_new_session_ticket (env : Env) (ssl : ntbtls_t) : Ret × ntbtls_t :=
  let r := _ntbtls_read_record env ssl
  if r.1 ≠ Ret.ok then r else
  let ssl := r.2
  if ssl.in_msgtype ≠ TLS_MSG_HANDSHAKE then (Ret.UNEXPECTED_MSG, ssl) else
  if rd ssl.in_msg 0 ≠ TLS_HS_NEW_SESSION_TICKET ∨ ssl.in_hslen < 10 then
    (Ret.BAD_TICKET, ssl) else
  let lifetime := ((rd ssl.in_msg 4 <<< 24) ||| (rd ssl.in_msg 5 <<< 16) |||
    (rd ssl.in_msg 6 <<< 8) ||| rd ssl.in_msg 7) % 2 ^ 32
  let ticket_len := shl8_or (rd ssl.in_msg 8) (rd ssl.in_msg 9)
  if ticket_len + 10 ≠ ssl.in_hslen then (Ret.BAD_TICKET, ssl) else
  let ssl := { ssl with handshake :=
    { ssl.handshake with new_session_ticket := 0 } }
  if ticket_len = 0 then (Ret.ok, ssl) else
  let ssl := { ssl with session_negotiate :=
    { ssl.session_negotiate with ticket := none, ticket_len := 0 } }
  if env.malloc_ok = false then (env.syserror, ssl) else
  let ticket := rdn (ssl.in_msg.drop 10) ticket_len
  (Ret.ok, { ssl with session_negotiate := { ssl.session_negotiate with
      ticket := some ticket,
      ticket_len := ticket_len,
      ticket_lifetime := lifetime,
      length := 0 } })

/-! ## The client step -/

/-- Function `_ntbtls_handshake_client_step` (lines 2134-2250). -/
def _ntbtls_handshake_client_step (env : Env) (tls : ntbtls_t) :
    Ret × ntbtls_t :=
  if tls.state = TLS_HANDSHAKE_OVER then (Ret.INV_STATE, tls) else
  if env.flush_output ≠ Ret.ok then (env.flush_output, tls) else
  if tls.state = TLS_HELLO_REQUEST then
    (Ret.ok, { tls with state := TLS_CLIENT_HELLO })
  else if tls.state = TLS_CLIENT_HELLO then write_client_hello env tls
  else if tls.state = TLS_SERVER_HELLO then parse_server_hello env tls
  else if tls.state = TLS_SERVER_CERTIFICATE then env.parse_certificate tls
  else if tls.state = TLS_SERVER_KEY_EXCHANGE then
    parse_server_key_exchange env tls
  else if tls.state = TLS_CERTIFICATE_REQUEST then
    parse_certificate_request env tls
  else if tls.state = TLS_SERVER_HELLO_DONE then parse_server_hello_done env tls
  else if tls.state = TLS_CLIENT_CERTIFICATE then env.write_certificate tls
  else if tls.state = TLS_CLIENT_KEY_EXCHANGE then
    write_client_key_exchange env tls
  else if tls.state = TLS_CERTIFICATE_VERIFY then
    write_certificate_verify env tls
  else if tls.state = TLS_CLIENT_CHANGE_CIPHER_SPEC then
    env.write_change_cipher_spec tls
  else if tls.state = TLS_CLIENT_FINISHED then env.write_finished tls
  else if tls.state = TLS_SERVER_CHANGE_CIPHER_SPEC then
    if tls.handshake.new_session_ticket ≠ 0 then parse_new_session_ticket env tls
    else env.parse_change_cipher_spec tls
  else if tls.state = TLS_SERVER_FINISHED then env.parse_finished tls
  else if tls.state = TLS_FLUSH_BUFFERS then
    (Ret.ok, { tls with state := TLS_HANDSHAKE_WRAPUP })
  else if tls.state = TLS_HANDSHAKE_WRAPUP then
    (Ret.ok, env.handshake_wrapup tls)
  else (Ret.INV_STATE, tls)

/-! ## Auxiliary notions used in the statements -/

/-- The ids of a zero-terminated array: the entries before the first `0`. -/
def zero_terminated (l : List Nat) : List Nat := l.takeWhile fun c => c ≠ 0

/-- Fields that no ServerHello extension parser writes. -/
def ext_frame (a b : ntbtls_t) : Prop :=
  a.state = b.state ∧ a.minor_ver = b.minor_ver ∧
  a.min_minor_ver = b.min_minor_ver ∧ a.max_minor_ver = b.max_minor_ver ∧
  a.ciphersuite_list = b.ciphersuite_list ∧
  a.session_negotiate.ciphersuite = b.session_negotiate.ciphersuite ∧
  a.mfl_code = b.mfl_code ∧ a.trunc_hmac = b.trunc_hmac ∧
  a.session_tickets = b.session_tickets ∧ a.alpn_list = b.alpn_list ∧
  a.renegotiation = b.renegotiation ∧
  a.allow_legacy_renegotiation = b.allow_legacy_renegotiation ∧
  a.verify_data_len = b.verify_data_len ∧
  a.own_verify_data = b.own_verify_data ∧
  a.peer_verify_data = b.peer_verify_data ∧
  a.in_msg = b.in_msg ∧ a.in_hslen = b.in_hslen

/-- The condition under which `parse_server_hello` does not resume the
cached session (lines 876-881). -/
def no_resume (s : ntbtls_t) : Prop :=
  s.renegotiation ≠ SSL_INITIAL_HANDSHAKE ∨
    s.handshake.resume = 0 ∨ server_hello_n s.in_msg = 0 ∨
    s.session_negotiate.ciphersuite ≠ server_hello_i s.in_msg ∨
    s.session_negotiate.compression ≠ server_hello_comp s.in_msg ∨
    s.session_negotiate.length ≠ server_hello_n s.in_msg ∨
    memeq s.session_negotiate.id (s.in_msg.drop 39) (server_hello_n s.in_msg) = false

/-- Configuration fields, which no part of `parse_server_hello` writes. -/
def cfg_eq (a b : ntbtls_t) : Prop :=
  a.min_minor_ver = b.min_minor_ver ∧ a.max_minor_ver = b.max_minor_ver ∧
  a.ciphersuite_list = b.ciphersuite_list ∧
  a.mfl_code = b.mfl_code ∧ a.trunc_hmac = b.trunc_hmac ∧
  a.session_tickets = b.session_tickets ∧ a.alpn_list = b.alpn_list ∧
  a.renegotiation = b.renegotiation ∧
  a.allow_legacy_renegotiation = b.allow_legacy_renegotiation ∧
  a.verify_data_len = b.verify_data_len ∧
  a.own_verify_data = b.own_verify_data ∧
  a.peer_verify_data = b.peer_verify_data

/-- The length test of `parse_server_hello` (lines 843-852) rejects the
message. -/
def bad_length (buf : Bytes) (in_hslen : Nat) : Prop :=
  in_hslen > 42 + server_hello_n buf ∧
    ((server_hello_ext_len buf in_hslen > 0 ∧ server_hello_ext_len buf in_hslen < 4) ∨
      in_hslen ≠ 44 + server_hello_n buf + server_hello_ext_len buf in_hslen)

/-! ### Concrete messages and contexts -/

/-- A ServerHello for suite `0x002F` with TLS 1.2, an empty session id, null
compression and one `truncated_hmac` extension. -/
def hello_plain : Bytes :=
  [2, 0, 0, 44, 3, 3] ++ List.replicate 32 7 ++ [0, 0, 0x2F, 0] ++ [0, 4, 0, 4, 0, 0]

/-- A ciphersuite table that knows every id as an RSA suite for all
versions. -/
def table_all (i : Nat) : Option ssl_ciphersuite_t :=
  some ⟨i, key_exchange_type_t.RSA, md_type_t.SHA1, 0, 3⟩

/-- The record layer delivers `hello_plain`. -/
def env_plain : Env :=
  { in_msg := hello_plain, in_hslen := 48, ssl_ciphersuite_from_id := table_all }

/-- A client in state ServerHello that offered suite `0x002F` and truncated
HMAC, with legacy renegotiation allowed. -/
def ssl_plain : ntbtls_t :=
  { state := TLS_SERVER_HELLO, trunc_hmac := SSL_TRUNC_HMAC_ENABLED,
    ciphersuite_list := fun _ => [0x2F],
    allow_legacy_renegotiation := TLS_LEGACY_ALLOW_RENEGOTIATION }

/-- A client in state ServerHello that offered only suite `0x0035`. -/
def ssl_other_suite : ntbtls_t :=
  { state := TLS_SERVER_HELLO, trunc_hmac := SSL_TRUNC_HMAC_ENABLED,
    ciphersuite_list := fun _ => [0x35],
    allow_legacy_renegotiation := TLS_LEGACY_ALLOW_RENEGOTIATION }

/-- The context of `parse_server_hello` once the record is read and the
version accepted (line 817): the message is in place and `minor_ver` is the
server's minor version. -/
def ctx_after_version (env : Env) (ssl : ntbtls_t) : ntbtls_t :=
  { ssl with
    in_msgtype := env.in_msgtype, in_msg := env.in_msg, in_hslen := env.in_hslen,
    minor_ver := rd env.in_msg 5 }

/-- The context of `parse_server_hello` just before the resumption
decision (line 872): the server random is stored and `ciphersuite_info`
looked up. -/
def ctx_after_fields (env : Env) (ssl : ntbtls_t) : ntbtls_t :=
  { ctx_after_version env ssl with
    handshake := { ssl.handshake with
      randbytes := memcpy ssl.handshake.randbytes 32 (env.in_msg.drop 6) 32 },
    ciphersuite_info := env.ssl_ciphersuite_from_id (server_hello_i env.in_msg) }

/-- A ServerHello passes the checks of lines 783-816 of
`parse_server_hello`: handshake record of type ServerHello, at least 42
bytes, major version 3, minor version within the configured bounds. -/
def version_accepted (env : Env) (ssl : ntbtls_t) : Prop :=
  env.read_record = Ret.ok ∧ env.in_msgtype = TLS_MSG_HANDSHAKE ∧
  42 ≤ env.in_hslen ∧ rd env.in_msg 0 = TLS_HS_SERVER_HELLO ∧
  rd env.in_msg 4 = SSL_MAJOR_VERSION_3 ∧
  rd env.in_msg 5 ≤ ssl.max_minor_ver ∧ ssl.min_minor_ver ≤ rd env.in_msg 5

/-- The record layer delivers `hello_plain`; the ciphersuite table knows no
suite. -/
def env_unknown_suite : Env :=
  { in_msg := hello_plain, in_hslen := 48 }

/-- The context of `parse_server_hello` once the record is read
(line 782). -/
def ctx_after_read (env : Env) (ssl : ntbtls_t) : ntbtls_t :=
  { ssl with
    in_msgtype := env.in_msgtype, in_msg := env.in_msg, in_hslen := env.in_hslen }

/-- The ServerHello `hello_plain` with minor version 1 (TLS 1.0). -/
def hello_tls10 : Bytes :=
  [2, 0, 0, 44, 3, 1] ++ List.replicate 32 7 ++ [0, 0, 0x2F, 0] ++ [0, 4, 0, 4, 0, 0]

/-- The record layer delivers `hello_tls10`. -/
def env_tls10 : Env :=
  { in_msg := hello_tls10, in_hslen := 48, ssl_ciphersuite_from_id := table_all }

/-- The client `ssl_plain` configured for TLS 1.1 at most. -/
def ssl_max_tls11 : ntbtls_t := { ssl_plain with max_minor_ver := 2 }

/-- The client `ssl_plain` configured for TLS 1.1 at least. -/
def ssl_min_tls11 : ntbtls_t := { ssl_plain with min_minor_ver := 2 }

/-- A ServerHello of declared length 42 whose session id length byte is 1:
the one-byte session id `0xAA` and the suite `0x002F` fill the message, and
the compression byte would be at index 42, past the declared length. -/
def hello_short : Bytes :=
  [2, 0, 0, 38, 3, 3] ++ List.replicate 32 7 ++ [1, 0xAA, 0, 0x2F]

/-- The record layer delivers `hello_short` with `in_hslen = 42`; the input
buffer holds zeros after the message. -/
def env_short : Env :=
  { in_msg := hello_short, in_hslen := 42, ssl_ciphersuite_from_id := table_all }

/-- As `env_short`, but the byte that follows the message in the input
buffer is `5`. -/
def env_short_dirty : Env :=
  { in_msg := hello_short ++ [5], in_hslen := 42,
    ssl_ciphersuite_from_id := table_all }

/-- The ServerHello `hello_plain` with its `truncated_hmac` extension sent
twice: the extension block is `00 04 00 00 00 04 00 00`. -/
def hello_dup : Bytes :=
  [2, 0, 0, 48, 3, 3] ++ List.replicate 32 7 ++ [0, 0, 0x2F, 0] ++
    [0, 8, 0, 4, 0, 0, 0, 4, 0, 0]

/-- The record layer delivers `hello_dup`. -/
def env_dup : Env :=
  { in_msg := hello_dup, in_hslen := 52, ssl_ciphersuite_from_id := table_all }

/-- An extension block, given by the pointer `ext` to its first byte and
its length `ext_len`, contains an extension of type `id`: either the first
entry has this type, or a later entry has; an entry counts only when its
4-byte header and its payload lie inside the block. -/
inductive has_extension : Bytes → Nat → Nat → Prop where
  | here (ext : Bytes) (ext_len : Nat) :
      4 + shl8_or (rd ext 2) (rd ext 3) ≤ ext_len →
      has_extension ext ext_len (shl8_or (rd ext 0) (rd ext 1))
  | later (ext : Bytes) (ext_len id : Nat) :
      4 + shl8_or (rd ext 2) (rd ext 3) ≤ ext_len →
      has_extension (ext.drop (4 + shl8_or (rd ext 2) (rd ext 3)))
        (ext_len - (4 + shl8_or (rd ext 2) (rd ext 3))) id →
      has_extension ext ext_len id

/-- The extension type `id` is one of max_fragment_length, truncated_hmac,
session_ticket and ALPN, and the client's configuration did not offer it. -/
def not_offered (ssl : ntbtls_t) (id : Nat) : Prop :=
  (id = TLS_EXT_MAX_FRAGMENT_LENGTH ∧ ssl.mfl_code = SSL_MAX_FRAG_LEN_NONE) ∨
  (id = TLS_EXT_TRUNCATED_HMAC ∧ ssl.trunc_hmac = SSL_TRUNC_HMAC_DISABLED) ∨
  (id = TLS_EXT_SESSION_TICKET ∧ ssl.session_tickets = SSL_SESSION_TICKETS_DISABLED) ∨
  (id = TLS_EXT_ALPN ∧ ssl.alpn_list = none)

/-- A client in state ServerHello that offered suite `0x002F` and none of
the optional extensions. -/
def ssl_nothing_offered : ntbtls_t :=
  { state := TLS_SERVER_HELLO, ciphersuite_list := fun _ => [0x2F],
    allow_legacy_renegotiation := TLS_LEGACY_ALLOW_RENEGOTIATION }

/-- The payload `buf[0 .. len-1]` of a `renegotiation_info` extension is
`{2L, own_verify_data, peer_verify_data}` with `L = verify_data_len`: it has
length `1 + 2L`, its first byte is `2L`, bytes `1..L` are the client's
verify data and bytes `L+1..2L` the server's. -/
def renegotiation_payload_matches (ssl : ntbtls_t) (buf : Bytes) (len : Nat) : Prop :=
  len = 1 + ssl.verify_data_len * 2 ∧ rd buf 0 = ssl.verify_data_len * 2 ∧
  (∀ k, k < ssl.verify_data_len → rd buf (1 + k) = rd ssl.own_verify_data k) ∧
  (∀ k, k < ssl.verify_data_len →
    rd buf (1 + ssl.verify_data_len + k) = rd ssl.peer_verify_data k)

/-- An environment in which sending the fatal alert fails with code
`other 1`. -/
def env_alert_fails : Env := { send_fatal_handshake_failure := Ret.other 1 }

/-- A client on its initial handshake. -/
def ssl_initial : ntbtls_t := { renegotiation := SSL_INITIAL_HANDSHAKE }

/-- A renegotiating client whose verify data are two bytes long: own
`01 02`, peer `03 04`. -/
def ssl_renegotiating : ntbtls_t :=
  { renegotiation := TLS_RENEGOTIATION, verify_data_len := 2,
    own_verify_data := [1, 2], peer_verify_data := [3, 4] }

/-- The context of `parse_server_hello` when the extension loop starts
(line 937): the resumption decision is taken and the compression method of
the message recorded (line 932). -/
def ctx_before_extensions (env : Env) (ssl : ntbtls_t) : ntbtls_t :=
  let s := (parse_server_hello_resume env (ctx_after_fields env ssl)).2
  { s with session_negotiate :=
      { s.session_negotiate with compression := server_hello_comp env.in_msg } }

/-- The ServerHello passes every check of `parse_server_hello` that precedes
the extension loop (lines 775-935): the record is read, type, length and
version are accepted, the session id length is at most 32, the length fields
agree, the ciphersuite is known and offered, key derivation succeeds if the
session is resumed, and the compression method is null or deflate. -/
def hello_valid_before_extensions (env : Env) (ssl : ntbtls_t) : Prop :=
  version_accepted env ssl ∧ server_hello_n env.in_msg ≤ 32 ∧
  ¬ bad_length env.in_msg env.in_hslen ∧
  env.ssl_ciphersuite_from_id (server_hello_i env.in_msg) ≠ none ∧
  (parse_server_hello_resume env (ctx_after_fields env ssl)).1 = Ret.ok ∧
  server_hello_i env.in_msg ∈
    zero_terminated (ssl.ciphersuite_list (rd env.in_msg 5)) ∧
  (server_hello_comp env.in_msg = TLS_COMPRESS_NULL ∨
    server_hello_comp env.in_msg = TLS_COMPRESS_DEFLATE)

/-- The record layer delivers `hello_plain`; sending the fatal alert fails
with code `other 1`. -/
def env_plain_alert_fails : Env :=
  { in_msg := hello_plain, in_hslen := 48, ssl_ciphersuite_from_id := table_all,
    send_fatal_handshake_failure := Ret.other 1 }

/-- The client `ssl_plain` with the policy that breaks off the handshake
with a server that lacks secure renegotiation. -/
def ssl_break : ntbtls_t :=
  { ssl_plain with allow_legacy_renegotiation := TLS_LEGACY_BREAK_HANDSHAKE }

/-- The four conditions (a)-(d) under which the specification lets
`parse_server_hello` fail after the extensions are parsed, read in the
context `t` reached after the extension loop, with `seen` telling whether a
`renegotiation_info` extension was met: (a) legacy server and policy
`break_handshake`; (b) renegotiation, secure, extension missing;
(c) renegotiation, legacy, policy `no_renegotiation`; (d) renegotiation,
legacy, extension present. -/
def spec_renegotiation_failure (t : ntbtls_t) (seen : Nat) : Prop :=
  (t.secure_renegotiation = TLS_LEGACY_RENEGOTIATION ∧
    t.allow_legacy_renegotiation = TLS_LEGACY_BREAK_HANDSHAKE) ∨
  (t.renegotiation = TLS_RENEGOTIATION ∧
    t.secure_renegotiation = TLS_SECURE_RENEGOTIATION ∧ seen = 0) ∨
  (t.renegotiation = TLS_RENEGOTIATION ∧
    t.secure_renegotiation = TLS_LEGACY_RENEGOTIATION ∧
    t.allow_legacy_renegotiation = TLS_LEGACY_NO_RENEGOTIATION) ∨
  (t.renegotiation = TLS_RENEGOTIATION ∧
    t.secure_renegotiation = TLS_LEGACY_RENEGOTIATION ∧ seen = 1)

/-- The extension loop of `parse_server_hello`, started in context `ssl`
at pointer `ext` with `ext_len` bytes to go, comes to a point where 1 to 3
bytes of the block remain: either `ext_len` is such a number, or the first
entry lies inside the block, its parser returns success, and the same holds
for the loop continued behind that entry. -/
inductive leaves_remainder (env : Env) : ntbtls_t → Bytes → Nat → Nat → Prop where
  | here (ssl : ntbtls_t) (ext : Bytes) (ext_len seen : Nat) :
      0 < ext_len → ext_len < 4 → leaves_remainder env ssl ext ext_len seen
  | later (ssl : ntbtls_t) (ext : Bytes) (ext_len seen : Nat) :
      4 + shl8_or (rd ext 2) (rd ext 3) ≤ ext_len →
      (parse_server_hello_ext_switch env ssl (shl8_or (rd ext 0) (rd ext 1))
        (ext.drop 4) (shl8_or (rd ext 2) (rd ext 3)) seen).1 = Ret.ok →
      leaves_remainder env
        (parse_server_hello_ext_switch env ssl (shl8_or (rd ext 0) (rd ext 1))
          (ext.drop 4) (shl8_or (rd ext 2) (rd ext 3)) seen).2.1
        (ext.drop (4 + shl8_or (rd ext 2) (rd ext 3)))
        (ext_len - (4 + shl8_or (rd ext 2) (rd ext 3)))
        (parse_server_hello_ext_switch env ssl (shl8_or (rd ext 0) (rd ext 1))
          (ext.drop 4) (shl8_or (rd ext 2) (rd ext 3)) seen).2.2 →
      leaves_remainder env ssl ext ext_len seen

/-- The ServerHello `hello_plain` with two stray bytes after its
`truncated_hmac` extension: the extension block `00 04 00 00 AB CD` has
length 6. -/
def hello_remainder : Bytes :=
  [2, 0, 0, 46, 3, 3] ++ List.replicate 32 7 ++ [0, 0, 0x2F, 0] ++
    [0, 6, 0, 4, 0, 0, 0xAB, 0xCD]

/-- The ServerHello `hello_plain` with an extension block of two bytes: the
length field `00 02` is followed by the bytes `AB CD`. -/
def hello_block_of_two : Bytes :=
  [2, 0, 0, 42, 3, 3] ++ List.replicate 32 7 ++ [0, 0, 0x2F, 0] ++ [0, 2, 0xAB, 0xCD]

/-- The record layer delivers `hello_block_of_two`. -/
def env_block_of_two : Env :=
  { in_msg := hello_block_of_two, in_hslen := 46, ssl_ciphersuite_from_id := table_all }

/-- The record layer delivers `hello_remainder`. -/
def env_remainder : Env :=
  { in_msg := hello_remainder, in_hslen := 50, ssl_ciphersuite_from_id := table_all }

/-- The offset in `in_msg` at which `parse_server_key_exchange` hands the
message to `ssl_parse_server_dh_params`: `4` for `DHE_RSA`; for `DHE_PSK`
the PSK identity hint, a 2-byte length and that many bytes, comes first. -/
def server_dh_params_offset (kx : key_exchange_type_t) (in_msg : Bytes) : Nat :=
  if kx = key_exchange_type_t.DHE_PSK then
    6 + shl8_or (rd in_msg 4) (rd in_msg 5)
  else 4

/-- A `DHE_PSK` suite. -/
def suite_dhe_psk : ssl_ciphersuite_t :=
  ⟨0x90, key_exchange_type_t.DHE_PSK, md_type_t.SHA1, 0, 3⟩

/-- A ServerKeyExchange message with an empty PSK identity hint, followed
by four bytes standing for the Diffie-Hellman parameters. -/
def server_kex_dhe_psk : Bytes := [12, 0, 0, 6, 0, 0, 1, 2, 3, 4]

/-- The record layer delivers `server_kex_dhe_psk`; `dhm_read_params`
consumes what it is given and reports a prime of `len` octets. -/
def env_dhe_psk (len : Nat) : Env :=
  { in_msg := server_kex_dhe_psk, in_hslen := 10,
    dhm_read_params := fun _ n => (Ret.ok, n, len) }

/-- A client in state ServerKeyExchange that negotiated `suite_dhe_psk`. -/
def ssl_dhe_psk : ntbtls_t :=
  { state := TLS_SERVER_KEY_EXCHANGE, ciphersuite_info := some suite_dhe_psk }

/-- A NewSessionTicket message with lifetime hint 0 and an empty ticket. -/
def ticket_msg_empty : Bytes := [4, 0, 0, 6, 0, 0, 0, 0, 0, 0]

/-- The record layer delivers `ticket_msg_empty`. -/
def env_ticket_empty : Env := { in_msg := ticket_msg_empty, in_hslen := 10 }

/-- A NewSessionTicket message with lifetime hint `0x00000E10` (3600) and
the three-byte ticket `AA BB CC`. -/
def ticket_msg : Bytes := [4, 0, 0, 9, 0, 0, 0x0E, 0x10, 0, 3, 0xAA, 0xBB, 0xCC]

/-- The record layer delivers `ticket_msg`. -/
def env_ticket : Env := { in_msg := ticket_msg, in_hslen := 13 }

/-- A NewSessionTicket message whose ticket length field says 4 while the
message holds 3 ticket bytes. -/
def ticket_msg_bad : Bytes := [4, 0, 0, 9, 0, 0, 0x0E, 0x10, 0, 4, 0xAA, 0xBB, 0xCC]

/-- The record layer delivers `ticket_msg_bad`. -/
def env_ticket_bad : Env := { in_msg := ticket_msg_bad, in_hslen := 13 }

/-- A client waiting for a NewSessionTicket, with a session id of 32 bytes
negotiated in the ServerHello and an old ticket `01 02` in store. -/
def ssl_expects_ticket : ntbtls_t :=
  { state := TLS_SERVER_CHANGE_CIPHER_SPEC,
    handshake := { new_session_ticket := 1 },
    session_negotiate := { length := 32, ticket := some [1, 2], ticket_len := 2,
                           ticket_lifetime := 7 } }

/-- The handler that `_ntbtls_handshake_client_step` calls in the state of
`tls` begins by reading a record: `parse_server_hello`;
`parse_server_key_exchange` unless the suite is `RSA`, `ECDH_RSA` or
`ECDH_ECDSA`; `parse_certificate_request` unless the suite is a PSK suite,
and `parse_server_hello_done`, both with `record_read = 0`;
`parse_new_session_ticket`, called in state ServerChangeCipherSpec when a
NewSessionTicket is expected. -/
def handler_reads_record (tls : ntbtls_t) : Prop :=
  tls.state = TLS_SERVER_HELLO ∨
  (tls.state = TLS_SERVER_KEY_EXCHANGE ∧ ∃ ci, tls.ciphersuite_info = some ci ∧
    ci.key_exchange ≠ key_exchange_type_t.RSA ∧
    ci.key_exchange ≠ key_exchange_type_t.ECDH_RSA ∧
    ci.key_exchange ≠ key_exchange_type_t.ECDH_ECDSA) ∨
  (tls.state = TLS_CERTIFICATE_REQUEST ∧ tls.record_read = 0 ∧
    ∃ ci, tls.ciphersuite_info = some ci ∧
    ci.key_exchange ≠ key_exchange_type_t.PSK ∧
    ci.key_exchange ≠ key_exchange_type_t.RSA_PSK ∧
    ci.key_exchange ≠ key_exchange_type_t.DHE_PSK ∧
    ci.key_exchange ≠ key_exchange_type_t.ECDHE_PSK) ∨
  (tls.state = TLS_SERVER_HELLO_DONE ∧ tls.record_read = 0) ∨
  (tls.state = TLS_SERVER_CHANGE_CIPHER_SPEC ∧ tls.handshake.new_session_ticket ≠ 0)

/-- The record layer has no input: `_ntbtls_read_record` returns the code
`other 11`, standing for "would block". -/
def env_would_block : Env := { read_record := Ret.other 11 }

/-- The extension types in the order of the table of the specification
(section 4.2): server_name, max_fragment_length, truncated_hmac,
supported_elliptic_curves, ec_point_formats, signature_algorithms, ALPN,
session_ticket, renegotiation_info. -/
def spec_extension_order : List Nat :=
  [TLS_EXT_SERVERNAME, TLS_EXT_MAX_FRAGMENT_LENGTH, TLS_EXT_TRUNCATED_HMAC,
   TLS_EXT_SUPPORTED_ELLIPTIC_CURVES, TLS_EXT_SUPPORTED_POINT_FORMATS,
   TLS_EXT_SIG_ALG, TLS_EXT_ALPN, TLS_EXT_SESSION_TICKET,
   TLS_EXT_RENEGOTIATION_INFO]

/-- The types of the entries of an extension block, read as its receiver
reads it: per entry a 2-byte type and a 2-byte length, then that many bytes
of payload.  The first argument bounds the number of entries. -/
def extension_types : Nat → Bytes → List Nat
  | 0, _ => []
  | fuel + 1, block =>
    if block.length < 4 then []
    else
      shl8_or (rd block 0) (rd block 1) ::
        extension_types fuel (block.drop (4 + shl8_or (rd block 2) (rd block 3)))

/-- The bytes written by an extension writer are none at all, or begin with
the 2-byte extension type `type`. -/
def writes_type (w : Bytes) (type : Nat) : Prop :=
  w = [] ∨ ∃ rest, w = be16_bytes type ++ rest

/-- A client about to send its first ClientHello, with TLS 1.2 as highest
version and the maximum fragment length code 1 configured. -/
def ssl_mfl : ntbtls_t := { state := TLS_CLIENT_HELLO, mfl_code := 1 }

/-- A client that offers session tickets and has the ticket `01 02` in
store. -/
def ssl_offers_ticket : ntbtls_t :=
  { session_tickets := 1,
    session_negotiate := { ticket := some [1, 2], ticket_len := 2 } }

/-- A client that offers the two ALPN protocol names `h2` and `h3`. -/
def ssl_offers_two_protocols : ntbtls_t :=
  { alpn_list := some [[104, 50], [104, 51]] }

/-- A client that offers the single ALPN protocol name `h2`. -/
def ssl_offers_one_protocol : ntbtls_t := { alpn_list := some [[104, 50]] }

/-- The 48 bytes of the premaster secret that `ssl_write_encrypted_pms`
generates: the two version bytes and the 46 bytes of the random source. -/
def encrypted_pms_plaintext (env : Env) (ssl : ntbtls_t) : Bytes :=
  [u8 ssl.max_major_ver, u8 ssl.max_minor_ver] ++ rdn (env.rng_bytes 46) 46

/-- The server's key is an RSA key; `pk_encrypt` yields the ciphertext
`09 08 07` (three bytes stand for the RSA block). -/
def env_rsa : Env :=
  { pk_can_do := fun _ t => decide (t = pk_type_t.RSA),
    pk_encrypt := fun _ _ _ => (Ret.ok, [9, 8, 7]) }

/-- A client that offered TLS 1.2 and negotiated TLS 1.0. -/
def ssl_rsa : ntbtls_t := { minor_ver := 1, max_major_ver := 3, max_minor_ver := 3 }

/-- An `RSA` suite with SHA-256 as MAC. -/
def suite_rsa : ssl_ciphersuite_t :=
  ⟨0x3C, key_exchange_type_t.RSA, md_type_t.SHA256, 3, 3⟩

/-- A TLS 1.2 client in state CertificateVerify that was asked for a
certificate and owns a certificate with an RSA key. -/
def ssl_client_auth_rsa : ntbtls_t :=
  { state := TLS_CERTIFICATE_VERIFY, minor_ver := 3, client_auth := 1,
    own_cert := true, own_key := some ⟨pk_type_t.RSA⟩,
    ciphersuite_info := some suite_rsa }

/-- As `ssl_client_auth_rsa`, with an ECDSA key. -/
def ssl_client_auth_ecdsa : ntbtls_t :=
  { state := TLS_CERTIFICATE_VERIFY, minor_ver := 3, client_auth := 1,
    own_cert := true, own_key := some ⟨pk_type_t.ECDSA⟩,
    ciphersuite_info := some suite_rsa }

/-- The function `pk_sign` yields the signature `0A 0B 0C`. -/
def env_sign : Env := { pk_sign := fun _ _ _ _ => (Ret.ok, [10, 11, 12]) }

/-- Fields that the parameter stage of `parse_server_key_exchange` leaves
as they are. -/
def kex_frame (a b : ntbtls_t) : Prop :=
  a.in_msg = b.in_msg ∧ a.in_hslen = b.in_hslen ∧ a.minor_ver = b.minor_ver ∧
  a.session_negotiate = b.session_negotiate ∧
  a.handshake.randbytes = b.handshake.randbytes ∧ a.state = b.state

/-- A TLS 1.2 client that negotiated the signed suite `ci` (`DHE_RSA`,
`ECDHE_RSA` or `ECDHE_ECDSA`) reads a ServerKeyExchange handshake message
whose parameters are accepted, leaving the context `s` and the offset `p`
behind the parameters, and the message has room for the two bytes of the
SignatureAndHashAlgorithm at `p`. -/
def signed_params_parsed (env : Env) (ssl : ntbtls_t) (ci : ssl_ciphersuite_t)
    (s : ntbtls_t) (p : Nat) : Prop :=
  ssl.ciphersuite_info = some ci ∧
  (ci.key_exchange = key_exchange_type_t.DHE_RSA ∨
    ci.key_exchange = key_exchange_type_t.ECDHE_RSA ∨
    ci.key_exchange = key_exchange_type_t.ECDHE_ECDSA) ∧
  ssl.minor_ver = SSL_MINOR_VERSION_3 ∧
  env.read_record = Ret.ok ∧ env.in_msgtype = TLS_MSG_HANDSHAKE ∧
  rd env.in_msg 0 = TLS_HS_SERVER_KEY_EXCHANGE ∧
  parse_server_key_exchange_params env (ctx_after_read env ssl) ci.key_exchange 4
    env.in_hslen = (Ret.ok, s, p) ∧
  p + 2 ≤ env.in_hslen

/-- The hash codes of `sig_alg_list`, the list that
`write_signature_algorithms_ext` offers (lines 126-148): SHA-512, SHA-384,
SHA-256, SHA-224, SHA-1. -/
def offered_hashes : List Nat :=
  [TLS_HASH_SHA512, TLS_HASH_SHA384, TLS_HASH_SHA256, TLS_HASH_SHA224, TLS_HASH_SHA1]

/-- Modelled from the spec: the table `_ntbtls_md_alg_from_hash` (not in
the sources), which gives a digest for the hash codes the client offers
(section 4.3: "the hash algorithm must be one the client offered") and no
digest for any other code. -/
def md_alg_from_hash_offered (hash : Nat) : md_type_t :=
  if hash = TLS_HASH_SHA1 then md_type_t.SHA1
  else if hash = TLS_HASH_SHA224 then md_type_t.SHA224
  else if hash = TLS_HASH_SHA256 then md_type_t.SHA256
  else if hash = TLS_HASH_SHA384 then md_type_t.SHA384
  else if hash = TLS_HASH_SHA512 then md_type_t.SHA512
  else md_type_t.NONE

/-- Modelled from the spec: the table `_ntbtls_pk_alg_from_sig` (not in the
sources): signature code 1 is RSA, 3 is ECDSA (section 8). -/
def pk_alg_from_sig_codes (sig : Nat) : pk_type_t :=
  if sig = TLS_SIG_RSA then pk_type_t.RSA
  else if sig = TLS_SIG_ECDSA then pk_type_t.ECDSA
  else pk_type_t.NONE

/-- Modelled from the spec: the table `ssl_get_ciphersuite_sig_pk_alg` (not
in the sources): the signature algorithm implied by the key exchange of a
suite. -/
def sig_pk_alg_of_suite (ci : ssl_ciphersuite_t) : pk_type_t :=
  match ci.key_exchange with
  | key_exchange_type_t.RSA => pk_type_t.RSA
  | key_exchange_type_t.DHE_RSA => pk_type_t.RSA
  | key_exchange_type_t.ECDHE_RSA => pk_type_t.RSA
  | key_exchange_type_t.ECDHE_ECDSA => pk_type_t.ECDSA
  | _ => pk_type_t.NONE

/-- A `DHE_RSA` suite. -/
def suite_dhe_rsa : ssl_ciphersuite_t :=
  ⟨0x67, key_exchange_type_t.DHE_RSA, md_type_t.SHA256, 3, 3⟩

/-- A ServerKeyExchange message for `DHE_RSA`: four bytes standing for the
Diffie-Hellman parameters, the SignatureAndHashAlgorithm `hash, sig`, and a
signature of two bytes. -/
def server_kex_signed (hash sig : Nat) : Bytes :=
  [12, 0, 0, 10, 1, 2, 3, 4, hash, sig, 0, 2, 0xAA, 0xBB]

/-- The record layer delivers `server_kex_signed hash sig`;
`dhm_read_params` consumes four bytes and reports a prime of 64 octets; the
server's key is an RSA key; `pk_verify` returns the code `verify`. -/
def env_signed (hash sig : Nat) (verify : Ret) : Env :=
  { in_msg := server_kex_signed hash sig, in_hslen := 14,
    dhm_read_params := fun _ _ => (Ret.ok, 4, 64),
    md_alg_from_hash := md_alg_from_hash_offered,
    pk_alg_from_sig := pk_alg_from_sig_codes,
    ssl_get_ciphersuite_sig_pk_alg := sig_pk_alg_of_suite,
    pk_can_do := fun _ t => decide (t = pk_type_t.RSA),
    pk_verify := fun _ _ _ _ _ => verify }

/-- A TLS 1.2 client in state ServerKeyExchange that negotiated
`suite_dhe_rsa`. -/
def ssl_dhe_rsa : ntbtls_t :=
  { state := TLS_SERVER_KEY_EXCHANGE, minor_ver := 3,
    ciphersuite_info := some suite_dhe_rsa }

/-- The record layer delivers the ServerHelloDone message: type 14, length
0, so `in_hslen = 4`. -/
def env_hello_done : Env := { in_msg := [14, 0, 0, 0], in_hslen := 4 }

/-- The record layer delivers a ServerHelloDone with a body of one byte. -/
def env_hello_done_long : Env := { in_msg := [14, 0, 0, 1, 0], in_hslen := 5 }

/-- A client that waits for the ServerHelloDone. -/
def ssl_awaits_hello_done : ntbtls_t := { state := TLS_SERVER_HELLO_DONE }

/-- The test of the loop over `cert_types` in `parse_certificate_request`:
the entry is `rsa_sign` and the own key can do RSA, or it is `ecdsa_sign`
and the own key can do ECDSA. -/
def cert_type_usable (env : Env) (ssl : ntbtls_t) (t : Nat) : Prop :=
  (t = SSL_CERT_TYPE_RSA_SIGN ∧ own_key_can_do env ssl pk_type_t.RSA = true) ∨
  (t = SSL_CERT_TYPE_ECDSA_SIGN ∧ own_key_can_do env ssl pk_type_t.ECDSA = true)

/-- The context of `parse_certificate_request` once a CertificateRequest
was recognised (lines 1609-1621): `client_auth` is 1, the state is advanced
and `record_read` is 0. -/
def ctx_cert_request (s : ntbtls_t) : ntbtls_t :=
  { s with client_auth := 1, state := s.state + 1, record_read := 0 }

/-- A CertificateRequest of TLS 1.2: cert_types `dss_sign, ecdsa_sign,
rsa_sign`, one SignatureAndHashAlgorithm `sha256, rsa`, no certificate
authorities. -/
def cert_request_msg : Bytes := [13, 0, 0, 10, 3, 2, 64, 1, 0, 2, 4, 1, 0, 0]

/-- The record layer delivers `cert_request_msg` with the given declared
length; a key can do its own algorithm only. -/
def env_cert_request (len : Nat) : Env :=
  { in_msg := cert_request_msg, in_hslen := len,
    pk_can_do := fun key t => decide (key = ⟨t⟩) }

/-- A TLS 1.2 client with an RSA key that waits for the CertificateRequest. -/
def ssl_awaits_cert_request : ntbtls_t :=
  { state := TLS_CERTIFICATE_REQUEST, minor_ver := 3,
    own_key := some ⟨pk_type_t.RSA⟩, ciphersuite_info := some suite_rsa }

/-- As `ssl_awaits_cert_request`, without a key. -/
def ssl_awaits_cert_request_no_key : ntbtls_t :=
  { state := TLS_CERTIFICATE_REQUEST, minor_ver := 3, ciphersuite_info := some suite_rsa,
    handshake := { cert_type := 7 } }

/-- The length of the vector `supported_signature_algorithms` of a
CertificateRequest of TLS 1.2: the two bytes after the certificate types. -/
def cert_req_sig_algs_len (buf : Bytes) : Nat :=
  shl8_or (rd buf (5 + rd buf 4)) (rd buf (6 + rd buf 4))

/-- The length of the vector `certificate_authorities` of a
CertificateRequest of TLS 1.2: the two bytes after the signature
algorithms. -/
def cert_req_dn_len_tls12 (buf : Bytes) : Nat :=
  shl8_or (rd buf (7 + (rd buf 4 + cert_req_sig_algs_len buf)))
    (rd buf (8 + (rd buf 4 + cert_req_sig_algs_len buf)))

/-- The length of the vector `certificate_authorities` of a
CertificateRequest below TLS 1.2: the two bytes after the certificate
types. -/
def cert_req_dn_len (buf : Bytes) : Nat :=
  shl8_or (rd buf (5 + rd buf 4)) (rd buf (6 + rd buf 4))

/-- A TLS 1.1 client with an RSA key that waits for the
CertificateRequest. -/
def ssl_awaits_cert_request_tls11 : ntbtls_t :=
  { state := TLS_CERTIFICATE_REQUEST, minor_ver := 2,
    own_key := some ⟨pk_type_t.RSA⟩, ciphersuite_info := some suite_rsa }

/-- The ciphersuite ids that `write_client_hello` writes (lines 482-509):
`SSL_EMPTY_RENEGOTIATION_INFO` on an initial handshake, then the ids of the
configured list that pass the loop. -/
def client_hello_suite_ids (env : Env) (tls : ntbtls_t) : List Nat :=
  (if tls.renegotiation = SSL_INITIAL_HANDSHAKE then [SSL_EMPTY_RENEGOTIATION_INFO]
    else []) ++
  write_client_hello_ciphersuites env (write_client_hello_versions tls)
    ((write_client_hello_versions tls).ciphersuite_list
      (write_client_hello_versions tls).minor_ver)

/-- The fields of the session that the resumption decision of
`parse_server_hello` settles and no later part of the function writes,
apart from the compression method. -/
def session_frame (a b : ntbtls_t) : Prop :=
  a.handshake.resume = b.handshake.resume ∧
  a.session_negotiate.ciphersuite = b.session_negotiate.ciphersuite ∧
  a.session_negotiate.compression = b.session_negotiate.compression ∧
  a.session_negotiate.length = b.session_negotiate.length ∧
  a.session_negotiate.id = b.session_negotiate.id

/-- The ServerHello of the record layer answers the cached session: initial
handshake, resumption permitted, a session id that is not empty, and the
ciphersuite, the compression method, the length of the session id and its
bytes equal to the cached ones. -/
def session_matches (env : Env) (ssl : ntbtls_t) : Prop :=
  ssl.renegotiation = SSL_INITIAL_HANDSHAKE ∧ ssl.handshake.resume ≠ 0 ∧
  server_hello_n env.in_msg ≠ 0 ∧
  server_hello_i env.in_msg = ssl.session_negotiate.ciphersuite ∧
  server_hello_comp env.in_msg = ssl.session_negotiate.compression ∧
  server_hello_n env.in_msg = ssl.session_negotiate.length ∧
  ∀ j, j < server_hello_n env.in_msg →
    rd env.in_msg (39 + j) = rd ssl.session_negotiate.id j

/-- A ServerHello for suite `0x002F` with TLS 1.2, a session id of sixteen
bytes `09` and null compression, without extensions. -/
def hello_resumed : Bytes :=
  [2, 0, 0, 54, 3, 3] ++ List.replicate 32 7 ++ [16] ++ List.replicate 16 9 ++ [0, 0x2F, 0]

/-- The record layer delivers `hello_resumed`; the ciphersuite table knows
every id. -/
def env_resumed : Env :=
  { in_msgtype := 22, in_msg := hello_resumed, in_hslen := 58,
    ssl_ciphersuite_from_id := table_all }

/-- A client in state ServerHello that offers suite `0x002F` and holds a
session with sixteen bytes `09` as id, suite `0x002F` and null compression;
resumption is permitted. -/
def ssl_cached : ntbtls_t :=
  { state := TLS_SERVER_HELLO, max_minor_ver := 3,
    ciphersuite_list := fun _ => [0x2F],
    handshake := { resume := 1 },
    session_negotiate := { ciphersuite := 0x2F, compression := 0, length := 16,
                           id := List.replicate 16 9 } }

/-- As `ssl_cached`, with another cached id. -/
def ssl_cached_other : ntbtls_t :=
  { state := TLS_SERVER_HELLO, max_minor_ver := 3,
    ciphersuite_list := fun _ => [0x2F],
    handshake := { resume := 1 },
    session_negotiate := { ciphersuite := 0x2F, compression := 0, length := 16,
                           id := List.replicate 16 8 } }

/-- The state of `tls` is one whose handler `_ntbtls_handshake_client_step`
takes from another module: the certificate handlers, the ChangeCipherSpec
and Finished handlers and the wrap-up. -/
def delegated_state (tls : ntbtls_t) : Prop :=
  tls.state = TLS_SERVER_CERTIFICATE ∨ tls.state = TLS_CLIENT_CERTIFICATE ∨
  tls.state = TLS_CLIENT_CHANGE_CIPHER_SPEC ∨ tls.state = TLS_CLIENT_FINISHED ∨
  (tls.state = TLS_SERVER_CHANGE_CIPHER_SPEC ∧ tls.handshake.new_session_ticket = 0) ∨
  tls.state = TLS_SERVER_FINISHED ∨ tls.state = TLS_HANDSHAKE_WRAPUP

/-- The handlers of the other modules do not lower the state. -/
def delegated_forward (env : Env) : Prop :=
  ∀ t : ntbtls_t,
    t.state ≤ (env.parse_certificate t).2.state ∧
    t.state ≤ (env.write_certificate t).2.state ∧
    t.state ≤ (env.write_change_cipher_spec t).2.state ∧
    t.state ≤ (env.write_finished t).2.state ∧
    t.state ≤ (env.parse_change_cipher_spec t).2.state ∧
    t.state ≤ (env.parse_finished t).2.state ∧
    t.state ≤ (env.handshake_wrapup t).state

/-- Handlers of the other modules that advance the state by one. -/
def env_delegated_advance : Env :=
  { in_msgtype := 22, in_msg := hello_resumed, in_hslen := 58,
    ssl_ciphersuite_from_id := table_all,
    parse_certificate := fun s => (Ret.ok, { s with state := s.state + 1 }),
    write_certificate := fun s => (Ret.ok, { s with state := s.state + 1 }),
    write_change_cipher_spec := fun s => (Ret.ok, { s with state := s.state + 1 }),
    write_finished := fun s => (Ret.ok, { s with state := s.state + 1 }),
    parse_change_cipher_spec := fun s => (Ret.ok, { s with state := s.state + 1 }),
    parse_finished := fun s => (Ret.ok, { s with state := s.state + 1 }),
    handshake_wrapup := fun s => { s with state := s.state + 1 } }

/-- The context after `parse_server_key_exchange` looked ahead for a PSK or
RSA-PSK suite (lines 1390-1397 and 1551): the message read stays in the
context, `record_read` is 1 and the state is advanced. -/
def ctx_lookahead (env : Env) (tls : ntbtls_t) : ntbtls_t :=
  { ctx_after_read env tls with record_read := 1, state := tls.state + 1 }

/-- The PSK suite `0x008C`, for TLS 1.0 to TLS 1.2. -/
def suite_psk : ssl_ciphersuite_t :=
  ⟨0x8C, key_exchange_type_t.PSK, md_type_t.SHA1, 1, 3⟩

/-- A client that negotiated `suite_psk` and waits for the
ServerKeyExchange. -/
def ssl_psk : ntbtls_t :=
  { state := TLS_SERVER_KEY_EXCHANGE, minor_ver := 3, ciphersuite_info := some suite_psk }

/-- As `ssl_psk`, with the suite `suite_dhe_psk`. -/
def ssl_awaits_kex_dhe_psk : ntbtls_t :=
  { state := TLS_SERVER_KEY_EXCHANGE, minor_ver := 3,
    ciphersuite_info := some suite_dhe_psk }

/-- As `ssl_dhe_rsa`, with TLS 1.1 negotiated. -/
def ssl_dhe_rsa_tls11 : ntbtls_t := { ssl_dhe_rsa with minor_ver := 2 }

/-- The configured protocol name `p` is the name of the ALPN payload `buf`:
as long as the name length byte `buf[2]` says, with the same bytes. -/
def alpn_name_matches (buf p : Bytes) : Prop :=
  p.length = rd buf 2 ∧ ∀ k, k < rd buf 2 → rd p k = rd buf (3 + k)

/-- The ALPN payload of a ServerHello that selects the protocol `h3`. -/
def alpn_payload_h3 : Bytes := [0, 3, 2, 104, 51]

/-- An ALPN payload with the two names `h2` and `h3`. -/
def alpn_payload_two : Bytes := [0, 6, 2, 104, 50, 2, 104, 51]

/-- A client about to write its ClientHello whose ciphersuite list for minor
version 1, its minimum version, is `0x0035` and for every other version
`0x002F`; truncated HMAC is offered and legacy renegotiation allowed. -/
def ssl_versioned_lists : ntbtls_t :=
  { state := TLS_CLIENT_HELLO, trunc_hmac := SSL_TRUNC_HMAC_ENABLED,
    ciphersuite_list := fun v => if v = 1 then [0x35] else [0x2F],
    allow_legacy_renegotiation := TLS_LEGACY_ALLOW_RENEGOTIATION }

/-- A ciphersuite table that knows every id as an RSA suite for minor
version 0 only. -/
def table_ssl3_only (i : Nat) : Option ssl_ciphersuite_t :=
  some ⟨i, key_exchange_type_t.RSA, md_type_t.SHA1, 0, 0⟩

/-- The record layer delivers `hello_plain`; the ciphersuite table is
`table_ssl3_only`. -/
def env_plain_ssl3_suites : Env :=
  { in_msg := hello_plain, in_hslen := 48, ssl_ciphersuite_from_id := table_ssl3_only }

/-- A client about to write its ClientHello that offers suite `0x002F` for
every version, with minor version 1 at least; truncated HMAC is offered and
legacy renegotiation allowed. -/
def ssl_min_tls10 : ntbtls_t :=
  { state := TLS_CLIENT_HELLO, trunc_hmac := SSL_TRUNC_HMAC_ENABLED,
    ciphersuite_list := fun _ => [0x2F], min_minor_ver := 1,
    allow_legacy_renegotiation := TLS_LEGACY_ALLOW_RENEGOTIATION }

/-- Subtraction of two `size_t` values of `w` bits, as the machine does it:
the difference modulo `2 ^ w`. -/
def size_t_sub (w a b : Nat) : Nat := (a + 2 ^ w - b % 2 ^ w) % 2 ^ w

/-- One pass through the body of the `while (ext_len)` loop of
`parse_server_hello` (lines 939-1026), with `size_t` of `w` bits: either the
function returns (left: the code, the context, `renegotiation_info_seen`),
or the loop goes on (right: the context, `ext`, `ext_len` and
`renegotiation_info_seen` for the next test of the loop condition). -/
def parse_server_hello_ext_body (w : Nat) (env : Env) (ssl : ntbtls_t) (ext : Bytes)
    (ext_len : Nat) (renegotiation_info_seen : Nat) :
    (Ret × ntbtls_t × Nat) ⊕ (ntbtls_t × Bytes × Nat × Nat) :=
  let ext_id := shl8_or (rd ext 0) (rd ext 1)
  let ext_size := shl8_or (rd ext 2) (rd ext 3)
  if ext_size + 4 > ext_len then
    Sum.inl (Ret.BAD_HS_SERVER_HELLO, ssl, renegotiation_info_seen)
  else
    let r := parse_server_hello_ext_switch env ssl ext_id (ext.drop 4)
      ext_size renegotiation_info_seen
    if r.1 ≠ Ret.ok then Sum.inl r else
    let ext_len := size_t_sub w ext_len (4 + ext_size)
    let ext := ext.drop (4 + ext_size)
    if ext_len > 0 ∧ ext_len < 4 then
      Sum.inl (Ret.BAD_HS_SERVER_HELLO, r.2.1, r.2.2)
    else Sum.inr (r.2.1, ext, ext_len, r.2.2)

/-- The `while (ext_len)` loop of `parse_server_hello` (lines 937-1027) run
for at most `fuel` passes through its body, with `size_t` of `w` bits:
`none` when the loop has not ended by then. -/
def parse_server_hello_ext_while (w : Nat) (env : Env) :
    Nat → ntbtls_t → Bytes → Nat → Nat → Option (Ret × ntbtls_t × Nat)
  | 0, ssl, _, ext_len, seen => if ext_len = 0 then some (Ret.ok, ssl, seen) else none
  | fuel + 1, ssl, ext, ext_len, seen =>
    if ext_len = 0 then some (Ret.ok, ssl, seen) else
    match parse_server_hello_ext_body w env ssl ext ext_len seen with
    | Sum.inl r => some r
    | Sum.inr (ssl, ext, ext_len, seen) =>
      parse_server_hello_ext_while w env fuel ssl ext ext_len seen

/-- The `ext_size` fields of the entries of an extension block, given by
the pointer `ext` to its first byte and its length `ext_len`, read entry
after entry as long as the 4-byte header and the payload of the entry lie
inside the block; at most `fuel` entries. -/
def ext_entry_sizes_upto : Nat → Bytes → Nat → List Nat
  | 0, _, _ => []
  | fuel + 1, ext, ext_len =>
    if ext_len = 0 then []
    else if shl8_or (rd ext 2) (rd ext 3) + 4 > ext_len then []
    else shl8_or (rd ext 2) (rd ext 3) ::
      ext_entry_sizes_upto fuel (ext.drop (4 + shl8_or (rd ext 2) (rd ext 3)))
        (ext_len - (4 + shl8_or (rd ext 2) (rd ext 3)))

/-- The `ext_size` fields of the entries of an extension block of `ext_len`
bytes; an entry takes at least 4 bytes, so that `ext_len` entries are
enough. -/
def ext_entry_sizes (ext : Bytes) (ext_len : Nat) : List Nat :=
  ext_entry_sizes_upto ext_len ext ext_len

/-- An extension as an encoder of the ClientHello leaves it, `w` being the
bytes written and `*olen` their number: when `*olen > 0`, it is at least 4
and the big-endian 16-bit field in bytes 2..3 is `*olen - 4`. -/
def well_framed (w : Bytes) : Prop :=
  w.length > 0 → 4 ≤ w.length ∧ shl8_or (rd w 2) (rd w 3) = w.length - 4

/-- The hostname, ticket and protocol-name lengths of a configuration fit
their length fields: `hostname_len + 5 < 65536`, `ticket_len < 65536`, and
each ALPN protocol name is under 256 bytes. -/
def lengths_fit (ssl : ntbtls_t) : Prop :=
  ssl.hostname_len + 5 < 65536 ∧ ssl.session_negotiate.ticket_len < 65536 ∧
  ∀ l, ssl.alpn_list = some l → ∀ name ∈ l, name.length < 256

/-- A client that offers session tickets and has no ticket in store, while
`ticket_len` is 5. -/
def ssl_ticket_len_only : ntbtls_t :=
  { session_tickets := 1, session_negotiate := { ticket := none, ticket_len := 5 } }

/-- A renegotiating client whose `verify_data_len` is 255. -/
def ssl_long_verify_data : ntbtls_t :=
  { renegotiation := TLS_RENEGOTIATION, verify_data_len := 255 }

/-- A curve table that knows every group, with the TLS id 23. -/
def env_curves_known : Env := { ecp_curve_info_from_grp_id := fun _ => some 23 }

/-- A client whose curve list names group 1 32767 times. -/
def ssl_many_curves : ntbtls_t := { curve_list := List.replicate 32767 1 }

/-- A client that offers 256 ALPN protocol names of 255 bytes each. -/
def ssl_many_protocols : ntbtls_t :=
  { alpn_list := some (List.replicate 256 (List.replicate 255 104)) }

/-- A client with the hostname `a.b`, TLS 1.2 as highest version, two
curves, a maximum fragment length code, truncated HMAC, the ticket `01 02`
and the two ALPN protocol names `h2` and `h3`, in a renegotiation with
verify data of 12 bytes. -/
def ssl_all_extensions : ntbtls_t :=
  { hostname := some [97, 46, 98], hostname_len := 3,
    renegotiation := TLS_RENEGOTIATION, verify_data_len := 12,
    curve_list := [1, 2, 0], mfl_code := 1, trunc_hmac := SSL_TRUNC_HMAC_ENABLED,
    session_tickets := 1,
    session_negotiate := { ticket := some [1, 2], ticket_len := 2 },
    alpn_list := some [[104, 50], [104, 51]] }

/-- A context with another input message: `in_msg` and `in_hslen`
replaced. -/
def with_in_msg (ssl : ntbtls_t) (m : Bytes) (h : Nat) : ntbtls_t :=
  { ssl with in_msg := m, in_hslen := h }

/-- An extension type for which the `switch` of `parse_server_hello`
(lines 948-1017) has a `case`: renegotiation_info, max_fragment_length,
truncated_hmac, session_ticket, ec_point_formats or ALPN. -/
def ext_known (ext_id : Nat) : Bool :=
  decide (ext_id = TLS_EXT_RENEGOTIATION_INFO ∨ ext_id = TLS_EXT_MAX_FRAGMENT_LENGTH ∨
    ext_id = TLS_EXT_TRUNCATED_HMAC ∨ ext_id = TLS_EXT_SESSION_TICKET ∨
    ext_id = TLS_EXT_SUPPORTED_POINT_FORMATS ∨ ext_id = TLS_EXT_ALPN)

/-- An extension block, given by the pointer `ext` to its first byte and
its length `ext_len`, is made of at most `fuel` entries, each with its
4-byte header and its payload inside the block. -/
def ext_tiled_upto : Nat → Bytes → Nat → Prop
  | 0, _, ext_len => ext_len = 0
  | fuel + 1, ext, ext_len =>
    ext_len = 0 ∨
    (shl8_or (rd ext 2) (rd ext 3) + 4 ≤ ext_len ∧
      ext_tiled_upto fuel (ext.drop (4 + shl8_or (rd ext 2) (rd ext 3)))
        (ext_len - (4 + shl8_or (rd ext 2) (rd ext 3))))

/-- An extension block of `ext_len` bytes is made of entries, each with its
4-byte header and its payload inside the block. -/
def ext_tiled (ext : Bytes) (ext_len : Nat) : Prop := ext_tiled_upto ext_len ext ext_len

/-- An extension block without its entries of unknown type: the entries
whose type is known, header and payload, in their order; at most `fuel`
entries are read. -/
def ext_strip_upto : Nat → Bytes → Nat → Bytes
  | 0, _, _ => []
  | fuel + 1, ext, ext_len =>
    if ext_len = 0 then []
    else if shl8_or (rd ext 2) (rd ext 3) + 4 > ext_len then []
    else
      (if ext_known (shl8_or (rd ext 0) (rd ext 1)) = true then
          rdn ext (4 + shl8_or (rd ext 2) (rd ext 3))
        else []) ++
      ext_strip_upto fuel (ext.drop (4 + shl8_or (rd ext 2) (rd ext 3)))
        (ext_len - (4 + shl8_or (rd ext 2) (rd ext 3)))

/-- An extension block of `ext_len` bytes without its entries of unknown
type. -/
def ext_strip (ext : Bytes) (ext_len : Nat) : Bytes := ext_strip_upto ext_len ext ext_len

/-- The extensions length field of a ServerHello: the 16-bit field at
`42 + n`. -/
def server_hello_ext_field (buf : Bytes) : Nat :=
  shl8_or (rd buf (42 + server_hello_n buf)) (rd buf (43 + server_hello_n buf))

/-- The extension block of a ServerHello without its entries of unknown
type. -/
def server_hello_strip (buf : Bytes) : Bytes :=
  ext_strip (buf.drop (44 + server_hello_n buf)) (server_hello_ext_field buf)

/-- A ServerHello with the entries of unknown type removed from its
extension block and the length fields adjusted: the handshake type, the
24-bit handshake length, the bytes from the version to the compression
method, the extensions length and the remaining entries. -/
def server_hello_stripped (buf : Bytes) : Bytes :=
  [rd buf 0,
    u8 ((40 + server_hello_n buf + (server_hello_strip buf).length) >>> 16),
    u8 ((40 + server_hello_n buf + (server_hello_strip buf).length) >>> 8),
    u8 (40 + server_hello_n buf + (server_hello_strip buf).length)]
    ++ rdn (buf.drop 4) (38 + server_hello_n buf)
    ++ be16_bytes (server_hello_strip buf).length
    ++ server_hello_strip buf

/-- The record layer delivering the ServerHello of `env` with the entries of
unknown type removed; `in_hslen` is adjusted. -/
def env_stripped (env : Env) : Env :=
  { env with
    in_msg := server_hello_stripped env.in_msg,
    in_hslen := 44 + server_hello_n env.in_msg + (server_hello_strip env.in_msg).length }

/-- A ServerHello for suite `0x002F` with TLS 1.2, an empty session id, null
compression and two extension entries: one of the unknown type 99 with the
payload `01 02`, and an empty truncated_hmac. -/
def hello_unknown_ext : Bytes :=
  [2, 0, 0, 50, 3, 3] ++ List.replicate 32 7 ++ [0, 0, 0x2F, 0] ++
    [0, 10, 0, 99, 0, 2, 1, 2, 0, 4, 0, 0]

/-- The record layer delivers `hello_unknown_ext`. -/
def env_unknown_ext : Env :=
  { in_msg := hello_unknown_ext, in_hslen := 54, ssl_ciphersuite_from_id := table_all }

/-- A context with the compression method of the session under negotiation
replaced (line 932 of `parse_server_hello`). -/
def with_compression (ssl : ntbtls_t) (comp : Nat) : ntbtls_t :=
  { ssl with session_negotiate := { ssl.session_negotiate with compression := comp } }

/-- The parts of `parse_server_hello` after the record is read
(lines 783-1071); every part that returns a non-zero code ends the
function. -/
def parse_server_hello_after_read (env : Env) (ssl : ntbtls_t) : Ret × ntbtls_t :=
  let r := parse_server_hello_version ssl
  if r.1 ≠ Ret.ok then r else
  let r := parse_server_hello_fields env r.2
  if r.1 ≠ Ret.ok then r else
  let r := parse_server_hello_resume env r.2
  if r.1 ≠ Ret.ok then r else
  parse_server_hello_tail env r.2

/-- A digest table that knows md5 (code 1) besides the five hashes of
`md_alg_from_hash_offered`.  The function `_ntbtls_md_alg_from_hash` is not
in the sources, and `ssl_parse_signature_algorithm` (lines 1277-1282) takes
whatever digest it returns. -/
def md_alg_from_hash_md5 (hash : Nat) : md_type_t :=
  if hash = 1 then md_type_t.MD5 else md_alg_from_hash_offered hash

/-- As `env_signed 1 1 Ret.ok`, the ServerKeyExchange with the
SignatureAndHashAlgorithm `md5, rsa` and a signature that verifies, with the
digest table `md_alg_from_hash_md5`. -/
def env_signed_md5 : Env :=
  { in_msg := server_kex_signed 1 1, in_hslen := 14,
    dhm_read_params := fun _ _ => (Ret.ok, 4, 64),
    md_alg_from_hash := md_alg_from_hash_md5,
    pk_alg_from_sig := pk_alg_from_sig_codes,
    ssl_get_ciphersuite_sig_pk_alg := sig_pk_alg_of_suite,
    pk_can_do := fun _ t => decide (t = pk_type_t.RSA),
    pk_verify := fun _ _ _ _ _ => Ret.ok }

/-- The ServerHello has passed every check of `parse_server_hello` that
precedes the resumption decision (lines 777-866): the record is read and the
version accepted, the session id is at most 32 bytes long, the lengths
agree, and the ciphersuite table knows the suite. -/
def server_hello_decided (env : Env) (ssl : ntbtls_t) : Prop :=
  version_accepted env ssl ∧ server_hello_n env.in_msg ≤ 32 ∧
  ¬ bad_length env.in_msg env.in_hslen ∧
  env.ssl_ciphersuite_from_id (server_hello_i env.in_msg) ≠ none

/-- A handshake message is at hand for `parse_certificate_request`
(lines 1592-1607): the previous handler left it (`record_read`), or it is
read now and is a handshake message.  The suite is known, as the source
takes for granted. -/
def cert_request_at_hand (env : Env) (ssl : ntbtls_t) : Prop :=
  ssl.ciphersuite_info ≠ none ∧
  (ssl.record_read ≠ 0 ∨
    (env.read_record = Ret.ok ∧ env.in_msgtype = TLS_MSG_HANDSHAKE))

/-- The function `write_client_key_exchange` gets as far as its record write
(line 1912): the key exchange message is built and the keys are derived. -/
def client_key_exchange_built (env : Env) (ssl : ntbtls_t) : Prop :=
  ∃ ci, ssl.ciphersuite_info = some ci ∧
    (write_client_key_exchange_body env ssl ci.key_exchange).1 = Ret.ok ∧
    env.derive_keys = Ret.ok

/-- The function `write_certificate_verify` gets as far as its record write
(line 2023): a key is there, TLS 1.2 is negotiated and `pk_sign` has made
the signature. -/
def certificate_verify_signed (env : Env) (ssl : ntbtls_t) : Prop :=
  ∃ ci key, ssl.ciphersuite_info = some ci ∧ ssl.own_key = some key ∧
    ssl.minor_ver = SSL_MINOR_VERSION_3 ∧
    (env.pk_sign key
      (if ci.mac = md_type_t.SHA384 then md_type_t.SHA384 else md_type_t.SHA256)
      env.calc_verify 0).1 = Ret.ok

/-! # Properties -/

/-! ## Buffers and stages of `parse_server_hello` -/

theorem rd_drop (b : Bytes) (k i : Nat) : rd (b.drop k) i = rd b (k + i) := by
  simp [rd, List.getD_eq_getElem?_getD, List.getElem?_drop]

theorem read_record_ok (env : Env) (ssl : ntbtls_t) (h : env.read_record = Ret.ok) :
    _ntbtls_read_record env ssl = (Ret.ok, { ssl with
      in_msgtype := env.in_msgtype, in_msg := env.in_msg, in_hslen := env.in_hslen }) := by
  simp [_ntbtls_read_record, h]

theorem read_record_err (env : Env) (ssl : ntbtls_t) (h : env.read_record ≠ Ret.ok) :
    _ntbtls_read_record env ssl = (env.read_record, ssl) := by
  simp [_ntbtls_read_record, h]

theorem version_ok_iff (s : ntbtls_t) :
    (parse_server_hello_version s).1 = Ret.ok ↔
      s.in_msgtype = TLS_MSG_HANDSHAKE ∧ 42 ≤ s.in_hslen ∧
      rd s.in_msg 0 = TLS_HS_SERVER_HELLO ∧ rd s.in_msg 4 = SSL_MAJOR_VERSION_3 ∧
      rd s.in_msg 5 ≤ s.max_minor_ver ∧ s.min_minor_ver ≤ rd s.in_msg 5 := by
  unfold parse_server_hello_version
  simp only []
  split_ifs with h1 h2 h3 h4
  · simp_all
  · simp only [reduceCtorEq, false_iff]; simp at h2 ⊢; omega
  · simp only [reduceCtorEq, false_iff]; omega
  · simp only [reduceCtorEq, false_iff]; simp at h4; omega
  · simp at h1 h2 h3 h4 ⊢
    omega

theorem version_snd (s : ntbtls_t) :
    (parse_server_hello_version s).2 = s ∨
    (parse_server_hello_version s).2 = { s with minor_ver := rd s.in_msg 5 } := by
  unfold parse_server_hello_version
  simp only []
  split_ifs <;> simp

theorem version_snd_ok (s : ntbtls_t) (h : (parse_server_hello_version s).1 = Ret.ok) :
    (parse_server_hello_version s).2 = { s with minor_ver := rd s.in_msg 5 } := by
  unfold parse_server_hello_version at h ⊢
  simp only [] at h ⊢
  split_ifs at h ⊢
  all_goals simp at h ⊢


theorem fields_ok_iff (env : Env) (s : ntbtls_t) :
    (parse_server_hello_fields env s).1 = Ret.ok ↔
      server_hello_n s.in_msg ≤ 32 ∧
      ¬ (s.in_hslen > 42 + server_hello_n s.in_msg ∧
        ((server_hello_ext_len s.in_msg s.in_hslen > 0 ∧
            server_hello_ext_len s.in_msg s.in_hslen < 4) ∨
          s.in_hslen ≠ 44 + server_hello_n s.in_msg +
            server_hello_ext_len s.in_msg s.in_hslen)) ∧
      env.ssl_ciphersuite_from_id (server_hello_i s.in_msg) ≠ none := by
  unfold parse_server_hello_fields
  simp only []
  split_ifs with h1 h2 h3
  · simp only [reduceCtorEq, false_iff]; intro h; omega
  · simp only [reduceCtorEq, false_iff]; intro h; exact h.2.1 h2
  · simp only [reduceCtorEq, false_iff]; intro h; exact h.2.2 h3
  · simp only [true_iff]; exact ⟨by omega, h2, h3⟩

theorem fields_snd (env : Env) (s : ntbtls_t) :
    (parse_server_hello_fields env s).2 = { s with handshake := { s.handshake with
        randbytes := memcpy s.handshake.randbytes 32 (s.in_msg.drop 6) 32 } } ∨
    (parse_server_hello_fields env s).2 = { s with
      handshake := { s.handshake with
        randbytes := memcpy s.handshake.randbytes 32 (s.in_msg.drop 6) 32 },
      ciphersuite_info := env.ssl_ciphersuite_from_id (server_hello_i s.in_msg) } := by
  unfold parse_server_hello_fields
  simp only []
  split_ifs <;> simp

theorem fields_snd_ok (env : Env) (s : ntbtls_t)
    (h : (parse_server_hello_fields env s).1 = Ret.ok) :
    (parse_server_hello_fields env s).2 = { s with
      handshake := { s.handshake with
        randbytes := memcpy s.handshake.randbytes 32 (s.in_msg.drop 6) 32 },
      ciphersuite_info := env.ssl_ciphersuite_from_id (server_hello_i s.in_msg) } := by
  unfold parse_server_hello_fields at h ⊢
  simp only [] at h ⊢
  split_ifs at h ⊢
  all_goals simp at h ⊢


theorem resume_no (env : Env) (s : ntbtls_t) (h : no_resume s) :
    parse_server_hello_resume env s = (Ret.ok, { s with
      state := s.state + 1,
      handshake := { s.handshake with resume := 0 },
      session_negotiate := { s.session_negotiate with
        start := env.time,
        ciphersuite := server_hello_i s.in_msg,
        compression := server_hello_comp s.in_msg,
        length := server_hello_n s.in_msg,
        id := memcpy s.session_negotiate.id 0 (s.in_msg.drop 39)
          (server_hello_n s.in_msg) } }) := by
  unfold parse_server_hello_resume
  unfold no_resume at h
  simp only []
  rw [if_pos h]

theorem resume_yes (env : Env) (s : ntbtls_t) (h : ¬ no_resume s) :
    parse_server_hello_resume env s =
      (env.derive_keys, { s with state := TLS_SERVER_CHANGE_CIPHER_SPEC }) := by
  unfold parse_server_hello_resume
  unfold no_resume at h
  simp only []
  rw [if_neg h]
  split_ifs with h1
  · rfl
  · simp at h1; simp [h1]

theorem resume_ciphersuite (env : Env) (s : ntbtls_t) :
    (parse_server_hello_resume env s).2.session_negotiate.ciphersuite =
      server_hello_i s.in_msg := by
  by_cases h : no_resume s
  · rw [resume_no env s h]
  · rw [resume_yes env s h]
    simp only [no_resume] at h
    push_neg at h
    exact h.2.2.2.1


theorem ext_frame_refl (a : ntbtls_t) : ext_frame a a := by
  simp [ext_frame]

theorem ext_frame_trans {a b c : ntbtls_t} (h1 : ext_frame a b) (h2 : ext_frame b c) :
    ext_frame a c := by
  simp only [ext_frame] at *
  obtain ⟨a1,a2,a3,a4,a5,a6,a7,a8,a9,a10,a11,a12,a13,a14,a15,a16,a17⟩ := h1
  obtain ⟨b1,b2,b3,b4,b5,b6,b7,b8,b9,b10,b11,b12,b13,b14,b15,b16,b17⟩ := h2
  exact ⟨a1.trans b1, a2.trans b2, a3.trans b3, a4.trans b4, a5.trans b5, a6.trans b6,
    a7.trans b7, a8.trans b8, a9.trans b9, a10.trans b10, a11.trans b11, a12.trans b12,
    a13.trans b13, a14.trans b14, a15.trans b15, a16.trans b16, a17.trans b17⟩

theorem point_formats_loop_frame (ssl : ntbtls_t) (k : Nat) (p : Bytes) :
    ext_frame ssl (ssl_parse_supported_point_formats_loop ssl k p).2 := by
  induction k generalizing p with
  | zero => simp [ssl_parse_supported_point_formats_loop, ext_frame]
  | succ k ih =>
    rw [ssl_parse_supported_point_formats_loop]
    split
    · simp [ext_frame]
    · exact ih _

theorem alpn_loop_frame (ssl : ntbtls_t) (buf : Bytes) (k : Nat) (l : List Bytes) :
    ext_frame ssl (ssl_parse_alpn_loop ssl buf k l).2 := by
  induction l with
  | nil => simp [ssl_parse_alpn_loop, ext_frame]
  | cons p rest ih =>
    rw [ssl_parse_alpn_loop]
    split
    · simp [ext_frame]
    · exact ih

theorem ext_switch_frame (env : Env) (ssl : ntbtls_t) (id : Nat) (buf : Bytes)
    (size seen : Nat) :
    ext_frame ssl (parse_server_hello_ext_switch env ssl id buf size seen).2.1 := by
  unfold parse_server_hello_ext_switch
  split_ifs
  · simp only [ssl_parse_renegotiation_info]; split_ifs <;> simp [ext_frame]
  · simp only [ssl_parse_max_fragment_length_ext]; split_ifs <;> simp [ext_frame]
  · simp only [ssl_parse_truncated_hmac_ext]; split_ifs <;> simp [ext_frame]
  · simp only [ssl_parse_session_ticket_ext]; split_ifs <;> simp [ext_frame]
  · simp only [ssl_parse_supported_point_formats_ext]
    split_ifs
    · simp [ext_frame]
    · exact point_formats_loop_frame _ _ _
  · simp only [ssl_parse_alpn_ext]
    split
    · simp [ext_frame]
    · split_ifs
      · simp [ext_frame]
      · simp [ext_frame]
      · simp [ext_frame]
      · exact alpn_loop_frame _ _ _ _
  · simp [ext_frame]

theorem ext_loop_unfold (env : Env) (ssl : ntbtls_t) (ext : Bytes) (ext_len seen : Nat) :
    parse_server_hello_ext_loop env ssl ext ext_len seen =
      if ext_len = 0 then (Ret.ok, ssl, seen)
      else if shl8_or (rd ext 2) (rd ext 3) + 4 > ext_len then
        (Ret.BAD_HS_SERVER_HELLO, ssl, seen)
      else if (parse_server_hello_ext_switch env ssl (shl8_or (rd ext 0) (rd ext 1))
          (ext.drop 4) (shl8_or (rd ext 2) (rd ext 3)) seen).1 ≠ Ret.ok then
        parse_server_hello_ext_switch env ssl (shl8_or (rd ext 0) (rd ext 1))
          (ext.drop 4) (shl8_or (rd ext 2) (rd ext 3)) seen
      else if 0 < ext_len - (4 + shl8_or (rd ext 2) (rd ext 3)) ∧
          ext_len - (4 + shl8_or (rd ext 2) (rd ext 3)) < 4 then
        (Ret.BAD_HS_SERVER_HELLO,
          (parse_server_hello_ext_switch env ssl (shl8_or (rd ext 0) (rd ext 1))
            (ext.drop 4) (shl8_or (rd ext 2) (rd ext 3)) seen).2.1,
          (parse_server_hello_ext_switch env ssl (shl8_or (rd ext 0) (rd ext 1))
            (ext.drop 4) (shl8_or (rd ext 2) (rd ext 3)) seen).2.2)
      else
        parse_server_hello_ext_loop env
          (parse_server_hello_ext_switch env ssl (shl8_or (rd ext 0) (rd ext 1))
            (ext.drop 4) (shl8_or (rd ext 2) (rd ext 3)) seen).2.1
          (ext.drop (4 + shl8_or (rd ext 2) (rd ext 3)))
          (ext_len - (4 + shl8_or (rd ext 2) (rd ext 3)))
          (parse_server_hello_ext_switch env ssl (shl8_or (rd ext 0) (rd ext 1))
            (ext.drop 4) (shl8_or (rd ext 2) (rd ext 3)) seen).2.2 := by
  rw [parse_server_hello_ext_loop]
  simp only [dite_eq_ite]

theorem ext_loop_frame (env : Env) (ssl : ntbtls_t) (ext : Bytes) (ext_len seen : Nat) :
    ext_frame ssl (parse_server_hello_ext_loop env ssl ext ext_len seen).2.1 := by
  induction ext_len using Nat.strong_induction_on generalizing ssl ext seen with
  | _ ext_len ih =>
    rw [ext_loop_unfold]
    split_ifs
    · exact ext_frame_refl _
    · exact ext_frame_refl _
    · exact ext_switch_frame _ _ _ _ _ _
    · exact ext_switch_frame _ _ _ _ _ _
    · exact ext_frame_trans (ext_switch_frame env ssl _ _ _ seen) (ih _ (by omega) _ _ _)



theorem find_ciphersuite_iff (l : List Nat) (c : Nat) :
    parse_server_hello_find_ciphersuite l c = true ↔ c ∈ zero_terminated l := by
  induction l with
  | nil => simp [parse_server_hello_find_ciphersuite, zero_terminated]
  | cons x rest ih =>
    unfold parse_server_hello_find_ciphersuite
    by_cases hx : x = 0
    · simp [hx, zero_terminated]
    · by_cases hc : x = c
      · simp [hx, hc, zero_terminated, List.takeWhile_cons]
      · have hc' : ¬ c = x := fun h => hc h.symm
        simp only [hx, hc, if_false, ih]
        simp [zero_terminated, List.takeWhile_cons, hx, hc']

theorem tail_frame (env : Env) (s : ntbtls_t) :
    ext_frame s (parse_server_hello_tail env s).2 := by
  have hc : ext_frame s { s with session_negotiate :=
      { s.session_negotiate with compression := server_hello_comp s.in_msg } } := by
    simp [ext_frame]
  unfold parse_server_hello_tail
  simp only []
  split_ifs
  · exact ext_frame_refl _
  · exact ext_frame_refl _
  · exact ext_frame_trans hc (ext_loop_frame _ _ _ _ _)
  · exact ext_frame_trans hc (ext_loop_frame _ _ _ _ _)
  · exact ext_frame_trans hc (ext_loop_frame _ _ _ _ _)
  · exact ext_frame_trans hc (ext_loop_frame _ _ _ _ _)

theorem tail_ok (env : Env) (s : ntbtls_t) (h : (parse_server_hello_tail env s).1 = Ret.ok) :
    parse_server_hello_find_ciphersuite (s.ciphersuite_list s.minor_ver)
      s.session_negotiate.ciphersuite = true ∧
    (server_hello_comp s.in_msg = TLS_COMPRESS_NULL ∨
      server_hello_comp s.in_msg = TLS_COMPRESS_DEFLATE) ∧
    (parse_server_hello_ext_loop env
      { s with session_negotiate :=
        { s.session_negotiate with compression := server_hello_comp s.in_msg } }
      (s.in_msg.drop (44 + server_hello_n s.in_msg))
      (server_hello_ext_len s.in_msg s.in_hslen) 0).1 = Ret.ok := by
  unfold parse_server_hello_tail at h
  simp only [] at h
  split_ifs at h with h1 h2 h3 h4 h5
  all_goals first
    | exact absurd h h3
    | exact absurd h h5
    | (exfalso; simp at h; done)
    | skip
  refine ⟨by simpa using h1, ?_, by simpa using h3⟩
  simp only [TLS_COMPRESS_NULL, TLS_COMPRESS_DEFLATE] at h2 ⊢
  omega

theorem parse_server_hello_ok (env : Env) (ssl : ntbtls_t)
    (h : (parse_server_hello env ssl).1 = Ret.ok) :
    env.read_record = Ret.ok ∧ env.in_msgtype = TLS_MSG_HANDSHAKE ∧
    42 ≤ env.in_hslen ∧ rd env.in_msg 0 = TLS_HS_SERVER_HELLO ∧
    rd env.in_msg 4 = SSL_MAJOR_VERSION_3 ∧
    rd env.in_msg 5 ≤ ssl.max_minor_ver ∧ ssl.min_minor_ver ≤ rd env.in_msg 5 ∧
    server_hello_n env.in_msg ≤ 32 ∧ ¬ bad_length env.in_msg env.in_hslen ∧
    env.ssl_ciphersuite_from_id (server_hello_i env.in_msg) ≠ none ∧
    ∃ s : ntbtls_t,
      s.in_msg = env.in_msg ∧ s.in_hslen = env.in_hslen ∧
      s.minor_ver = rd env.in_msg 5 ∧ cfg_eq s ssl ∧
      s.session_negotiate.ciphersuite = server_hello_i env.in_msg ∧
      (s.state = ssl.state + 1 ∨ s.state = TLS_SERVER_CHANGE_CIPHER_SPEC) ∧
      (parse_server_hello_tail env s).1 = Ret.ok ∧
      (parse_server_hello env ssl).2 = (parse_server_hello_tail env s).2 := by
  unfold parse_server_hello at h ⊢
  simp only [] at h ⊢
  by_cases hr0 : (_ntbtls_read_record env ssl).1 = Ret.ok
  swap
  · exfalso; rw [if_pos hr0] at h; exact hr0 h
  rw [if_neg (not_not.mpr hr0)] at h ⊢
  have hr : env.read_record = Ret.ok := by
    by_contra hne
    rw [read_record_err env ssl hne] at hr0
    exact hne hr0
  have e1 : (_ntbtls_read_record env ssl).2.in_msg = env.in_msg ∧
      (_ntbtls_read_record env ssl).2.in_hslen = env.in_hslen ∧
      (_ntbtls_read_record env ssl).2.in_msgtype = env.in_msgtype ∧
      cfg_eq (_ntbtls_read_record env ssl).2 ssl ∧
      (_ntbtls_read_record env ssl).2.state = ssl.state := by
    rw [read_record_ok env ssl hr]; simp [cfg_eq]
  generalize (_ntbtls_read_record env ssl).2 = s1 at h e1 ⊢
  by_cases hv : (parse_server_hello_version s1).1 = Ret.ok
  swap
  · exfalso; rw [if_pos hv] at h; exact hv h
  rw [if_neg (not_not.mpr hv)] at h ⊢
  have hv2 := version_snd_ok s1 hv
  have hv1 := (version_ok_iff s1).mp hv
  generalize hs2 : (parse_server_hello_version s1).2 = s2 at h hv2 ⊢
  by_cases hf : (parse_server_hello_fields env s2).1 = Ret.ok
  swap
  · exfalso; rw [if_pos hf] at h; exact hf h
  rw [if_neg (not_not.mpr hf)] at h ⊢
  have hf2 := fields_snd_ok env s2 hf
  have hf1 := (fields_ok_iff env s2).mp hf
  generalize hs3 : (parse_server_hello_fields env s2).2 = s3 at h hf2 ⊢
  by_cases hre : (parse_server_hello_resume env s3).1 = Ret.ok
  swap
  · exfalso; rw [if_pos hre] at h; exact hre h
  rw [if_neg (not_not.mpr hre)] at h ⊢
  obtain ⟨a1, a2, a3, a4, a5⟩ := e1
  have b1 : s2.in_msg = env.in_msg := by rw [hv2]; exact a1
  have b2 : s2.in_hslen = env.in_hslen := by rw [hv2]; exact a2
  have c1 : s3.in_msg = env.in_msg := by rw [hf2]; exact b1
  have c2 : s3.in_hslen = env.in_hslen := by rw [hf2]; exact b2
  rw [a1, a2, a3] at hv1
  rw [b1, b2] at hf1
  have a4' := a4
  simp only [cfg_eq] at a4
  refine ⟨hr, hv1.1, hv1.2.1, hv1.2.2.1, hv1.2.2.2.1, ?_, ?_, hf1.1, hf1.2.1, hf1.2.2,
    (parse_server_hello_resume env s3).2, ?_, ?_, ?_, ?_, ?_, ?_, h, rfl⟩
  · rw [← a4.2.1]; exact hv1.2.2.2.2.1
  · rw [← a4.1]; exact hv1.2.2.2.2.2
  · by_cases hn : no_resume s3
    · rw [resume_no env s3 hn]; exact c1
    · rw [resume_yes env s3 hn]; exact c1
  · by_cases hn : no_resume s3
    · rw [resume_no env s3 hn]; exact c2
    · rw [resume_yes env s3 hn]; exact c2
  · have : s3.minor_ver = rd env.in_msg 5 := by rw [hf2, hv2]; simp [a1]
    by_cases hn : no_resume s3
    · rw [resume_no env s3 hn]; exact this
    · rw [resume_yes env s3 hn]; exact this
  · have : cfg_eq s3 ssl := by
      rw [hf2, hv2]; simpa [cfg_eq] using a4
    by_cases hn : no_resume s3
    · rw [resume_no env s3 hn]; simpa [cfg_eq] using this
    · rw [resume_yes env s3 hn]; simpa [cfg_eq] using this
  · rw [resume_ciphersuite, c1]
  · have : s3.state = ssl.state := by rw [hf2, hv2]; exact a5
    by_cases hn : no_resume s3
    · rw [resume_no env s3 hn]; left; simp [this]
    · rw [resume_yes env s3 hn]; right; rfl

/-! ## State changes of the handlers -/

theorem write_client_hello_versions_state (tls : ntbtls_t) :
    (write_client_hello_versions tls).state = tls.state := by
  unfold write_client_hello_versions
  simp only []
  split_ifs <;> rfl

theorem write_client_hello_state (env : Env) (tls : ntbtls_t)
    (h : (write_client_hello env tls).1 ≠ Ret.ok) :
    (write_client_hello env tls).2.state = tls.state ∨
    (env.write_record ≠ Ret.ok ∧ (write_client_hello env tls).2.state = tls.state + 1) := by
  unfold write_client_hello at h ⊢
  simp only [] at h ⊢
  have hv := write_client_hello_versions_state tls
  generalize write_client_hello_versions tls = t1 at h hv ⊢
  split_ifs at h ⊢ with h1 h2 h3 h4
  all_goals first
    | (left; exact hv)
    | (right; exact ⟨‹_›, by simp [hv]⟩)
    | (exfalso; exact h rfl)

theorem read_record_state (env : Env) (ssl : ntbtls_t) :
    (_ntbtls_read_record env ssl).2.state = ssl.state := by
  unfold _ntbtls_read_record
  split_ifs <;> rfl

theorem parse_server_hello_done_read_state (env : Env) (ssl : ntbtls_t) :
    (parse_server_hello_done_read env ssl).2.state = ssl.state := by
  unfold parse_server_hello_done_read
  simp only []
  have h2 := read_record_state env ssl
  generalize _ntbtls_read_record env ssl = r2 at h2 ⊢
  split_ifs
  all_goals first
    | rfl
    | exact h2

theorem parse_server_hello_done_state (env : Env) (ssl : ntbtls_t)
    (h : (parse_server_hello_done env ssl).1 ≠ Ret.ok) :
    (parse_server_hello_done env ssl).2.state = ssl.state := by
  unfold parse_server_hello_done at h ⊢
  simp only [] at h ⊢
  have h2 := parse_server_hello_done_read_state env ssl
  generalize parse_server_hello_done_read env ssl = r2 at h h2 ⊢
  split_ifs at h ⊢
  all_goals first
    | exact h2
    | (exfalso; exact h rfl)

theorem parse_new_session_ticket_state (env : Env) (ssl : ntbtls_t) :
    (parse_new_session_ticket env ssl).2.state = ssl.state := by
  unfold parse_new_session_ticket
  simp only []
  have h2 := read_record_state env ssl
  generalize _ntbtls_read_record env ssl = r2 at h2 ⊢
  split_ifs
  all_goals exact h2

theorem ssl_parse_server_dh_params_state (env : Env) (ssl : ntbtls_t) (p e : Nat) :
    (ssl_parse_server_dh_params env ssl p e).2.1.state = ssl.state := by
  unfold ssl_parse_server_dh_params
  simp only []
  split_ifs <;> rfl

theorem ssl_parse_server_ecdh_params_state (env : Env) (ssl : ntbtls_t) (p e : Nat) :
    (ssl_parse_server_ecdh_params env ssl p e).2.1.state = ssl.state := by
  unfold ssl_parse_server_ecdh_params
  simp only []
  split_ifs <;> rfl

theorem ssl_get_ecdh_params_from_cert_state (env : Env) (ssl : ntbtls_t) :
    (ssl_get_ecdh_params_from_cert env ssl).2.state = ssl.state := by
  unfold ssl_get_ecdh_params_from_cert
  simp only []
  split_ifs <;> rfl

theorem parse_server_key_exchange_params_state (env : Env) (ssl : ntbtls_t)
    (kx : key_exchange_type_t) (p e : Nat) :
    (parse_server_key_exchange_params env ssl kx p e).2.1.state = ssl.state := by
  unfold parse_server_key_exchange_params
  simp only []
  have h3 := ssl_parse_server_dh_params_state env ssl
  have h4 := ssl_parse_server_ecdh_params_state env ssl
  split_ifs
  all_goals first
    | rfl
    | exact h3 _ _
    | exact h4 _ _

theorem parse_server_key_exchange_message_state (env : Env) (ssl : ntbtls_t)
    (ci : ssl_ciphersuite_t)
    (h : (parse_server_key_exchange_message env ssl ci).1 ≠ Ret.ok) :
    (parse_server_key_exchange_message env ssl ci).2.state = ssl.state := by
  unfold parse_server_key_exchange_message at h ⊢
  simp only [] at h ⊢
  have hp := parse_server_key_exchange_params_state env ssl ci.key_exchange 4 ssl.in_hslen
  generalize parse_server_key_exchange_params env ssl ci.key_exchange 4 ssl.in_hslen = r at h hp ⊢
  split_ifs at h ⊢
  all_goals first
    | rfl
    | exact hp
    | (exfalso; exact h rfl)

theorem parse_server_key_exchange_state (env : Env) (ssl : ntbtls_t)
    (h : (parse_server_key_exchange env ssl).1 ≠ Ret.ok) :
    (parse_server_key_exchange env ssl).2.state = ssl.state := by
  unfold parse_server_key_exchange at h ⊢
  cases hci : ssl.ciphersuite_info with
  | none => simp only [hci]
  | some ci =>
    simp only [hci] at h ⊢
    have h1 := ssl_get_ecdh_params_from_cert_state env ssl
    have h2 := read_record_state env ssl
    generalize ssl_get_ecdh_params_from_cert env ssl = r1 at h h1 ⊢
    generalize _ntbtls_read_record env ssl = r2 at h h2 ⊢
    split_ifs at h ⊢
    all_goals first
      | rfl
      | exact h1
      | exact h2
      | (exfalso; exact h rfl)
      | (rw [parse_server_key_exchange_message_state env r2.2 ci h]; exact h2)

theorem parse_certificate_request_read_state (env : Env) (ssl : ntbtls_t) :
    (parse_certificate_request_read env ssl).2.state = ssl.state := by
  unfold parse_certificate_request_read
  simp only []
  have h2 := read_record_state env ssl
  generalize _ntbtls_read_record env ssl = r2 at h2 ⊢
  split_ifs
  all_goals first
    | rfl
    | exact h2

theorem parse_certificate_request_cert_types_state (env : Env) (ssl : ntbtls_t)
    (k : Nat) (p : Bytes) :
    (parse_certificate_request_cert_types env ssl k p).state = ssl.state := by
  induction k generalizing p with
  | zero => rfl
  | succ k ih =>
    rw [parse_certificate_request_cert_types]
    split_ifs
    · rfl
    · rfl
    · exact ih _

theorem parse_certificate_request_message_state (env : Env) (ssl : ntbtls_t) :
    (parse_certificate_request_message env ssl).2.state = ssl.state + 1 ∧
    ((parse_certificate_request_message env ssl).1 = Ret.ok ∨
      (parse_certificate_request_message env ssl).1 = Ret.BAD_HS_CERT_REQ) := by
  unfold parse_certificate_request_message
  simp only []
  by_cases hc : rd ssl.in_msg 0 = TLS_HS_CERTIFICATE_REQUEST
  · simp only [hc, if_true]
    split_ifs
    all_goals first
      | exact ⟨rfl, Or.inl rfl⟩
      | exact ⟨rfl, Or.inr rfl⟩
      | exact ⟨by rw [parse_certificate_request_cert_types_state], Or.inl rfl⟩
      | exact ⟨by rw [parse_certificate_request_cert_types_state], Or.inr rfl⟩
  · simp only [hc, if_false]
    exact ⟨rfl, Or.inl rfl⟩

theorem parse_certificate_request_state (env : Env) (ssl : ntbtls_t)
    (h : (parse_certificate_request env ssl).1 ≠ Ret.ok) :
    (parse_certificate_request env ssl).2.state = ssl.state ∨
    ((parse_certificate_request env ssl).2.state = ssl.state + 1 ∧
      (parse_certificate_request env ssl).1 = Ret.BAD_HS_CERT_REQ) := by
  unfold parse_certificate_request at h ⊢
  cases hci : ssl.ciphersuite_info with
  | none => left; simp only [hci]
  | some ci =>
    simp only [hci] at h ⊢
    have h1 := parse_certificate_request_read_state env ssl
    generalize parse_certificate_request_read env ssl = r1 at h h1 ⊢
    have h2 := (parse_certificate_request_message_state env r1.2).1
    have h3 := (parse_certificate_request_message_state env r1.2).2
    split_ifs at h ⊢
    · exact absurd rfl h
    · left; exact h1
    · right
      refine ⟨by rw [h2, h1], ?_⟩
      rcases h3 with h3 | h3
      · exact absurd h3 h
      · exact h3

theorem ssl_write_encrypted_pms_state (env : Env) (ssl : ntbtls_t) (o q : Nat) :
    (ssl_write_encrypted_pms env ssl o q).2.1.state = ssl.state := by
  unfold ssl_write_encrypted_pms
  simp only []
  split_ifs <;> rfl

theorem write_client_key_exchange_dhm_state (env : Env) (ssl : ntbtls_t) :
    (write_client_key_exchange_dhm env ssl).2.1.state = ssl.state := by
  unfold write_client_key_exchange_dhm
  simp only []
  split_ifs <;> rfl

theorem write_client_key_exchange_ecdh_state (env : Env) (ssl : ntbtls_t) :
    (write_client_key_exchange_ecdh env ssl).2.1.state = ssl.state := by
  unfold write_client_key_exchange_ecdh
  simp only []
  split_ifs <;> rfl

theorem write_client_key_exchange_psk_public_state (env : Env) (ssl : ntbtls_t)
    (kx : key_exchange_type_t) (i : Nat) :
    (write_client_key_exchange_psk_public env ssl kx i).2.1.state = ssl.state := by
  unfold write_client_key_exchange_psk_public
  simp only []
  have h1 := ssl_write_encrypted_pms_state env ssl
  split_ifs
  all_goals first
    | rfl
    | exact h1 _ _

theorem write_client_key_exchange_psk_state (env : Env) (ssl : ntbtls_t)
    (kx : key_exchange_type_t) :
    (write_client_key_exchange_psk env ssl kx).2.1.state = ssl.state := by
  unfold write_client_key_exchange_psk
  split
  · simp only []
    split_ifs
    all_goals rw [write_client_key_exchange_psk_public_state]
  · rfl

theorem write_client_key_exchange_body_state (env : Env) (ssl : ntbtls_t)
    (kx : key_exchange_type_t) :
    (write_client_key_exchange_body env ssl kx).2.1.state = ssl.state := by
  unfold write_client_key_exchange_body
  simp only []
  split_ifs
  · exact write_client_key_exchange_dhm_state env ssl
  · exact write_client_key_exchange_ecdh_state env ssl
  · exact write_client_key_exchange_psk_state env ssl kx
  · exact ssl_write_encrypted_pms_state env ssl _ _
  · rfl

theorem write_client_key_exchange_state (env : Env) (ssl : ntbtls_t)
    (h : (write_client_key_exchange env ssl).1 ≠ Ret.ok) :
    (write_client_key_exchange env ssl).2.state = ssl.state ∨
    (env.write_record ≠ Ret.ok ∧
      (write_client_key_exchange env ssl).2.state = ssl.state + 1) := by
  unfold write_client_key_exchange at h ⊢
  cases hci : ssl.ciphersuite_info with
  | none => left; simp only [hci]
  | some ci =>
    simp only [hci] at h ⊢
    have h1 := write_client_key_exchange_body_state env ssl ci.key_exchange
    generalize write_client_key_exchange_body env ssl ci.key_exchange = r at h h1 ⊢
    split_ifs at h ⊢ with a b c
    · left; exact h1
    · left; exact h1
    · right; exact ⟨c, by simp [h1]⟩
    · exact absurd rfl h

theorem write_certificate_verify_state (env : Env) (ssl : ntbtls_t)
    (h : (write_certificate_verify env ssl).1 ≠ Ret.ok) :
    (write_certificate_verify env ssl).2.state = ssl.state ∨
    (env.write_record ≠ Ret.ok ∧
      (write_certificate_verify env ssl).2.state = ssl.state + 1) := by
  unfold write_certificate_verify at h ⊢
  cases hci : ssl.ciphersuite_info with
  | none => left; simp only [hci]
  | some ci =>
    simp only [hci] at h ⊢
    cases hk : ssl.own_key with
    | none =>
      simp only [hk] at h ⊢
      split_ifs at h ⊢
      all_goals first
        | (exfalso; exact h rfl)
        | (left; rfl)
    | some key =>
      simp only [hk] at h ⊢
      split_ifs at h ⊢ with a b c d e
      all_goals first
        | (exfalso; exact h rfl)
        | (left; rfl)
        | (right; exact ⟨‹_›, rfl⟩)

theorem version_state (s : ntbtls_t) :
    (parse_server_hello_version s).2.state = s.state := by
  rcases version_snd s with h | h <;> rw [h]

theorem fields_state (env : Env) (s : ntbtls_t) :
    (parse_server_hello_fields env s).2.state = s.state := by
  rcases fields_snd env s with h | h <;> rw [h]

theorem resume_state (env : Env) (s : ntbtls_t) :
    (parse_server_hello_resume env s).2.state = s.state + 1 ∨
    (parse_server_hello_resume env s).2.state = TLS_SERVER_CHANGE_CIPHER_SPEC := by
  by_cases hn : no_resume s
  · rw [resume_no env s hn]; left; rfl
  · rw [resume_yes env s hn]; right; rfl

theorem tail_state (env : Env) (s : ntbtls_t) :
    (parse_server_hello_tail env s).2.state = s.state :=
  (tail_frame env s).1.symm

theorem parse_server_hello_state (env : Env) (ssl : ntbtls_t) :
    (parse_server_hello env ssl).2.state = ssl.state ∨
    (env.read_record = Ret.ok ∧
      ((parse_server_hello env ssl).2.state = ssl.state + 1 ∨
        (parse_server_hello env ssl).2.state = TLS_SERVER_CHANGE_CIPHER_SPEC)) := by
  unfold parse_server_hello
  simp only []
  by_cases hr : env.read_record = Ret.ok
  swap
  · left; rw [read_record_err env ssl hr, if_pos (by simpa using hr)]
  have h1 := read_record_state env ssl
  generalize _ntbtls_read_record env ssl = r1 at h1 ⊢
  have h2 := version_state r1.2
  generalize parse_server_hello_version r1.2 = r2 at h2 ⊢
  have h3 := fields_state env r2.2
  generalize parse_server_hello_fields env r2.2 = r3 at h3 ⊢
  have h4 := resume_state env r3.2
  generalize parse_server_hello_resume env r3.2 = r4 at h4 ⊢
  have h5 := tail_state env r4.2
  generalize parse_server_hello_tail env r4.2 = r5 at h5 ⊢
  have e3 : r3.2.state = ssl.state := by rw [h3, h2, h1]
  split_ifs
  · left; exact h1
  · left; rw [h2, h1]
  · left; exact e3
  · right; refine ⟨hr, ?_⟩; rw [e3] at h4; exact h4
  · right; refine ⟨hr, ?_⟩; rw [h5]; rw [e3] at h4; exact h4

/-! ## The client step: state and errors -/

theorem client_step_other_suite :
    (_ntbtls_handshake_client_step env_plain ssl_other_suite).1 = Ret.BAD_HS_SERVER_HELLO ∧
    (_ntbtls_handshake_client_step env_plain ssl_other_suite).2.state = 3 := by
  simp [_ntbtls_handshake_client_step, parse_server_hello, parse_server_hello_version,
    parse_server_hello_fields, parse_server_hello_resume, parse_server_hello_tail,
    _ntbtls_read_record, env_plain, ssl_other_suite, hello_plain,
    table_all, rd, shl8_or, server_hello_n, server_hello_i, server_hello_comp,
    server_hello_ext_len, parse_server_hello_find_ciphersuite]

/-- C1, counterexample: in state ServerHello, a ServerHello whose suite
`0x002F` is known to the table but was not offered makes the step return
`GPG_ERR_BAD_HS_SERVER_HELLO` with the state already advanced from 2 to 3;
so a failing step does not always leave the state unchanged. -/
theorem client_step_error_state_counterexample :
    ¬ ∀ (env : Env) (tls : ntbtls_t),
      (_ntbtls_handshake_client_step env tls).1 ≠ Ret.ok →
      (_ntbtls_handshake_client_step env tls).2.state = tls.state := by
  intro h
  have h1 := h env_plain ssl_other_suite (by rw [client_step_other_suite.1]; simp)
  rw [client_step_other_suite.2] at h1
  simp [ssl_other_suite] at h1

theorem client_step_error_cases (env : Env) (tls : ntbtls_t)
    (h : (_ntbtls_handshake_client_step env tls).1 ≠ Ret.ok) :
    (_ntbtls_handshake_client_step env tls).2.state = tls.state ∨
    (tls.state = TLS_SERVER_HELLO ∧ env.read_record = Ret.ok ∧
      ((_ntbtls_handshake_client_step env tls).2.state = tls.state + 1 ∨
        (_ntbtls_handshake_client_step env tls).2.state =
          TLS_SERVER_CHANGE_CIPHER_SPEC)) ∨
    (tls.state = TLS_CERTIFICATE_REQUEST ∧
      (_ntbtls_handshake_client_step env tls).2.state = tls.state + 1 ∧
      (_ntbtls_handshake_client_step env tls).1 = Ret.BAD_HS_CERT_REQ) ∨
    ((tls.state = TLS_CLIENT_HELLO ∨ tls.state = TLS_CLIENT_KEY_EXCHANGE ∨
        tls.state = TLS_CERTIFICATE_VERIFY) ∧ env.write_record ≠ Ret.ok ∧
      (_ntbtls_handshake_client_step env tls).2.state = tls.state + 1) ∨
    (tls.state = TLS_SERVER_CERTIFICATE ∨ tls.state = TLS_CLIENT_CERTIFICATE ∨
      tls.state = TLS_CLIENT_CHANGE_CIPHER_SPEC ∨ tls.state = TLS_CLIENT_FINISHED ∨
      (tls.state = TLS_SERVER_CHANGE_CIPHER_SPEC ∧
        tls.handshake.new_session_ticket = 0) ∨
      tls.state = TLS_SERVER_FINISHED) := by
  revert h
  generalize hr : _ntbtls_handshake_client_step env tls = r
  unfold _ntbtls_handshake_client_step at hr
  by_cases h0 : tls.state = TLS_HANDSHAKE_OVER
  · rw [if_pos h0] at hr; subst hr; intro h; left; rfl
  rw [if_neg h0] at hr
  by_cases hf : env.flush_output ≠ Ret.ok
  · rw [if_pos hf] at hr; subst hr; intro h; left; rfl
  rw [if_neg hf] at hr
  by_cases s0 : tls.state = TLS_HELLO_REQUEST
  · rw [if_pos s0] at hr; subst hr; intro h
    exact absurd rfl h
  rw [if_neg s0] at hr
  by_cases s1 : tls.state = TLS_CLIENT_HELLO
  · rw [if_pos s1] at hr; subst hr; intro h
    rcases write_client_hello_state env tls h with e | e
    · left; exact e
    · right; right; right; left; exact ⟨Or.inl s1, e⟩
  rw [if_neg s1] at hr
  by_cases s2 : tls.state = TLS_SERVER_HELLO
  · rw [if_pos s2] at hr; subst hr; intro h
    rcases parse_server_hello_state env tls with e | e
    · left; exact e
    · right; left; exact ⟨s2, e⟩
  rw [if_neg s2] at hr
  by_cases s3 : tls.state = TLS_SERVER_CERTIFICATE
  · rw [if_pos s3] at hr; subst hr; intro h
    right; right; right; right; left; exact s3
  rw [if_neg s3] at hr
  by_cases s4 : tls.state = TLS_SERVER_KEY_EXCHANGE
  · rw [if_pos s4] at hr; subst hr; intro h
    left; exact parse_server_key_exchange_state env tls h
  rw [if_neg s4] at hr
  by_cases s5 : tls.state = TLS_CERTIFICATE_REQUEST
  · rw [if_pos s5] at hr; subst hr; intro h
    rcases parse_certificate_request_state env tls h with e | e
    · left; exact e
    · right; right; left; exact ⟨s5, e⟩
  rw [if_neg s5] at hr
  by_cases s6 : tls.state = TLS_SERVER_HELLO_DONE
  · rw [if_pos s6] at hr; subst hr; intro h
    left; exact parse_server_hello_done_state env tls h
  rw [if_neg s6] at hr
  by_cases s7 : tls.state = TLS_CLIENT_CERTIFICATE
  · rw [if_pos s7] at hr; subst hr; intro h
    right; right; right; right; right; left; exact s7
  rw [if_neg s7] at hr
  by_cases s8 : tls.state = TLS_CLIENT_KEY_EXCHANGE
  · rw [if_pos s8] at hr; subst hr; intro h
    rcases write_client_key_exchange_state env tls h with e | e
    · left; exact e
    · right; right; right; left; exact ⟨Or.inr (Or.inl s8), e⟩
  rw [if_neg s8] at hr
  by_cases s9 : tls.state = TLS_CERTIFICATE_VERIFY
  · rw [if_pos s9] at hr; subst hr; intro h
    rcases write_certificate_verify_state env tls h with e | e
    · left; exact e
    · right; right; right; left; exact ⟨Or.inr (Or.inr s9), e⟩
  rw [if_neg s9] at hr
  by_cases s10 : tls.state = TLS_CLIENT_CHANGE_CIPHER_SPEC
  · rw [if_pos s10] at hr; subst hr; intro h
    right; right; right; right; right; right; left; exact s10
  rw [if_neg s10] at hr
  by_cases s11 : tls.state = TLS_CLIENT_FINISHED
  · rw [if_pos s11] at hr; subst hr; intro h
    right; right; right; right; right; right; right; left; exact s11
  rw [if_neg s11] at hr
  by_cases s12 : tls.state = TLS_SERVER_CHANGE_CIPHER_SPEC
  · rw [if_pos s12] at hr
    by_cases hn : tls.handshake.new_session_ticket ≠ 0
    · rw [if_pos hn] at hr; subst hr; intro h
      left; exact parse_new_session_ticket_state env tls
    · rw [if_neg hn] at hr; subst hr; intro h
      right; right; right; right; right; right; right; right; left
      exact ⟨s12, by simpa using hn⟩
  rw [if_neg s12] at hr
  by_cases s13 : tls.state = TLS_SERVER_FINISHED
  · rw [if_pos s13] at hr; subst hr; intro h
    right; right; right; right; right; right; right; right; right; exact s13
  rw [if_neg s13] at hr
  by_cases s14 : tls.state = TLS_FLUSH_BUFFERS
  · rw [if_pos s14] at hr; subst hr; intro h
    exact absurd rfl h
  rw [if_neg s14] at hr
  by_cases s15 : tls.state = TLS_HANDSHAKE_WRAPUP
  · rw [if_pos s15] at hr; subst hr; intro h
    exact absurd rfl h
  rw [if_neg s15] at hr
  subst hr; intro h; left; rfl

theorem shl8_or_eq (hi lo : Nat) (h : lo < 256) : shl8_or hi lo = hi * 256 + lo := by
  unfold shl8_or
  rw [Nat.shiftLeft_eq, Nat.mul_comm, show (2:Nat)^8 = 256 from rfl]
  exact (Nat.mul_add_lt_is_or (i := 8) h hi).symm

theorem rd_lt (b : Bytes) (i : Nat) : rd b i < 256 := by
  unfold rd; omega

theorem shl8_or_rd_lt (b : Bytes) (i j : Nat) : shl8_or (rd b i) (rd b j) < 65536 := by
  rw [shl8_or_eq _ _ (rd_lt b j)]
  have := rd_lt b i; have := rd_lt b j; omega

/-! ## ServerHello: the selected ciphersuite -/

/-- C2: if `parse_server_hello` returns success, then the ciphersuite it
recorded in `session_negotiate->ciphersuite` is the 16-bit id of the
message, and it is an element of the configured, zero-terminated list
`ciphersuite_list[minor_ver]` of the negotiated minor version. -/
theorem parse_server_hello_ciphersuite_in_list (env : Env) (ssl : ntbtls_t)
    (h : (parse_server_hello env ssl).1 = Ret.ok) :
    (parse_server_hello env ssl).2.session_negotiate.ciphersuite =
      server_hello_i env.in_msg ∧
    (parse_server_hello env ssl).2.session_negotiate.ciphersuite < 2 ^ 16 ∧
    (parse_server_hello env ssl).2.ciphersuite_list = ssl.ciphersuite_list ∧
    (parse_server_hello env ssl).2.session_negotiate.ciphersuite ∈
      zero_terminated (ssl.ciphersuite_list (parse_server_hello env ssl).2.minor_ver) := by
  obtain ⟨_, _, _, _, _, _, _, _, _, _, s, s1, s2, s3, s4, s5, s6, hok, heq⟩ :=
    parse_server_hello_ok env ssl h
  have hf := tail_frame env s
  simp only [ext_frame] at hf
  obtain ⟨_, f2, _, _, f5, f6, _⟩ := hf
  have ht := (tail_ok env s hok).1
  rw [find_ciphersuite_iff] at ht
  simp only [cfg_eq] at s4
  rw [heq, ← f6, ← f5, ← f2, s5]
  refine ⟨rfl, ?_, s4.2.2.1, ?_⟩
  · exact shl8_or_rd_lt _ _ _
  · rw [← s4.2.2.1, ← s5]; exact ht

theorem parse_server_hello_plain_ok : (parse_server_hello env_plain ssl_plain).1 = Ret.ok := by
  simp [parse_server_hello, parse_server_hello_version, parse_server_hello_fields,
    parse_server_hello_resume, parse_server_hello_tail, parse_server_hello_ext_loop,
    parse_server_hello_ext_switch, _ntbtls_read_record, env_plain, ssl_plain, hello_plain,
    table_all, rd, shl8_or, server_hello_n, server_hello_i, server_hello_comp,
    server_hello_ext_len, parse_server_hello_find_ciphersuite,
    parse_server_hello_handshake_failure, ssl_parse_truncated_hmac_ext]

/-- Witness for C2: the ServerHello `hello_plain` is accepted and its suite
`0x002F` is in the offered list. -/
theorem parse_server_hello_ciphersuite_in_list_witness :
    (parse_server_hello env_plain ssl_plain).1 = Ret.ok ∧
    (parse_server_hello env_plain ssl_plain).2.session_negotiate.ciphersuite ∈
      zero_terminated (ssl_plain.ciphersuite_list
        (parse_server_hello env_plain ssl_plain).2.minor_ver) :=
  ⟨parse_server_hello_plain_ok,
    (parse_server_hello_ciphersuite_in_list env_plain ssl_plain
      parse_server_hello_plain_ok).2.2.2⟩

/-! ## ServerHello: forward evaluation through the parts -/

theorem parse_server_hello_after_version (env : Env) (ssl : ntbtls_t)
    (h : version_accepted env ssl) :
    parse_server_hello env ssl =
      if (parse_server_hello_fields env (ctx_after_version env ssl)).1 ≠ Ret.ok then
        parse_server_hello_fields env (ctx_after_version env ssl)
      else if (parse_server_hello_resume env
          (parse_server_hello_fields env (ctx_after_version env ssl)).2).1 ≠ Ret.ok then
        parse_server_hello_resume env
          (parse_server_hello_fields env (ctx_after_version env ssl)).2
      else
        parse_server_hello_tail env (parse_server_hello_resume env
          (parse_server_hello_fields env (ctx_after_version env ssl)).2).2 := by
  obtain ⟨hr, hm, hl, ht, hmaj, hmax, hmin⟩ := h
  unfold parse_server_hello
  simp only []
  rw [read_record_ok env ssl hr]
  simp only [ne_eq, not_true_eq_false, if_false]
  have hv : (parse_server_hello_version { ssl with
      in_msgtype := env.in_msgtype, in_msg := env.in_msg,
      in_hslen := env.in_hslen }).1 = Ret.ok := by
    rw [version_ok_iff]
    exact ⟨hm, hl, ht, hmaj, hmax, hmin⟩
  have hv2 := version_snd_ok _ hv
  rw [if_neg (not_not.mpr hv), hv2]
  rfl

theorem parse_server_hello_after_fields (env : Env) (ssl : ntbtls_t)
    (h : version_accepted env ssl) (hn : server_hello_n env.in_msg ≤ 32)
    (hlen : ¬ bad_length env.in_msg env.in_hslen)
    (hk : env.ssl_ciphersuite_from_id (server_hello_i env.in_msg) ≠ none) :
    parse_server_hello env ssl =
      if (parse_server_hello_resume env (ctx_after_fields env ssl)).1 ≠ Ret.ok then
        parse_server_hello_resume env (ctx_after_fields env ssl)
      else
        parse_server_hello_tail env
          (parse_server_hello_resume env (ctx_after_fields env ssl)).2 := by
  rw [parse_server_hello_after_version env ssl h]
  have hf : (parse_server_hello_fields env (ctx_after_version env ssl)).1 = Ret.ok := by
    rw [fields_ok_iff]
    exact ⟨hn, hlen, hk⟩
  have hf2 : (parse_server_hello_fields env (ctx_after_version env ssl)).2 =
      ctx_after_fields env ssl := fields_snd_ok _ _ hf
  rw [if_neg (not_not.mpr hf), hf2]

theorem fields_unknown (env : Env) (s : ntbtls_t)
    (hn : server_hello_n s.in_msg ≤ 32) (hlen : ¬ bad_length s.in_msg s.in_hslen)
    (hk : env.ssl_ciphersuite_from_id (server_hello_i s.in_msg) = none) :
    (parse_server_hello_fields env s).1 = Ret.INV_ARG := by
  unfold parse_server_hello_fields
  simp only []
  split_ifs with h1 h2
  all_goals first
    | rfl
    | omega
    | exact absurd h2 hlen

theorem parse_server_hello_unknown_suite (env : Env) (ssl : ntbtls_t)
    (h : version_accepted env ssl) (hn : server_hello_n env.in_msg ≤ 32)
    (hlen : ¬ bad_length env.in_msg env.in_hslen)
    (hk : env.ssl_ciphersuite_from_id (server_hello_i env.in_msg) = none) :
    (parse_server_hello env ssl).1 = Ret.INV_ARG := by
  rw [parse_server_hello_after_version env ssl h]
  have hf : (parse_server_hello_fields env (ctx_after_version env ssl)).1 = Ret.INV_ARG :=
    fields_unknown env (ctx_after_version env ssl) hn hlen hk
  rw [if_pos (by rw [hf]; simp), hf]

theorem tail_not_offered (env : Env) (s : ntbtls_t)
    (h : s.session_negotiate.ciphersuite ∉
      zero_terminated (s.ciphersuite_list s.minor_ver)) :
    parse_server_hello_tail env s = (Ret.BAD_HS_SERVER_HELLO, s) := by
  have hf : parse_server_hello_find_ciphersuite (s.ciphersuite_list s.minor_ver)
      s.session_negotiate.ciphersuite = false := by
    cases hb : parse_server_hello_find_ciphersuite (s.ciphersuite_list s.minor_ver)
      s.session_negotiate.ciphersuite with
    | false => rfl
    | true => exact absurd ((find_ciphersuite_iff _ _).mp hb) h
  unfold parse_server_hello_tail
  simp only []
  rw [if_pos hf]

theorem version_accepted_plain (env : Env) (ssl : ntbtls_t)
    (hr : env.read_record = Ret.ok) (ht : env.in_msgtype = 22)
    (hm : env.in_msg = hello_plain) (hl : env.in_hslen = 48)
    (hmin : ssl.min_minor_ver ≤ 3) (hmax : 3 ≤ ssl.max_minor_ver) :
    version_accepted env ssl := by
  simp [version_accepted, hr, ht, hm, hl, hello_plain, rd, hmin, hmax]

theorem hello_plain_fields :
    server_hello_n hello_plain = 0 ∧ server_hello_i hello_plain = 0x2F ∧
    server_hello_comp hello_plain = 0 ∧ server_hello_ext_len hello_plain 48 = 4 ∧
    rd hello_plain 5 = 3 ∧ ¬ bad_length hello_plain 48 := by
  simp [server_hello_n, server_hello_i, server_hello_comp, server_hello_ext_len,
    bad_length, hello_plain, rd, shl8_or]

/-! ## ServerHello: a suite that was not offered -/

/-- C3, counterexample: the well-formed ServerHello `hello_plain` names
suite `0x002F`, which is not in the offered list and which the ciphersuite
table does not know; `parse_server_hello` returns `GPG_ERR_INV_ARG`, not
`GPG_ERR_BAD_HS_SERVER_HELLO`. -/
theorem parse_server_hello_suite_not_offered_counterexample :
    ¬ ∀ (env : Env) (ssl : ntbtls_t),
      version_accepted env ssl → server_hello_n env.in_msg ≤ 32 →
      ¬ bad_length env.in_msg env.in_hslen →
      server_hello_i env.in_msg ∉ ssl.ciphersuite_list (rd env.in_msg 5) →
      (parse_server_hello env ssl).1 = Ret.BAD_HS_SERVER_HELLO := by
  intro h
  have hv : version_accepted env_unknown_suite ssl_other_suite :=
    version_accepted_plain _ _ rfl rfl rfl rfl (by simp [ssl_other_suite])
      (by simp [ssl_other_suite])
  have hn : server_hello_n env_unknown_suite.in_msg ≤ 32 := by
    show server_hello_n hello_plain ≤ 32
    rw [hello_plain_fields.1]; omega
  have hl : ¬ bad_length env_unknown_suite.in_msg env_unknown_suite.in_hslen :=
    hello_plain_fields.2.2.2.2.2
  have h1 := h env_unknown_suite ssl_other_suite hv hn hl (by
    show server_hello_i hello_plain ∉ _
    rw [hello_plain_fields.2.1]; simp [ssl_other_suite])
  rw [parse_server_hello_unknown_suite env_unknown_suite ssl_other_suite hv hn hl rfl] at h1
  exact absurd h1 (by simp)

/-- C3, amended: for every otherwise well-formed ServerHello (handshake
record, type ServerHello, major version 3, minor version within the
bounds, session id length at most 32, lengths accepted) whose ciphersuite
id is not among the ids of the zero-terminated `ciphersuite_list` of the
negotiated minor version, `parse_server_hello` fails: with
`GPG_ERR_INV_ARG` when the ciphersuite table does not know the id; with
`GPG_ERR_BAD_HS_SERVER_HELLO` when the table knows it and either the
session is not resumed or `_ntbtls_derive_keys` succeeds; and with the
code of `_ntbtls_derive_keys` when the session is resumed and the key
derivation fails. -/
theorem parse_server_hello_suite_not_offered (env : Env) (ssl : ntbtls_t)
    (h : version_accepted env ssl) (hn : server_hello_n env.in_msg ≤ 32)
    (hlen : ¬ bad_length env.in_msg env.in_hslen)
    (hnot : server_hello_i env.in_msg ∉
      zero_terminated (ssl.ciphersuite_list (rd env.in_msg 5))) :
    (parse_server_hello env ssl).1 ≠ Ret.ok ∧
    (env.ssl_ciphersuite_from_id (server_hello_i env.in_msg) = none →
      (parse_server_hello env ssl).1 = Ret.INV_ARG) ∧
    (env.ssl_ciphersuite_from_id (server_hello_i env.in_msg) ≠ none →
      (no_resume (ctx_after_fields env ssl) ∨ env.derive_keys = Ret.ok) →
      (parse_server_hello env ssl).1 = Ret.BAD_HS_SERVER_HELLO) ∧
    (env.ssl_ciphersuite_from_id (server_hello_i env.in_msg) ≠ none →
      ¬ no_resume (ctx_after_fields env ssl) → env.derive_keys ≠ Ret.ok →
      (parse_server_hello env ssl).1 = env.derive_keys) := by
  have p2 : env.ssl_ciphersuite_from_id (server_hello_i env.in_msg) ≠ none →
      (no_resume (ctx_after_fields env ssl) ∨ env.derive_keys = Ret.ok) →
      (parse_server_hello env ssl).1 = Ret.BAD_HS_SERVER_HELLO := by
    intro hk hres
    rw [parse_server_hello_after_fields env ssl h hn hlen hk]
    by_cases hnr : no_resume (ctx_after_fields env ssl)
    · rw [resume_no env _ hnr]
      simp only [ne_eq, not_true_eq_false, if_false]
      rw [tail_not_offered]
      exact hnot
    · rcases hres with hres | hres
      · exact absurd hres hnr
      · rw [resume_yes env _ hnr, hres]
        simp only [ne_eq, not_true_eq_false, if_false]
        rw [tail_not_offered]
        have hc : (ctx_after_fields env ssl).session_negotiate.ciphersuite =
            server_hello_i env.in_msg := by
          simp only [no_resume] at hnr
          push_neg at hnr
          exact hnr.2.2.2.1
        show (ctx_after_fields env ssl).session_negotiate.ciphersuite ∉ _
        rw [hc]
        exact hnot
  have p3 : env.ssl_ciphersuite_from_id (server_hello_i env.in_msg) ≠ none →
      ¬ no_resume (ctx_after_fields env ssl) → env.derive_keys ≠ Ret.ok →
      (parse_server_hello env ssl).1 = env.derive_keys := by
    intro hk hnr hd
    rw [parse_server_hello_after_fields env ssl h hn hlen hk, resume_yes env _ hnr]
    rw [if_pos hd]
  have p1 := parse_server_hello_unknown_suite env ssl h hn hlen
  refine ⟨?_, p1, p2, p3⟩
  by_cases hk : env.ssl_ciphersuite_from_id (server_hello_i env.in_msg) = none
  · rw [p1 hk]; simp
  · by_cases hnr : no_resume (ctx_after_fields env ssl)
    · rw [p2 hk (Or.inl hnr)]; simp
    · by_cases hd : env.derive_keys = Ret.ok
      · rw [p2 hk (Or.inr hd)]; simp
      · rw [p3 hk hnr hd]; exact hd

/-- Witness for C3 (amended): `hello_plain` against a client that offered
only `0x0035`, with a table that knows `0x002F`. -/
theorem parse_server_hello_suite_not_offered_witness :
    (parse_server_hello env_plain ssl_other_suite).1 = Ret.BAD_HS_SERVER_HELLO :=
  (parse_server_hello_suite_not_offered env_plain ssl_other_suite
    (version_accepted_plain _ _ rfl rfl rfl rfl (by simp [ssl_other_suite])
      (by simp [ssl_other_suite]))
    (by show server_hello_n hello_plain ≤ 32; rw [hello_plain_fields.1]; omega)
    hello_plain_fields.2.2.2.2.2
    (by
      show server_hello_i hello_plain ∉ zero_terminated
        (ssl_other_suite.ciphersuite_list (rd hello_plain 5))
      rw [hello_plain_fields.2.1]
      simp [ssl_other_suite, zero_terminated])).2.2.1
    (by simp [env_plain, table_all])
    (Or.inl (by simp [no_resume, ctx_after_fields, ctx_after_version, ssl_other_suite]))

/-! ## ServerHello: the protocol version -/

theorem parse_server_hello_version_fail (env : Env) (ssl : ntbtls_t)
    (hr : env.read_record = Ret.ok)
    (hv : (parse_server_hello_version (ctx_after_read env ssl)).1 ≠ Ret.ok) :
    parse_server_hello env ssl = parse_server_hello_version (ctx_after_read env ssl) := by
  unfold parse_server_hello
  simp only []
  rw [read_record_ok env ssl hr]
  simp only [ne_eq, not_true_eq_false, if_false]
  exact if_pos hv

theorem version_too_high (s : ntbtls_t) (hm : s.in_msgtype = TLS_MSG_HANDSHAKE)
    (h : rd s.in_msg 5 > s.max_minor_ver) :
    (parse_server_hello_version s).1 = Ret.BAD_HS_SERVER_HELLO := by
  unfold parse_server_hello_version
  simp only []
  rw [if_neg (not_not.mpr hm)]
  split_ifs
  all_goals rfl

theorem version_too_low (s : ntbtls_t) (hm : s.in_msgtype = TLS_MSG_HANDSHAKE)
    (hl : 42 ≤ s.in_hslen) (ht : rd s.in_msg 0 = TLS_HS_SERVER_HELLO)
    (hmaj : rd s.in_msg 4 = SSL_MAJOR_VERSION_3)
    (hmax : rd s.in_msg 5 ≤ s.max_minor_ver) (hlow : rd s.in_msg 5 < s.min_minor_ver) :
    (parse_server_hello_version s).1 = Ret.UNSUPPORTED_PROTOCOL := by
  unfold parse_server_hello_version
  simp only []
  rw [if_neg (not_not.mpr hm), if_neg (by omega), if_neg (by omega), if_pos hlow]

/-- C4: for a ServerHello that was read as a handshake record,
`parse_server_hello` (a) succeeds only if the major version byte is 3 and
the minor version byte `m` satisfies `min_minor_ver ≤ m ≤ max_minor_ver`,
and then `minor_ver = m`; (b) rejects a minor version above
`max_minor_ver` with `GPG_ERR_BAD_HS_SERVER_HELLO`; (c) rejects a minor
version below `min_minor_ver`, in a message that passed the checks before
(length, type, major version, upper bound), with
`GPG_ERR_UNSUPPORTED_PROTOCOL`. -/
theorem parse_server_hello_version_checks (env : Env) (ssl : ntbtls_t)
    (hr : env.read_record = Ret.ok) (hm : env.in_msgtype = TLS_MSG_HANDSHAKE) :
    ((parse_server_hello env ssl).1 = Ret.ok →
      rd env.in_msg 4 = SSL_MAJOR_VERSION_3 ∧
      ssl.min_minor_ver ≤ rd env.in_msg 5 ∧ rd env.in_msg 5 ≤ ssl.max_minor_ver ∧
      (parse_server_hello env ssl).2.minor_ver = rd env.in_msg 5) ∧
    (rd env.in_msg 5 > ssl.max_minor_ver →
      (parse_server_hello env ssl).1 = Ret.BAD_HS_SERVER_HELLO) ∧
    (42 ≤ env.in_hslen → rd env.in_msg 0 = TLS_HS_SERVER_HELLO →
      rd env.in_msg 4 = SSL_MAJOR_VERSION_3 →
      rd env.in_msg 5 ≤ ssl.max_minor_ver → rd env.in_msg 5 < ssl.min_minor_ver →
      (parse_server_hello env ssl).1 = Ret.UNSUPPORTED_PROTOCOL) := by
  refine ⟨?_, ?_, ?_⟩
  · intro h
    obtain ⟨_, _, _, _, hmaj, hmax, hmin, _, _, _, s, _, _, s3, _, _, _, _, heq⟩ :=
      parse_server_hello_ok env ssl h
    refine ⟨hmaj, hmin, hmax, ?_⟩
    rw [heq, ← (tail_frame env s).2.1, s3]
  · intro h
    have hv := version_too_high (ctx_after_read env ssl) hm h
    rw [parse_server_hello_version_fail env ssl hr (by rw [hv]; simp), hv]
  · intro hl ht hmaj hmax hlow
    have hv := version_too_low (ctx_after_read env ssl) hm hl ht hmaj hmax hlow
    rw [parse_server_hello_version_fail env ssl hr (by rw [hv]; simp), hv]

/-- Witness for C4: `hello_plain` (TLS 1.2) is accepted with
`minor_ver = 3`; it is rejected with `GPG_ERR_BAD_HS_SERVER_HELLO` by a
client whose maximum is TLS 1.1; `hello_tls10` is rejected with
`GPG_ERR_UNSUPPORTED_PROTOCOL` by a client whose minimum is TLS 1.1. -/
theorem parse_server_hello_version_checks_witness :
    (parse_server_hello env_plain ssl_plain).2.minor_ver = 3 ∧
    (parse_server_hello env_plain ssl_max_tls11).1 = Ret.BAD_HS_SERVER_HELLO ∧
    (parse_server_hello env_tls10 ssl_min_tls11).1 = Ret.UNSUPPORTED_PROTOCOL :=
  ⟨((parse_server_hello_version_checks env_plain ssl_plain rfl rfl).1
      parse_server_hello_plain_ok).2.2.2.trans hello_plain_fields.2.2.2.2.1,
    (parse_server_hello_version_checks env_plain ssl_max_tls11 rfl rfl).2.1
      (by simp [env_plain, hello_plain, rd, ssl_max_tls11, ssl_plain]),
    (parse_server_hello_version_checks env_tls10 ssl_min_tls11 rfl rfl).2.2
      (by simp [env_tls10])
      (by simp [env_tls10, hello_tls10, rd])
      (by simp [env_tls10, hello_tls10, rd])
      (by simp [env_tls10, hello_tls10, rd, ssl_min_tls11, ssl_plain])
      (by simp [env_tls10, hello_tls10, rd, ssl_min_tls11, ssl_plain])⟩

/-! ## ServerHello: the declared length -/

/-- C5, the code at the failing input: two ServerHello messages of declared
length 42 whose first 42 bytes are the same, and which differ only in the
byte at index 42 of the input buffer, get different answers (success and
`GPG_ERR_BAD_HS_SERVER_HELLO`): `parse_server_hello` has read the
compression byte at index `41 + n = 42`, which is not below `in_hslen`. -/
theorem parse_server_hello_reads_past_length :
    env_short.in_hslen = 42 ∧ env_short_dirty.in_hslen = 42 ∧
    env_short.in_msg.length = 42 ∧
    env_short_dirty.in_msg = env_short.in_msg ++ [5] ∧
    (parse_server_hello env_short ssl_plain).1 = Ret.ok ∧
    (parse_server_hello env_short_dirty ssl_plain).1 = Ret.BAD_HS_SERVER_HELLO := by
  refine ⟨rfl, rfl, by simp [env_short, hello_short], rfl, ?_, ?_⟩
  · simp [parse_server_hello, parse_server_hello_version, parse_server_hello_fields,
      parse_server_hello_resume, parse_server_hello_tail, parse_server_hello_ext_loop,
      _ntbtls_read_record, env_short, ssl_plain, hello_short,
      table_all, rd, shl8_or, server_hello_n, server_hello_i, server_hello_comp,
      server_hello_ext_len, parse_server_hello_find_ciphersuite,
      parse_server_hello_handshake_failure]
  · simp [parse_server_hello, parse_server_hello_version, parse_server_hello_fields,
      parse_server_hello_resume, parse_server_hello_tail,
      _ntbtls_read_record, env_short_dirty, ssl_plain, hello_short,
      table_all, rd, shl8_or, server_hello_n, server_hello_i, server_hello_comp,
      server_hello_ext_len, parse_server_hello_find_ciphersuite]

/-- C6, the code at the failing input: the ServerHello `hello_short` has
`in_hslen = 42` and session id length `n = 1`, so `in_hslen < 42 + n`; yet
`parse_server_hello` returns success, records a session id of length 1 and
takes the compression method from past the message; `in_hslen` is neither
`42 + n` nor `44 + n + ext_len`. -/
theorem parse_server_hello_accepts_short_message :
    server_hello_n env_short.in_msg = 1 ∧
    env_short.in_hslen < 42 + server_hello_n env_short.in_msg ∧
    (parse_server_hello env_short ssl_plain).1 = Ret.ok ∧
    (parse_server_hello env_short ssl_plain).2.session_negotiate.length = 1 ∧
    env_short.in_hslen ≠ 42 + server_hello_n env_short.in_msg ∧
    env_short.in_hslen ≠ 44 + server_hello_n env_short.in_msg +
      server_hello_ext_len env_short.in_msg env_short.in_hslen := by
  have hn : server_hello_n env_short.in_msg = 1 := by
    simp [server_hello_n, env_short, hello_short, rd]
  have he : server_hello_ext_len env_short.in_msg env_short.in_hslen = 0 := by
    simp [server_hello_ext_len, server_hello_n, env_short, hello_short, rd]
  refine ⟨hn, by rw [hn]; simp [env_short], ?_, ?_, by rw [hn]; simp [env_short],
    by rw [hn, he]; simp [env_short]⟩
  · simp [parse_server_hello, parse_server_hello_version, parse_server_hello_fields,
      parse_server_hello_resume, parse_server_hello_tail, parse_server_hello_ext_loop,
      _ntbtls_read_record, env_short, ssl_plain, hello_short,
      table_all, rd, shl8_or, server_hello_n, server_hello_i, server_hello_comp,
      server_hello_ext_len, parse_server_hello_find_ciphersuite,
      parse_server_hello_handshake_failure]
  · simp [parse_server_hello, parse_server_hello_version, parse_server_hello_fields,
      parse_server_hello_resume, parse_server_hello_tail, parse_server_hello_ext_loop,
      _ntbtls_read_record, env_short, ssl_plain, hello_short,
      table_all, rd, shl8_or, server_hello_n, server_hello_i, server_hello_comp,
      server_hello_ext_len, parse_server_hello_find_ciphersuite,
      parse_server_hello_handshake_failure]

/-! ## ServerHello extensions: each parser reads its payload only -/

theorem memeq_congr (a a' b : Bytes) (n : Nat) (h : ∀ i, i < n → rd a i = rd a' i) :
    memeq a b n = memeq a' b n := by
  unfold memeq
  rw [Bool.eq_iff_iff]
  simp only [List.all_eq_true, List.mem_range]
  constructor
  · intro hh i hi
    rw [← h i hi]; exact hh i hi
  · intro hh i hi
    rw [h i hi]; exact hh i hi

theorem point_formats_loop_congr (ssl : ntbtls_t) (k : Nat) (p p' : Bytes)
    (h : ∀ i, i < k → rd p i = rd p' i) :
    ssl_parse_supported_point_formats_loop ssl k p =
      ssl_parse_supported_point_formats_loop ssl k p' := by
  induction k generalizing p p' with
  | zero => rfl
  | succ k ih =>
    rw [ssl_parse_supported_point_formats_loop, ssl_parse_supported_point_formats_loop]
    rw [h 0 (by omega)]
    rw [ih (p.drop 1) (p'.drop 1) (by
      intro i hi
      rw [rd_drop, rd_drop]
      exact h (1 + i) (by omega))]

theorem alpn_loop_congr (ssl : ntbtls_t) (buf buf' : Bytes) (n : Nat) (l : List Bytes)
    (h : ∀ i, i < n → rd (buf.drop 3) i = rd (buf'.drop 3) i) :
    ssl_parse_alpn_loop ssl buf n l = ssl_parse_alpn_loop ssl buf' n l := by
  induction l with
  | nil => rfl
  | cons p rest ih =>
    rw [ssl_parse_alpn_loop, ssl_parse_alpn_loop, ih, memeq_congr _ _ _ _ h]

theorem renegotiation_info_congr (env : Env) (ssl : ntbtls_t) (buf buf' : Bytes)
    (len : Nat) (h : ∀ i, i < len → rd buf i = rd buf' i) :
    ssl_parse_renegotiation_info env ssl buf len =
      ssl_parse_renegotiation_info env ssl buf' len := by
  unfold ssl_parse_renegotiation_info
  by_cases h1 : len = 1
  · have e0 : rd buf 0 = rd buf' 0 := h 0 (by omega)
    by_cases h2 : len = 1 + ssl.verify_data_len * 2
    · have e1 := memeq_congr (buf.drop 1) (buf'.drop 1) ssl.own_verify_data
        ssl.verify_data_len (by
          intro i hi; rw [rd_drop, rd_drop]; exact h _ (by omega))
      have e2 := memeq_congr (buf.drop (1 + ssl.verify_data_len))
        (buf'.drop (1 + ssl.verify_data_len)) ssl.peer_verify_data
        ssl.verify_data_len (by
          intro i hi; rw [rd_drop, rd_drop]; exact h _ (by omega))
      rw [e0, e1, e2]
    · simp only [h2, ne_eq, not_false_eq_true, true_or, if_true, e0]
  · by_cases h2 : len = 1 + ssl.verify_data_len * 2
    · have e0 : rd buf 0 = rd buf' 0 := h 0 (by omega)
      have e1 := memeq_congr (buf.drop 1) (buf'.drop 1) ssl.own_verify_data
        ssl.verify_data_len (by
          intro i hi; rw [rd_drop, rd_drop]; exact h _ (by omega))
      have e2 := memeq_congr (buf.drop (1 + ssl.verify_data_len))
        (buf'.drop (1 + ssl.verify_data_len)) ssl.peer_verify_data
        ssl.verify_data_len (by
          intro i hi; rw [rd_drop, rd_drop]; exact h _ (by omega))
      rw [e0, e1, e2]
    · simp only [h1, h2, ne_eq, not_false_eq_true, true_or, if_true]

theorem max_fragment_length_congr (ssl : ntbtls_t) (buf buf' : Bytes)
    (len : Nat) (h : ∀ i, i < len → rd buf i = rd buf' i) :
    ssl_parse_max_fragment_length_ext ssl buf len =
      ssl_parse_max_fragment_length_ext ssl buf' len := by
  unfold ssl_parse_max_fragment_length_ext
  by_cases h1 : len = 1
  · rw [h 0 (by omega)]
  · simp only [h1, ne_eq, not_false_eq_true, true_or, or_true, if_true]

theorem point_formats_congr (ssl : ntbtls_t) (buf buf' : Bytes)
    (len : Nat) (h : ∀ i, i < len → rd buf i = rd buf' i) :
    ssl_parse_supported_point_formats_ext ssl buf len =
      ssl_parse_supported_point_formats_ext ssl buf' len := by
  unfold ssl_parse_supported_point_formats_ext
  simp only []
  by_cases h0 : len = 0
  · rw [if_pos (by omega), if_pos (by omega)]
  · have e0 : rd buf 0 = rd buf' 0 := h 0 (by omega)
    rw [e0]
    by_cases h1 : rd buf' 0 + 1 ≠ len
    · rw [if_pos h1, if_pos h1]
    · rw [if_neg h1, if_neg h1]
      apply point_formats_loop_congr
      intro i hi
      rw [rd_drop, rd_drop]
      exact h _ (by omega)

theorem alpn_congr (ssl : ntbtls_t) (buf buf' : Bytes)
    (len : Nat) (h : ∀ i, i < len → rd buf i = rd buf' i) :
    ssl_parse_alpn_ext ssl buf len = ssl_parse_alpn_ext ssl buf' len := by
  unfold ssl_parse_alpn_ext
  cases ssl.alpn_list with
  | none => rfl
  | some l =>
    simp only []
    by_cases h4 : len < 4
    · rw [if_pos h4, if_pos h4]
    · rw [if_neg h4, if_neg h4, h 0 (by omega), h 1 (by omega), h 2 (by omega)]
      by_cases h5 : shl8_or (rd buf' 0) (rd buf' 1) ≠ len - 2
      · rw [if_pos h5, if_pos h5]
      · rw [if_neg h5, if_neg h5]
        by_cases h6 : rd buf' 2 ≠ shl8_or (rd buf' 0) (rd buf' 1) - 1
        · rw [if_pos h6, if_pos h6]
        · rw [if_neg h6, if_neg h6]
          apply alpn_loop_congr
          intro i hi
          rw [rd_drop, rd_drop]
          apply h
          have : shl8_or (rd buf' 0) (rd buf' 1) = len - 2 := not_not.mp h5
          have : rd buf' 2 = shl8_or (rd buf' 0) (rd buf' 1) - 1 := not_not.mp h6
          omega

theorem ext_switch_congr (env : Env) (ssl : ntbtls_t) (id : Nat) (buf buf' : Bytes)
    (size seen : Nat) (h : ∀ i, i < size → rd buf i = rd buf' i) :
    parse_server_hello_ext_switch env ssl id buf size seen =
      parse_server_hello_ext_switch env ssl id buf' size seen := by
  unfold parse_server_hello_ext_switch
  simp only []
  rw [renegotiation_info_congr env ssl buf buf' size h,
    max_fragment_length_congr ssl buf buf' size h,
    point_formats_congr ssl buf buf' size h, alpn_congr ssl buf buf' size h]
  rfl

/-! ## ServerHello extensions: parsing an entry twice changes nothing -/

theorem renegotiation_info_idem (env : Env) (ssl : ntbtls_t) (buf : Bytes) (len : Nat)
    (h : (ssl_parse_renegotiation_info env ssl buf len).1 = Ret.ok) :
    ssl_parse_renegotiation_info env (ssl_parse_renegotiation_info env ssl buf len).2
      buf len = ssl_parse_renegotiation_info env ssl buf len := by
  by_cases hi : ssl.renegotiation = SSL_INITIAL_HANDSHAKE
  · by_cases hc : len ≠ 1 ∨ rd buf 0 ≠ 0x0
    · exfalso
      unfold ssl_parse_renegotiation_info at h
      rw [if_pos hi, if_pos hc] at h
      split_ifs at h with ha
      exact ha h
    · have e : ssl_parse_renegotiation_info env ssl buf len = (Ret.ok,
          { ssl with secure_renegotiation := TLS_SECURE_RENEGOTIATION }) := by
        unfold ssl_parse_renegotiation_info
        rw [if_pos hi, if_neg hc]
      rw [e]
      unfold ssl_parse_renegotiation_info
      rw [if_pos hi, if_neg hc]
  · have e : ssl_parse_renegotiation_info env ssl buf len = (Ret.ok, ssl) := by
      unfold ssl_parse_renegotiation_info at h ⊢
      rw [if_neg hi] at h ⊢
      split_ifs at h ⊢ with hc ha
      all_goals first
        | rfl
        | exact absurd h ha
    rw [e]
    exact e

theorem max_fragment_length_idem (ssl : ntbtls_t) (buf : Bytes) (len : Nat) :
    ssl_parse_max_fragment_length_ext (ssl_parse_max_fragment_length_ext ssl buf len).2
      buf len = ssl_parse_max_fragment_length_ext ssl buf len := by
  have e : (ssl_parse_max_fragment_length_ext ssl buf len).2 = ssl := by
    unfold ssl_parse_max_fragment_length_ext
    split_ifs <;> rfl
  rw [e]

theorem truncated_hmac_idem (ssl : ntbtls_t) (buf : Bytes) (len : Nat) :
    ssl_parse_truncated_hmac_ext (ssl_parse_truncated_hmac_ext ssl buf len).2
      buf len = ssl_parse_truncated_hmac_ext ssl buf len := by
  by_cases hc : ssl.trunc_hmac = SSL_TRUNC_HMAC_DISABLED ∨ len ≠ 0
  · have e : ssl_parse_truncated_hmac_ext ssl buf len = (Ret.BAD_HS_SERVER_HELLO, ssl) := by
      unfold ssl_parse_truncated_hmac_ext
      rw [if_pos hc]
    rw [e]
    exact e
  · have e : ssl_parse_truncated_hmac_ext ssl buf len = (Ret.ok,
        { ssl with session_negotiate :=
          { ssl.session_negotiate with trunc_hmac := SSL_TRUNC_HMAC_ENABLED } }) := by
      unfold ssl_parse_truncated_hmac_ext
      rw [if_neg hc]
    rw [e]
    unfold ssl_parse_truncated_hmac_ext
    rw [if_neg hc]

theorem session_ticket_idem (ssl : ntbtls_t) (buf : Bytes) (len : Nat) :
    ssl_parse_session_ticket_ext (ssl_parse_session_ticket_ext ssl buf len).2
      buf len = ssl_parse_session_ticket_ext ssl buf len := by
  by_cases hc : ssl.session_tickets = SSL_SESSION_TICKETS_DISABLED ∨ len ≠ 0
  · have e : ssl_parse_session_ticket_ext ssl buf len = (Ret.BAD_HS_SERVER_HELLO, ssl) := by
      unfold ssl_parse_session_ticket_ext
      rw [if_pos hc]
    rw [e]
    exact e
  · have e : ssl_parse_session_ticket_ext ssl buf len = (Ret.ok,
        { ssl with handshake := { ssl.handshake with new_session_ticket := 1 } }) := by
      unfold ssl_parse_session_ticket_ext
      rw [if_neg hc]
    rw [e]
    unfold ssl_parse_session_ticket_ext
    rw [if_neg hc]

theorem point_formats_loop_idem (ssl : ntbtls_t) (k : Nat) (p : Bytes)
    (h : (ssl_parse_supported_point_formats_loop ssl k p).1 = Ret.ok) :
    ssl_parse_supported_point_formats_loop
        (ssl_parse_supported_point_formats_loop ssl k p).2 k p =
      ssl_parse_supported_point_formats_loop ssl k p := by
  induction k generalizing p with
  | zero => simp [ssl_parse_supported_point_formats_loop] at h
  | succ k ih =>
    by_cases hc : rd p 0 = POLARSSL_ECP_PF_UNCOMPRESSED ∨
        rd p 0 = POLARSSL_ECP_PF_COMPRESSED
    · have e : ssl_parse_supported_point_formats_loop ssl (k + 1) p = (Ret.ok,
          { ssl with handshake :=
            { ssl.handshake with ecdh_point_format := rd p 0 } }) := by
        rw [ssl_parse_supported_point_formats_loop, if_pos hc]
      rw [e, ssl_parse_supported_point_formats_loop, if_pos hc]
    · have e : ssl_parse_supported_point_formats_loop ssl (k + 1) p =
          ssl_parse_supported_point_formats_loop ssl k (p.drop 1) := by
        rw [ssl_parse_supported_point_formats_loop, if_neg hc]
      rw [e] at h ⊢
      rw [ssl_parse_supported_point_formats_loop, if_neg hc]
      exact ih _ h

theorem point_formats_idem (ssl : ntbtls_t) (buf : Bytes) (len : Nat)
    (h : (ssl_parse_supported_point_formats_ext ssl buf len).1 = Ret.ok) :
    ssl_parse_supported_point_formats_ext
        (ssl_parse_supported_point_formats_ext ssl buf len).2 buf len =
      ssl_parse_supported_point_formats_ext ssl buf len := by
  by_cases hc : rd buf 0 + 1 ≠ len
  · exfalso
    unfold ssl_parse_supported_point_formats_ext at h
    simp only [] at h
    rw [if_pos hc] at h
    simp at h
  · have e : ssl_parse_supported_point_formats_ext ssl buf len =
        ssl_parse_supported_point_formats_loop ssl (rd buf 0) (buf.drop 1) := by
      unfold ssl_parse_supported_point_formats_ext
      simp only []
      rw [if_neg hc]
    rw [e] at h ⊢
    unfold ssl_parse_supported_point_formats_ext
    simp only []
    rw [if_neg hc]
    exact point_formats_loop_idem ssl _ _ h

theorem alpn_loop_list (ssl : ntbtls_t) (buf : Bytes) (n : Nat) (l : List Bytes) :
    (ssl_parse_alpn_loop ssl buf n l).2.alpn_list = ssl.alpn_list :=
  ((alpn_loop_frame ssl buf n l).2.2.2.2.2.2.2.2.2.1).symm

theorem alpn_loop_idem (ssl : ntbtls_t) (buf : Bytes) (n : Nat) (l : List Bytes)
    (h : (ssl_parse_alpn_loop ssl buf n l).1 = Ret.ok) :
    ssl_parse_alpn_loop (ssl_parse_alpn_loop ssl buf n l).2 buf n l =
      ssl_parse_alpn_loop ssl buf n l := by
  induction l with
  | nil => simp [ssl_parse_alpn_loop] at h
  | cons p rest ih =>
    by_cases hc : n = p.length ∧ memeq (buf.drop 3) p n = true
    · have e : ssl_parse_alpn_loop ssl buf n (p :: rest) =
          (Ret.ok, { ssl with alpn_chosen := some p }) := by
        rw [ssl_parse_alpn_loop, if_pos hc]
      rw [e, ssl_parse_alpn_loop, if_pos hc]
    · have e : ssl_parse_alpn_loop ssl buf n (p :: rest) =
          ssl_parse_alpn_loop ssl buf n rest := by
        rw [ssl_parse_alpn_loop, if_neg hc]
      rw [e] at h ⊢
      rw [ssl_parse_alpn_loop, if_neg hc]
      exact ih h

theorem alpn_idem (ssl : ntbtls_t) (buf : Bytes) (len : Nat)
    (h : (ssl_parse_alpn_ext ssl buf len).1 = Ret.ok) :
    ssl_parse_alpn_ext (ssl_parse_alpn_ext ssl buf len).2 buf len =
      ssl_parse_alpn_ext ssl buf len := by
  cases hl : ssl.alpn_list with
  | none =>
    exfalso
    unfold ssl_parse_alpn_ext at h
    rw [hl] at h
    simp at h
  | some l =>
    have e : ssl_parse_alpn_ext ssl buf len = ssl_parse_alpn_loop ssl buf (rd buf 2) l := by
      unfold ssl_parse_alpn_ext at h ⊢
      rw [hl] at h ⊢
      simp only [] at h ⊢
      split_ifs at h ⊢
      all_goals rfl
    have hcond : ¬ len < 4 ∧ ¬ shl8_or (rd buf 0) (rd buf 1) ≠ len - 2 ∧
        ¬ rd buf 2 ≠ shl8_or (rd buf 0) (rd buf 1) - 1 := by
      unfold ssl_parse_alpn_ext at h
      rw [hl] at h
      simp only [] at h
      split_ifs at h with a b c
      all_goals exact ⟨a, b, c⟩
    rw [e] at h ⊢
    have hl2 : (ssl_parse_alpn_loop ssl buf (rd buf 2) l).2.alpn_list = some l := by
      rw [alpn_loop_list, hl]
    have e2 : ssl_parse_alpn_ext (ssl_parse_alpn_loop ssl buf (rd buf 2) l).2 buf len =
        ssl_parse_alpn_loop (ssl_parse_alpn_loop ssl buf (rd buf 2) l).2 buf (rd buf 2) l := by
      unfold ssl_parse_alpn_ext
      rw [hl2]
      simp only []
      rw [if_neg hcond.1, if_neg hcond.2.1, if_neg hcond.2.2]
    rw [e2]
    exact alpn_loop_idem ssl buf _ l h

theorem ext_switch_idem (env : Env) (ssl : ntbtls_t) (id : Nat) (buf : Bytes)
    (size seen : Nat)
    (h : (parse_server_hello_ext_switch env ssl id buf size seen).1 = Ret.ok) :
    parse_server_hello_ext_switch env
        (parse_server_hello_ext_switch env ssl id buf size seen).2.1 id buf size
        (parse_server_hello_ext_switch env ssl id buf size seen).2.2 =
      parse_server_hello_ext_switch env ssl id buf size seen := by
  by_cases h1 : id = TLS_EXT_RENEGOTIATION_INFO
  · have e : ∀ s sn, parse_server_hello_ext_switch env s id buf size sn =
        ((ssl_parse_renegotiation_info env s buf size).1,
          (ssl_parse_renegotiation_info env s buf size).2, 1) := by
      intro s sn; unfold parse_server_hello_ext_switch; rw [if_pos h1]
    rw [e] at h
    rw [e ssl seen, e, renegotiation_info_idem env ssl buf size h]
  by_cases h2 : id = TLS_EXT_MAX_FRAGMENT_LENGTH
  · have e : ∀ s sn, parse_server_hello_ext_switch env s id buf size sn =
        ((ssl_parse_max_fragment_length_ext s buf size).1,
          (ssl_parse_max_fragment_length_ext s buf size).2, sn) := by
      intro s sn; unfold parse_server_hello_ext_switch; rw [if_neg h1, if_pos h2]
    rw [e ssl seen, e, max_fragment_length_idem ssl buf size]
  by_cases h3 : id = TLS_EXT_TRUNCATED_HMAC
  · have e : ∀ s sn, parse_server_hello_ext_switch env s id buf size sn =
        ((ssl_parse_truncated_hmac_ext s buf size).1,
          (ssl_parse_truncated_hmac_ext s buf size).2, sn) := by
      intro s sn; unfold parse_server_hello_ext_switch
      rw [if_neg h1, if_neg h2, if_pos h3]
    rw [e ssl seen, e, truncated_hmac_idem ssl buf size]
  by_cases h4 : id = TLS_EXT_SESSION_TICKET
  · have e : ∀ s sn, parse_server_hello_ext_switch env s id buf size sn =
        ((ssl_parse_session_ticket_ext s buf size).1,
          (ssl_parse_session_ticket_ext s buf size).2, sn) := by
      intro s sn; unfold parse_server_hello_ext_switch
      rw [if_neg h1, if_neg h2, if_neg h3, if_pos h4]
    rw [e ssl seen, e, session_ticket_idem ssl buf size]
  by_cases h5 : id = TLS_EXT_SUPPORTED_POINT_FORMATS
  · have e : ∀ s sn, parse_server_hello_ext_switch env s id buf size sn =
        ((ssl_parse_supported_point_formats_ext s buf size).1,
          (ssl_parse_supported_point_formats_ext s buf size).2, sn) := by
      intro s sn; unfold parse_server_hello_ext_switch
      rw [if_neg h1, if_neg h2, if_neg h3, if_neg h4, if_pos h5]
    rw [e] at h
    rw [e ssl seen, e, point_formats_idem ssl buf size h]
  by_cases h6 : id = TLS_EXT_ALPN
  · have e : ∀ s sn, parse_server_hello_ext_switch env s id buf size sn =
        ((ssl_parse_alpn_ext s buf size).1, (ssl_parse_alpn_ext s buf size).2, sn) := by
      intro s sn; unfold parse_server_hello_ext_switch
      rw [if_neg h1, if_neg h2, if_neg h3, if_neg h4, if_neg h5, if_pos h6]
    rw [e] at h
    rw [e ssl seen, e, alpn_idem ssl buf size h]
  have e : ∀ s sn, parse_server_hello_ext_switch env s id buf size sn = (Ret.ok, s, sn) := by
    intro s sn; unfold parse_server_hello_ext_switch
    rw [if_neg h1, if_neg h2, if_neg h3, if_neg h4, if_neg h5, if_neg h6]
  rw [e ssl seen, e]

/-! ## ServerHello extensions: duplicates -/

theorem parse_server_hello_dup_ok : (parse_server_hello env_dup ssl_plain).1 = Ret.ok := by
  simp [parse_server_hello, parse_server_hello_version, parse_server_hello_fields,
    parse_server_hello_resume, parse_server_hello_tail, parse_server_hello_ext_loop,
    parse_server_hello_ext_switch, _ntbtls_read_record, env_dup, ssl_plain, hello_dup,
    table_all, rd, shl8_or, server_hello_n, server_hello_i, server_hello_comp,
    server_hello_ext_len, parse_server_hello_find_ciphersuite,
    parse_server_hello_handshake_failure, ssl_parse_truncated_hmac_ext]

/-- C7, counterexample: the ServerHello `hello_dup` carries two
`truncated_hmac` extensions (its extension block, at offset 44, is
`00 04 00 00 00 04 00 00`), each valid for a client that offered truncated
HMAC; `parse_server_hello` returns success. -/
theorem parse_server_hello_duplicate_counterexample :
    env_dup.in_msg.drop 44 = [0, 4, 0, 0, 0, 4, 0, 0] ∧
    server_hello_n env_dup.in_msg = 0 ∧
    server_hello_ext_len env_dup.in_msg env_dup.in_hslen = 8 ∧
    (parse_server_hello env_dup ssl_plain).1 = Ret.ok := by
  refine ⟨by simp [env_dup, hello_dup], ?_, ?_, parse_server_hello_dup_ok⟩
  · simp [server_hello_n, env_dup, hello_dup, rd]
  · simp [server_hello_ext_len, server_hello_n, env_dup, hello_dup, rd, shl8_or]

/-- C7, amended: `parse_server_hello` keeps no record of the extension types
it has met; every entry of the extension block is handed to the parser of
its type.  When the first entry of a block (4 + `ext_size` bytes) is
immediately repeated, the extension loop ends with the same return code,
the same context and the same `renegotiation_info_seen` as on the block
without the first copy: a duplicate is rejected exactly when the single
entry is. -/
theorem parse_server_hello_ext_loop_duplicate (env : Env) (ssl : ntbtls_t)
    (ext : Bytes) (ext_len seen : Nat)
    (hsize : 2 * (4 + shl8_or (rd ext 2) (rd ext 3)) ≤ ext_len)
    (hdup : ∀ k, k < 4 + shl8_or (rd ext 2) (rd ext 3) →
      rd ext (4 + shl8_or (rd ext 2) (rd ext 3) + k) = rd ext k) :
    parse_server_hello_ext_loop env ssl ext ext_len seen =
      parse_server_hello_ext_loop env ssl
        (ext.drop (4 + shl8_or (rd ext 2) (rd ext 3)))
        (ext_len - (4 + shl8_or (rd ext 2) (rd ext 3))) seen := by
  have U1 := ext_loop_unfold env ssl ext ext_len seen
  generalize hsz : shl8_or (rd ext 2) (rd ext 3) = sz at hsize hdup U1 ⊢
  have hsz' : shl8_or (rd (ext.drop (4 + sz)) 2) (rd (ext.drop (4 + sz)) 3) = sz := by
    rw [rd_drop, rd_drop, hdup 2 (by omega), hdup 3 (by omega)]; exact hsz
  have hid' : shl8_or (rd (ext.drop (4 + sz)) 0) (rd (ext.drop (4 + sz)) 1) =
      shl8_or (rd ext 0) (rd ext 1) := by
    rw [rd_drop, rd_drop, hdup 0 (by omega), hdup 1 (by omega)]
  generalize shl8_or (rd ext 0) (rd ext 1) = id at hid' U1
  have hsw : ∀ s sn, parse_server_hello_ext_switch env s id
      ((ext.drop (4 + sz)).drop 4) sz sn =
      parse_server_hello_ext_switch env s id (ext.drop 4) sz sn := by
    intro s sn
    apply ext_switch_congr
    intro i hi
    rw [rd_drop, rd_drop, rd_drop]
    exact hdup (4 + i) (by omega)
  have U2 := ext_loop_unfold env ssl (ext.drop (4 + sz)) (ext_len - (4 + sz)) seen
  rw [hsz', hid', hsw] at U2
  generalize hr : parse_server_hello_ext_switch env ssl id (ext.drop 4) sz seen = r
    at U1 U2
  rw [if_neg (by omega), if_neg (by omega)] at U1 U2
  by_cases hok : r.1 = Ret.ok
  · rw [if_neg (not_not.mpr hok)] at U1 U2
    rw [if_neg (by omega)] at U1
    have U3 := ext_loop_unfold env r.2.1 (ext.drop (4 + sz)) (ext_len - (4 + sz)) r.2.2
    rw [hsz', hid', hsw] at U3
    have hidem : parse_server_hello_ext_switch env r.2.1 id (ext.drop 4) sz r.2.2 = r := by
      rw [← hr]
      exact ext_switch_idem env ssl id _ sz seen (by rw [hr]; exact hok)
    rw [hidem, if_neg (by omega), if_neg (by omega), if_neg (not_not.mpr hok)] at U3
    rw [U1, U3, U2]
  · rw [if_pos hok] at U1 U2
    rw [U1, U2]

/-- Witness for C7 (amended): on the block `00 04 00 00 00 04 00 00` of
`hello_dup` the loop ends as on the block `00 04 00 00`. -/
theorem parse_server_hello_ext_loop_duplicate_witness :
    parse_server_hello_ext_loop env_dup ssl_plain [0, 4, 0, 0, 0, 4, 0, 0] 8 0 =
      parse_server_hello_ext_loop env_dup ssl_plain
        (List.drop (4 + shl8_or (rd [0, 4, 0, 0, 0, 4, 0, 0] 2)
          (rd [0, 4, 0, 0, 0, 4, 0, 0] 3)) [0, 4, 0, 0, 0, 4, 0, 0])
        (8 - (4 + shl8_or (rd [0, 4, 0, 0, 0, 4, 0, 0] 2)
          (rd [0, 4, 0, 0, 0, 4, 0, 0] 3))) 0 :=
  parse_server_hello_ext_loop_duplicate env_dup ssl_plain [0, 4, 0, 0, 0, 4, 0, 0] 8 0
    (by simp [rd, shl8_or])
    (by
      have e : shl8_or (rd [0, 4, 0, 0, 0, 4, 0, 0] 2) (rd [0, 4, 0, 0, 0, 4, 0, 0] 3) = 0 := by
        simp [rd, shl8_or]
      rw [e]
      intro k hk
      interval_cases k <;> simp [rd])

/-! ## ServerHello extensions: extensions that were not offered -/

theorem not_offered_frame {a b : ntbtls_t} (h : ext_frame a b) (id : Nat)
    (hn : not_offered a id) : not_offered b id := by
  simp only [ext_frame] at h
  obtain ⟨_, _, _, _, _, _, f7, f8, f9, f10, _⟩ := h
  unfold not_offered at hn ⊢
  rw [← f7, ← f8, ← f9, ← f10]
  exact hn

theorem ext_switch_not_offered (env : Env) (ssl : ntbtls_t) (id : Nat) (buf : Bytes)
    (size seen : Nat) (hn : not_offered ssl id) :
    (parse_server_hello_ext_switch env ssl id buf size seen).1 =
      Ret.BAD_HS_SERVER_HELLO := by
  unfold not_offered at hn
  rcases hn with ⟨hid, hc⟩ | ⟨hid, hc⟩ | ⟨hid, hc⟩ | ⟨hid, hc⟩
  · subst hid
    simp [parse_server_hello_ext_switch, ssl_parse_max_fragment_length_ext, hc]
  · subst hid
    simp [parse_server_hello_ext_switch, ssl_parse_truncated_hmac_ext, hc]
  · subst hid
    simp [parse_server_hello_ext_switch, ssl_parse_session_ticket_ext, hc]
  · subst hid
    simp [parse_server_hello_ext_switch, ssl_parse_alpn_ext, hc]

theorem ext_loop_not_offered (env : Env) (ext : Bytes) (ext_len id : Nat)
    (hext : has_extension ext ext_len id) :
    ∀ (ssl : ntbtls_t) (seen : Nat), not_offered ssl id →
      (parse_server_hello_ext_loop env ssl ext ext_len seen).1 ≠ Ret.ok := by
  induction hext with
  | here ext ext_len hsz =>
    intro ssl seen hn
    rw [ext_loop_unfold, if_neg (by omega), if_neg (by omega)]
    have hs := ext_switch_not_offered env ssl _ (ext.drop 4)
      (shl8_or (rd ext 2) (rd ext 3)) seen hn
    rw [if_pos (by rw [hs]; simp), hs]
    simp
  | later ext ext_len id hsz _ ih =>
    intro ssl seen hn
    rw [ext_loop_unfold, if_neg (by omega), if_neg (by omega)]
    split_ifs with h1 h2
    · exact h1
    · simp
    · exact ih _ _ (not_offered_frame (ext_switch_frame env ssl _ _ _ seen) id hn)

/-- C8: for each of max_fragment_length, truncated_hmac, session_ticket and
ALPN: if the client's configuration did not offer the extension
(`mfl_code = NONE`, `trunc_hmac` disabled, `session_tickets` disabled,
`alpn_list` absent) and the extension block of the ServerHello contains an
extension of that type, whatever its payload, `parse_server_hello` does not
return success. -/
theorem parse_server_hello_unoffered_extension (env : Env) (ssl : ntbtls_t) (id : Nat)
    (hext : has_extension (env.in_msg.drop (44 + server_hello_n env.in_msg))
      (server_hello_ext_len env.in_msg env.in_hslen) id)
    (hno : not_offered ssl id) :
    (parse_server_hello env ssl).1 ≠ Ret.ok := by
  intro h
  obtain ⟨_, _, _, _, _, _, _, _, _, _, s, s1, s2, _, s4, _, _, hok, _⟩ :=
    parse_server_hello_ok env ssl h
  have hl := (tail_ok env s hok).2.2
  rw [s1, s2] at hl
  refine ext_loop_not_offered env _ _ id hext _ 0 ?_ hl
  simp only [cfg_eq] at s4
  obtain ⟨_, _, _, c4, c5, c6, c7, _⟩ := s4
  unfold not_offered at hno ⊢
  show (id = TLS_EXT_MAX_FRAGMENT_LENGTH ∧ s.mfl_code = SSL_MAX_FRAG_LEN_NONE) ∨
    (id = TLS_EXT_TRUNCATED_HMAC ∧ s.trunc_hmac = SSL_TRUNC_HMAC_DISABLED) ∨
    (id = TLS_EXT_SESSION_TICKET ∧ s.session_tickets = SSL_SESSION_TICKETS_DISABLED) ∨
    (id = TLS_EXT_ALPN ∧ s.alpn_list = none)
  rw [c4, c5, c6, c7]
  exact hno

theorem hello_plain_has_truncated_hmac :
    has_extension (env_plain.in_msg.drop (44 + server_hello_n env_plain.in_msg))
      (server_hello_ext_len env_plain.in_msg env_plain.in_hslen)
      TLS_EXT_TRUNCATED_HMAC := by
  have e1 : env_plain.in_msg.drop (44 + server_hello_n env_plain.in_msg) = [0, 4, 0, 0] := by
    simp [env_plain, hello_plain, server_hello_n, rd]
  have e2 : server_hello_ext_len env_plain.in_msg env_plain.in_hslen = 4 :=
    hello_plain_fields.2.2.2.1
  rw [e1, e2]
  have h := has_extension.here [0, 4, 0, 0] 4 (by simp [rd, shl8_or])
  have e3 : shl8_or (rd [0, 4, 0, 0] 0) (rd [0, 4, 0, 0] 1) = TLS_EXT_TRUNCATED_HMAC := by
    simp [rd, shl8_or]
  rw [e3] at h
  exact h

/-- Witness for C8: `hello_plain` carries a `truncated_hmac` extension; a
client that did not offer it rejects the message. -/
theorem parse_server_hello_unoffered_extension_witness :
    (parse_server_hello env_plain ssl_nothing_offered).1 ≠ Ret.ok :=
  parse_server_hello_unoffered_extension env_plain ssl_nothing_offered
    TLS_EXT_TRUNCATED_HMAC hello_plain_has_truncated_hmac
    (Or.inr (Or.inl ⟨rfl, rfl⟩))

/-! ## The renegotiation_info extension -/

theorem memeq_iff (a b : Bytes) (n : Nat) :
    memeq a b n = true ↔ ∀ k, k < n → rd a k = rd b k := by
  unfold memeq
  simp only [List.all_eq_true, List.mem_range, beq_iff_eq]

/-- C9, counterexample: on an initial handshake, with the payload `01` and
an alert that cannot be sent (code `other 1`),
`ssl_parse_renegotiation_info` returns the code of the alert, not
`GPG_ERR_BAD_HS_SERVER_HELLO`. -/
theorem ssl_parse_renegotiation_info_initial_counterexample :
    ¬ ∀ (env : Env) (ssl : ntbtls_t) (buf : Bytes) (len : Nat),
      ssl.renegotiation = SSL_INITIAL_HANDSHAKE → ¬ (len = 1 ∧ rd buf 0 = 0) →
      (ssl_parse_renegotiation_info env ssl buf len).1 = Ret.BAD_HS_SERVER_HELLO := by
  intro h
  have h1 := h env_alert_fails ssl_initial [1] 1 rfl (by simp [rd])
  simp [ssl_parse_renegotiation_info, env_alert_fails, ssl_initial, rd] at h1

/-- C9, amended: on an initial handshake `ssl_parse_renegotiation_info`
succeeds if and only if the payload is exactly the single byte `0x00`; on
success it sets `secure_renegotiation` to SECURE; for every other payload
(empty, longer than one byte, or one non-zero byte) it sends the
handshake_failure alert and reports `GPG_ERR_BAD_HS_SERVER_HELLO` when the
alert was sent, and the error of the alert when sending it failed. -/
theorem ssl_parse_renegotiation_info_initial (env : Env) (ssl : ntbtls_t)
    (buf : Bytes) (len : Nat) (hi : ssl.renegotiation = SSL_INITIAL_HANDSHAKE) :
    ((ssl_parse_renegotiation_info env ssl buf len).1 = Ret.ok ↔
      (len = 1 ∧ rd buf 0 = 0)) ∧
    ((ssl_parse_renegotiation_info env ssl buf len).1 = Ret.ok →
      (ssl_parse_renegotiation_info env ssl buf len).2.secure_renegotiation =
        TLS_SECURE_RENEGOTIATION) ∧
    (¬ (len = 1 ∧ rd buf 0 = 0) →
      (ssl_parse_renegotiation_info env ssl buf len).1 =
        if env.send_fatal_handshake_failure = Ret.ok then Ret.BAD_HS_SERVER_HELLO
        else env.send_fatal_handshake_failure) := by
  by_cases hc : len ≠ 1 ∨ rd buf 0 ≠ 0x0
  · have hp : ¬ (len = 1 ∧ rd buf 0 = 0) := by
      intro hh; rcases hc with hc | hc
      · exact hc hh.1
      · exact hc hh.2
    have e : (ssl_parse_renegotiation_info env ssl buf len).1 =
        if env.send_fatal_handshake_failure = Ret.ok then Ret.BAD_HS_SERVER_HELLO
        else env.send_fatal_handshake_failure := by
      unfold ssl_parse_renegotiation_info
      rw [if_pos hi, if_pos hc]
      by_cases ha : env.send_fatal_handshake_failure = Ret.ok
      · rw [if_neg (not_not.mpr ha), if_pos ha]
      · rw [if_pos ha, if_neg ha]
    have hne : (ssl_parse_renegotiation_info env ssl buf len).1 ≠ Ret.ok := by
      rw [e]
      by_cases ha : env.send_fatal_handshake_failure = Ret.ok
      · rw [if_pos ha]; simp
      · rw [if_neg ha]; exact ha
    exact ⟨⟨fun h => absurd h hne, fun h => absurd h hp⟩, fun h => absurd h hne,
      fun _ => e⟩
  · have hp : len = 1 ∧ rd buf 0 = 0 := by
      constructor
      · by_contra h1; exact hc (Or.inl h1)
      · by_contra h1; exact hc (Or.inr h1)
    have e : ssl_parse_renegotiation_info env ssl buf len = (Ret.ok,
        { ssl with secure_renegotiation := TLS_SECURE_RENEGOTIATION }) := by
      unfold ssl_parse_renegotiation_info
      rw [if_pos hi, if_neg hc]
    rw [e]
    exact ⟨⟨fun _ => hp, fun _ => rfl⟩, fun _ => rfl, fun h => absurd hp h⟩

/-- Witness for C9 (amended): on an initial handshake the payload `00` is
accepted. -/
theorem ssl_parse_renegotiation_info_initial_witness :
    (ssl_parse_renegotiation_info env_alert_fails ssl_initial [0] 1).1 = Ret.ok :=
  (ssl_parse_renegotiation_info_initial env_alert_fails ssl_initial [0] 1 rfl).1.mpr
    ⟨rfl, by simp [rd]⟩

/-- C10, counterexample: during a renegotiation, with an empty payload and
an alert that cannot be sent (code `other 1`),
`ssl_parse_renegotiation_info` returns the code of the alert, not
`GPG_ERR_BAD_HS_SERVER_HELLO`. -/
theorem ssl_parse_renegotiation_info_renegotiation_counterexample :
    ¬ ∀ (env : Env) (ssl : ntbtls_t) (buf : Bytes) (len : Nat),
      ssl.renegotiation = TLS_RENEGOTIATION →
      ¬ renegotiation_payload_matches ssl buf len →
      (ssl_parse_renegotiation_info env ssl buf len).1 = Ret.BAD_HS_SERVER_HELLO := by
  intro h
  have h1 := h env_alert_fails ssl_renegotiating [] 0 rfl
    (by simp [renegotiation_payload_matches, ssl_renegotiating])
  simp [ssl_parse_renegotiation_info, env_alert_fails, ssl_renegotiating] at h1

/-- C10, amended: during a renegotiation, with `L = verify_data_len`,
`ssl_parse_renegotiation_info` succeeds if and only if the payload has
length `1 + 2L`, its first byte equals `2L`, bytes `1..L` equal
`own_verify_data` and bytes `L+1..2L` equal `peer_verify_data`; every other
payload is rejected, with `GPG_ERR_BAD_HS_SERVER_HELLO` when the
handshake_failure alert was sent and with the error of the alert when
sending it failed.  The context is left unchanged in both cases. -/
theorem ssl_parse_renegotiation_info_renegotiation (env : Env) (ssl : ntbtls_t)
    (buf : Bytes) (len : Nat) (hr : ssl.renegotiation = TLS_RENEGOTIATION) :
    ((ssl_parse_renegotiation_info env ssl buf len).1 = Ret.ok ↔
      renegotiation_payload_matches ssl buf len) ∧
    (¬ renegotiation_payload_matches ssl buf len →
      (ssl_parse_renegotiation_info env ssl buf len).1 =
        if env.send_fatal_handshake_failure = Ret.ok then Ret.BAD_HS_SERVER_HELLO
        else env.send_fatal_handshake_failure) ∧
    (ssl_parse_renegotiation_info env ssl buf len).2 = ssl := by
  have hi : ¬ ssl.renegotiation = SSL_INITIAL_HANDSHAKE := by
    rw [hr]; simp
  have hm : renegotiation_payload_matches ssl buf len ↔
      ¬ (len ≠ 1 + ssl.verify_data_len * 2 ∨
        rd buf 0 ≠ ssl.verify_data_len * 2 ∨
        memeq (buf.drop 1) ssl.own_verify_data ssl.verify_data_len = false ∨
        memeq (buf.drop (1 + ssl.verify_data_len)) ssl.peer_verify_data
          ssl.verify_data_len = false) := by
    unfold renegotiation_payload_matches
    simp only [not_or, ne_eq, not_not, Bool.not_eq_false, memeq_iff, rd_drop]
  by_cases hc : len ≠ 1 + ssl.verify_data_len * 2 ∨
      rd buf 0 ≠ ssl.verify_data_len * 2 ∨
      memeq (buf.drop 1) ssl.own_verify_data ssl.verify_data_len = false ∨
      memeq (buf.drop (1 + ssl.verify_data_len)) ssl.peer_verify_data
        ssl.verify_data_len = false
  · have hp : ¬ renegotiation_payload_matches ssl buf len := fun h => hm.mp h hc
    have e : ssl_parse_renegotiation_info env ssl buf len =
        (if env.send_fatal_handshake_failure = Ret.ok then Ret.BAD_HS_SERVER_HELLO
          else env.send_fatal_handshake_failure, ssl) := by
      unfold ssl_parse_renegotiation_info
      rw [if_neg hi, if_pos hc]
      by_cases ha : env.send_fatal_handshake_failure = Ret.ok
      · rw [if_neg (not_not.mpr ha), if_pos ha]
      · rw [if_pos ha, if_neg ha]
    have hne : (ssl_parse_renegotiation_info env ssl buf len).1 ≠ Ret.ok := by
      rw [e]
      by_cases ha : env.send_fatal_handshake_failure = Ret.ok
      · simp only [if_pos ha]; simp
      · simp only [if_neg ha]; exact ha
    refine ⟨⟨fun h => absurd h hne, fun h => absurd h hp⟩, fun _ => ?_, ?_⟩
    · rw [e]
    · rw [e]
  · have hp : renegotiation_payload_matches ssl buf len := hm.mpr hc
    have e : ssl_parse_renegotiation_info env ssl buf len = (Ret.ok, ssl) := by
      unfold ssl_parse_renegotiation_info
      rw [if_neg hi, if_neg hc]
    rw [e]
    exact ⟨⟨fun _ => hp, fun _ => rfl⟩, fun h => absurd hp h, rfl⟩

/-- Witness for C10 (amended): with own verify data `01 02` and peer verify
data `03 04` the payload `04 01 02 03 04` is accepted. -/
theorem ssl_parse_renegotiation_info_renegotiation_witness :
    (ssl_parse_renegotiation_info env_alert_fails ssl_renegotiating
      [4, 1, 2, 3, 4] 5).1 = Ret.ok :=
  (ssl_parse_renegotiation_info_renegotiation env_alert_fails ssl_renegotiating
    [4, 1, 2, 3, 4] 5 rfl).1.mpr (by
      refine ⟨rfl, by simp [rd, ssl_renegotiating], ?_, ?_⟩
      · intro k hk
        have hk2 : k < 2 := hk
        interval_cases k <;> simp [rd, ssl_renegotiating]
      · intro k hk
        have hk2 : k < 2 := hk
        interval_cases k <;> simp [rd, ssl_renegotiating])

/-! ## ServerHello: the renegotiation security checks -/

theorem resume_frame (env : Env) (s : ntbtls_t) :
    (parse_server_hello_resume env s).2.in_msg = s.in_msg ∧
    (parse_server_hello_resume env s).2.in_hslen = s.in_hslen ∧
    (parse_server_hello_resume env s).2.minor_ver = s.minor_ver ∧
    (parse_server_hello_resume env s).2.ciphersuite_list = s.ciphersuite_list ∧
    (parse_server_hello_resume env s).2.renegotiation = s.renegotiation ∧
    (parse_server_hello_resume env s).2.allow_legacy_renegotiation =
      s.allow_legacy_renegotiation ∧
    (parse_server_hello_resume env s).2.secure_renegotiation = s.secure_renegotiation := by
  by_cases h : no_resume s
  · rw [resume_no env s h]
    exact ⟨rfl, rfl, rfl, rfl, rfl, rfl, rfl⟩
  · rw [resume_yes env s h]
    exact ⟨rfl, rfl, rfl, rfl, rfl, rfl, rfl⟩

theorem ctx_before_extensions_fields (env : Env) (ssl : ntbtls_t) :
    (ctx_before_extensions env ssl).in_msg = env.in_msg ∧
    (ctx_before_extensions env ssl).in_hslen = env.in_hslen ∧
    (ctx_before_extensions env ssl).renegotiation = ssl.renegotiation ∧
    (ctx_before_extensions env ssl).allow_legacy_renegotiation =
      ssl.allow_legacy_renegotiation ∧
    (ctx_before_extensions env ssl).secure_renegotiation = ssl.secure_renegotiation := by
  obtain ⟨h1, h2, _, _, h5, h6, h7⟩ := resume_frame env (ctx_after_fields env ssl)
  refine ⟨?_, ?_, ?_, ?_, ?_⟩
  · show (parse_server_hello_resume env (ctx_after_fields env ssl)).2.in_msg = _
    rw [h1]; rfl
  · show (parse_server_hello_resume env (ctx_after_fields env ssl)).2.in_hslen = _
    rw [h2]; rfl
  · show (parse_server_hello_resume env (ctx_after_fields env ssl)).2.renegotiation = _
    rw [h5]; rfl
  · show (parse_server_hello_resume env
      (ctx_after_fields env ssl)).2.allow_legacy_renegotiation = _
    rw [h6]; rfl
  · show (parse_server_hello_resume env
      (ctx_after_fields env ssl)).2.secure_renegotiation = _
    rw [h7]; rfl

theorem parse_server_hello_before_extensions (env : Env) (ssl : ntbtls_t)
    (h : hello_valid_before_extensions env ssl) :
    parse_server_hello env ssl =
      if (parse_server_hello_ext_loop env (ctx_before_extensions env ssl)
          (env.in_msg.drop (44 + server_hello_n env.in_msg))
          (server_hello_ext_len env.in_msg env.in_hslen) 0).1 ≠ Ret.ok then
        ((parse_server_hello_ext_loop env (ctx_before_extensions env ssl)
          (env.in_msg.drop (44 + server_hello_n env.in_msg))
          (server_hello_ext_len env.in_msg env.in_hslen) 0).1,
         (parse_server_hello_ext_loop env (ctx_before_extensions env ssl)
          (env.in_msg.drop (44 + server_hello_n env.in_msg))
          (server_hello_ext_len env.in_msg env.in_hslen) 0).2.1)
      else if parse_server_hello_handshake_failure
          (parse_server_hello_ext_loop env (ctx_before_extensions env ssl)
            (env.in_msg.drop (44 + server_hello_n env.in_msg))
            (server_hello_ext_len env.in_msg env.in_hslen) 0).2.1
          (parse_server_hello_ext_loop env (ctx_before_extensions env ssl)
            (env.in_msg.drop (44 + server_hello_n env.in_msg))
            (server_hello_ext_len env.in_msg env.in_hslen) 0).2.2 = 1 then
        if env.send_fatal_handshake_failure ≠ Ret.ok then
          (env.send_fatal_handshake_failure,
           (parse_server_hello_ext_loop env (ctx_before_extensions env ssl)
            (env.in_msg.drop (44 + server_hello_n env.in_msg))
            (server_hello_ext_len env.in_msg env.in_hslen) 0).2.1)
        else
          (Ret.BAD_HS_SERVER_HELLO,
           (parse_server_hello_ext_loop env (ctx_before_extensions env ssl)
            (env.in_msg.drop (44 + server_hello_n env.in_msg))
            (server_hello_ext_len env.in_msg env.in_hslen) 0).2.1)
      else
        (Ret.ok,
         (parse_server_hello_ext_loop env (ctx_before_extensions env ssl)
          (env.in_msg.drop (44 + server_hello_n env.in_msg))
          (server_hello_ext_len env.in_msg env.in_hslen) 0).2.1) := by
  obtain ⟨hv, hn, hlen, hk, hres, hfind, hcomp⟩ := h
  rw [parse_server_hello_after_fields env ssl hv hn hlen hk]
  rw [if_neg (not_not.mpr hres)]
  obtain ⟨f1, f2, f3, f4, _, _, _⟩ := resume_frame env (ctx_after_fields env ssl)
  have g1 : (parse_server_hello_resume env (ctx_after_fields env ssl)).2.in_msg =
      env.in_msg := by rw [f1]; rfl
  have g2 : (parse_server_hello_resume env (ctx_after_fields env ssl)).2.in_hslen =
      env.in_hslen := by rw [f2]; rfl
  have g3 : (parse_server_hello_resume env (ctx_after_fields env ssl)).2.minor_ver =
      rd env.in_msg 5 := by rw [f3]; rfl
  have g4 : (parse_server_hello_resume env (ctx_after_fields env ssl)).2.ciphersuite_list =
      ssl.ciphersuite_list := by rw [f4]; rfl
  have g5 := resume_ciphersuite env (ctx_after_fields env ssl)
  have g6 : (ctx_after_fields env ssl).in_msg = env.in_msg := rfl
  rw [g6] at g5
  have hf : parse_server_hello_find_ciphersuite
      ((parse_server_hello_resume env (ctx_after_fields env ssl)).2.ciphersuite_list
        (parse_server_hello_resume env (ctx_after_fields env ssl)).2.minor_ver)
      (parse_server_hello_resume env
        (ctx_after_fields env ssl)).2.session_negotiate.ciphersuite = true := by
    rw [g3, g4, g5]
    exact (find_ciphersuite_iff _ _).mpr hfind
  have hc : ¬ (server_hello_comp env.in_msg ≠ TLS_COMPRESS_NULL ∧
      server_hello_comp env.in_msg ≠ TLS_COMPRESS_DEFLATE) := by
    intro hh
    rcases hcomp with h0 | h1
    · exact hh.1 h0
    · exact hh.2 h1
  unfold parse_server_hello_tail ctx_before_extensions
  simp only []
  rw [if_neg (by rw [hf]; simp), g1, g2, if_neg hc]

theorem handshake_failure_iff (t : ntbtls_t) (seen : Nat) :
    parse_server_hello_handshake_failure t seen = 1 ↔ spec_renegotiation_failure t seen := by
  unfold parse_server_hello_handshake_failure spec_renegotiation_failure
  split_ifs with h1 h2 h3 h4
  · exact ⟨fun _ => Or.inl h1, fun _ => rfl⟩
  · exact ⟨fun _ => Or.inr (Or.inl h2), fun _ => rfl⟩
  · exact ⟨fun _ => Or.inr (Or.inr (Or.inl h3)), fun _ => rfl⟩
  · exact ⟨fun _ => Or.inr (Or.inr (Or.inr h4)), fun _ => rfl⟩
  · constructor
    · intro h; exact absurd h (by decide)
    · rintro (h | h | h | h)
      · exact absurd h h1
      · exact absurd h h2
      · exact absurd h h3
      · exact absurd h h4

theorem point_formats_loop_secure (ssl : ntbtls_t) (k : Nat) (p : Bytes) :
    (ssl_parse_supported_point_formats_loop ssl k p).2.secure_renegotiation =
      ssl.secure_renegotiation := by
  induction k generalizing p with
  | zero => rfl
  | succ k ih =>
    unfold ssl_parse_supported_point_formats_loop
    split_ifs
    · rfl
    · exact ih _

theorem alpn_loop_secure (ssl : ntbtls_t) (buf : Bytes) (n : Nat) (l : List Bytes) :
    (ssl_parse_alpn_loop ssl buf n l).2.secure_renegotiation =
      ssl.secure_renegotiation := by
  induction l with
  | nil => rfl
  | cons p rest ih =>
    unfold ssl_parse_alpn_loop
    split_ifs
    · rfl
    · exact ih

theorem ext_switch_other (env : Env) (ssl : ntbtls_t) (id : Nat) (buf : Bytes)
    (size seen : Nat) (hid : id ≠ TLS_EXT_RENEGOTIATION_INFO) :
    (parse_server_hello_ext_switch env ssl id buf size seen).2.2 = seen ∧
    (parse_server_hello_ext_switch env ssl id buf size seen).2.1.secure_renegotiation =
      ssl.secure_renegotiation := by
  unfold parse_server_hello_ext_switch
  rw [if_neg hid]
  simp only []
  split_ifs
  · refine ⟨rfl, ?_⟩
    unfold ssl_parse_max_fragment_length_ext
    split_ifs <;> rfl
  · refine ⟨rfl, ?_⟩
    unfold ssl_parse_truncated_hmac_ext
    split_ifs <;> rfl
  · refine ⟨rfl, ?_⟩
    unfold ssl_parse_session_ticket_ext
    split_ifs <;> rfl
  · refine ⟨rfl, ?_⟩
    unfold ssl_parse_supported_point_formats_ext
    simp only []
    split_ifs
    · rfl
    · exact point_formats_loop_secure _ _ _
  · refine ⟨rfl, ?_⟩
    unfold ssl_parse_alpn_ext
    split
    · rfl
    · simp only []
      split_ifs
      · rfl
      · rfl
      · rfl
      · exact alpn_loop_secure _ _ _ _
  · exact ⟨rfl, rfl⟩

theorem ext_loop_no_renegotiation_info (env : Env) (ext_len : Nat) :
    ∀ (ssl : ntbtls_t) (ext : Bytes) (seen : Nat),
      ¬ has_extension ext ext_len TLS_EXT_RENEGOTIATION_INFO →
      (parse_server_hello_ext_loop env ssl ext ext_len seen).2.2 = seen ∧
      (parse_server_hello_ext_loop env ssl ext ext_len seen).2.1.secure_renegotiation =
        ssl.secure_renegotiation := by
  induction ext_len using Nat.strong_induction_on with
  | _ ext_len ih =>
    intro ssl ext seen hno
    rw [ext_loop_unfold]
    by_cases h0 : ext_len = 0
    · rw [if_pos h0]; exact ⟨rfl, rfl⟩
    rw [if_neg h0]
    by_cases h1 : shl8_or (rd ext 2) (rd ext 3) + 4 > ext_len
    · rw [if_pos h1]; exact ⟨rfl, rfl⟩
    rw [if_neg h1]
    have hid : shl8_or (rd ext 0) (rd ext 1) ≠ TLS_EXT_RENEGOTIATION_INFO := by
      intro hid
      apply hno
      have hh := has_extension.here ext ext_len (by omega)
      rw [hid] at hh
      exact hh
    have hsw := ext_switch_other env ssl _ (ext.drop 4)
      (shl8_or (rd ext 2) (rd ext 3)) seen hid
    split_ifs with h2 h3
    · exact hsw
    · exact hsw
    · have hrest : ¬ has_extension (ext.drop (4 + shl8_or (rd ext 2) (rd ext 3)))
          (ext_len - (4 + shl8_or (rd ext 2) (rd ext 3))) TLS_EXT_RENEGOTIATION_INFO :=
        fun hh => hno (has_extension.later ext ext_len _ (by omega) hh)
      have hi := ih (ext_len - (4 + shl8_or (rd ext 2) (rd ext 3))) (by omega)
        (parse_server_hello_ext_switch env ssl (shl8_or (rd ext 0) (rd ext 1))
          (ext.drop 4) (shl8_or (rd ext 2) (rd ext 3)) seen).2.1
        (ext.drop (4 + shl8_or (rd ext 2) (rd ext 3)))
        (parse_server_hello_ext_switch env ssl (shl8_or (rd ext 0) (rd ext 1))
          (ext.drop 4) (shl8_or (rd ext 2) (rd ext 3)) seen).2.2 hrest
      exact ⟨hi.1.trans hsw.1, hi.2.trans hsw.2⟩

theorem parse_server_hello_after_extensions (env : Env) (ssl t : ntbtls_t)
    (seen : Nat) (h : hello_valid_before_extensions env ssl)
    (hloop : parse_server_hello_ext_loop env (ctx_before_extensions env ssl)
      (env.in_msg.drop (44 + server_hello_n env.in_msg))
      (server_hello_ext_len env.in_msg env.in_hslen) 0 = (Ret.ok, t, seen)) :
    parse_server_hello env ssl =
      if parse_server_hello_handshake_failure t seen = 1 then
        if env.send_fatal_handshake_failure ≠ Ret.ok then
          (env.send_fatal_handshake_failure, t)
        else (Ret.BAD_HS_SERVER_HELLO, t)
      else (Ret.ok, t) := by
  have hp := parse_server_hello_before_extensions env ssl h
  rw [hloop] at hp
  simp only [ne_eq, not_true_eq_false, if_false] at hp
  exact hp

theorem hello_valid_plain (env : Env) (ssl : ntbtls_t)
    (hr : env.read_record = Ret.ok) (ht : env.in_msgtype = 22)
    (hm : env.in_msg = hello_plain) (hl : env.in_hslen = 48)
    (hmin : ssl.min_minor_ver ≤ 3) (hmax : 3 ≤ ssl.max_minor_ver)
    (htab : env.ssl_ciphersuite_from_id = table_all)
    (hlist : ssl.ciphersuite_list = fun _ => [0x2F])
    (hres : ssl.handshake.resume = 0) :
    hello_valid_before_extensions env ssl := by
  have hno : no_resume (ctx_after_fields env ssl) := Or.inr (Or.inl hres)
  refine ⟨version_accepted_plain env ssl hr ht hm hl hmin hmax, ?_, ?_, ?_, ?_, ?_, ?_⟩
  · rw [hm, hello_plain_fields.1]; omega
  · rw [hm, hl]; exact hello_plain_fields.2.2.2.2.2
  · rw [htab]; simp [table_all]
  · rw [resume_no env _ hno]
  · rw [hm, hello_plain_fields.2.1, hlist]; simp [zero_terminated]
  · left; rw [hm, hello_plain_fields.2.2.1]; rfl

theorem hello_plain_ext_loop (env : Env) (s : ntbtls_t)
    (hm : env.in_msg = hello_plain) (hl : env.in_hslen = 48)
    (ht : s.trunc_hmac = SSL_TRUNC_HMAC_ENABLED) :
    parse_server_hello_ext_loop env s
      (env.in_msg.drop (44 + server_hello_n env.in_msg))
      (server_hello_ext_len env.in_msg env.in_hslen) 0 =
      (Ret.ok, { s with session_negotiate :=
        { s.session_negotiate with trunc_hmac := SSL_TRUNC_HMAC_ENABLED } }, 0) := by
  rw [hm, hl, hello_plain_fields.1, hello_plain_fields.2.2.2.1]
  simp at ht
  simp [parse_server_hello_ext_loop, parse_server_hello_ext_switch, hello_plain, rd,
    shl8_or, ssl_parse_truncated_hmac_ext, ht]

/-- C11, counterexample: the client `ssl_break` (policy `break_handshake`)
reads the well-formed ServerHello `hello_plain`, which carries no
`renegotiation_info`; after the extensions condition (a) holds (the server
is a legacy one), but sending the alert fails with code `other 1` and
`parse_server_hello` returns that code, not `GPG_ERR_BAD_HS_SERVER_HELLO`. -/
theorem parse_server_hello_renegotiation_checks_counterexample :
    hello_valid_before_extensions env_plain_alert_fails ssl_break ∧
    (∃ t seen,
      parse_server_hello_ext_loop env_plain_alert_fails
        (ctx_before_extensions env_plain_alert_fails ssl_break)
        (env_plain_alert_fails.in_msg.drop
          (44 + server_hello_n env_plain_alert_fails.in_msg))
        (server_hello_ext_len env_plain_alert_fails.in_msg
          env_plain_alert_fails.in_hslen) 0 = (Ret.ok, t, seen) ∧
      t.secure_renegotiation = TLS_LEGACY_RENEGOTIATION ∧
      t.allow_legacy_renegotiation = TLS_LEGACY_BREAK_HANDSHAKE) ∧
    (parse_server_hello env_plain_alert_fails ssl_break).1 = Ret.other 1 ∧
    (parse_server_hello env_plain_alert_fails ssl_break).1 ≠ Ret.BAD_HS_SERVER_HELLO := by
  have hv : hello_valid_before_extensions env_plain_alert_fails ssl_break :=
    hello_valid_plain _ _ rfl rfl rfl rfl (by simp [ssl_break, ssl_plain])
      (by simp [ssl_break, ssl_plain]) rfl rfl rfl
  have hl := hello_plain_ext_loop env_plain_alert_fails
    (ctx_before_extensions env_plain_alert_fails ssl_break) rfl rfl
    (by
      have hno : no_resume (ctx_after_fields env_plain_alert_fails ssl_break) :=
        Or.inr (Or.inl rfl)
      unfold ctx_before_extensions
      rw [resume_no _ _ hno]
      rfl)
  have hc := ctx_before_extensions_fields env_plain_alert_fails ssl_break
  obtain ⟨t, seen, ht, hs, ha⟩ : ∃ t seen,
      parse_server_hello_ext_loop env_plain_alert_fails
        (ctx_before_extensions env_plain_alert_fails ssl_break)
        (env_plain_alert_fails.in_msg.drop
          (44 + server_hello_n env_plain_alert_fails.in_msg))
        (server_hello_ext_len env_plain_alert_fails.in_msg
          env_plain_alert_fails.in_hslen) 0 = (Ret.ok, t, seen) ∧
      t.secure_renegotiation = TLS_LEGACY_RENEGOTIATION ∧
      t.allow_legacy_renegotiation = TLS_LEGACY_BREAK_HANDSHAKE :=
    ⟨_, _, hl, hc.2.2.2.2, hc.2.2.2.1⟩
  have hres : (parse_server_hello env_plain_alert_fails ssl_break).1 = Ret.other 1 := by
    rw [parse_server_hello_after_extensions _ _ t seen hv ht,
      if_pos ((handshake_failure_iff t seen).mpr (Or.inl ⟨hs, ha⟩))]
    rfl
  refine ⟨hv, ⟨t, seen, ht, hs, ha⟩, hres, ?_⟩
  rw [hres]
  simp

/-- C11, amended: let the ServerHello pass every check that precedes the
extension loop and let the extension loop end successfully in the context
`t`, with `seen` telling whether a `renegotiation_info` extension was met.
Then `parse_server_hello` fails if and only if one of the conditions
(a)-(d) holds in `t`; in that case it returns
`GPG_ERR_BAD_HS_SERVER_HELLO` when the handshake_failure alert was sent,
and the code of the alert when sending it failed; otherwise it succeeds.
The context returned is `t`, whose renegotiation flag and policy are those
of the call.  In particular a renegotiating client with secure
renegotiation fails whenever the extension block holds no
`renegotiation_info`, and an initial handshake under policy `allow`
succeeds also with a legacy server. -/
theorem parse_server_hello_renegotiation_checks (env : Env) (ssl t : ntbtls_t)
    (seen : Nat) (h : hello_valid_before_extensions env ssl)
    (hloop : parse_server_hello_ext_loop env (ctx_before_extensions env ssl)
      (env.in_msg.drop (44 + server_hello_n env.in_msg))
      (server_hello_ext_len env.in_msg env.in_hslen) 0 = (Ret.ok, t, seen)) :
    ((parse_server_hello env ssl).1 ≠ Ret.ok ↔ spec_renegotiation_failure t seen) ∧
    (spec_renegotiation_failure t seen → env.send_fatal_handshake_failure = Ret.ok →
      parse_server_hello env ssl = (Ret.BAD_HS_SERVER_HELLO, t)) ∧
    (spec_renegotiation_failure t seen → env.send_fatal_handshake_failure ≠ Ret.ok →
      parse_server_hello env ssl = (env.send_fatal_handshake_failure, t)) ∧
    (¬ spec_renegotiation_failure t seen → parse_server_hello env ssl = (Ret.ok, t)) ∧
    t.renegotiation = ssl.renegotiation ∧
    t.allow_legacy_renegotiation = ssl.allow_legacy_renegotiation ∧
    (ssl.renegotiation = TLS_RENEGOTIATION →
      ssl.secure_renegotiation = TLS_SECURE_RENEGOTIATION →
      ¬ has_extension (env.in_msg.drop (44 + server_hello_n env.in_msg))
        (server_hello_ext_len env.in_msg env.in_hslen) TLS_EXT_RENEGOTIATION_INFO →
      (parse_server_hello env ssl).1 ≠ Ret.ok) ∧
    (ssl.renegotiation = SSL_INITIAL_HANDSHAKE →
      ssl.allow_legacy_renegotiation = TLS_LEGACY_ALLOW_RENEGOTIATION →
      parse_server_hello env ssl = (Ret.ok, t)) := by
  have hp := parse_server_hello_after_extensions env ssl t seen h hloop
  have hc := ctx_before_extensions_fields env ssl
  have hfr := ext_loop_frame env (ctx_before_extensions env ssl)
    (env.in_msg.drop (44 + server_hello_n env.in_msg))
    (server_hello_ext_len env.in_msg env.in_hslen) 0
  rw [hloop] at hfr
  simp only [ext_frame] at hfr
  obtain ⟨_, _, _, _, _, _, _, _, _, _, f11, f12, _⟩ := hfr
  have hren : t.renegotiation = ssl.renegotiation := by rw [← f11]; exact hc.2.2.1
  have hallow : t.allow_legacy_renegotiation = ssl.allow_legacy_renegotiation := by
    rw [← f12]; exact hc.2.2.2.1
  have hyes : spec_renegotiation_failure t seen →
      parse_server_hello env ssl =
        if env.send_fatal_handshake_failure ≠ Ret.ok then
          (env.send_fatal_handshake_failure, t)
        else (Ret.BAD_HS_SERVER_HELLO, t) := by
    intro hf
    rw [hp, if_pos ((handshake_failure_iff t seen).mpr hf)]
  have hnot : ¬ spec_renegotiation_failure t seen →
      parse_server_hello env ssl = (Ret.ok, t) := by
    intro hf
    rw [hp, if_neg (fun hh => hf ((handshake_failure_iff t seen).mp hh))]
  have hiff : (parse_server_hello env ssl).1 ≠ Ret.ok ↔ spec_renegotiation_failure t seen := by
    constructor
    · intro hne
      by_contra hf
      rw [hnot hf] at hne
      exact hne rfl
    · intro hf
      rw [hyes hf]
      split_ifs with ha
      · simpa using ha
      · simp
  refine ⟨hiff, ?_, ?_, hnot, hren, hallow, ?_, ?_⟩
  · intro hf ha
    rw [hyes hf, if_neg (not_not.mpr ha)]
  · intro hf ha
    rw [hyes hf, if_pos ha]
  · intro hr hs hno
    have hl := ext_loop_no_renegotiation_info env _ (ctx_before_extensions env ssl) _ 0 hno
    rw [hloop] at hl
    apply hiff.mpr
    refine Or.inr (Or.inl ⟨by rw [hren]; exact hr, ?_, hl.1⟩)
    have h2 : t.secure_renegotiation = (ctx_before_extensions env ssl).secure_renegotiation :=
      hl.2
    rw [h2, hc.2.2.2.2]
    exact hs
  · intro hr ha
    apply hnot
    rw [← hren] at hr
    rw [← hallow] at ha
    simp at hr ha
    unfold spec_renegotiation_failure
    simp [hr, ha]

/-- Witness for C11: the client `ssl_plain` (initial handshake, policy
`allow`) accepts the ServerHello `hello_plain` of a legacy server. -/
theorem parse_server_hello_renegotiation_checks_witness :
    hello_valid_before_extensions env_plain ssl_plain ∧
    (parse_server_hello env_plain ssl_plain).1 = Ret.ok :=
  have hv : hello_valid_before_extensions env_plain ssl_plain :=
    hello_valid_plain _ _ rfl rfl rfl rfl (by simp [ssl_plain]) (by simp [ssl_plain])
      rfl rfl rfl
  ⟨hv, congrArg Prod.fst
    ((parse_server_hello_renegotiation_checks env_plain ssl_plain _ _ hv
      (hello_plain_ext_loop env_plain (ctx_before_extensions env_plain ssl_plain) rfl rfl
        (by
          have hno : no_resume (ctx_after_fields env_plain ssl_plain) := Or.inr (Or.inl rfl)
          unfold ctx_before_extensions
          rw [resume_no _ _ hno]
          rfl))).2.2.2.2.2.2.2 rfl rfl)⟩

/-! ## ServerHello: extension blocks with 1 to 3 stray bytes -/

theorem ext_loop_leaves_remainder (env : Env) (ssl : ntbtls_t) (ext : Bytes)
    (ext_len seen : Nat) (h : leaves_remainder env ssl ext ext_len seen) :
    (parse_server_hello_ext_loop env ssl ext ext_len seen).1 = Ret.BAD_HS_SERVER_HELLO := by
  induction h with
  | here ssl ext ext_len seen h0 h4 =>
    rw [ext_loop_unfold, if_neg (by omega), if_pos (by omega)]
  | later ssl ext ext_len seen hfit hok _ ih =>
    rw [ext_loop_unfold, if_neg (by omega), if_neg (by omega),
      if_neg (not_not.mpr hok)]
    split_ifs
    · rfl
    · exact ih

theorem parse_server_hello_short_block (env : Env) (ssl : ntbtls_t)
    (h : version_accepted env ssl) (hn : server_hello_n env.in_msg ≤ 32)
    (hlen : bad_length env.in_msg env.in_hslen) :
    (parse_server_hello env ssl).1 = Ret.BAD_HS_SERVER_HELLO := by
  rw [parse_server_hello_after_version env ssl h]
  have hf : (parse_server_hello_fields env (ctx_after_version env ssl)).1 =
      Ret.BAD_HS_SERVER_HELLO := by
    unfold parse_server_hello_fields
    simp only []
    have e1 : (ctx_after_version env ssl).in_msg = env.in_msg := rfl
    have e2 : (ctx_after_version env ssl).in_hslen = env.in_hslen := rfl
    rw [e1, e2, if_neg (by omega)]
    unfold bad_length at hlen
    rw [if_pos hlen]
  rw [if_pos (by rw [hf]; simp), hf]

theorem hello_valid_remainder :
    hello_valid_before_extensions env_remainder ssl_plain := by
  have hno : no_resume (ctx_after_fields env_remainder ssl_plain) := Or.inr (Or.inl rfl)
  refine ⟨?_, ?_, ?_, ?_, ?_, ?_, ?_⟩
  · simp [version_accepted, env_remainder, hello_remainder, rd, ssl_plain]
  · simp [env_remainder, hello_remainder, server_hello_n, rd]
  · simp [bad_length, env_remainder, hello_remainder, server_hello_n,
      server_hello_ext_len, rd, shl8_or]
  · simp [env_remainder, table_all]
  · rw [resume_no _ _ hno]
  · simp [env_remainder, hello_remainder, server_hello_i, server_hello_n, rd, shl8_or,
      ssl_plain, zero_terminated]
  · left
    simp [env_remainder, hello_remainder, server_hello_comp, server_hello_n, rd]

theorem hello_remainder_leaves (s : ntbtls_t) (ht : s.trunc_hmac = SSL_TRUNC_HMAC_ENABLED) :
    leaves_remainder env_remainder s
      (env_remainder.in_msg.drop (44 + server_hello_n env_remainder.in_msg))
      (server_hello_ext_len env_remainder.in_msg env_remainder.in_hslen) 0 := by
  have e1 : env_remainder.in_msg.drop (44 + server_hello_n env_remainder.in_msg) =
      [0, 4, 0, 0, 0xAB, 0xCD] := by
    simp [env_remainder, hello_remainder, server_hello_n, rd]
  have e2 : server_hello_ext_len env_remainder.in_msg env_remainder.in_hslen = 6 := by
    simp [env_remainder, hello_remainder, server_hello_n, server_hello_ext_len, rd,
      shl8_or]
  rw [e1, e2]
  have e3 : shl8_or (rd [0, 4, 0, 0, 0xAB, 0xCD] 2) (rd [0, 4, 0, 0, 0xAB, 0xCD] 3) = 0 := by
    simp [rd, shl8_or]
  simp at ht
  refine leaves_remainder.later _ _ _ _ (by rw [e3]; omega) ?_ ?_
  · simp [parse_server_hello_ext_switch, ssl_parse_truncated_hmac_ext, rd, shl8_or, ht]
  · rw [e3]
    exact leaves_remainder.here _ _ _ _ (by omega) (by omega)

/-- C12: a ServerHello that passes the checks of type, length and version
and whose session id length is at most 32 is rejected with
`GPG_ERR_BAD_HS_SERVER_HELLO` when its extension block length field is 1, 2
or 3; and a ServerHello that passes every check preceding the extension
loop is rejected with the same code when the loop, after parsing some
extensions successfully, comes to a point where 1 to 3 bytes of the block
remain. -/
theorem parse_server_hello_extension_remainder (env : Env) (ssl : ntbtls_t) :
    (version_accepted env ssl → server_hello_n env.in_msg ≤ 32 →
      env.in_hslen > 42 + server_hello_n env.in_msg →
      0 < server_hello_ext_len env.in_msg env.in_hslen →
      server_hello_ext_len env.in_msg env.in_hslen < 4 →
      (parse_server_hello env ssl).1 = Ret.BAD_HS_SERVER_HELLO) ∧
    (hello_valid_before_extensions env ssl →
      leaves_remainder env (ctx_before_extensions env ssl)
        (env.in_msg.drop (44 + server_hello_n env.in_msg))
        (server_hello_ext_len env.in_msg env.in_hslen) 0 →
      (parse_server_hello env ssl).1 = Ret.BAD_HS_SERVER_HELLO) := by
  constructor
  · intro h hn hl h0 h4
    exact parse_server_hello_short_block env ssl h hn ⟨hl, Or.inl ⟨h0, h4⟩⟩
  · intro h hrem
    have hl := ext_loop_leaves_remainder env _ _ _ _ hrem
    rw [parse_server_hello_before_extensions env ssl h, if_pos (by rw [hl]; simp), hl]

/-- Witness for C12: the ServerHello `hello_block_of_two`, whose extension
block length field is 2, and the ServerHello `hello_remainder`, whose
extension block holds a `truncated_hmac` extension followed by two stray
bytes, are rejected with `GPG_ERR_BAD_HS_SERVER_HELLO`. -/
theorem parse_server_hello_extension_remainder_witness :
    (parse_server_hello env_block_of_two ssl_plain).1 = Ret.BAD_HS_SERVER_HELLO ∧
    hello_valid_before_extensions env_remainder ssl_plain ∧
    (parse_server_hello env_remainder ssl_plain).1 = Ret.BAD_HS_SERVER_HELLO :=
  ⟨(parse_server_hello_extension_remainder env_block_of_two ssl_plain).1
      (by simp [version_accepted, env_block_of_two, hello_block_of_two, rd, ssl_plain])
      (by simp [env_block_of_two, hello_block_of_two, server_hello_n, rd])
      (by simp [env_block_of_two, hello_block_of_two, server_hello_n, rd])
      (by simp [env_block_of_two, hello_block_of_two, server_hello_n,
        server_hello_ext_len, rd, shl8_or])
      (by simp [env_block_of_two, hello_block_of_two, server_hello_n,
        server_hello_ext_len, rd, shl8_or]),
    hello_valid_remainder,
    (parse_server_hello_extension_remainder env_remainder ssl_plain).2
      hello_valid_remainder
      (hello_remainder_leaves _ (by
        have hno : no_resume (ctx_after_fields env_remainder ssl_plain) :=
          Or.inr (Or.inl rfl)
        unfold ctx_before_extensions
        rw [resume_no _ _ hno]
        rfl))⟩

/-! ## ServerKeyExchange: the length of the Diffie-Hellman prime -/

theorem parse_server_key_exchange_params_dh (env : Env) (s : ntbtls_t)
    (kx : key_exchange_type_t) (e : Nat)
    (hkx : kx = key_exchange_type_t.DHE_RSA ∨ kx = key_exchange_type_t.DHE_PSK)
    (hhint : kx = key_exchange_type_t.DHE_PSK →
      6 + shl8_or (rd s.in_msg 4) (rd s.in_msg 5) ≤ e)
    (hdh : (env.dhm_read_params (s.in_msg.drop (server_dh_params_offset kx s.in_msg))
      (e - server_dh_params_offset kx s.in_msg)).1 = Ret.ok) :
    parse_server_key_exchange_params env s kx 4 e =
      (if (env.dhm_read_params (s.in_msg.drop (server_dh_params_offset kx s.in_msg))
            (e - server_dh_params_offset kx s.in_msg)).2.2 < 64 ∨
          (env.dhm_read_params (s.in_msg.drop (server_dh_params_offset kx s.in_msg))
            (e - server_dh_params_offset kx s.in_msg)).2.2 > 512 then
        Ret.BAD_HS_SERVER_KEX else Ret.ok,
       { s with handshake := { s.handshake with dhm_len :=
          (env.dhm_read_params (s.in_msg.drop (server_dh_params_offset kx s.in_msg))
            (e - server_dh_params_offset kx s.in_msg)).2.2 } },
       server_dh_params_offset kx s.in_msg +
        (env.dhm_read_params (s.in_msg.drop (server_dh_params_offset kx s.in_msg))
          (e - server_dh_params_offset kx s.in_msg)).2.1) := by
  rcases hkx with hk | hk
  · subst hk
    have eo : server_dh_params_offset key_exchange_type_t.DHE_RSA s.in_msg = 4 := rfl
    rw [eo] at hdh ⊢
    unfold parse_server_key_exchange_params ssl_parse_server_dh_params
    simp only [reduceCtorEq, false_or, or_false, if_false, ne_eq, not_true_eq_false,
      true_or, if_true, hdh]
    split_ifs <;> first | rfl | (exfalso; simp at *)
  · subst hk
    have hh := hhint rfl
    have eo : server_dh_params_offset key_exchange_type_t.DHE_PSK s.in_msg =
        6 + shl8_or (rd s.in_msg 4) (rd s.in_msg 5) := rfl
    rw [eo] at hdh ⊢
    have e2 : 4 + 2 + shl8_or (rd s.in_msg 4) (rd s.in_msg (4 + 1)) =
        6 + shl8_or (rd s.in_msg 4) (rd s.in_msg 5) := by
      simp only [Nat.reduceAdd]
    have hh2 : ¬ (4 + 2 + shl8_or (rd s.in_msg 4) (rd s.in_msg (4 + 1)) > e) := by
      rw [e2]; omega
    unfold parse_server_key_exchange_params ssl_parse_server_dh_params
      ssl_parse_server_psk_hint
    simp only [reduceCtorEq, false_or, or_false, or_true, true_or, if_false, ne_eq,
      not_true_eq_false, if_true, hh2, e2, hdh]
    split_ifs <;> first | rfl | (exfalso; simp at *)

theorem parse_server_key_exchange_reads (env : Env) (ssl : ntbtls_t)
    (ci : ssl_ciphersuite_t) (hci : ssl.ciphersuite_info = some ci)
    (h1 : ci.key_exchange ≠ key_exchange_type_t.RSA)
    (h2 : ¬ (ci.key_exchange = key_exchange_type_t.ECDH_RSA ∨
      ci.key_exchange = key_exchange_type_t.ECDH_ECDSA))
    (hr : env.read_record = Ret.ok) :
    parse_server_key_exchange env ssl =
      parse_server_key_exchange_message env (ctx_after_read env ssl) ci := by
  unfold parse_server_key_exchange
  rw [hci]
  simp only []
  rw [if_neg h1, if_neg h2, read_record_ok env ssl hr]
  simp only [ne_eq, not_true_eq_false, if_false]
  rfl

theorem parse_server_key_exchange_message_params (env : Env) (s : ntbtls_t)
    (ci : ssl_ciphersuite_t) (hm : s.in_msgtype = TLS_MSG_HANDSHAKE)
    (ht : rd s.in_msg 0 = TLS_HS_SERVER_KEY_EXCHANGE) :
    ((parse_server_key_exchange_params env s ci.key_exchange 4 s.in_hslen).1 ≠ Ret.ok →
      (parse_server_key_exchange_message env s ci).1 =
        (parse_server_key_exchange_params env s ci.key_exchange 4 s.in_hslen).1) ∧
    ((parse_server_key_exchange_params env s ci.key_exchange 4 s.in_hslen).1 = Ret.ok →
      ci.key_exchange = key_exchange_type_t.DHE_PSK →
      parse_server_key_exchange_message env s ci =
        (Ret.ok, { (parse_server_key_exchange_params env s ci.key_exchange 4
            s.in_hslen).2.1 with
          state := (parse_server_key_exchange_params env s ci.key_exchange 4
            s.in_hslen).2.1.state + 1 })) := by
  constructor
  · intro hp
    unfold parse_server_key_exchange_message
    simp only []
    rw [if_neg (not_not.mpr hm), if_neg (not_not.mpr ht), if_pos hp]
  · intro hp hk
    unfold parse_server_key_exchange_message
    simp only []
    rw [if_neg (not_not.mpr hm), if_neg (not_not.mpr ht), if_neg (not_not.mpr hp)]
    rw [hk]
    simp only [reduceCtorEq, or_self, if_false, ne_eq, not_true_eq_false]

/-- C13: let the negotiated suite be `DHE_RSA` or `DHE_PSK`, let the
ServerKeyExchange message be read as a handshake record of that type, let
the PSK identity hint (for `DHE_PSK`) lie inside the message, and let
`dhm_read_params` succeed and report a prime of `L` octets.  Then the
parameters are accepted if and only if `64 ≤ L ≤ 512`; for every other `L`
`parse_server_key_exchange` returns `GPG_ERR_BAD_HS_SERVER_KEX`; and for
`DHE_PSK`, where no signature follows, every `L` in the range makes
`parse_server_key_exchange` succeed with `dhm_ctx.len = L` and the state
advanced by one. -/
theorem parse_server_key_exchange_dh_prime_length (env : Env) (ssl : ntbtls_t)
    (ci : ssl_ciphersuite_t) (hci : ssl.ciphersuite_info = some ci)
    (hkx : ci.key_exchange = key_exchange_type_t.DHE_RSA ∨
      ci.key_exchange = key_exchange_type_t.DHE_PSK)
    (hr : env.read_record = Ret.ok) (hm : env.in_msgtype = TLS_MSG_HANDSHAKE)
    (ht : rd env.in_msg 0 = TLS_HS_SERVER_KEY_EXCHANGE)
    (hhint : ci.key_exchange = key_exchange_type_t.DHE_PSK →
      6 + shl8_or (rd env.in_msg 4) (rd env.in_msg 5) ≤ env.in_hslen)
    (hdh : (env.dhm_read_params
      (env.in_msg.drop (server_dh_params_offset ci.key_exchange env.in_msg))
      (env.in_hslen - server_dh_params_offset ci.key_exchange env.in_msg)).1 = Ret.ok) :
    ((parse_server_key_exchange_params env (ctx_after_read env ssl) ci.key_exchange 4
        env.in_hslen).1 = Ret.ok ↔
      64 ≤ (env.dhm_read_params
          (env.in_msg.drop (server_dh_params_offset ci.key_exchange env.in_msg))
          (env.in_hslen - server_dh_params_offset ci.key_exchange env.in_msg)).2.2 ∧
        (env.dhm_read_params
          (env.in_msg.drop (server_dh_params_offset ci.key_exchange env.in_msg))
          (env.in_hslen - server_dh_params_offset ci.key_exchange env.in_msg)).2.2 ≤ 512) ∧
    (¬ (64 ≤ (env.dhm_read_params
          (env.in_msg.drop (server_dh_params_offset ci.key_exchange env.in_msg))
          (env.in_hslen - server_dh_params_offset ci.key_exchange env.in_msg)).2.2 ∧
        (env.dhm_read_params
          (env.in_msg.drop (server_dh_params_offset ci.key_exchange env.in_msg))
          (env.in_hslen - server_dh_params_offset ci.key_exchange env.in_msg)).2.2 ≤ 512) →
      (parse_server_key_exchange env ssl).1 = Ret.BAD_HS_SERVER_KEX) ∧
    (64 ≤ (env.dhm_read_params
          (env.in_msg.drop (server_dh_params_offset ci.key_exchange env.in_msg))
          (env.in_hslen - server_dh_params_offset ci.key_exchange env.in_msg)).2.2 →
      (env.dhm_read_params
          (env.in_msg.drop (server_dh_params_offset ci.key_exchange env.in_msg))
          (env.in_hslen - server_dh_params_offset ci.key_exchange env.in_msg)).2.2 ≤ 512 →
      ci.key_exchange = key_exchange_type_t.DHE_PSK →
      (parse_server_key_exchange env ssl).1 = Ret.ok ∧
      (parse_server_key_exchange env ssl).2.handshake.dhm_len =
        (env.dhm_read_params
          (env.in_msg.drop (server_dh_params_offset ci.key_exchange env.in_msg))
          (env.in_hslen - server_dh_params_offset ci.key_exchange env.in_msg)).2.2 ∧
      (parse_server_key_exchange env ssl).2.state = ssl.state + 1) := by
  have h1 : ci.key_exchange ≠ key_exchange_type_t.RSA := by
    rcases hkx with h | h <;> rw [h] <;> simp
  have h2 : ¬ (ci.key_exchange = key_exchange_type_t.ECDH_RSA ∨
      ci.key_exchange = key_exchange_type_t.ECDH_ECDSA) := by
    rcases hkx with h | h <;> rw [h] <;> simp
  have hread := parse_server_key_exchange_reads env ssl ci hci h1 h2 hr
  have hpar := parse_server_key_exchange_params_dh env (ctx_after_read env ssl)
    ci.key_exchange env.in_hslen hkx hhint hdh
  have hmsg := parse_server_key_exchange_message_params env (ctx_after_read env ssl) ci
    hm ht
  have e1 : (ctx_after_read env ssl).in_msg = env.in_msg := rfl
  have e2 : (ctx_after_read env ssl).in_hslen = env.in_hslen := rfl
  rw [e1] at hpar
  rw [e2] at hmsg
  generalize (env.dhm_read_params
    (env.in_msg.drop (server_dh_params_offset ci.key_exchange env.in_msg))
    (env.in_hslen - server_dh_params_offset ci.key_exchange env.in_msg)).2.2 = L at hpar ⊢
  refine ⟨?_, ?_, ?_⟩
  · rw [hpar]
    show (if L < 64 ∨ L > 512 then Ret.BAD_HS_SERVER_KEX else Ret.ok) = Ret.ok ↔ _
    split_ifs with hL
    · simp only [reduceCtorEq, false_iff]; omega
    · simp only [true_iff]; omega
  · intro hL
    rw [hread, hmsg.1 (by rw [hpar]; simp; omega), hpar]
    show (if L < 64 ∨ L > 512 then Ret.BAD_HS_SERVER_KEX else Ret.ok) = _
    rw [if_pos (by omega)]
  · intro hlo hhi hk
    have hok : (parse_server_key_exchange_params env (ctx_after_read env ssl)
        ci.key_exchange 4 env.in_hslen).1 = Ret.ok := by
      rw [hpar]
      show (if L < 64 ∨ L > 512 then Ret.BAD_HS_SERVER_KEX else Ret.ok) = _
      rw [if_neg (by omega)]
    rw [hread, hmsg.2 hok hk, hpar]
    exact ⟨rfl, rfl, rfl⟩

/-- Witness for C13: with an empty PSK identity hint and a prime of 64 or
512 octets `parse_server_key_exchange` succeeds for the suite `DHE_PSK`; a
prime of 63 or 513 octets is rejected with `GPG_ERR_BAD_HS_SERVER_KEX`. -/
theorem parse_server_key_exchange_dh_prime_length_witness :
    (parse_server_key_exchange (env_dhe_psk 64) ssl_dhe_psk).1 = Ret.ok ∧
    (parse_server_key_exchange (env_dhe_psk 512) ssl_dhe_psk).1 = Ret.ok ∧
    (parse_server_key_exchange (env_dhe_psk 63) ssl_dhe_psk).1 = Ret.BAD_HS_SERVER_KEX ∧
    (parse_server_key_exchange (env_dhe_psk 513) ssl_dhe_psk).1 = Ret.BAD_HS_SERVER_KEX :=
  have hh : ∀ len, suite_dhe_psk.key_exchange = key_exchange_type_t.DHE_PSK →
      6 + shl8_or (rd (env_dhe_psk len).in_msg 4) (rd (env_dhe_psk len).in_msg 5) ≤
        (env_dhe_psk len).in_hslen := by
    intro len _
    simp [env_dhe_psk, server_kex_dhe_psk, rd, shl8_or]
  ⟨((parse_server_key_exchange_dh_prime_length (env_dhe_psk 64) ssl_dhe_psk suite_dhe_psk
      rfl (Or.inr rfl) rfl rfl (by simp [env_dhe_psk, server_kex_dhe_psk, rd]) (hh 64)
      rfl).2.2 (by simp [env_dhe_psk]) (by simp [env_dhe_psk]) rfl).1,
   ((parse_server_key_exchange_dh_prime_length (env_dhe_psk 512) ssl_dhe_psk suite_dhe_psk
      rfl (Or.inr rfl) rfl rfl (by simp [env_dhe_psk, server_kex_dhe_psk, rd]) (hh 512)
      rfl).2.2 (by simp [env_dhe_psk]) (by simp [env_dhe_psk]) rfl).1,
   (parse_server_key_exchange_dh_prime_length (env_dhe_psk 63) ssl_dhe_psk suite_dhe_psk
      rfl (Or.inr rfl) rfl rfl (by simp [env_dhe_psk, server_kex_dhe_psk, rd]) (hh 63)
      rfl).2.1 (by simp [env_dhe_psk]),
   (parse_server_key_exchange_dh_prime_length (env_dhe_psk 513) ssl_dhe_psk suite_dhe_psk
      rfl (Or.inr rfl) rfl rfl (by simp [env_dhe_psk, server_kex_dhe_psk, rd]) (hh 513)
      rfl).2.1 (by simp [env_dhe_psk])⟩

/-! ## NewSessionTicket -/

theorem parse_new_session_ticket_read (env : Env) (ssl : ntbtls_t)
    (hr : env.read_record = Ret.ok) (hm : env.in_msgtype = TLS_MSG_HANDSHAKE) :
    parse_new_session_ticket env ssl =
      if rd env.in_msg 0 ≠ TLS_HS_NEW_SESSION_TICKET ∨ env.in_hslen < 10 then
        (Ret.BAD_TICKET, ctx_after_read env ssl)
      else if shl8_or (rd env.in_msg 8) (rd env.in_msg 9) + 10 ≠ env.in_hslen then
        (Ret.BAD_TICKET, ctx_after_read env ssl)
      else if shl8_or (rd env.in_msg 8) (rd env.in_msg 9) = 0 then
        (Ret.ok, { ctx_after_read env ssl with
          handshake := { ssl.handshake with new_session_ticket := 0 } })
      else if env.malloc_ok = false then
        (env.syserror, { ctx_after_read env ssl with
          handshake := { ssl.handshake with new_session_ticket := 0 },
          session_negotiate := { ssl.session_negotiate with
            ticket := none, ticket_len := 0 } })
      else
        (Ret.ok, { ctx_after_read env ssl with
          handshake := { ssl.handshake with new_session_ticket := 0 },
          session_negotiate := { ssl.session_negotiate with
            ticket := some (rdn (env.in_msg.drop 10)
              (shl8_or (rd env.in_msg 8) (rd env.in_msg 9))),
            ticket_len := shl8_or (rd env.in_msg 8) (rd env.in_msg 9),
            ticket_lifetime := ((rd env.in_msg 4 <<< 24) ||| (rd env.in_msg 5 <<< 16) |||
              (rd env.in_msg 6 <<< 8) ||| rd env.in_msg 7) % 2 ^ 32,
            length := 0 } }) := by
  unfold parse_new_session_ticket
  simp only []
  rw [read_record_ok env ssl hr]
  simp only [ne_eq, not_true_eq_false, if_false]
  rw [if_neg (not_not.mpr hm)]
  split_ifs <;> rfl

/-- C14, counterexample: the client `ssl_expects_ticket` holds a session id
of 32 bytes; the NewSessionTicket message `ticket_msg_empty` has
`ticket_len = 0` and `in_hslen = 10`.  `parse_new_session_ticket` returns
success, and the session id length is still 32, not 0. -/
theorem parse_new_session_ticket_empty_counterexample :
    rd env_ticket_empty.in_msg 0 = TLS_HS_NEW_SESSION_TICKET ∧
    shl8_or (rd env_ticket_empty.in_msg 8) (rd env_ticket_empty.in_msg 9) = 0 ∧
    env_ticket_empty.in_hslen = 10 ∧
    (parse_new_session_ticket env_ticket_empty ssl_expects_ticket).1 = Ret.ok ∧
    (parse_new_session_ticket env_ticket_empty
      ssl_expects_ticket).2.session_negotiate.length = 32 := by
  refine ⟨by simp [env_ticket_empty, ticket_msg_empty, rd],
    by simp [env_ticket_empty, ticket_msg_empty, rd, shl8_or], rfl, ?_, ?_⟩
  · rw [parse_new_session_ticket_read _ _ rfl rfl]
    simp [env_ticket_empty, ticket_msg_empty, rd, shl8_or]
  · rw [parse_new_session_ticket_read _ _ rfl rfl]
    simp [env_ticket_empty, ticket_msg_empty, rd, shl8_or, ctx_after_read,
      ssl_expects_ticket]

/-- C14, amended: for every NewSessionTicket handshake message with
`ticket_len = 0` (so `in_hslen = 10`), `parse_new_session_ticket` returns
success and clears the flag `new_session_ticket`; the negotiated session,
with its session id length, its stored ticket, ticket length and lifetime,
is left as it was. -/
theorem parse_new_session_ticket_empty (env : Env) (ssl : ntbtls_t)
    (hr : env.read_record = Ret.ok) (hm : env.in_msgtype = TLS_MSG_HANDSHAKE)
    (ht : rd env.in_msg 0 = TLS_HS_NEW_SESSION_TICKET)
    (hk : shl8_or (rd env.in_msg 8) (rd env.in_msg 9) = 0)
    (hl : env.in_hslen = 10) :
    (parse_new_session_ticket env ssl).1 = Ret.ok ∧
    (parse_new_session_ticket env ssl).2.handshake.new_session_ticket = 0 ∧
    (parse_new_session_ticket env ssl).2.session_negotiate = ssl.session_negotiate ∧
    (parse_new_session_ticket env ssl).2.session_negotiate.length =
      ssl.session_negotiate.length ∧
    (parse_new_session_ticket env ssl).2.state = ssl.state := by
  rw [parse_new_session_ticket_read env ssl hr hm,
    if_neg (by rw [hl]; simp only [ne_eq, not_or, not_not]; exact ⟨ht, by omega⟩),
    if_neg (by rw [hk, hl]; simp), if_pos hk]
  exact ⟨rfl, rfl, rfl, rfl, rfl⟩

/-- Witness for C14: the message `ticket_msg_empty` is accepted and the
session id length of `ssl_expects_ticket` stays as it was. -/
theorem parse_new_session_ticket_empty_witness :
    (parse_new_session_ticket env_ticket_empty ssl_expects_ticket).1 = Ret.ok ∧
    (parse_new_session_ticket env_ticket_empty
      ssl_expects_ticket).2.session_negotiate.length =
        ssl_expects_ticket.session_negotiate.length :=
  have h := parse_new_session_ticket_empty env_ticket_empty ssl_expects_ticket rfl rfl
    (by simp [env_ticket_empty, ticket_msg_empty, rd])
    (by simp [env_ticket_empty, ticket_msg_empty, rd, shl8_or]) rfl
  ⟨h.1, h.2.2.2.1⟩

/-- C15: given that a handshake record was read, `parse_new_session_ticket`
returns `GPG_ERR_BAD_TICKET`, with the context as the read left it, when
the handshake type is not NewSessionTicket, or `in_hslen < 10`, or the
16-bit ticket length plus 10 differs from `in_hslen`; then the stored
ticket, its length and lifetime, the session id length and the flag
`new_session_ticket` are unchanged.  Conversely, as the code that
`gpg_error_from_syserror` gives after a failed `malloc` is a system error
and not `GPG_ERR_BAD_TICKET`, the function returns `GPG_ERR_BAD_TICKET` only
in these three cases. -/
theorem parse_new_session_ticket_bad_ticket (env : Env) (ssl : ntbtls_t)
    (hr : env.read_record = Ret.ok) (hm : env.in_msgtype = TLS_MSG_HANDSHAKE) :
    ((rd env.in_msg 0 ≠ TLS_HS_NEW_SESSION_TICKET ∨ env.in_hslen < 10 ∨
        shl8_or (rd env.in_msg 8) (rd env.in_msg 9) + 10 ≠ env.in_hslen) →
      parse_new_session_ticket env ssl = (Ret.BAD_TICKET, ctx_after_read env ssl) ∧
      (parse_new_session_ticket env ssl).2.session_negotiate.ticket =
        ssl.session_negotiate.ticket ∧
      (parse_new_session_ticket env ssl).2.session_negotiate.ticket_len =
        ssl.session_negotiate.ticket_len ∧
      (parse_new_session_ticket env ssl).2.session_negotiate.ticket_lifetime =
        ssl.session_negotiate.ticket_lifetime ∧
      (parse_new_session_ticket env ssl).2.session_negotiate.length =
        ssl.session_negotiate.length ∧
      (parse_new_session_ticket env ssl).2.handshake.new_session_ticket =
        ssl.handshake.new_session_ticket) ∧
    ((env.malloc_ok = false → env.syserror ≠ Ret.BAD_TICKET) →
      ((parse_new_session_ticket env ssl).1 = Ret.BAD_TICKET ↔
        (rd env.in_msg 0 ≠ TLS_HS_NEW_SESSION_TICKET ∨ env.in_hslen < 10 ∨
          shl8_or (rd env.in_msg 8) (rd env.in_msg 9) + 10 ≠ env.in_hslen))) := by
  have hbad : (rd env.in_msg 0 ≠ TLS_HS_NEW_SESSION_TICKET ∨ env.in_hslen < 10 ∨
        shl8_or (rd env.in_msg 8) (rd env.in_msg 9) + 10 ≠ env.in_hslen) →
      parse_new_session_ticket env ssl = (Ret.BAD_TICKET, ctx_after_read env ssl) := by
    intro hb
    rw [parse_new_session_ticket_read env ssl hr hm]
    by_cases h1 : rd env.in_msg 0 ≠ TLS_HS_NEW_SESSION_TICKET ∨ env.in_hslen < 10
    · rw [if_pos h1]
    · rw [if_neg h1]
      have h2 : shl8_or (rd env.in_msg 8) (rd env.in_msg 9) + 10 ≠ env.in_hslen := by
        rcases hb with hb | hb | hb
        · exact absurd (Or.inl hb) h1
        · exact absurd (Or.inr hb) h1
        · exact hb
      rw [if_pos h2]
  refine ⟨?_, ?_⟩
  · intro hb
    rw [hbad hb]
    exact ⟨rfl, rfl, rfl, rfl, rfl, rfl⟩
  · intro hsys
    constructor
    · intro hres
      by_contra hb
      simp only [not_or, not_not, not_lt] at hb
      obtain ⟨b1, b2, b3⟩ := hb
      rw [parse_new_session_ticket_read env ssl hr hm,
        if_neg (by simp only [ne_eq, not_or, not_not, not_lt]; exact ⟨b1, b2⟩),
        if_neg (not_not.mpr b3)] at hres
      split_ifs at hres with h3 h4
      exact hsys h4 hres
    · intro hb
      rw [hbad hb]

/-- Witness for C15: the message `ticket_msg_bad`, whose ticket length
field disagrees with `in_hslen`, is rejected with `GPG_ERR_BAD_TICKET` and
the ticket in store is kept. -/
theorem parse_new_session_ticket_bad_ticket_witness :
    (parse_new_session_ticket env_ticket_bad ssl_expects_ticket).1 = Ret.BAD_TICKET ∧
    (parse_new_session_ticket env_ticket_bad ssl_expects_ticket).2.session_negotiate.ticket =
      some [1, 2] :=
  have h := (parse_new_session_ticket_bad_ticket env_ticket_bad ssl_expects_ticket
    rfl rfl).1
    (Or.inr (Or.inr (by simp [env_ticket_bad, ticket_msg_bad, rd, shl8_or])))
  ⟨congrArg Prod.fst h.1, h.2.1⟩

theorem be32_value (a b c d : Nat) (ha : a < 256) (hb : b < 256) (hc : c < 256)
    (hd : d < 256) :
    ((a <<< 24) ||| (b <<< 16) ||| (c <<< 8) ||| d) % 2 ^ 32 =
      a * 2 ^ 24 + b * 2 ^ 16 + c * 2 ^ 8 + d := by
  have h1 : (c <<< 8) ||| d = 2 ^ 8 * c + d := by
    rw [Nat.shiftLeft_eq, Nat.mul_comm c, Nat.mul_add_lt_is_or (by omega : d < 2 ^ 8) c]
  have h2 : (b <<< 16) ||| (2 ^ 8 * c + d) = 2 ^ 16 * b + (2 ^ 8 * c + d) := by
    rw [Nat.shiftLeft_eq, Nat.mul_comm b,
      Nat.mul_add_lt_is_or (by omega : 2 ^ 8 * c + d < 2 ^ 16) b]
  have h3 : (a <<< 24) ||| (2 ^ 16 * b + (2 ^ 8 * c + d)) =
      2 ^ 24 * a + (2 ^ 16 * b + (2 ^ 8 * c + d)) := by
    rw [Nat.shiftLeft_eq, Nat.mul_comm a,
      Nat.mul_add_lt_is_or (by omega : 2 ^ 16 * b + (2 ^ 8 * c + d) < 2 ^ 24) a]
  rw [Nat.lor_assoc, Nat.lor_assoc, h1, h2, h3]
  omega

theorem rd_rdn (b : Bytes) (k j : Nat) (h : j < k) : rd (rdn b k) j = rd b j := by
  have hl := rd_lt b j
  simp only [rd, rdn] at hl ⊢
  rw [List.getD_eq_getElem?_getD, List.getElem?_map, List.getElem?_range h]
  simp only [Option.map_some', Option.getD_some]
  exact Nat.mod_eq_of_lt hl

theorem rdn_length (b : Bytes) (k : Nat) : (rdn b k).length = k := by
  simp [rdn]

theorem client_step_server_change_cipher_spec (env : Env) (tls : ntbtls_t)
    (hf : env.flush_output = Ret.ok)
    (hs : tls.state = TLS_SERVER_CHANGE_CIPHER_SPEC) :
    _ntbtls_handshake_client_step env tls =
      if tls.handshake.new_session_ticket ≠ 0 then parse_new_session_ticket env tls
      else env.parse_change_cipher_spec tls := by
  unfold _ntbtls_handshake_client_step
  simp only [hs, hf, TLS_SERVER_CHANGE_CIPHER_SPEC, TLS_HANDSHAKE_OVER, TLS_HELLO_REQUEST,
    TLS_CLIENT_HELLO, TLS_SERVER_HELLO, TLS_SERVER_CERTIFICATE, TLS_SERVER_KEY_EXCHANGE,
    TLS_CERTIFICATE_REQUEST, TLS_SERVER_HELLO_DONE, TLS_CLIENT_CERTIFICATE,
    TLS_CLIENT_KEY_EXCHANGE, TLS_CERTIFICATE_VERIFY, TLS_CLIENT_CHANGE_CIPHER_SPEC,
    TLS_CLIENT_FINISHED, ne_eq, not_true_eq_false, if_false, if_true,
    Nat.reduceEqDiff, reduceIte]

/-- C16: for every well-formed NewSessionTicket message with ticket length
`k > 0`, read as a handshake record, and with the allocation succeeding,
`parse_new_session_ticket` returns success; the stored ticket has `k` bytes
and its byte `j` is byte `10 + j` of the message, `ticket_len = k`,
`ticket_lifetime` is the big-endian 32-bit value of bytes 4..7, the session
id length is 0 and the flag `new_session_ticket` is 0, and the state is not
changed.  Hence a client step in state ServerChangeCipherSpec with the flag
set parses the ticket and stays in that state, and the step after it hands
the next record to `_ntbtls_parse_change_cipher_spec`. -/
theorem parse_new_session_ticket_stores (env : Env) (ssl : ntbtls_t)
    (hr : env.read_record = Ret.ok) (hm : env.in_msgtype = TLS_MSG_HANDSHAKE)
    (ht : rd env.in_msg 0 = TLS_HS_NEW_SESSION_TICKET)
    (hl : shl8_or (rd env.in_msg 8) (rd env.in_msg 9) + 10 = env.in_hslen)
    (hk : 0 < shl8_or (rd env.in_msg 8) (rd env.in_msg 9))
    (hmalloc : env.malloc_ok = true) :
    (parse_new_session_ticket env ssl).1 = Ret.ok ∧
    (∃ ticket, (parse_new_session_ticket env ssl).2.session_negotiate.ticket = some ticket ∧
      ticket.length = shl8_or (rd env.in_msg 8) (rd env.in_msg 9) ∧
      ∀ j, j < shl8_or (rd env.in_msg 8) (rd env.in_msg 9) →
        rd ticket j = rd env.in_msg (10 + j)) ∧
    (parse_new_session_ticket env ssl).2.session_negotiate.ticket_len =
      shl8_or (rd env.in_msg 8) (rd env.in_msg 9) ∧
    (parse_new_session_ticket env ssl).2.session_negotiate.ticket_len =
      rd env.in_msg 8 * 256 + rd env.in_msg 9 ∧
    (parse_new_session_ticket env ssl).2.session_negotiate.ticket_lifetime =
      rd env.in_msg 4 * 2 ^ 24 + rd env.in_msg 5 * 2 ^ 16 + rd env.in_msg 6 * 2 ^ 8 +
        rd env.in_msg 7 ∧
    (parse_new_session_ticket env ssl).2.session_negotiate.length = 0 ∧
    (parse_new_session_ticket env ssl).2.handshake.new_session_ticket = 0 ∧
    (parse_new_session_ticket env ssl).2.state = ssl.state ∧
    (env.flush_output = Ret.ok → ssl.state = TLS_SERVER_CHANGE_CIPHER_SPEC →
      ssl.handshake.new_session_ticket ≠ 0 →
      _ntbtls_handshake_client_step env ssl = parse_new_session_ticket env ssl ∧
      (_ntbtls_handshake_client_step env ssl).2.state = TLS_SERVER_CHANGE_CIPHER_SPEC ∧
      _ntbtls_handshake_client_step env (_ntbtls_handshake_client_step env ssl).2 =
        env.parse_change_cipher_spec (_ntbtls_handshake_client_step env ssl).2) := by
  have hp := parse_new_session_ticket_read env ssl hr hm
  rw [if_neg (by simp only [ne_eq, not_or, not_not, not_lt]; exact ⟨ht, by omega⟩),
    if_neg (not_not.mpr hl), if_neg (by omega), if_neg (by rw [hmalloc]; simp)] at hp
  have hstep : env.flush_output = Ret.ok → ssl.state = TLS_SERVER_CHANGE_CIPHER_SPEC →
      ssl.handshake.new_session_ticket ≠ 0 →
      _ntbtls_handshake_client_step env ssl = parse_new_session_ticket env ssl := by
    intro hf hs hn
    rw [client_step_server_change_cipher_spec env ssl hf hs, if_pos hn]
  refine ⟨?_, ⟨rdn (env.in_msg.drop 10) (shl8_or (rd env.in_msg 8) (rd env.in_msg 9)),
    ?_, rdn_length _ _, ?_⟩, ?_, ?_, ?_, ?_, ?_, ?_, ?_⟩
  · rw [hp]
  · rw [hp]
  · intro j hj
    rw [rd_rdn _ _ _ hj, rd_drop]
  · rw [hp]
  · rw [hp]
    exact shl8_or_eq _ _ (rd_lt _ _)
  · rw [hp]
    exact be32_value _ _ _ _ (rd_lt _ _) (rd_lt _ _) (rd_lt _ _) (rd_lt _ _)
  · rw [hp]
  · rw [hp]
  · rw [hp]
    rfl
  · intro hf hs hn
    have h1 := hstep hf hs hn
    have h2 : (parse_new_session_ticket env ssl).2.state = TLS_SERVER_CHANGE_CIPHER_SPEC := by
      rw [hp]; exact hs
    have h3 : (parse_new_session_ticket env ssl).2.handshake.new_session_ticket = 0 := by
      rw [hp]
    refine ⟨h1, by rw [h1]; exact h2, ?_⟩
    rw [h1, client_step_server_change_cipher_spec env _ hf h2, if_neg (not_not.mpr h3)]

/-- Witness for C16: the client `ssl_expects_ticket` reads `ticket_msg`:
the ticket `AA BB CC` replaces the old one, its lifetime is 3600, and the
session id is discarded. -/
theorem parse_new_session_ticket_stores_witness :
    (parse_new_session_ticket env_ticket ssl_expects_ticket).1 = Ret.ok ∧
    (parse_new_session_ticket env_ticket ssl_expects_ticket).2.session_negotiate.ticket_len =
      3 ∧
    (parse_new_session_ticket env_ticket
      ssl_expects_ticket).2.session_negotiate.ticket_lifetime = 3600 ∧
    (parse_new_session_ticket env_ticket ssl_expects_ticket).2.session_negotiate.length = 0 :=
  have h := parse_new_session_ticket_stores env_ticket ssl_expects_ticket rfl rfl
    (by simp [env_ticket, ticket_msg, rd])
    (by simp [env_ticket, ticket_msg, rd, shl8_or])
    (by simp [env_ticket, ticket_msg, rd, shl8_or]) rfl
  ⟨h.1,
   h.2.2.1.trans (by simp [env_ticket, ticket_msg, rd, shl8_or]),
   h.2.2.2.2.1.trans (by simp [env_ticket, ticket_msg, rd]),
   h.2.2.2.2.2.1⟩

/-! ## The client step: a record read that fails -/

theorem client_step_handler (env : Env) (tls : ntbtls_t)
    (hf : env.flush_output = Ret.ok) :
    (tls.state = TLS_SERVER_HELLO →
      _ntbtls_handshake_client_step env tls = parse_server_hello env tls) ∧
    (tls.state = TLS_SERVER_KEY_EXCHANGE →
      _ntbtls_handshake_client_step env tls = parse_server_key_exchange env tls) ∧
    (tls.state = TLS_CERTIFICATE_REQUEST →
      _ntbtls_handshake_client_step env tls = parse_certificate_request env tls) ∧
    (tls.state = TLS_SERVER_HELLO_DONE →
      _ntbtls_handshake_client_step env tls = parse_server_hello_done env tls) := by
  refine ⟨?_, ?_, ?_, ?_⟩
  all_goals
    intro hs
    unfold _ntbtls_handshake_client_step
    simp only [hs, hf, TLS_SERVER_CHANGE_CIPHER_SPEC, TLS_HANDSHAKE_OVER, TLS_HELLO_REQUEST,
      TLS_CLIENT_HELLO, TLS_SERVER_HELLO, TLS_SERVER_CERTIFICATE, TLS_SERVER_KEY_EXCHANGE,
      TLS_CERTIFICATE_REQUEST, TLS_SERVER_HELLO_DONE, TLS_CLIENT_CERTIFICATE,
      TLS_CLIENT_KEY_EXCHANGE, TLS_CERTIFICATE_VERIFY, TLS_CLIENT_CHANGE_CIPHER_SPEC,
      TLS_CLIENT_FINISHED, ne_eq, not_true_eq_false, if_false, if_true,
      Nat.reduceEqDiff, reduceIte]

theorem parse_server_hello_read_error (env : Env) (ssl : ntbtls_t)
    (he : env.read_record ≠ Ret.ok) :
    parse_server_hello env ssl = (env.read_record, ssl) := by
  unfold parse_server_hello
  simp only []
  rw [read_record_err env ssl he, if_pos he]

theorem parse_server_key_exchange_read_error (env : Env) (ssl : ntbtls_t)
    (ci : ssl_ciphersuite_t) (hci : ssl.ciphersuite_info = some ci)
    (h1 : ci.key_exchange ≠ key_exchange_type_t.RSA)
    (h2 : ci.key_exchange ≠ key_exchange_type_t.ECDH_RSA)
    (h3 : ci.key_exchange ≠ key_exchange_type_t.ECDH_ECDSA)
    (he : env.read_record ≠ Ret.ok) :
    parse_server_key_exchange env ssl = (env.read_record, ssl) := by
  unfold parse_server_key_exchange
  rw [hci]
  simp only []
  rw [if_neg h1, if_neg (by simp only [not_or]; exact ⟨h2, h3⟩),
    read_record_err env ssl he, if_pos he]

theorem parse_certificate_request_read_error (env : Env) (ssl : ntbtls_t)
    (ci : ssl_ciphersuite_t) (hci : ssl.ciphersuite_info = some ci)
    (h1 : ci.key_exchange ≠ key_exchange_type_t.PSK)
    (h2 : ci.key_exchange ≠ key_exchange_type_t.RSA_PSK)
    (h3 : ci.key_exchange ≠ key_exchange_type_t.DHE_PSK)
    (h4 : ci.key_exchange ≠ key_exchange_type_t.ECDHE_PSK)
    (h0 : ssl.record_read = 0) (he : env.read_record ≠ Ret.ok) :
    parse_certificate_request env ssl = (env.read_record, ssl) := by
  have hread : parse_certificate_request_read env ssl = (env.read_record, ssl) := by
    unfold parse_certificate_request_read
    rw [if_pos h0]
    simp only []
    rw [read_record_err env ssl he, if_pos he]
  unfold parse_certificate_request
  rw [hci]
  simp only []
  rw [if_neg (by simp only [not_or]; exact ⟨h1, h2, h3, h4⟩), hread, if_pos he]

theorem parse_server_hello_done_read_error (env : Env) (ssl : ntbtls_t)
    (h0 : ssl.record_read = 0) (he : env.read_record ≠ Ret.ok) :
    parse_server_hello_done env ssl = (env.read_record, ssl) := by
  have hread : parse_server_hello_done_read env ssl = (env.read_record, ssl) := by
    unfold parse_server_hello_done_read
    rw [if_pos h0]
    simp only []
    rw [read_record_err env ssl he, if_pos he]
  unfold parse_server_hello_done
  simp only []
  rw [hread, if_pos he]

theorem parse_new_session_ticket_read_error (env : Env) (ssl : ntbtls_t)
    (he : env.read_record ≠ Ret.ok) :
    parse_new_session_ticket env ssl = (env.read_record, ssl) := by
  unfold parse_new_session_ticket
  simp only []
  rw [read_record_err env ssl he, if_pos he]

theorem client_step_read_error_once (env : Env) (tls : ntbtls_t)
    (hf : env.flush_output = Ret.ok) (he : env.read_record ≠ Ret.ok)
    (hs : handler_reads_record tls) :
    _ntbtls_handshake_client_step env tls = (env.read_record, tls) := by
  obtain ⟨c1, c2, c3, c4⟩ := client_step_handler env tls hf
  rcases hs with hs | ⟨hs, ci, hci, h1, h2, h3⟩ | ⟨hs, h0, ci, hci, h1, h2, h3, h4⟩ |
    ⟨hs, h0⟩ | ⟨hs, hn⟩
  · rw [c1 hs, parse_server_hello_read_error env tls he]
  · rw [c2 hs, parse_server_key_exchange_read_error env tls ci hci h1 h2 h3 he]
  · rw [c3 hs, parse_certificate_request_read_error env tls ci hci h1 h2 h3 h4 h0 he]
  · rw [c4 hs, parse_server_hello_done_read_error env tls h0 he]
  · rw [client_step_server_change_cipher_spec env tls hf hs, if_pos hn,
      parse_new_session_ticket_read_error env tls he]

/-- C17: in every state whose handler begins by reading a record, if the
output is flushed and `_ntbtls_read_record` fails with a code `e` (such as
"would block"), leaving the context as it was, then
`_ntbtls_handshake_client_step` returns `e` and the whole context, with the
state, `record_read`, the negotiated session and the random bytes, is
unchanged; a second call returns the same code and the same context. -/
theorem client_step_read_error (env : Env) (tls : ntbtls_t)
    (hf : env.flush_output = Ret.ok) (he : env.read_record ≠ Ret.ok)
    (hs : handler_reads_record tls) :
    _ntbtls_handshake_client_step env tls = (env.read_record, tls) ∧
    (_ntbtls_handshake_client_step env tls).2.state = tls.state ∧
    (_ntbtls_handshake_client_step env tls).2.record_read = tls.record_read ∧
    (_ntbtls_handshake_client_step env tls).2.session_negotiate = tls.session_negotiate ∧
    (_ntbtls_handshake_client_step env tls).2.handshake.randbytes =
      tls.handshake.randbytes ∧
    _ntbtls_handshake_client_step env (_ntbtls_handshake_client_step env tls).2 =
      _ntbtls_handshake_client_step env tls := by
  have h := client_step_read_error_once env tls hf he hs
  rw [h]
  exact ⟨rfl, rfl, rfl, rfl, rfl, h⟩

/-- Witness for C17: the client `ssl_plain`, in state ServerHello, with no
input available: the step returns the code of the record layer and a second
step does the same. -/
theorem client_step_read_error_witness :
    _ntbtls_handshake_client_step env_would_block ssl_plain = (Ret.other 11, ssl_plain) ∧
    _ntbtls_handshake_client_step env_would_block
      (_ntbtls_handshake_client_step env_would_block ssl_plain).2 =
      _ntbtls_handshake_client_step env_would_block ssl_plain :=
  have h := client_step_read_error env_would_block ssl_plain rfl
    (by simp [env_would_block]) (Or.inl rfl)
  ⟨h.1, h.2.2.2.2.2⟩

/-! ## ClientHello: the order of the extensions -/

theorem store_zero_one (a : Bytes) (c : Nat) : store a 0 [c] = c :: a.drop 1 := by
  simp [store]

theorem store_four_layout (o x e : Bytes) (c : Nat) :
    ∃ pre post, store (store o 4 (x ++ e)) 0 [c] = pre ++ e ++ post ∧
      pre.length = 4 + x.length := by
  have hP : (o.take 4 ++ List.replicate (4 - o.length) 0).length = 4 := by
    simp only [List.length_append, List.length_take, List.length_replicate]
    omega
  refine ⟨c :: (o.take 4 ++ List.replicate (4 - o.length) 0).drop 1 ++ x,
    o.drop (4 + (x ++ e).length), ?_, ?_⟩
  · rw [store_zero_one]
    unfold store
    generalize o.take 4 ++ List.replicate (4 - o.length) 0 = P at hP ⊢
    rw [List.append_assoc P, List.drop_append_of_le_length (by rw [hP]; omega)]
    simp only [List.append_assoc, List.cons_append]
  · generalize o.take 4 ++ List.replicate (4 - o.length) 0 = P at hP ⊢
    simp only [List.length_append, List.length_cons, List.length_drop, hP]

theorem write_client_hello_rest_layout (env : Env) (tls : ntbtls_t) (n : Nat) :
    ∃ x, write_client_hello_rest env tls n = x ++ write_client_hello_extensions env tls := by
  unfold write_client_hello_rest
  simp only []
  by_cases h : (write_client_hello_extensions env tls).length > 0
  · rw [if_pos h]
    exact ⟨_, (List.append_assoc _ _ _).symm⟩
  · rw [if_neg h]
    have h0 : write_client_hello_extensions env tls = [] := by
      apply List.eq_nil_of_length_eq_zero
      omega
    rw [h0]
    exact ⟨_, rfl⟩

theorem write_client_hello_extensions_out (env : Env) (t : ntbtls_t) (out : Bytes)
    (len type st : Nat) :
    write_client_hello_extensions env { t with
      out_msg := out, out_msglen := len, out_msgtype := type, state := st } =
    write_client_hello_extensions env t := rfl

theorem write_client_hello_final_layout (env : Env) (t : ntbtls_t) (head : Bytes) (n : Nat) :
    ∃ pre post,
      store (store t.out_msg 4 (head ++ write_client_hello_rest env t n)) 0
          [TLS_HS_CLIENT_HELLO] =
        pre ++ write_client_hello_extensions env t ++ post ∧
      pre.length + (write_client_hello_extensions env t).length =
        4 + (head ++ write_client_hello_rest env t n).length := by
  obtain ⟨x, hx⟩ := write_client_hello_rest_layout env t n
  rw [hx, ← List.append_assoc]
  obtain ⟨pre, post, h1, h2⟩ := store_four_layout t.out_msg (head ++ x)
    (write_client_hello_extensions env t) TLS_HS_CLIENT_HELLO
  refine ⟨pre, post, h1, ?_⟩
  rw [h2, List.length_append (head ++ x)]
  omega

theorem write_client_hello_with_ticket_versions (tls : ntbtls_t) (out : Bytes)
    (h : handshake_t) :
    write_client_hello_with_ticket { write_client_hello_versions tls with
      out_msg := out, handshake := h } = write_client_hello_with_ticket tls := by
  unfold write_client_hello_versions
  simp only []
  split_ifs <;> rfl

theorem write_client_hello_shape (env : Env) (tls : ntbtls_t)
    (hrng : write_client_hello_with_ticket tls = true → env.f_rng = Ret.ok) :
    ∃ (t : ntbtls_t) (head : Bytes) (n : Nat),
      (write_client_hello env tls).2.out_msg =
        store (store t.out_msg 4 (head ++ write_client_hello_rest env t n)) 0
          [TLS_HS_CLIENT_HELLO] ∧
      (write_client_hello env tls).2.out_msglen =
        4 + (head ++ write_client_hello_rest env t n).length ∧
      write_client_hello_extensions env (write_client_hello env tls).2 =
        write_client_hello_extensions env t ∧
      write_client_hello_extensions env t =
        write_client_hello_extensions env (write_client_hello_versions tls) := by
  unfold write_client_hello
  simp only []
  rw [write_client_hello_with_ticket_versions]
  generalize write_client_hello_versions tls = t1
  generalize write_client_hello_head env t1 = head
  by_cases hw : write_client_hello_with_ticket tls = true
  · rw [if_neg (by rw [hrng hw]; simp)]
    simp only [hw, if_true]
    by_cases hwr : env.write_record ≠ Ret.ok
    · rw [if_pos hwr]
      exact ⟨{ t1 with
          out_msg := store t1.out_msg 4 head,
          handshake := { t1.handshake with
            randbytes := memcpy t1.handshake.randbytes 0 (head.drop 2) 32 },
          session_negotiate := { t1.session_negotiate with
            id := store t1.session_negotiate.id 0 (rdn (env.rng_bytes 32) 32),
            length := 32 } }, head, 32, rfl, rfl, rfl, rfl⟩
    · rw [if_neg hwr]
      exact ⟨{ t1 with
          out_msg := store t1.out_msg 4 head,
          handshake := { t1.handshake with
            randbytes := memcpy t1.handshake.randbytes 0 (head.drop 2) 32 },
          session_negotiate := { t1.session_negotiate with
            id := store t1.session_negotiate.id 0 (rdn (env.rng_bytes 32) 32),
            length := 32 } }, head, 32, rfl, rfl, rfl, rfl⟩
  · rw [if_neg (fun h => hw h.1)]
    simp only [hw, if_false]
    by_cases hwr : env.write_record ≠ Ret.ok
    · rw [if_pos hwr]
      exact ⟨{ t1 with
          out_msg := store t1.out_msg 4 head,
          handshake := { t1.handshake with
            randbytes := memcpy t1.handshake.randbytes 0 (head.drop 2) 32 } }, head,
        _, rfl, rfl, rfl, rfl⟩
    · rw [if_neg hwr]
      exact ⟨{ t1 with
          out_msg := store t1.out_msg 4 head,
          handshake := { t1.handshake with
            randbytes := memcpy t1.handshake.randbytes 0 (head.drop 2) 32 } }, head,
        _, rfl, rfl, rfl, rfl⟩

theorem write_client_hello_layout (env : Env) (tls : ntbtls_t)
    (hrng : write_client_hello_with_ticket tls = true → env.f_rng = Ret.ok) :
    ∃ pre post,
      (write_client_hello env tls).2.out_msg =
        pre ++ write_client_hello_extensions env (write_client_hello env tls).2 ++ post ∧
      pre.length +
          (write_client_hello_extensions env (write_client_hello env tls).2).length =
        (write_client_hello env tls).2.out_msglen := by
  obtain ⟨t, head, n, h1, h2, h3, _⟩ := write_client_hello_shape env tls hrng
  rw [h1, h2, h3]
  exact write_client_hello_final_layout env t head n

theorem write_client_hello_extensions_versions (env : Env) (tls : ntbtls_t)
    (hrng : write_client_hello_with_ticket tls = true → env.f_rng = Ret.ok) :
    write_client_hello_extensions env (write_client_hello env tls).2 =
      write_client_hello_extensions env (write_client_hello_versions tls) := by
  obtain ⟨t, head, n, _, _, h3, h4⟩ := write_client_hello_shape env tls hrng
  rw [h3, h4]

theorem extension_writers_types (env : Env) (ssl : ntbtls_t) :
    writes_type (write_hostname_ext ssl) TLS_EXT_SERVERNAME ∧
    writes_type (write_cli_renegotiation_ext ssl) TLS_EXT_RENEGOTIATION_INFO ∧
    writes_type (write_signature_algorithms_ext ssl) TLS_EXT_SIG_ALG ∧
    writes_type (write_supported_elliptic_curves_ext env ssl)
      TLS_EXT_SUPPORTED_ELLIPTIC_CURVES ∧
    writes_type (write_cli_supported_point_formats_ext ssl)
      TLS_EXT_SUPPORTED_POINT_FORMATS ∧
    writes_type (write_cli_max_fragment_length_ext ssl) TLS_EXT_MAX_FRAGMENT_LENGTH ∧
    writes_type (write_cli_truncated_hmac_ext ssl) TLS_EXT_TRUNCATED_HMAC ∧
    writes_type (write_cli_session_ticket_ext ssl) TLS_EXT_SESSION_TICKET ∧
    writes_type (write_cli_alpn_ext ssl) TLS_EXT_ALPN := by
  refine ⟨?_, ?_, ?_, ?_, ?_, ?_, ?_, ?_, ?_⟩
  · unfold write_hostname_ext
    cases ssl.hostname with
    | none => exact Or.inl rfl
    | some h => exact Or.inr ⟨_, by simp only [List.append_assoc]; rfl⟩
  · unfold write_cli_renegotiation_ext
    split_ifs
    · exact Or.inl rfl
    · exact Or.inr ⟨_, by simp only [List.append_assoc]; rfl⟩
  · unfold write_signature_algorithms_ext
    split_ifs
    · exact Or.inl rfl
    · exact Or.inr ⟨_, by simp only [List.append_assoc]; rfl⟩
  · unfold write_supported_elliptic_curves_ext
    simp only []
    split_ifs
    · exact Or.inl rfl
    · exact Or.inr ⟨_, by simp only [List.append_assoc]; rfl⟩
  · exact Or.inr ⟨_, rfl⟩
  · unfold write_cli_max_fragment_length_ext
    split_ifs
    · exact Or.inl rfl
    · exact Or.inr ⟨_, rfl⟩
  · unfold write_cli_truncated_hmac_ext
    split_ifs
    · exact Or.inl rfl
    · exact Or.inr ⟨_, rfl⟩
  · unfold write_cli_session_ticket_ext
    simp only []
    split_ifs
    · exact Or.inl rfl
    · cases ssl.session_negotiate.ticket with
      | none => exact Or.inr ⟨_, rfl⟩
      | some t => exact Or.inr ⟨_, rfl⟩
    · cases ssl.session_negotiate.ticket with
      | none => exact Or.inr ⟨_, rfl⟩
      | some t => exact Or.inr ⟨_, by simp only [List.append_assoc]; rfl⟩
  · unfold write_cli_alpn_ext
    cases ssl.alpn_list with
    | none => exact Or.inl rfl
    | some l => exact Or.inr ⟨_, by simp only [List.append_assoc]; rfl⟩

theorem ssl_mfl_extensions (env : Env) :
    write_client_hello_extensions env (write_client_hello_versions ssl_mfl) =
      [0, 13, 0, 22, 0, 20, 6, 1, 5, 1, 4, 1, 3, 1, 2, 1, 6, 3, 5, 3, 4, 3, 3, 3, 2, 3,
       0, 11, 0, 2, 1, 0,
       0, 1, 0, 1, 1] := by
  simp [write_client_hello_extensions, write_client_hello_versions, ssl_mfl,
    write_hostname_ext, write_cli_renegotiation_ext, write_signature_algorithms_ext,
    write_supported_elliptic_curves_ext, write_supported_elliptic_curves_list,
    write_cli_supported_point_formats_ext, write_cli_max_fragment_length_ext,
    write_cli_truncated_hmac_ext, write_cli_session_ticket_ext, write_cli_alpn_ext,
    be16_bytes, u8]
  decide

/-- C18, counterexample: a client with TLS 1.2 and a maximum fragment
length configured builds a ClientHello whose extension block holds, in
this order, signature_algorithms (13), ec_point_formats (11) and
max_fragment_length (1); in the table of the specification
max_fragment_length precedes ec_point_formats, which precedes
signature_algorithms. -/
theorem write_client_hello_extension_order_counterexample :
    (write_client_hello {} ssl_mfl).1 = Ret.ok ∧
    extension_types
      (write_client_hello_extensions {} (write_client_hello {} ssl_mfl).2).length
      (write_client_hello_extensions {} (write_client_hello {} ssl_mfl).2) = [13, 11, 1] ∧
    ¬ List.Sublist
      (extension_types
        (write_client_hello_extensions {} (write_client_hello {} ssl_mfl).2).length
        (write_client_hello_extensions {} (write_client_hello {} ssl_mfl).2))
      spec_extension_order := by
  have hw : write_client_hello_with_ticket ssl_mfl = true → ({} : Env).f_rng = Ret.ok :=
    fun _ => rfl
  have he := write_client_hello_extensions_versions {} ssl_mfl hw
  rw [ssl_mfl_extensions] at he
  rw [he]
  refine ⟨?_, ?_, ?_⟩
  · unfold write_client_hello
    simp [write_client_hello_with_ticket, write_client_hello_versions, ssl_mfl]
  · simp [extension_types, rd, shl8_or]
  · have ht : extension_types
        ([0, 13, 0, 22, 0, 20, 6, 1, 5, 1, 4, 1, 3, 1, 2, 1, 6, 3, 5, 3, 4, 3, 3, 3, 2, 3,
          0, 11, 0, 2, 1, 0, 0, 1, 0, 1, 1] : Bytes).length
        [0, 13, 0, 22, 0, 20, 6, 1, 5, 1, 4, 1, 3, 1, 2, 1, 6, 3, 5, 3, 4, 3, 3, 3, 2, 3,
          0, 11, 0, 2, 1, 0, 0, 1, 0, 1, 1] = [13, 11, 1] := by
      simp [extension_types, rd, shl8_or]
    rw [ht]
    decide

/-- C18, amended: in every ClientHello built by `write_client_hello` the
extension block is the last part of the message, and it consists of what
the nine writers emit, in the order of the calls: server_name,
renegotiation_info, signature_algorithms, supported_elliptic_curves,
ec_point_formats, max_fragment_length, truncated_hmac, session_ticket,
ALPN; each writer emits nothing or an extension that begins with its own
type. -/
theorem write_client_hello_extension_order (env : Env) (tls : ntbtls_t)
    (hrng : write_client_hello_with_ticket tls = true → env.f_rng = Ret.ok) :
    (∃ pre post,
      (write_client_hello env tls).2.out_msg =
        pre ++ write_client_hello_extensions env (write_client_hello env tls).2 ++ post ∧
      pre.length +
          (write_client_hello_extensions env (write_client_hello env tls).2).length =
        (write_client_hello env tls).2.out_msglen) ∧
    write_client_hello_extensions env (write_client_hello env tls).2 =
      write_hostname_ext (write_client_hello env tls).2
        ++ write_cli_renegotiation_ext (write_client_hello env tls).2
        ++ write_signature_algorithms_ext (write_client_hello env tls).2
        ++ write_supported_elliptic_curves_ext env (write_client_hello env tls).2
        ++ write_cli_supported_point_formats_ext (write_client_hello env tls).2
        ++ write_cli_max_fragment_length_ext (write_client_hello env tls).2
        ++ write_cli_truncated_hmac_ext (write_client_hello env tls).2
        ++ write_cli_session_ticket_ext (write_client_hello env tls).2
        ++ write_cli_alpn_ext (write_client_hello env tls).2 ∧
    writes_type (write_hostname_ext (write_client_hello env tls).2) TLS_EXT_SERVERNAME ∧
    writes_type (write_cli_renegotiation_ext (write_client_hello env tls).2)
      TLS_EXT_RENEGOTIATION_INFO ∧
    writes_type (write_signature_algorithms_ext (write_client_hello env tls).2)
      TLS_EXT_SIG_ALG ∧
    writes_type (write_supported_elliptic_curves_ext env (write_client_hello env tls).2)
      TLS_EXT_SUPPORTED_ELLIPTIC_CURVES ∧
    writes_type (write_cli_supported_point_formats_ext (write_client_hello env tls).2)
      TLS_EXT_SUPPORTED_POINT_FORMATS ∧
    writes_type (write_cli_max_fragment_length_ext (write_client_hello env tls).2)
      TLS_EXT_MAX_FRAGMENT_LENGTH ∧
    writes_type (write_cli_truncated_hmac_ext (write_client_hello env tls).2)
      TLS_EXT_TRUNCATED_HMAC ∧
    writes_type (write_cli_session_ticket_ext (write_client_hello env tls).2)
      TLS_EXT_SESSION_TICKET ∧
    writes_type (write_cli_alpn_ext (write_client_hello env tls).2) TLS_EXT_ALPN :=
  ⟨write_client_hello_layout env tls hrng, rfl,
    extension_writers_types env (write_client_hello env tls).2⟩

/-- Witness for C18: the ClientHello of the client `ssl_mfl` ends with its
extension block. -/
theorem write_client_hello_extension_order_witness :
    ∃ pre post,
      (write_client_hello {} ssl_mfl).2.out_msg =
        pre ++ write_client_hello_extensions {} (write_client_hello {} ssl_mfl).2 ++ post ∧
      pre.length +
          (write_client_hello_extensions {} (write_client_hello {} ssl_mfl).2).length =
        (write_client_hello {} ssl_mfl).2.out_msglen :=
  (write_client_hello_extension_order {} ssl_mfl (fun _ => rfl)).1

/-! ## Extensions: encoding, then decoding -/

theorem be16_decode (x : Nat) (h : x < 65536) :
    shl8_or (u8 ((x >>> 8) &&& 0xFF) % 256) (u8 (x &&& 0xFF) % 256) = x := by
  rw [shl8_or_eq _ _ (Nat.mod_lt _ (by omega))]
  unfold u8
  have h1 : x &&& 0xFF = x % 256 := Nat.and_pow_two_sub_one_eq_mod x 8
  have h2 : (x >>> 8) &&& 0xFF = (x >>> 8) % 256 := Nat.and_pow_two_sub_one_eq_mod _ 8
  rw [h1, h2, Nat.shiftRight_eq_div_pow]
  omega

theorem max_fragment_length_round_trip (ssl : ntbtls_t)
    (h : ssl.mfl_code ≠ SSL_MAX_FRAG_LEN_NONE) (hb : ssl.mfl_code < 256) :
    ssl_parse_max_fragment_length_ext ssl ((write_cli_max_fragment_length_ext ssl).drop 4)
      (shl8_or (rd (write_cli_max_fragment_length_ext ssl) 2)
        (rd (write_cli_max_fragment_length_ext ssl) 3)) = (Ret.ok, ssl) := by
  unfold write_cli_max_fragment_length_ext
  rw [if_neg h]
  simp [be16_bytes, rd, shl8_or, u8, ssl_parse_max_fragment_length_ext]
  simp at h
  exact ⟨h, by omega⟩

theorem truncated_hmac_round_trip (ssl : ntbtls_t)
    (h : ssl.trunc_hmac ≠ SSL_TRUNC_HMAC_DISABLED) :
    ssl_parse_truncated_hmac_ext ssl ((write_cli_truncated_hmac_ext ssl).drop 4)
      (shl8_or (rd (write_cli_truncated_hmac_ext ssl) 2)
        (rd (write_cli_truncated_hmac_ext ssl) 3)) =
      (Ret.ok, { ssl with session_negotiate :=
        { ssl.session_negotiate with trunc_hmac := SSL_TRUNC_HMAC_ENABLED } }) := by
  unfold write_cli_truncated_hmac_ext
  rw [if_neg h]
  simp at h
  simp [be16_bytes, rd, shl8_or, u8, ssl_parse_truncated_hmac_ext, h]

theorem point_formats_round_trip (ssl : ntbtls_t) :
    ssl_parse_supported_point_formats_ext ssl
      ((write_cli_supported_point_formats_ext ssl).drop 4)
      (shl8_or (rd (write_cli_supported_point_formats_ext ssl) 2)
        (rd (write_cli_supported_point_formats_ext ssl) 3)) =
      (Ret.ok, { ssl with handshake :=
        { ssl.handshake with ecdh_point_format := POLARSSL_ECP_PF_UNCOMPRESSED } }) := by
  simp [write_cli_supported_point_formats_ext, be16_bytes, rd, shl8_or, u8,
    ssl_parse_supported_point_formats_ext, ssl_parse_supported_point_formats_loop]

theorem session_ticket_header_length (ssl : ntbtls_t)
    (h : ssl.session_tickets ≠ SSL_SESSION_TICKETS_DISABLED)
    (hb : ssl.session_negotiate.ticket_len < 65536) :
    shl8_or (rd (write_cli_session_ticket_ext ssl) 2)
      (rd (write_cli_session_ticket_ext ssl) 3) = ssl.session_negotiate.ticket_len := by
  have hd := be16_decode ssl.session_negotiate.ticket_len hb
  unfold write_cli_session_ticket_ext
  simp only []
  rw [if_neg h]
  cases ssl.session_negotiate.ticket with
  | none =>
    simp only [be16_bytes, rd, List.cons_append, List.nil_append, List.getD_cons_succ,
      List.getD_cons_zero]
    exact hd
  | some t =>
    simp only []
    split_ifs
    · simp only [be16_bytes, rd, List.cons_append, List.nil_append, List.getD_cons_succ,
        List.getD_cons_zero]
      exact hd
    · simp only [be16_bytes, rd, List.cons_append, List.nil_append, List.getD_cons_succ,
        List.getD_cons_zero]
      exact hd

theorem session_ticket_round_trip (ssl : ntbtls_t)
    (h : ssl.session_tickets ≠ SSL_SESSION_TICKETS_DISABLED)
    (hb : ssl.session_negotiate.ticket_len < 65536) :
    ((ssl_parse_session_ticket_ext ssl ((write_cli_session_ticket_ext ssl).drop 4)
      (shl8_or (rd (write_cli_session_ticket_ext ssl) 2)
        (rd (write_cli_session_ticket_ext ssl) 3))).1 = Ret.ok ↔
      ssl.session_negotiate.ticket_len = 0) ∧
    (ssl.session_negotiate.ticket_len = 0 →
      ssl_parse_session_ticket_ext ssl ((write_cli_session_ticket_ext ssl).drop 4)
        (shl8_or (rd (write_cli_session_ticket_ext ssl) 2)
          (rd (write_cli_session_ticket_ext ssl) 3)) =
        (Ret.ok, { ssl with handshake :=
          { ssl.handshake with new_session_ticket := 1 } })) := by
  rw [session_ticket_header_length ssl h hb]
  unfold ssl_parse_session_ticket_ext
  constructor
  · split_ifs with hc
    · simp only [reduceCtorEq, false_iff]
      rcases hc with hc | hc
      · exact absurd hc h
      · exact hc
    · simp only [true_iff]
      simp only [not_or, not_not] at hc
      exact hc.2
  · intro h0
    rw [if_neg (by simp only [not_or, not_not]; exact ⟨h, h0⟩)]

theorem renegotiation_info_round_trip (env : Env) (ssl : ntbtls_t)
    (h : ssl.renegotiation = TLS_RENEGOTIATION) :
    ((ssl_parse_renegotiation_info env ssl ((write_cli_renegotiation_ext ssl).drop 4)
      (shl8_or (rd (write_cli_renegotiation_ext ssl) 2)
        (rd (write_cli_renegotiation_ext ssl) 3))).1 = Ret.ok ↔
      ssl.verify_data_len = 0) ∧
    (ssl.verify_data_len = 0 →
      ssl_parse_renegotiation_info env ssl ((write_cli_renegotiation_ext ssl).drop 4)
        (shl8_or (rd (write_cli_renegotiation_ext ssl) 2)
          (rd (write_cli_renegotiation_ext ssl) 3)) = (Ret.ok, ssl)) := by
  have hlen : shl8_or (rd (write_cli_renegotiation_ext ssl) 2)
      (rd (write_cli_renegotiation_ext ssl) 3) = (ssl.verify_data_len + 1) % 256 := by
    unfold write_cli_renegotiation_ext
    rw [if_neg (not_not.mpr h)]
    simp only [be16_bytes, rd, List.cons_append, List.nil_append, List.getD_cons_succ,
      List.getD_cons_zero, u8]
    rw [shl8_or_eq _ _ (Nat.mod_lt _ (by omega))]
    have h1 : (ssl.verify_data_len + 1) &&& 0xFF = (ssl.verify_data_len + 1) % 256 :=
      Nat.and_pow_two_sub_one_eq_mod _ 8
    rw [h1]
    omega
  have hini : ¬ ssl.renegotiation = SSL_INITIAL_HANDSHAKE := by
    rw [h]; simp
  rw [hlen]
  constructor
  · constructor
    · intro hok
      unfold ssl_parse_renegotiation_info at hok
      rw [if_neg hini] at hok
      split_ifs at hok with hc ha
      · exact absurd hok ha
      · simp only [ne_eq, not_or, not_not] at hc
        have h1 := hc.1
        omega
    · intro h0
      unfold ssl_parse_renegotiation_info write_cli_renegotiation_ext
      rw [if_neg hini, if_neg (not_not.mpr h), h0]
      simp [be16_bytes, rd, u8, memeq, rdn]
  · intro h0
    unfold ssl_parse_renegotiation_info write_cli_renegotiation_ext
    rw [if_neg hini, if_neg (not_not.mpr h), h0]
    simp [be16_bytes, rd, u8, memeq, rdn]

theorem alpn_round_trip (ssl : ntbtls_t) (name : Bytes)
    (h : ssl.alpn_list = some [name]) (h1 : 1 ≤ name.length) (h2 : name.length ≤ 255) :
    ssl_parse_alpn_ext ssl ((write_cli_alpn_ext ssl).drop 4)
      (shl8_or (rd (write_cli_alpn_ext ssl) 2) (rd (write_cli_alpn_ext ssl) 3)) =
      (Ret.ok, { ssl with alpn_chosen := some name }) := by
  have hL : u8 (name.length &&& 0xFF) = name.length := by
    unfold u8
    have e : name.length &&& 0xFF = name.length % 256 := Nat.and_pow_two_sub_one_eq_mod _ 8
    rw [e]
    omega
  have hw : write_cli_alpn_ext ssl =
      u8 ((TLS_EXT_ALPN >>> 8) &&& 0xFF) :: u8 (TLS_EXT_ALPN &&& 0xFF) ::
      u8 (((3 + name.length) >>> 8) &&& 0xFF) :: u8 ((3 + name.length) &&& 0xFF) ::
      u8 (((1 + name.length) >>> 8) &&& 0xFF) :: u8 ((1 + name.length) &&& 0xFF) ::
      name.length :: rdn name name.length := by
    unfold write_cli_alpn_ext
    rw [h]
    simp only [write_cli_alpn_list, hL, be16_bytes, List.cons_append, List.nil_append,
      List.append_nil, List.length_cons, rdn_length]
    have e1 : 6 + (name.length + 1) - 4 = 3 + name.length := by omega
    have e2 : 6 + (name.length + 1) - 6 = 1 + name.length := by omega
    rw [e1, e2]
  rw [hw]
  have hlen : shl8_or
      (rd (u8 ((TLS_EXT_ALPN >>> 8) &&& 0xFF) :: u8 (TLS_EXT_ALPN &&& 0xFF) ::
        u8 (((3 + name.length) >>> 8) &&& 0xFF) :: u8 ((3 + name.length) &&& 0xFF) ::
        u8 (((1 + name.length) >>> 8) &&& 0xFF) :: u8 ((1 + name.length) &&& 0xFF) ::
        name.length :: rdn name name.length) 2)
      (rd (u8 ((TLS_EXT_ALPN >>> 8) &&& 0xFF) :: u8 (TLS_EXT_ALPN &&& 0xFF) ::
        u8 (((3 + name.length) >>> 8) &&& 0xFF) :: u8 ((3 + name.length) &&& 0xFF) ::
        u8 (((1 + name.length) >>> 8) &&& 0xFF) :: u8 ((1 + name.length) &&& 0xFF) ::
        name.length :: rdn name name.length) 3) = 3 + name.length := by
    simp only [rd, List.getD_cons_succ, List.getD_cons_zero]
    exact be16_decode _ (by omega)
  rw [hlen]
  simp only [List.drop_succ_cons, List.drop_zero]
  unfold ssl_parse_alpn_ext
  rw [h]
  simp only []
  have hlist : shl8_or
      (rd (u8 (((1 + name.length) >>> 8) &&& 0xFF) :: u8 ((1 + name.length) &&& 0xFF) ::
        name.length :: rdn name name.length) 0)
      (rd (u8 (((1 + name.length) >>> 8) &&& 0xFF) :: u8 ((1 + name.length) &&& 0xFF) ::
        name.length :: rdn name name.length) 1) = 1 + name.length := by
    simp only [rd, List.getD_cons_succ, List.getD_cons_zero]
    exact be16_decode _ (by omega)
  have hname : rd (u8 (((1 + name.length) >>> 8) &&& 0xFF) ::
      u8 ((1 + name.length) &&& 0xFF) :: name.length :: rdn name name.length) 2 =
      name.length := by
    simp only [rd, List.getD_cons_succ, List.getD_cons_zero]
    omega
  rw [hlist, hname, if_neg (by omega), if_neg (by omega), if_neg (by omega)]
  unfold ssl_parse_alpn_loop
  have hm : memeq (List.drop 3 (u8 (((1 + name.length) >>> 8) &&& 0xFF) ::
      u8 ((1 + name.length) &&& 0xFF) :: name.length :: rdn name name.length))
      name name.length = true := by
    simp only [List.drop_succ_cons, List.drop_zero]
    rw [memeq_iff]
    intro k hk
    exact rd_rdn _ _ _ hk
  rw [if_pos ⟨rfl, hm⟩]
  rw [h]

/-- C19, counterexample: three configurations in which an extension is
offered and the decoder rejects the encoder's payload: a client that
presents the stored ticket `01 02` (the decoder of session_ticket accepts
an empty payload only), a client that offers two ALPN protocol names (the
decoder accepts a list of one name only), and a renegotiating client with
verify data of 2 bytes (the encoder writes the client's verify data, the
decoder expects the client's and the server's). -/
theorem extension_round_trip_counterexample :
    (write_cli_session_ticket_ext ssl_offers_ticket ≠ [] ∧
      (ssl_parse_session_ticket_ext ssl_offers_ticket
        ((write_cli_session_ticket_ext ssl_offers_ticket).drop 4)
        (shl8_or (rd (write_cli_session_ticket_ext ssl_offers_ticket) 2)
          (rd (write_cli_session_ticket_ext ssl_offers_ticket) 3))).1 =
        Ret.BAD_HS_SERVER_HELLO) ∧
    (write_cli_alpn_ext ssl_offers_two_protocols ≠ [] ∧
      (ssl_parse_alpn_ext ssl_offers_two_protocols
        ((write_cli_alpn_ext ssl_offers_two_protocols).drop 4)
        (shl8_or (rd (write_cli_alpn_ext ssl_offers_two_protocols) 2)
          (rd (write_cli_alpn_ext ssl_offers_two_protocols) 3))).1 =
        Ret.BAD_HS_SERVER_HELLO) ∧
    (write_cli_renegotiation_ext ssl_renegotiating ≠ [] ∧
      (ssl_parse_renegotiation_info {} ssl_renegotiating
        ((write_cli_renegotiation_ext ssl_renegotiating).drop 4)
        (shl8_or (rd (write_cli_renegotiation_ext ssl_renegotiating) 2)
          (rd (write_cli_renegotiation_ext ssl_renegotiating) 3))).1 =
        Ret.BAD_HS_SERVER_HELLO) := by
  have e1 : write_cli_session_ticket_ext ssl_offers_ticket = [0, 35, 0, 2, 1, 2] := by
    simp [write_cli_session_ticket_ext, ssl_offers_ticket, be16_bytes, u8, rdn, rd]
    decide
  have e2 : write_cli_alpn_ext ssl_offers_two_protocols =
      [0, 16, 0, 8, 0, 6, 2, 104, 50, 2, 104, 51] := by
    simp [write_cli_alpn_ext, write_cli_alpn_list, ssl_offers_two_protocols, be16_bytes,
      u8, rdn, rd]
    decide
  have e3 : write_cli_renegotiation_ext ssl_renegotiating = [255, 1, 0, 3, 2, 1, 2] := by
    simp [write_cli_renegotiation_ext, ssl_renegotiating, be16_bytes, u8, rdn, rd]
    decide
  rw [e1, e2, e3]
  refine ⟨⟨by simp, ?_⟩, ⟨by simp, ?_⟩, ⟨by simp, ?_⟩⟩
  · simp [ssl_parse_session_ticket_ext, rd, shl8_or]
  · simp [ssl_parse_alpn_ext, ssl_offers_two_protocols, rd, shl8_or]
  · simp [ssl_parse_renegotiation_info, ssl_renegotiating, rd, shl8_or]

/-- C19, amended: the payload its encoder writes (the bytes after the
4-byte header, with the length of the header) is accepted by the decoder
for max_fragment_length (the code is accepted), truncated_hmac (truncation
is recorded in the session) and ec_point_formats (the uncompressed format
is recorded), in every configuration that offers the extension; for
session_ticket exactly when the client presents no ticket
(`ticket_len = 0`), the decoder then noting that a NewSessionTicket is
expected; for renegotiation_info exactly when the verify data are empty;
and for ALPN when the client offers one protocol name of 1 to 255 bytes,
which the decoder records as the chosen one. -/
theorem extension_round_trip (env : Env) (ssl : ntbtls_t) :
    (ssl.mfl_code ≠ SSL_MAX_FRAG_LEN_NONE → ssl.mfl_code < 256 →
      ssl_parse_max_fragment_length_ext ssl ((write_cli_max_fragment_length_ext ssl).drop 4)
        (shl8_or (rd (write_cli_max_fragment_length_ext ssl) 2)
          (rd (write_cli_max_fragment_length_ext ssl) 3)) = (Ret.ok, ssl)) ∧
    (ssl.trunc_hmac ≠ SSL_TRUNC_HMAC_DISABLED →
      ssl_parse_truncated_hmac_ext ssl ((write_cli_truncated_hmac_ext ssl).drop 4)
        (shl8_or (rd (write_cli_truncated_hmac_ext ssl) 2)
          (rd (write_cli_truncated_hmac_ext ssl) 3)) =
        (Ret.ok, { ssl with session_negotiate :=
          { ssl.session_negotiate with trunc_hmac := SSL_TRUNC_HMAC_ENABLED } })) ∧
    (ssl_parse_supported_point_formats_ext ssl
        ((write_cli_supported_point_formats_ext ssl).drop 4)
        (shl8_or (rd (write_cli_supported_point_formats_ext ssl) 2)
          (rd (write_cli_supported_point_formats_ext ssl) 3)) =
      (Ret.ok, { ssl with handshake :=
        { ssl.handshake with ecdh_point_format := POLARSSL_ECP_PF_UNCOMPRESSED } })) ∧
    (ssl.session_tickets ≠ SSL_SESSION_TICKETS_DISABLED →
      ssl.session_negotiate.ticket_len < 65536 →
      ((ssl_parse_session_ticket_ext ssl ((write_cli_session_ticket_ext ssl).drop 4)
        (shl8_or (rd (write_cli_session_ticket_ext ssl) 2)
          (rd (write_cli_session_ticket_ext ssl) 3))).1 = Ret.ok ↔
        ssl.session_negotiate.ticket_len = 0) ∧
      (ssl.session_negotiate.ticket_len = 0 →
        ssl_parse_session_ticket_ext ssl ((write_cli_session_ticket_ext ssl).drop 4)
          (shl8_or (rd (write_cli_session_ticket_ext ssl) 2)
            (rd (write_cli_session_ticket_ext ssl) 3)) =
          (Ret.ok, { ssl with handshake :=
            { ssl.handshake with new_session_ticket := 1 } }))) ∧
    (ssl.renegotiation = TLS_RENEGOTIATION →
      ((ssl_parse_renegotiation_info env ssl ((write_cli_renegotiation_ext ssl).drop 4)
        (shl8_or (rd (write_cli_renegotiation_ext ssl) 2)
          (rd (write_cli_renegotiation_ext ssl) 3))).1 = Ret.ok ↔
        ssl.verify_data_len = 0) ∧
      (ssl.verify_data_len = 0 →
        ssl_parse_renegotiation_info env ssl ((write_cli_renegotiation_ext ssl).drop 4)
          (shl8_or (rd (write_cli_renegotiation_ext ssl) 2)
            (rd (write_cli_renegotiation_ext ssl) 3)) = (Ret.ok, ssl))) ∧
    (∀ name : Bytes, ssl.alpn_list = some [name] → 1 ≤ name.length →
      name.length ≤ 255 →
      ssl_parse_alpn_ext ssl ((write_cli_alpn_ext ssl).drop 4)
        (shl8_or (rd (write_cli_alpn_ext ssl) 2) (rd (write_cli_alpn_ext ssl) 3)) =
        (Ret.ok, { ssl with alpn_chosen := some name })) :=
  ⟨max_fragment_length_round_trip ssl, truncated_hmac_round_trip ssl,
    point_formats_round_trip ssl, session_ticket_round_trip ssl,
    renegotiation_info_round_trip env ssl, alpn_round_trip ssl⟩

/-- Witness for C19: the client that offers the single protocol name `h2`
has its ALPN payload accepted and `h2` recorded as chosen; the client
`ssl_mfl` has its max_fragment_length payload accepted. -/
theorem extension_round_trip_witness :
    (ssl_parse_alpn_ext ssl_offers_one_protocol
      ((write_cli_alpn_ext ssl_offers_one_protocol).drop 4)
      (shl8_or (rd (write_cli_alpn_ext ssl_offers_one_protocol) 2)
        (rd (write_cli_alpn_ext ssl_offers_one_protocol) 3))).2.alpn_chosen =
      some [104, 50] ∧
    (ssl_parse_max_fragment_length_ext ssl_mfl
      ((write_cli_max_fragment_length_ext ssl_mfl).drop 4)
      (shl8_or (rd (write_cli_max_fragment_length_ext ssl_mfl) 2)
        (rd (write_cli_max_fragment_length_ext ssl_mfl) 3))).1 = Ret.ok :=
  ⟨congrArg (fun r => r.2.alpn_chosen)
      ((extension_round_trip {} ssl_offers_one_protocol).2.2.2.2.2 [104, 50] rfl
        (by decide) (by decide)),
   congrArg Prod.fst
      ((extension_round_trip {} ssl_mfl).1 (by simp [ssl_mfl]) (by simp [ssl_mfl]))⟩

/-! ## ClientKeyExchange: the encrypted premaster secret -/

theorem rd_store (buf data : Bytes) (off i : Nat) :
    rd (store buf off data) i =
      if i < off then rd buf i
      else if i < off + data.length then rd data (i - off)
      else rd buf i := by
  have hP : (buf.take off ++ List.replicate (off - buf.length) 0).length = off := by
    simp only [List.length_append, List.length_take, List.length_replicate]
    omega
  unfold store rd
  simp only [List.getD_eq_getElem?_getD]
  split_ifs with h1 h2
  · rw [List.append_assoc, List.getElem?_append_left (by rw [hP]; exact h1)]
    by_cases hb : i < buf.length
    · rw [List.getElem?_append_left (by simp only [List.length_take]; omega),
        List.getElem?_take_of_lt h1]
    · rw [List.getElem?_append_right (by simp only [List.length_take]; omega),
        List.getElem?_eq_none (by omega : buf.length ≤ i)]
      simp only [List.length_take]
      rw [List.getElem?_replicate]
      split_ifs <;> rfl
  · rw [List.append_assoc, List.getElem?_append_right (by rw [hP]; omega), hP,
      List.getElem?_append_left (by omega)]
  · rw [List.getElem?_append_right (by simp only [List.length_append, hP]; omega)]
    simp only [List.length_append, hP, List.getElem?_drop]
    congr 3
    omega

theorem rdn_rdn (b : Bytes) (n : Nat) : rdn (rdn b n) n = rdn b n := by
  unfold rdn
  apply List.map_congr_left
  intro j hj
  exact rd_rdn b n j (List.mem_range.mp hj)

theorem encrypted_pms_plaintext_stored (env : Env) (ssl : ntbtls_t) (q : Nat) :
    rdn ((store (store ssl.handshake.premaster q
        [u8 ssl.max_major_ver, u8 ssl.max_minor_ver]) (q + 2)
        (rdn (env.rng_bytes 46) 46)).drop q) 48 = encrypted_pms_plaintext env ssl := by
  apply List.ext_getElem
  · simp [rdn, encrypted_pms_plaintext]
  · intro i h1 h2
    have hi : i < 48 := by simpa [rdn] using h1
    have hl : rdn ((store (store ssl.handshake.premaster q
        [u8 ssl.max_major_ver, u8 ssl.max_minor_ver]) (q + 2)
        (rdn (env.rng_bytes 46) 46)).drop q) 48 =
      (List.range 48).map (rd ((store (store ssl.handshake.premaster q
        [u8 ssl.max_major_ver, u8 ssl.max_minor_ver]) (q + 2)
        (rdn (env.rng_bytes 46) 46)).drop q)) := rfl
    simp only [hl, List.getElem_map, List.getElem_range, rd_drop, rd_store, rdn_length,
      List.length_cons, List.length_nil]
    unfold encrypted_pms_plaintext
    by_cases h0 : i = 0
    · subst h0
      simp [rd, u8]
    by_cases h1 : i = 1
    · subst h1
      simp [rd, u8]
    have h46 : i - 2 < 46 := by omega
    rw [if_neg (by omega), if_pos (by omega)]
    have e : q + i - (q + 2) = i - 2 := by omega
    rw [e, rd_rdn _ _ _ h46]
    have e2 : ([u8 ssl.max_major_ver, u8 ssl.max_minor_ver] ++
        rdn (env.rng_bytes 46) 46)[i]? = (rdn (env.rng_bytes 46) 46)[i - 2]? := by
      rw [List.getElem?_append_right (by simp; omega)]
      simp
    have e3 : (rdn (env.rng_bytes 46) 46)[i - 2]? = some (rd (env.rng_bytes 46) (i - 2)) := by
      unfold rdn
      rw [List.getElem?_map, List.getElem?_range h46]
      rfl
    have e4 : ([u8 ssl.max_major_ver, u8 ssl.max_minor_ver] ++
        rdn (env.rng_bytes 46) 46)[i]? = some (([u8 ssl.max_major_ver, u8 ssl.max_minor_ver] ++
        rdn (env.rng_bytes 46) 46)[i]) := List.getElem?_eq_getElem h2
    rw [e2, e3] at e4
    exact (Option.some.inj e4)

theorem ssl_write_encrypted_pms_result (env : Env) (ssl : ntbtls_t) (o q : Nat)
    (hrng : env.f_rng = Ret.ok)
    (hpk : env.pk_can_do ssl.session_negotiate.peer_cert pk_type_t.RSA = true)
    (hver : ssl.minor_ver ≠ SSL_MINOR_VERSION_0)
    (henc : (env.pk_encrypt ssl.session_negotiate.peer_cert
      (encrypted_pms_plaintext env ssl) (SSL_MAX_CONTENT_LEN - o - 2)).1 = Ret.ok) :
    ssl_write_encrypted_pms env ssl o q =
      (Ret.ok,
       { ssl with
         handshake := { ssl.handshake with
           premaster := store (store ssl.handshake.premaster q
             [u8 ssl.max_major_ver, u8 ssl.max_minor_ver]) (q + 2)
             (rdn (env.rng_bytes 46) 46),
           pmslen := 48 },
         out_msg := store (store ssl.out_msg (o + 2)
             (env.pk_encrypt ssl.session_negotiate.peer_cert
               (encrypted_pms_plaintext env ssl) (SSL_MAX_CONTENT_LEN - o - 2)).2) o
           [u8 ((env.pk_encrypt ssl.session_negotiate.peer_cert
               (encrypted_pms_plaintext env ssl) (SSL_MAX_CONTENT_LEN - o - 2)).2.length >>> 8),
            u8 (env.pk_encrypt ssl.session_negotiate.peer_cert
               (encrypted_pms_plaintext env ssl) (SSL_MAX_CONTENT_LEN - o - 2)).2.length] },
       (env.pk_encrypt ssl.session_negotiate.peer_cert
         (encrypted_pms_plaintext env ssl) (SSL_MAX_CONTENT_LEN - o - 2)).2.length + 2) := by
  have hp := encrypted_pms_plaintext_stored env ssl q
  unfold ssl_write_encrypted_pms
  simp only [hver, if_false, hrng, ne_eq, not_true_eq_false, hpk, Bool.true_eq_false, hp,
    henc, if_true]

/-- C20: let the random source deliver 46 bytes, the server's key be an RSA
key and `pk_encrypt` succeed with the ciphertext `c`.  Then, for every
offset and for every negotiated `minor_ver` from TLS 1.0 up,
`ssl_write_encrypted_pms` succeeds; the 48 bytes of the premaster at
`pms_offset` are the bytes `(unsigned char) max_major_ver`,
`(unsigned char) max_minor_ver`, which are the offered maximum version
whatever version was negotiated, followed by the 46 random bytes, and it is
these 48 bytes that are encrypted; `pmslen` is 48; the ciphertext is written
at `offset + 2`, preceded at `offset` by the two bytes `c.length >> 8` and
`c.length`, its length in big-endian order, and the reported length is
`c.length + 2`.  The key exchanges `RSA` and `RSA_PSK` take their message
from this function, at the offsets `4` and `i`, with the premaster at
offsets `0` and `2`. -/
theorem ssl_write_encrypted_pms_premaster (env : Env) (ssl : ntbtls_t) (o q : Nat)
    (hrng : env.f_rng = Ret.ok)
    (hpk : env.pk_can_do ssl.session_negotiate.peer_cert pk_type_t.RSA = true)
    (hver : 1 ≤ ssl.minor_ver)
    (henc : (env.pk_encrypt ssl.session_negotiate.peer_cert
      (encrypted_pms_plaintext env ssl) (SSL_MAX_CONTENT_LEN - o - 2)).1 = Ret.ok) :
    (ssl_write_encrypted_pms env ssl o q).1 = Ret.ok ∧
    rdn ((ssl_write_encrypted_pms env ssl o q).2.1.handshake.premaster.drop q) 48 =
      encrypted_pms_plaintext env ssl ∧
    (ssl_write_encrypted_pms env ssl o q).2.1.handshake.pmslen = 48 ∧
    rd (ssl_write_encrypted_pms env ssl o q).2.1.handshake.premaster q =
      u8 ssl.max_major_ver ∧
    rd (ssl_write_encrypted_pms env ssl o q).2.1.handshake.premaster (q + 1) =
      u8 ssl.max_minor_ver ∧
    (ssl.max_major_ver < 256 → ssl.max_minor_ver < 256 →
      rd (ssl_write_encrypted_pms env ssl o q).2.1.handshake.premaster q =
        ssl.max_major_ver ∧
      rd (ssl_write_encrypted_pms env ssl o q).2.1.handshake.premaster (q + 1) =
        ssl.max_minor_ver) ∧
    (∀ j, j < 46 →
      rd (ssl_write_encrypted_pms env ssl o q).2.1.handshake.premaster (q + 2 + j) =
        rd (env.rng_bytes 46) j) ∧
    (ssl_write_encrypted_pms env ssl o q).2.2 =
      (env.pk_encrypt ssl.session_negotiate.peer_cert
        (encrypted_pms_plaintext env ssl) (SSL_MAX_CONTENT_LEN - o - 2)).2.length + 2 ∧
    rd (ssl_write_encrypted_pms env ssl o q).2.1.out_msg o =
      u8 ((env.pk_encrypt ssl.session_negotiate.peer_cert
        (encrypted_pms_plaintext env ssl) (SSL_MAX_CONTENT_LEN - o - 2)).2.length >>> 8) ∧
    rd (ssl_write_encrypted_pms env ssl o q).2.1.out_msg (o + 1) =
      u8 (env.pk_encrypt ssl.session_negotiate.peer_cert
        (encrypted_pms_plaintext env ssl) (SSL_MAX_CONTENT_LEN - o - 2)).2.length ∧
    ((env.pk_encrypt ssl.session_negotiate.peer_cert
        (encrypted_pms_plaintext env ssl) (SSL_MAX_CONTENT_LEN - o - 2)).2.length < 65536 →
      rd (ssl_write_encrypted_pms env ssl o q).2.1.out_msg o * 256 +
          rd (ssl_write_encrypted_pms env ssl o q).2.1.out_msg (o + 1) =
        (env.pk_encrypt ssl.session_negotiate.peer_cert
          (encrypted_pms_plaintext env ssl) (SSL_MAX_CONTENT_LEN - o - 2)).2.length) ∧
    (∀ j, j < (env.pk_encrypt ssl.session_negotiate.peer_cert
        (encrypted_pms_plaintext env ssl) (SSL_MAX_CONTENT_LEN - o - 2)).2.length →
      rd (ssl_write_encrypted_pms env ssl o q).2.1.out_msg (o + 2 + j) =
        rd (env.pk_encrypt ssl.session_negotiate.peer_cert
          (encrypted_pms_plaintext env ssl) (SSL_MAX_CONTENT_LEN - o - 2)).2 j) ∧
    write_client_key_exchange_body env ssl key_exchange_type_t.RSA =
      ((ssl_write_encrypted_pms env ssl 4 0).1, (ssl_write_encrypted_pms env ssl 4 0).2.1,
        4, (ssl_write_encrypted_pms env ssl 4 0).2.2) ∧
    (∀ i, write_client_key_exchange_psk_public env ssl key_exchange_type_t.RSA_PSK i =
      ((ssl_write_encrypted_pms env ssl i 2).1, (ssl_write_encrypted_pms env ssl i 2).2.1,
        i, (ssl_write_encrypted_pms env ssl i 2).2.2)) := by
  have hv : ssl.minor_ver ≠ SSL_MINOR_VERSION_0 := by
    simp only [SSL_MINOR_VERSION_0]; omega
  have hres := ssl_write_encrypted_pms_result env ssl o q hrng hpk hv henc
  generalize (env.pk_encrypt ssl.session_negotiate.peer_cert
    (encrypted_pms_plaintext env ssl) (SSL_MAX_CONTENT_LEN - o - 2)).2 = c at hres ⊢
  have hq0 : rd (store (store ssl.handshake.premaster q
      [u8 ssl.max_major_ver, u8 ssl.max_minor_ver]) (q + 2)
      (rdn (env.rng_bytes 46) 46)) q = u8 ssl.max_major_ver := by
    rw [rd_store, if_pos (by omega), rd_store, if_neg (by omega),
      if_pos (by simp)]
    simp [rd, u8]
  have hq1 : rd (store (store ssl.handshake.premaster q
      [u8 ssl.max_major_ver, u8 ssl.max_minor_ver]) (q + 2)
      (rdn (env.rng_bytes 46) 46)) (q + 1) = u8 ssl.max_minor_ver := by
    rw [rd_store, if_pos (by omega), rd_store, if_neg (by omega),
      if_pos (by simp)]
    simp [rd, u8]
  have ho0 : rd (store (store ssl.out_msg (o + 2) c) o
      [u8 (c.length >>> 8), u8 c.length]) o = u8 (c.length >>> 8) := by
    rw [rd_store, if_neg (by omega), if_pos (by simp)]
    simp [rd, u8]
  have ho1 : rd (store (store ssl.out_msg (o + 2) c) o
      [u8 (c.length >>> 8), u8 c.length]) (o + 1) = u8 c.length := by
    rw [rd_store, if_neg (by omega), if_pos (by simp)]
    simp [rd, u8]
  rw [hres]
  refine ⟨rfl, encrypted_pms_plaintext_stored env ssl q, rfl, hq0, hq1, ?_, ?_, rfl,
    ho0, ho1, ?_, ?_, ?_, ?_⟩
  · intro h1 h2
    refine ⟨hq0.trans ?_, hq1.trans ?_⟩
    · unfold u8; omega
    · unfold u8; omega
  · intro j hj
    show rd (store (store ssl.handshake.premaster q
      [u8 ssl.max_major_ver, u8 ssl.max_minor_ver]) (q + 2)
      (rdn (env.rng_bytes 46) 46)) (q + 2 + j) = _
    rw [rd_store, if_neg (by omega), if_pos (by rw [rdn_length]; omega)]
    have e : q + 2 + j - (q + 2) = j := by omega
    rw [e, rd_rdn _ _ _ hj]
  · intro hc
    show rd (store (store ssl.out_msg (o + 2) c) o
        [u8 (c.length >>> 8), u8 c.length]) o * 256 +
      rd (store (store ssl.out_msg (o + 2) c) o
        [u8 (c.length >>> 8), u8 c.length]) (o + 1) = _
    rw [ho0, ho1]
    unfold u8
    rw [Nat.shiftRight_eq_div_pow]
    omega
  · intro j hj
    show rd (store (store ssl.out_msg (o + 2) c) o
        [u8 (c.length >>> 8), u8 c.length]) (o + 2 + j) = _
    rw [rd_store, if_neg (by omega), if_neg (by simp), rd_store, if_neg (by omega),
      if_pos (by omega)]
    have e : o + 2 + j - (o + 2) = j := by omega
    rw [e]
  · simp [write_client_key_exchange_body]
  · intro i
    simp [write_client_key_exchange_psk_public]

/-- Witness for C20: a client that offered TLS 1.2 and negotiated TLS 1.0
puts the version bytes `03 03` at the head of the premaster, and reports 5
bytes for a ciphertext of 3. -/
theorem ssl_write_encrypted_pms_premaster_witness :
    rd (ssl_write_encrypted_pms env_rsa ssl_rsa 4 0).2.1.handshake.premaster 0 = 3 ∧
    rd (ssl_write_encrypted_pms env_rsa ssl_rsa 4 0).2.1.handshake.premaster 1 = 3 ∧
    (ssl_write_encrypted_pms env_rsa ssl_rsa 4 0).2.2 = 5 :=
  have h := ssl_write_encrypted_pms_premaster env_rsa ssl_rsa 4 0 rfl rfl
    (by simp [ssl_rsa]) rfl
  ⟨(h.2.2.2.2.2.1 (by simp [ssl_rsa]) (by simp [ssl_rsa])).1,
   (h.2.2.2.2.2.1 (by simp [ssl_rsa]) (by simp [ssl_rsa])).2,
   h.2.2.2.2.2.2.2.1⟩

/-! ## CertificateVerify: the signature algorithm byte -/

theorem write_certificate_verify_out_msg (env : Env) (ssl : ntbtls_t)
    (ci : ssl_ciphersuite_t) (key : pk_context)
    (hci : ssl.ciphersuite_info = some ci) (hkey : ssl.own_key = some key)
    (hkx : ¬ (ci.key_exchange = key_exchange_type_t.PSK ∨
      ci.key_exchange = key_exchange_type_t.RSA_PSK ∨
      ci.key_exchange = key_exchange_type_t.ECDHE_PSK ∨
      ci.key_exchange = key_exchange_type_t.DHE_PSK))
    (hauth : ¬ (ssl.client_auth = 0 ∨ ssl.own_cert = false))
    (hver : ssl.minor_ver = SSL_MINOR_VERSION_3)
    (hsign : (env.pk_sign key
      (if ci.mac = md_type_t.SHA384 then md_type_t.SHA384 else md_type_t.SHA256)
      env.calc_verify 0).1 = Ret.ok) :
    rd (write_certificate_verify env ssl).2.out_msg 5 = 0 := by
  unfold write_certificate_verify
  rw [hci]
  simp only []
  rw [if_neg hkx, if_neg hauth, hkey]
  simp only []
  rw [if_pos hver, if_neg (not_not.mpr hsign)]
  split_ifs
  all_goals
    simp only [rd_store, List.length_cons, List.length_nil]
    simp [rd]

/-- C21: a TLS 1.2 client that owns an RSA key, and one that owns an ECDSA
key, write a CertificateVerify message whose signature algorithm byte
`out_msg[5]` is `0` in both cases: the byte is the constant of line 1996 and
is not derived from the key type (`1` for RSA, `3` for ECDSA). -/
theorem write_certificate_verify_signature_byte :
    (write_certificate_verify env_sign ssl_client_auth_rsa).1 = Ret.ok ∧
    (write_certificate_verify env_sign ssl_client_auth_ecdsa).1 = Ret.ok ∧
    rd (write_certificate_verify env_sign ssl_client_auth_rsa).2.out_msg 0 =
      TLS_HS_CERTIFICATE_VERIFY ∧
    rd (write_certificate_verify env_sign ssl_client_auth_rsa).2.out_msg 4 =
      TLS_HASH_SHA256 ∧
    rd (write_certificate_verify env_sign ssl_client_auth_rsa).2.out_msg 5 = 0 ∧
    rd (write_certificate_verify env_sign ssl_client_auth_rsa).2.out_msg 5 ≠ TLS_SIG_RSA ∧
    rd (write_certificate_verify env_sign ssl_client_auth_ecdsa).2.out_msg 5 = 0 ∧
    rd (write_certificate_verify env_sign ssl_client_auth_ecdsa).2.out_msg 5 ≠
      TLS_SIG_ECDSA := by
  have h1 : rd (write_certificate_verify env_sign ssl_client_auth_rsa).2.out_msg 5 = 0 :=
    write_certificate_verify_out_msg env_sign ssl_client_auth_rsa suite_rsa
      ⟨pk_type_t.RSA⟩ rfl rfl (by simp [suite_rsa]) (by simp [ssl_client_auth_rsa])
      rfl rfl
  have h2 : rd (write_certificate_verify env_sign ssl_client_auth_ecdsa).2.out_msg 5 = 0 :=
    write_certificate_verify_out_msg env_sign ssl_client_auth_ecdsa suite_rsa
      ⟨pk_type_t.ECDSA⟩ rfl rfl (by simp [suite_rsa]) (by simp [ssl_client_auth_ecdsa])
      rfl rfl
  refine ⟨?_, ?_, ?_, ?_, h1, by rw [h1]; simp, h2, by rw [h2]; simp⟩
  · simp [write_certificate_verify, env_sign, ssl_client_auth_rsa, suite_rsa]
  · simp [write_certificate_verify, env_sign, ssl_client_auth_ecdsa, suite_rsa]
  · simp [write_certificate_verify, env_sign, ssl_client_auth_rsa, suite_rsa, store, rd]
  · simp [write_certificate_verify, env_sign, ssl_client_auth_rsa, suite_rsa, store, rd]

/-! ## ServerKeyExchange: the signature -/

theorem ssl_parse_signature_algorithm_tls12 (env : Env) (s : ntbtls_t) (p e : Nat)
    (hver : s.minor_ver = SSL_MINOR_VERSION_3) (hend : p + 2 ≤ e) :
    ssl_parse_signature_algorithm env s p e =
      if env.md_alg_from_hash (rd s.in_msg p) = md_type_t.NONE then
        (Ret.BAD_HS_SERVER_KEX, p, env.md_alg_from_hash (rd s.in_msg p), pk_type_t.NONE)
      else if env.pk_alg_from_sig (rd s.in_msg (p + 1)) = pk_type_t.NONE then
        (Ret.BAD_HS_SERVER_KEX, p, env.md_alg_from_hash (rd s.in_msg p),
          env.pk_alg_from_sig (rd s.in_msg (p + 1)))
      else
        (Ret.ok, p + 2, env.md_alg_from_hash (rd s.in_msg p),
          env.pk_alg_from_sig (rd s.in_msg (p + 1))) := by
  unfold ssl_parse_signature_algorithm
  simp only []
  rw [if_neg (not_not.mpr hver), if_neg (show ¬ (p + 2 > e) by omega)]

theorem parse_server_key_exchange_signature_tls12 (env : Env) (s : ntbtls_t)
    (ci : ssl_ciphersuite_t) (p e : Nat)
    (hver : s.minor_ver = SSL_MINOR_VERSION_3) (hend : p + 2 ≤ e) :
    parse_server_key_exchange_signature env s ci p e =
      if env.md_alg_from_hash (rd s.in_msg p) = md_type_t.NONE then Ret.BAD_HS_SERVER_KEX
      else if env.pk_alg_from_sig (rd s.in_msg (p + 1)) = pk_type_t.NONE then
        Ret.BAD_HS_SERVER_KEX
      else if env.pk_alg_from_sig (rd s.in_msg (p + 1)) ≠
          env.ssl_get_ciphersuite_sig_pk_alg ci then Ret.BAD_HS_SERVER_KEX
      else if e ≠ p + 2 + 2 + shl8_or (rd s.in_msg (p + 2)) (rd s.in_msg (p + 2 + 1)) then
        Ret.BAD_HS_SERVER_KEX
      else if env.md_init_ctx (env.md_alg_from_hash (rd s.in_msg p)) ≠ Ret.ok then
        env.md_init_ctx (env.md_alg_from_hash (rd s.in_msg p))
      else if env.pk_can_do s.session_negotiate.peer_cert
          (env.pk_alg_from_sig (rd s.in_msg (p + 1))) = false then Ret.WRONG_PUBKEY_ALGO
      else
        env.pk_verify s.session_negotiate.peer_cert (env.md_alg_from_hash (rd s.in_msg p))
          (env.md (env.md_alg_from_hash (rd s.in_msg p))
            (rdn s.handshake.randbytes 64 ++ rdn (s.in_msg.drop 4) (p - 4)))
          0 (rdn (s.in_msg.drop (p + 2 + 2))
            (shl8_or (rd s.in_msg (p + 2)) (rd s.in_msg (p + 2 + 1)))) := by
  unfold parse_server_key_exchange_signature
  simp only []
  rw [if_pos hver, ssl_parse_signature_algorithm_tls12 env s p e hver hend]
  by_cases h1 : env.md_alg_from_hash (rd s.in_msg p) = md_type_t.NONE
  · rw [if_pos h1, if_pos h1]
    simp only [ne_eq, reduceCtorEq, not_false_eq_true, if_true]
  rw [if_neg h1, if_neg h1]
  by_cases h2 : env.pk_alg_from_sig (rd s.in_msg (p + 1)) = pk_type_t.NONE
  · rw [if_pos h2, if_pos h2]
    simp only [ne_eq, reduceCtorEq, not_false_eq_true, if_true]
  rw [if_neg h2, if_neg h2]
  simp only [ne_eq, not_true_eq_false, if_false]
  by_cases h3 : env.pk_alg_from_sig (rd s.in_msg (p + 1)) =
      env.ssl_get_ciphersuite_sig_pk_alg ci
  swap
  · rw [if_pos h3, if_pos h3]
  rw [if_neg (not_not.mpr h3), if_neg (not_not.mpr h3)]
  by_cases h4 : e = p + 2 + 2 + shl8_or (rd s.in_msg (p + 2)) (rd s.in_msg (p + 2 + 1))
  swap
  · rw [if_pos h4, if_pos h4]
  rw [if_neg (not_not.mpr h4), if_neg (not_not.mpr h4), if_pos h1]
  by_cases h5 : env.md_init_ctx (env.md_alg_from_hash (rd s.in_msg p)) = Ret.ok
  swap
  · rw [if_pos h5, if_pos h5]
  rw [if_neg (not_not.mpr h5), if_neg (not_not.mpr h5)]
  by_cases h6 : env.pk_can_do s.session_negotiate.peer_cert
      (env.pk_alg_from_sig (rd s.in_msg (p + 1))) = false
  · rw [if_pos h6, if_pos h6]
  rw [if_neg h6, if_neg h6]
  split_ifs with h7
  · exact h7.symm
  · rfl

theorem ssl_parse_server_dh_params_frame (env : Env) (s : ntbtls_t) (p e : Nat) :
    kex_frame (ssl_parse_server_dh_params env s p e).2.1 s := by
  unfold ssl_parse_server_dh_params
  simp only []
  split_ifs <;> exact ⟨rfl, rfl, rfl, rfl, rfl, rfl⟩

theorem ssl_parse_server_ecdh_params_frame (env : Env) (s : ntbtls_t) (p e : Nat) :
    kex_frame (ssl_parse_server_ecdh_params env s p e).2.1 s := by
  unfold ssl_parse_server_ecdh_params
  simp only []
  split_ifs <;> exact ⟨rfl, rfl, rfl, rfl, rfl, rfl⟩

theorem parse_server_key_exchange_params_frame (env : Env) (s : ntbtls_t)
    (kx : key_exchange_type_t) (p e : Nat) :
    kex_frame (parse_server_key_exchange_params env s kx p e).2.1 s := by
  unfold parse_server_key_exchange_params
  simp only []
  have h3 := ssl_parse_server_dh_params_frame env s
  have h4 := ssl_parse_server_ecdh_params_frame env s
  split_ifs
  all_goals first
    | exact ⟨rfl, rfl, rfl, rfl, rfl, rfl⟩
    | exact h3 _ _
    | exact h4 _ _

theorem parse_server_key_exchange_message_signed (env : Env) (s s1 : ntbtls_t)
    (ci : ssl_ciphersuite_t) (p : Nat)
    (hkx : ci.key_exchange = key_exchange_type_t.DHE_RSA ∨
      ci.key_exchange = key_exchange_type_t.ECDHE_RSA ∨
      ci.key_exchange = key_exchange_type_t.ECDHE_ECDSA)
    (hm : s.in_msgtype = TLS_MSG_HANDSHAKE)
    (ht : rd s.in_msg 0 = TLS_HS_SERVER_KEY_EXCHANGE)
    (hp : parse_server_key_exchange_params env s ci.key_exchange 4 s.in_hslen =
      (Ret.ok, s1, p)) :
    parse_server_key_exchange_message env s ci =
      if parse_server_key_exchange_signature env s1 ci p s.in_hslen ≠ Ret.ok then
        (parse_server_key_exchange_signature env s1 ci p s.in_hslen, s1)
      else (Ret.ok, { s1 with state := s1.state + 1 }) := by
  unfold parse_server_key_exchange_message
  simp only []
  rw [if_neg (not_not.mpr hm), if_neg (not_not.mpr ht), hp]
  simp only [ne_eq, not_true_eq_false, if_false]
  rw [if_pos hkx]

theorem parse_server_key_exchange_signed (env : Env) (ssl s : ntbtls_t)
    (ci : ssl_ciphersuite_t) (p : Nat) (h : signed_params_parsed env ssl ci s p) :
    kex_frame s (ctx_after_read env ssl) ∧
    parse_server_key_exchange env ssl =
      if parse_server_key_exchange_signature env s ci p env.in_hslen ≠ Ret.ok then
        (parse_server_key_exchange_signature env s ci p env.in_hslen, s)
      else (Ret.ok, { s with state := s.state + 1 }) := by
  obtain ⟨hci, hkx, hver, hr, hm, ht, hp, hend⟩ := h
  have h1 : ci.key_exchange ≠ key_exchange_type_t.RSA := by
    rcases hkx with h | h | h <;> rw [h] <;> simp
  have h2 : ¬ (ci.key_exchange = key_exchange_type_t.ECDH_RSA ∨
      ci.key_exchange = key_exchange_type_t.ECDH_ECDSA) := by
    rcases hkx with h | h | h <;> rw [h] <;> simp
  have hf := parse_server_key_exchange_params_frame env (ctx_after_read env ssl)
    ci.key_exchange 4 env.in_hslen
  rw [hp] at hf
  refine ⟨hf, ?_⟩
  rw [parse_server_key_exchange_reads env ssl ci hci h1 h2 hr]
  exact parse_server_key_exchange_message_signed env (ctx_after_read env ssl) s ci p hkx
    hm ht hp

theorem signed_params_parsed_example (hash sig : Nat) (verify : Ret) :
    signed_params_parsed (env_signed hash sig verify) ssl_dhe_rsa suite_dhe_rsa
      { ctx_after_read (env_signed hash sig verify) ssl_dhe_rsa with
        handshake := { ssl_dhe_rsa.handshake with dhm_len := 64 } } 8 := by
  refine ⟨rfl, Or.inl rfl, rfl, rfl, rfl, ?_, ?_, ?_⟩
  · simp [env_signed, server_kex_signed, rd]
  · have hp := parse_server_key_exchange_params_dh (env_signed hash sig verify)
      (ctx_after_read (env_signed hash sig verify) ssl_dhe_rsa)
      key_exchange_type_t.DHE_RSA (env_signed hash sig verify).in_hslen (Or.inl rfl)
      (fun h => absurd h (by simp)) rfl
    show parse_server_key_exchange_params _ _ key_exchange_type_t.DHE_RSA 4 _ = _
    rw [hp]
    simp [env_signed, server_dh_params_offset, ctx_after_read, ssl_dhe_rsa]
  · simp [env_signed]

/-- C22, counterexample: a TLS 1.2 client with the suite `DHE_RSA` reads a
ServerKeyExchange with accepted parameters and the well-formed
SignatureAndHashAlgorithm `sha256, rsa`; the signature does not verify,
`pk_verify` returning the code `other 5`.  `parse_server_key_exchange`
returns that code, not `GPG_ERR_BAD_HS_SERVER_KEX`. -/
theorem parse_server_key_exchange_bad_signature_counterexample :
    (parse_server_key_exchange (env_signed 4 1 (Ret.other 5)) ssl_dhe_rsa).1 =
      Ret.other 5 ∧
    (parse_server_key_exchange (env_signed 4 1 (Ret.other 5)) ssl_dhe_rsa).1 ≠
      Ret.BAD_HS_SERVER_KEX := by
  have h := signed_params_parsed_example 4 1 (Ret.other 5)
  have hres : (parse_server_key_exchange (env_signed 4 1 (Ret.other 5)) ssl_dhe_rsa).1 =
      Ret.other 5 := by
    rw [(parse_server_key_exchange_signed _ _ _ _ _ h).2,
      parse_server_key_exchange_signature_tls12 _ _ _ _ _ rfl (by simp [env_signed])]
    simp [env_signed, server_kex_signed, rd, shl8_or, md_alg_from_hash_offered,
      pk_alg_from_sig_codes, sig_pk_alg_of_suite, suite_dhe_rsa, ctx_after_read]
  exact ⟨hres, by rw [hres]; simp⟩

/-- C22, amended: for a signed suite under TLS 1.2, when the parameters are
accepted, the SignatureAndHashAlgorithm is well-formed (digest and signature
algorithm known, the latter that of the suite), the signature fills the rest
of the message, the digest can be set up and the server's key can do the
signature algorithm, but `pk_verify` rejects the signature over the 64
random bytes and the parameters, `parse_server_key_exchange` fails with the
code that `pk_verify` returns, and the state is not advanced. -/
theorem parse_server_key_exchange_bad_signature (env : Env) (ssl s : ntbtls_t)
    (ci : ssl_ciphersuite_t) (p : Nat) (h : signed_params_parsed env ssl ci s p)
    (hmd : env.md_alg_from_hash (rd env.in_msg p) ≠ md_type_t.NONE)
    (hpk : env.pk_alg_from_sig (rd env.in_msg (p + 1)) ≠ pk_type_t.NONE)
    (hsuite : env.pk_alg_from_sig (rd env.in_msg (p + 1)) =
      env.ssl_get_ciphersuite_sig_pk_alg ci)
    (hlen : env.in_hslen =
      p + 4 + shl8_or (rd env.in_msg (p + 2)) (rd env.in_msg (p + 3)))
    (hinit : env.md_init_ctx (env.md_alg_from_hash (rd env.in_msg p)) = Ret.ok)
    (hcan : env.pk_can_do ssl.session_negotiate.peer_cert
      (env.pk_alg_from_sig (rd env.in_msg (p + 1))) = true)
    (hbad : env.pk_verify ssl.session_negotiate.peer_cert
      (env.md_alg_from_hash (rd env.in_msg p))
      (env.md (env.md_alg_from_hash (rd env.in_msg p))
        (rdn ssl.handshake.randbytes 64 ++ rdn (env.in_msg.drop 4) (p - 4)))
      0 (rdn (env.in_msg.drop (p + 4))
        (shl8_or (rd env.in_msg (p + 2)) (rd env.in_msg (p + 3)))) ≠ Ret.ok) :
    parse_server_key_exchange env ssl =
      (env.pk_verify ssl.session_negotiate.peer_cert
        (env.md_alg_from_hash (rd env.in_msg p))
        (env.md (env.md_alg_from_hash (rd env.in_msg p))
          (rdn ssl.handshake.randbytes 64 ++ rdn (env.in_msg.drop 4) (p - 4)))
        0 (rdn (env.in_msg.drop (p + 4))
          (shl8_or (rd env.in_msg (p + 2)) (rd env.in_msg (p + 3)))), s) ∧
    (parse_server_key_exchange env ssl).1 ≠ Ret.ok ∧
    (parse_server_key_exchange env ssl).2.state = ssl.state := by
  obtain ⟨hf, hres⟩ := parse_server_key_exchange_signed env ssl s ci p h
  obtain ⟨f1, f2, f3, f4, f5, f6⟩ := hf
  have g1 : s.in_msg = env.in_msg := f1
  have g3 : s.minor_ver = SSL_MINOR_VERSION_3 := by rw [f3]; exact h.2.2.1
  have g4 : s.session_negotiate = ssl.session_negotiate := f4
  have g5 : s.handshake.randbytes = ssl.handshake.randbytes := f5
  have g6 : s.state = ssl.state := f6
  have e1 : p + 2 + 1 = p + 3 := by omega
  have e2 : p + 2 + 2 = p + 4 := by omega
  have hsig := parse_server_key_exchange_signature_tls12 env s ci p env.in_hslen g3
    h.2.2.2.2.2.2.2
  rw [g1, g4, g5, e1, e2, if_neg hmd, if_neg hpk, if_neg (not_not.mpr hsuite),
    if_neg (not_not.mpr hlen), if_neg (not_not.mpr hinit),
    if_neg (by rw [hcan]; simp)] at hsig
  rw [hres, hsig, if_pos hbad]
  exact ⟨rfl, hbad, g6⟩

/-- Witness for C22: the ServerKeyExchange of `env_signed` with the pair
`sha256, rsa` and a signature that `pk_verify` rejects with code `other 5`
makes `parse_server_key_exchange` return `other 5` in state
ServerKeyExchange. -/
theorem parse_server_key_exchange_bad_signature_witness :
    (parse_server_key_exchange (env_signed 4 1 (Ret.other 5)) ssl_dhe_rsa).1 ≠ Ret.ok ∧
    (parse_server_key_exchange (env_signed 4 1 (Ret.other 5)) ssl_dhe_rsa).2.state =
      TLS_SERVER_KEY_EXCHANGE :=
  (parse_server_key_exchange_bad_signature (env_signed 4 1 (Ret.other 5)) ssl_dhe_rsa _
    suite_dhe_rsa 8 (signed_params_parsed_example 4 1 (Ret.other 5))
    (by simp [env_signed, server_kex_signed, rd, md_alg_from_hash_offered])
    (by simp [env_signed, server_kex_signed, rd, pk_alg_from_sig_codes])
    (by simp [env_signed, server_kex_signed, rd, pk_alg_from_sig_codes,
      sig_pk_alg_of_suite, suite_dhe_rsa])
    (by simp [env_signed, server_kex_signed, rd, shl8_or])
    rfl
    (by simp [env_signed, server_kex_signed, rd, pk_alg_from_sig_codes])
    (by simp [env_signed])).2

/-! ## ServerKeyExchange: the SignatureAndHashAlgorithm -/

theorem offered_hashes_written (t : ntbtls_t) (h : t.max_minor_ver = SSL_MINOR_VERSION_3) :
    write_signature_algorithms_ext t =
      be16_bytes TLS_EXT_SIG_ALG ++ be16_bytes 22 ++ be16_bytes 20 ++
        (offered_hashes.flatMap fun hash => [hash, TLS_SIG_RSA]) ++
        (offered_hashes.flatMap fun hash => [hash, TLS_SIG_ECDSA]) := by
  unfold write_signature_algorithms_ext
  rw [if_neg (not_not.mpr h)]
  simp [offered_hashes]

theorem offered_hashes_codes (hash : Nat) :
    hash ∈ offered_hashes ↔ 2 ≤ hash ∧ hash ≤ 6 := by
  simp only [offered_hashes, TLS_HASH_SHA512, TLS_HASH_SHA384, TLS_HASH_SHA256,
    TLS_HASH_SHA224, TLS_HASH_SHA1, List.mem_cons, List.mem_singleton, List.not_mem_nil,
    or_false]
  omega

theorem parse_server_key_exchange_signature_rejected (env : Env) (ssl s : ntbtls_t)
    (ci : ssl_ciphersuite_t) (p : Nat) (h : signed_params_parsed env ssl ci s p)
    (hbad : env.md_alg_from_hash (rd env.in_msg p) = md_type_t.NONE ∨
      env.pk_alg_from_sig (rd env.in_msg (p + 1)) = pk_type_t.NONE ∨
      env.pk_alg_from_sig (rd env.in_msg (p + 1)) ≠
        env.ssl_get_ciphersuite_sig_pk_alg ci) :
    (parse_server_key_exchange env ssl).1 = Ret.BAD_HS_SERVER_KEX := by
  obtain ⟨hf, hres⟩ := parse_server_key_exchange_signed env ssl s ci p h
  obtain ⟨f1, _, f3, _, _, _⟩ := hf
  have g1 : s.in_msg = env.in_msg := f1
  have g3 : s.minor_ver = SSL_MINOR_VERSION_3 := by rw [f3]; exact h.2.2.1
  have hsig := parse_server_key_exchange_signature_tls12 env s ci p env.in_hslen g3
    h.2.2.2.2.2.2.2
  rw [g1] at hsig
  have hs : parse_server_key_exchange_signature env s ci p env.in_hslen =
      Ret.BAD_HS_SERVER_KEX := by
    rw [hsig]
    by_cases h1 : env.md_alg_from_hash (rd env.in_msg p) = md_type_t.NONE
    · rw [if_pos h1]
    rw [if_neg h1]
    by_cases h2 : env.pk_alg_from_sig (rd env.in_msg (p + 1)) = pk_type_t.NONE
    · rw [if_pos h2]
    rw [if_neg h2]
    rcases hbad with hb | hb | hb
    · exact absurd hb h1
    · exact absurd hb h2
    · rw [if_pos hb]
  rw [hres, hs]
  simp

theorem signed_params_parsed_md5 :
    signed_params_parsed env_signed_md5 ssl_dhe_rsa suite_dhe_rsa
      { ctx_after_read env_signed_md5 ssl_dhe_rsa with
        handshake := { ssl_dhe_rsa.handshake with dhm_len := 64 } } 8 := by
  refine ⟨rfl, Or.inl rfl, rfl, rfl, rfl, ?_, ?_, ?_⟩
  · simp [env_signed_md5, server_kex_signed, rd]
  · have hp := parse_server_key_exchange_params_dh env_signed_md5
      (ctx_after_read env_signed_md5 ssl_dhe_rsa)
      key_exchange_type_t.DHE_RSA env_signed_md5.in_hslen (Or.inl rfl)
      (fun h => absurd h (by simp)) rfl
    show parse_server_key_exchange_params _ _ key_exchange_type_t.DHE_RSA 4 _ = _
    rw [hp]
    simp [env_signed_md5, server_dh_params_offset, ctx_after_read, ssl_dhe_rsa]
  · simp [env_signed_md5]

/-- C23, counterexample: a TLS 1.2 client with the suite `DHE_RSA` reads a
ServerKeyExchange with accepted parameters, the SignatureAndHashAlgorithm
`md5, rsa` and a signature that verifies.  The hash code 1 is none of the
codes 2 to 6 that `write_signature_algorithms_ext` offers; with a digest
table that knows md5, `parse_server_key_exchange` returns 0. -/
theorem parse_server_key_exchange_signature_algorithm_counterexample :
    rd env_signed_md5.in_msg 8 = 1 ∧
    rd env_signed_md5.in_msg 8 ∉ offered_hashes ∧
    env_signed_md5.pk_alg_from_sig (rd env_signed_md5.in_msg 9) =
      env_signed_md5.ssl_get_ciphersuite_sig_pk_alg suite_dhe_rsa ∧
    (parse_server_key_exchange env_signed_md5 ssl_dhe_rsa).1 = Ret.ok := by
  have h := signed_params_parsed_md5
  refine ⟨by decide, by decide, by decide, ?_⟩
  rw [(parse_server_key_exchange_signed _ _ _ _ _ h).2,
    parse_server_key_exchange_signature_tls12 _ _ _ _ _ rfl (by simp [env_signed_md5])]
  simp [env_signed_md5, server_kex_signed, rd, shl8_or, md_alg_from_hash_md5,
    pk_alg_from_sig_codes, sig_pk_alg_of_suite, suite_dhe_rsa, ctx_after_read]

/-- C23, amended: for a signed suite under TLS 1.2, once the parameters of
the ServerKeyExchange are accepted: `parse_server_key_exchange` succeeds only
if the hash byte of the SignatureAndHashAlgorithm has a digest in the table
`_ntbtls_md_alg_from_hash` and the signature byte maps, in the table
`_ntbtls_pk_alg_from_sig`, to the signature algorithm that
`ssl_get_ciphersuite_sig_pk_alg` gives for the negotiated suite; every other
pair makes it return `GPG_ERR_BAD_HS_SERVER_KEX`.  The hash byte is not
compared with the hashes of `sig_alg_list`. -/
theorem parse_server_key_exchange_signature_algorithm (env : Env) (ssl s : ntbtls_t)
    (ci : ssl_ciphersuite_t) (p : Nat) (h : signed_params_parsed env ssl ci s p) :
    ((parse_server_key_exchange env ssl).1 = Ret.ok →
      env.md_alg_from_hash (rd env.in_msg p) ≠ md_type_t.NONE ∧
      env.pk_alg_from_sig (rd env.in_msg (p + 1)) ≠ pk_type_t.NONE ∧
      env.pk_alg_from_sig (rd env.in_msg (p + 1)) =
        env.ssl_get_ciphersuite_sig_pk_alg ci) ∧
    ((env.md_alg_from_hash (rd env.in_msg p) = md_type_t.NONE ∨
        env.pk_alg_from_sig (rd env.in_msg (p + 1)) = pk_type_t.NONE ∨
        env.pk_alg_from_sig (rd env.in_msg (p + 1)) ≠
          env.ssl_get_ciphersuite_sig_pk_alg ci) →
      (parse_server_key_exchange env ssl).1 = Ret.BAD_HS_SERVER_KEX) := by
  have hrej := parse_server_key_exchange_signature_rejected env ssl s ci p h
  refine ⟨fun hok => ⟨?_, ?_, ?_⟩, hrej⟩
  · intro hb
    rw [hrej (Or.inl hb)] at hok
    exact absurd hok (by simp)
  · intro hb
    rw [hrej (Or.inr (Or.inl hb))] at hok
    exact absurd hok (by simp)
  · by_contra hb
    rw [hrej (Or.inr (Or.inr hb))] at hok
    exact absurd hok (by simp)

/-- Witness for C23 (amended): with a digest table that knows the five
offered hashes only, the ServerKeyExchange whose SignatureAndHashAlgorithm
is `md5, rsa` is rejected with `GPG_ERR_BAD_HS_SERVER_KEX`, and so is the
pair `sha256, ecdsa` under the suite `DHE_RSA`. -/
theorem parse_server_key_exchange_signature_algorithm_witness :
    (parse_server_key_exchange (env_signed 1 1 Ret.ok) ssl_dhe_rsa).1 =
      Ret.BAD_HS_SERVER_KEX ∧
    (parse_server_key_exchange (env_signed 4 3 Ret.ok) ssl_dhe_rsa).1 =
      Ret.BAD_HS_SERVER_KEX :=
  ⟨(parse_server_key_exchange_signature_algorithm (env_signed 1 1 Ret.ok) ssl_dhe_rsa _
      suite_dhe_rsa 8 (signed_params_parsed_example 1 1 Ret.ok)).2
      (Or.inl (by
        simp [env_signed, server_kex_signed, rd, md_alg_from_hash_offered])),
   (parse_server_key_exchange_signature_algorithm (env_signed 4 3 Ret.ok) ssl_dhe_rsa _
      suite_dhe_rsa 8 (signed_params_parsed_example 4 3 Ret.ok)).2
      (Or.inr (Or.inr (by
        simp [env_signed, server_kex_signed, rd, pk_alg_from_sig_codes,
          sig_pk_alg_of_suite, suite_dhe_rsa])))⟩

/-! ## ServerHelloDone -/

theorem parse_server_hello_done_after_read (env : Env) (ssl : ntbtls_t)
    (h : (parse_server_hello_done_read env ssl).1 = Ret.ok) :
    parse_server_hello_done env ssl =
      if (parse_server_hello_done_read env ssl).2.in_hslen ≠ 4 ∨
          rd (parse_server_hello_done_read env ssl).2.in_msg 0 ≠ TLS_HS_SERVER_HELLO_DONE then
        (Ret.BAD_HS_SERVER_HELLO_DONE,
          { (parse_server_hello_done_read env ssl).2 with record_read := 0 })
      else
        (Ret.ok, { (parse_server_hello_done_read env ssl).2 with
          record_read := 0, state := (parse_server_hello_done_read env ssl).2.state + 1 }) := by
  unfold parse_server_hello_done
  simp only []
  rw [if_neg (not_not.mpr h)]

/-- C24: once `parse_server_hello_done` has a handshake message at hand (the
record was read, or left by the previous handler), it returns 0 if and only
if the message has type ServerHelloDone and `in_hslen = 4`; otherwise it
returns `GPG_ERR_BAD_HS_SERVER_HELLO_DONE` and the state is the one before
the call; on success the state is one more than before the call and
`record_read` is 0. -/
theorem parse_server_hello_done_iff (env : Env) (ssl : ntbtls_t)
    (h : (parse_server_hello_done_read env ssl).1 = Ret.ok) :
    ((parse_server_hello_done env ssl).1 = Ret.ok ↔
      rd (parse_server_hello_done_read env ssl).2.in_msg 0 = TLS_HS_SERVER_HELLO_DONE ∧
      (parse_server_hello_done_read env ssl).2.in_hslen = 4) ∧
    ((parse_server_hello_done env ssl).1 ≠ Ret.ok →
      (parse_server_hello_done env ssl).1 = Ret.BAD_HS_SERVER_HELLO_DONE ∧
      (parse_server_hello_done env ssl).2.state = ssl.state) ∧
    ((parse_server_hello_done env ssl).1 = Ret.ok →
      (parse_server_hello_done env ssl).2.state = ssl.state + 1 ∧
      (parse_server_hello_done env ssl).2.record_read = 0) := by
  have hst := parse_server_hello_done_read_state env ssl
  rw [parse_server_hello_done_after_read env ssl h]
  generalize parse_server_hello_done_read env ssl = r at h hst ⊢
  by_cases hc : r.2.in_hslen ≠ 4 ∨ rd r.2.in_msg 0 ≠ TLS_HS_SERVER_HELLO_DONE
  · rw [if_pos hc]
    refine ⟨⟨fun h0 => absurd h0 (by simp), fun h0 => ?_⟩, fun _ => ⟨rfl, hst⟩,
      fun h0 => absurd h0 (by simp)⟩
    rcases hc with hc | hc
    · exact absurd h0.2 hc
    · exact absurd h0.1 hc
  · rw [if_neg hc]
    have hc2 : r.2.in_hslen = 4 ∧ rd r.2.in_msg 0 = TLS_HS_SERVER_HELLO_DONE := by
      constructor
      · by_contra h1
        exact hc (Or.inl h1)
      · by_contra h1
        exact hc (Or.inr h1)
    refine ⟨⟨fun _ => ⟨hc2.2, hc2.1⟩, fun _ => rfl⟩, fun h0 => absurd rfl h0, fun _ => ?_⟩
    exact ⟨by show r.2.state + 1 = ssl.state + 1; rw [hst], rfl⟩

/-- Witness for C24: the ServerHelloDone with an empty body is accepted and
moves the client from `TLS_SERVER_HELLO_DONE` to the next state; the same
message with a body of one byte is rejected and the state stays. -/
theorem parse_server_hello_done_iff_witness :
    ((parse_server_hello_done env_hello_done ssl_awaits_hello_done).1 = Ret.ok ∧
      (parse_server_hello_done env_hello_done ssl_awaits_hello_done).2.state =
        TLS_SERVER_HELLO_DONE + 1 ∧
      (parse_server_hello_done env_hello_done ssl_awaits_hello_done).2.record_read = 0) ∧
    ((parse_server_hello_done env_hello_done_long ssl_awaits_hello_done).1 =
        Ret.BAD_HS_SERVER_HELLO_DONE ∧
      (parse_server_hello_done env_hello_done_long ssl_awaits_hello_done).2.state =
        TLS_SERVER_HELLO_DONE) := by
  have h1 := parse_server_hello_done_iff env_hello_done ssl_awaits_hello_done (by decide)
  have h2 := parse_server_hello_done_iff env_hello_done_long ssl_awaits_hello_done
    (by decide)
  have ok1 : (parse_server_hello_done env_hello_done ssl_awaits_hello_done).1 = Ret.ok :=
    h1.1.mpr (by decide)
  have bad2 : (parse_server_hello_done env_hello_done_long ssl_awaits_hello_done).1 ≠
      Ret.ok := fun h0 => absurd (h2.1.mp h0).2 (by decide)
  exact ⟨⟨ok1, h1.2.2 ok1⟩, h2.2.1 bad2⟩

/-! ## CertificateRequest: the certificate type -/

theorem cert_types_none (env : Env) (ssl : ntbtls_t) (k : Nat) (p : Bytes)
    (h : ∀ j, j < k → ¬ cert_type_usable env ssl (rd p j)) :
    parse_certificate_request_cert_types env ssl k p = ssl := by
  induction k generalizing p with
  | zero => rfl
  | succ k ih =>
    have h0 := h 0 (Nat.succ_pos k)
    unfold cert_type_usable at h0
    rw [parse_certificate_request_cert_types, if_neg (fun hc => h0 (Or.inl hc)),
      if_neg (fun hc => h0 (Or.inr hc))]
    apply ih
    intro j hj
    rw [rd_drop]
    exact h (1 + j) (by omega)

theorem cert_types_first (env : Env) (ssl : ntbtls_t) (k : Nat) (p : Bytes) (i : Nat)
    (hi : i < k) (hu : cert_type_usable env ssl (rd p i))
    (hf : ∀ j, j < i → ¬ cert_type_usable env ssl (rd p j)) :
    parse_certificate_request_cert_types env ssl k p =
      { ssl with handshake := { ssl.handshake with cert_type := rd p i } } := by
  induction k generalizing p i with
  | zero => omega
  | succ k ih =>
    rw [parse_certificate_request_cert_types]
    cases i with
    | zero =>
      rcases hu with hu | hu
      · rw [if_pos hu, hu.1]
      · have hne : ¬ (rd p 0 = SSL_CERT_TYPE_RSA_SIGN ∧
            own_key_can_do env ssl pk_type_t.RSA = true) := by
          intro hc
          have h1 := hc.1
          rw [hu.1] at h1
          exact absurd h1 (by decide)
        rw [if_neg hne, if_pos hu, hu.1]
    | succ i =>
      have h0 := hf 0 (Nat.succ_pos i)
      unfold cert_type_usable at h0
      rw [if_neg (fun hc => h0 (Or.inl hc)), if_neg (fun hc => h0 (Or.inr hc))]
      have e := ih (p.drop 1) i (by omega) (by rw [rd_drop, Nat.add_comm]; exact hu)
        (by
          intro j hj
          rw [rd_drop]
          exact hf (1 + j) (by omega))
      rw [e, rd_drop, Nat.add_comm]

theorem parse_certificate_request_after_read (env : Env) (ssl : ntbtls_t)
    (ci : ssl_ciphersuite_t) (hci : ssl.ciphersuite_info = some ci)
    (h1 : ci.key_exchange ≠ key_exchange_type_t.PSK)
    (h2 : ci.key_exchange ≠ key_exchange_type_t.RSA_PSK)
    (h3 : ci.key_exchange ≠ key_exchange_type_t.DHE_PSK)
    (h4 : ci.key_exchange ≠ key_exchange_type_t.ECDHE_PSK)
    (hread : (parse_certificate_request_read env ssl).1 = Ret.ok) :
    parse_certificate_request env ssl =
      parse_certificate_request_message env (parse_certificate_request_read env ssl).2 := by
  unfold parse_certificate_request
  rw [hci]
  simp only []
  rw [if_neg (by
    intro hc
    rcases hc with hc | hc | hc | hc
    · exact h1 hc
    · exact h2 hc
    · exact h3 hc
    · exact h4 hc), if_neg (not_not.mpr hread)]

theorem cert_types_fields (env : Env) (ssl : ntbtls_t) (k : Nat) (p : Bytes) :
    (parse_certificate_request_cert_types env ssl k p).minor_ver = ssl.minor_ver ∧
    (parse_certificate_request_cert_types env ssl k p).in_hslen = ssl.in_hslen ∧
    (parse_certificate_request_cert_types env ssl k p).client_auth = ssl.client_auth ∧
    (parse_certificate_request_cert_types env ssl k p).record_read = ssl.record_read ∧
    (parse_certificate_request_cert_types env ssl k p).in_msg = ssl.in_msg := by
  induction k generalizing p with
  | zero => exact ⟨rfl, rfl, rfl, rfl, rfl⟩
  | succ k ih =>
    rw [parse_certificate_request_cert_types]
    split_ifs
    · exact ⟨rfl, rfl, rfl, rfl, rfl⟩
    · exact ⟨rfl, rfl, rfl, rfl, rfl⟩
    · exact ih _

theorem parse_certificate_request_message_request (env : Env) (s : ntbtls_t)
    (hreq : rd s.in_msg 0 = TLS_HS_CERTIFICATE_REQUEST) :
    parse_certificate_request_message env s =
      if s.in_hslen < 6 + rd s.in_msg 4 then (Ret.BAD_HS_CERT_REQ, ctx_cert_request s)
      else if s.minor_ver = SSL_MINOR_VERSION_3 then
        if s.in_hslen < 6 + (rd s.in_msg 4 +
            shl8_or (rd s.in_msg (5 + rd s.in_msg 4)) (rd s.in_msg (6 + rd s.in_msg 4))) then
          (Ret.BAD_HS_CERT_REQ, parse_certificate_request_cert_types env (ctx_cert_request s)
            (rd s.in_msg 4) (s.in_msg.drop 5))
        else if s.in_hslen ≠ 7 + 2 + (rd s.in_msg 4 +
            shl8_or (rd s.in_msg (5 + rd s.in_msg 4)) (rd s.in_msg (6 + rd s.in_msg 4)) +
            shl8_or
              (rd s.in_msg (5 + 2 + (rd s.in_msg 4 +
                shl8_or (rd s.in_msg (5 + rd s.in_msg 4)) (rd s.in_msg (6 + rd s.in_msg 4)))))
              (rd s.in_msg (6 + 2 + (rd s.in_msg 4 +
                shl8_or (rd s.in_msg (5 + rd s.in_msg 4))
                  (rd s.in_msg (6 + rd s.in_msg 4)))))) then
          (Ret.BAD_HS_CERT_REQ, parse_certificate_request_cert_types env (ctx_cert_request s)
            (rd s.in_msg 4) (s.in_msg.drop 5))
        else (Ret.ok, parse_certificate_request_cert_types env (ctx_cert_request s)
            (rd s.in_msg 4) (s.in_msg.drop 5))
      else if s.in_hslen ≠ 7 + 0 + (rd s.in_msg 4 +
          shl8_or (rd s.in_msg (5 + 0 + rd s.in_msg 4))
            (rd s.in_msg (6 + 0 + rd s.in_msg 4))) then
        (Ret.BAD_HS_CERT_REQ, parse_certificate_request_cert_types env (ctx_cert_request s)
            (rd s.in_msg 4) (s.in_msg.drop 5))
      else (Ret.ok, parse_certificate_request_cert_types env (ctx_cert_request s)
            (rd s.in_msg 4) (s.in_msg.drop 5)) := by
  have hf := cert_types_fields env (ctx_cert_request s) (rd s.in_msg 4) (s.in_msg.drop 5)
  have hm := hf.1
  have hl := hf.2.1
  clear hf
  unfold parse_certificate_request_message ctx_cert_request
  unfold ctx_cert_request at hm hl
  simp only []
  rw [if_pos hreq, if_neg (show ¬ ((0 : Nat) + 1 = 0) by decide)]
  simp only [Nat.zero_add] at hm hl ⊢
  by_cases h1 : s.in_hslen < 6 + rd s.in_msg 4
  · rw [if_pos h1, if_pos h1]
  rw [if_neg h1, if_neg h1]
  generalize parse_certificate_request_cert_types env _ (rd s.in_msg 4)
    (s.in_msg.drop 5) = t at hm hl ⊢
  rw [hm, hl]
  by_cases hv : s.minor_ver = SSL_MINOR_VERSION_3
  · simp only [hv, decide_True, true_and, if_true]
  · simp only [hv, decide_False, false_and, if_false, Bool.false_eq_true]

theorem parse_certificate_request_read_frame (env : Env) (ssl : ntbtls_t) :
    (parse_certificate_request_read env ssl).2.own_key = ssl.own_key ∧
    (parse_certificate_request_read env ssl).2.handshake = ssl.handshake ∧
    (parse_certificate_request_read env ssl).2.minor_ver = ssl.minor_ver := by
  have h2 : (_ntbtls_read_record env ssl).2.own_key = ssl.own_key ∧
      (_ntbtls_read_record env ssl).2.handshake = ssl.handshake ∧
      (_ntbtls_read_record env ssl).2.minor_ver = ssl.minor_ver := by
    unfold _ntbtls_read_record
    split_ifs <;> exact ⟨rfl, rfl, rfl⟩
  unfold parse_certificate_request_read
  simp only []
  generalize _ntbtls_read_record env ssl = r2 at h2 ⊢
  split_ifs
  all_goals first
    | exact ⟨rfl, rfl, rfl⟩
    | exact h2

theorem cert_type_usable_congr (env : Env) (a b : ntbtls_t) (t : Nat)
    (h : a.own_key = b.own_key) : cert_type_usable env a t ↔ cert_type_usable env b t := by
  unfold cert_type_usable own_key_can_do
  rw [h]

theorem parse_certificate_request_message_ctx (env : Env) (s : ntbtls_t)
    (hreq : rd s.in_msg 0 = TLS_HS_CERTIFICATE_REQUEST)
    (hlen : 6 + rd s.in_msg 4 ≤ s.in_hslen) :
    (parse_certificate_request_message env s).2 =
      parse_certificate_request_cert_types env (ctx_cert_request s) (rd s.in_msg 4)
        (s.in_msg.drop 5) := by
  rw [parse_certificate_request_message_request env s hreq,
    if_neg (show ¬ (s.in_hslen < 6 + rd s.in_msg 4) by omega)]
  split_ifs <;> rfl

theorem parse_certificate_request_message_client_auth (env : Env) (s : ntbtls_t)
    (hreq : rd s.in_msg 0 = TLS_HS_CERTIFICATE_REQUEST) :
    (parse_certificate_request_message env s).2.client_auth = 1 := by
  have hf := (cert_types_fields env (ctx_cert_request s) (rd s.in_msg 4)
    (s.in_msg.drop 5)).2.2.1
  rw [parse_certificate_request_message_request env s hreq]
  split_ifs
  all_goals first
    | rfl
    | exact hf

/-- C25: when `parse_certificate_request` has a CertificateRequest at hand
(the suite is not a PSK suite, the record is a handshake message of type
CertificateRequest), it sets `client_auth` to 1; and when the list
`cert_types` fits the message (`in_hslen >= 6 + n`), `handshake->cert_type`
becomes the first entry, in wire order, that is `rsa_sign` while the own key
can do RSA or `ecdsa_sign` while the own key can do ECDSA, whatever the
entries before it are; when no entry is such, the handshake record is as
before the call. -/
theorem parse_certificate_request_selects_cert_type (env : Env) (ssl : ntbtls_t)
    (ci : ssl_ciphersuite_t) (hci : ssl.ciphersuite_info = some ci)
    (h1 : ci.key_exchange ≠ key_exchange_type_t.PSK)
    (h2 : ci.key_exchange ≠ key_exchange_type_t.RSA_PSK)
    (h3 : ci.key_exchange ≠ key_exchange_type_t.DHE_PSK)
    (h4 : ci.key_exchange ≠ key_exchange_type_t.ECDHE_PSK)
    (hread : (parse_certificate_request_read env ssl).1 = Ret.ok)
    (hreq : rd (parse_certificate_request_read env ssl).2.in_msg 0 =
      TLS_HS_CERTIFICATE_REQUEST) :
    (parse_certificate_request env ssl).2.client_auth = 1 ∧
    (6 + rd (parse_certificate_request_read env ssl).2.in_msg 4 ≤
        (parse_certificate_request_read env ssl).2.in_hslen →
      (∀ i, i < rd (parse_certificate_request_read env ssl).2.in_msg 4 →
        cert_type_usable env ssl
          (rd (parse_certificate_request_read env ssl).2.in_msg (5 + i)) →
        (∀ j, j < i → ¬ cert_type_usable env ssl
          (rd (parse_certificate_request_read env ssl).2.in_msg (5 + j))) →
        (parse_certificate_request env ssl).2.handshake =
          { ssl.handshake with
            cert_type := rd (parse_certificate_request_read env ssl).2.in_msg (5 + i) }) ∧
      ((∀ j, j < rd (parse_certificate_request_read env ssl).2.in_msg 4 →
          ¬ cert_type_usable env ssl
            (rd (parse_certificate_request_read env ssl).2.in_msg (5 + j))) →
        (parse_certificate_request env ssl).2.handshake = ssl.handshake)) := by
  have hfr := parse_certificate_request_read_frame env ssl
  rw [parse_certificate_request_after_read env ssl ci hci h1 h2 h3 h4 hread]
  generalize (parse_certificate_request_read env ssl).2 = m at hreq hfr ⊢
  have hown : (ctx_cert_request m).own_key = ssl.own_key := hfr.1
  have hhs : (ctx_cert_request m).handshake = ssl.handshake := hfr.2.1
  refine ⟨parse_certificate_request_message_client_auth env m hreq, fun hlen => ?_⟩
  rw [parse_certificate_request_message_ctx env m hreq hlen]
  constructor
  · intro i hi hu hf
    rw [cert_types_first env (ctx_cert_request m) (rd m.in_msg 4) (m.in_msg.drop 5) i hi
      (by
        rw [rd_drop]
        exact (cert_type_usable_congr env _ _ _ hown).mpr hu)
      (by
        intro j hj
        rw [rd_drop]
        exact fun hc => hf j hj ((cert_type_usable_congr env _ _ _ hown).mp hc))]
    show { (ctx_cert_request m).handshake with
      cert_type := rd (m.in_msg.drop 5) i } = _
    rw [hhs, rd_drop]
  · intro hf
    rw [cert_types_none env (ctx_cert_request m) (rd m.in_msg 4) (m.in_msg.drop 5)
      (by
        intro j hj
        rw [rd_drop]
        exact fun hc => hf j hj ((cert_type_usable_congr env _ _ _ hown).mp hc))]
    exact hhs

/-- Witness for C25: for the list `dss_sign, ecdsa_sign, rsa_sign` and a
client with an RSA key, the certificate type becomes `rsa_sign`: the two
entries before it are skipped. -/
theorem parse_certificate_request_selects_cert_type_witness :
    (parse_certificate_request (env_cert_request 14) ssl_awaits_cert_request).2.client_auth
      = 1 ∧
    (parse_certificate_request (env_cert_request 14)
      ssl_awaits_cert_request).2.handshake.cert_type = SSL_CERT_TYPE_RSA_SIGN := by
  have h := parse_certificate_request_selects_cert_type (env_cert_request 14)
    ssl_awaits_cert_request suite_rsa rfl (by decide) (by decide) (by decide) (by decide)
    (by decide) (by decide)
  refine ⟨h.1, ?_⟩
  have h2 := (h.2 (by decide)).1 2 (by decide) (Or.inl ⟨by decide, by decide⟩)
    (by
      intro j hj
      unfold cert_type_usable
      interval_cases j <;> decide)
  rw [h2]
  decide

/-! ## CertificateRequest: the three vectors fill the message -/

theorem cert_types_congr (env env' : Env) (a : ntbtls_t) (b' : Bytes) (k : Nat)
    (p p' : Bytes) (henv : env'.pk_can_do = env.pk_can_do)
    (h : ∀ j, j < k → rd p' j = rd p j) :
    parse_certificate_request_cert_types env' { a with in_msg := b' } k p' =
      { parse_certificate_request_cert_types env a k p with in_msg := b' } := by
  induction k generalizing p p' with
  | zero => rfl
  | succ k ih =>
    have h0 := h 0 (Nat.succ_pos k)
    have hr : own_key_can_do env' { a with in_msg := b' } pk_type_t.RSA =
        own_key_can_do env a pk_type_t.RSA := by
      unfold own_key_can_do
      rw [henv]
    have he : own_key_can_do env' { a with in_msg := b' } pk_type_t.ECDSA =
        own_key_can_do env a pk_type_t.ECDSA := by
      unfold own_key_can_do
      rw [henv]
    rw [parse_certificate_request_cert_types, parse_certificate_request_cert_types,
      h0, hr, he]
    by_cases c1 : rd p 0 = SSL_CERT_TYPE_RSA_SIGN ∧ own_key_can_do env a pk_type_t.RSA = true
    · rw [if_pos c1, if_pos c1]
    rw [if_neg c1, if_neg c1]
    by_cases c2 : rd p 0 = SSL_CERT_TYPE_ECDSA_SIGN ∧
        own_key_can_do env a pk_type_t.ECDSA = true
    · rw [if_pos c2, if_pos c2]
    rw [if_neg c2, if_neg c2]
    apply ih
    intro j hj
    rw [rd_drop, rd_drop]
    exact h (1 + j) (by omega)

theorem parse_certificate_request_message_ok_iff (env : Env) (s : ntbtls_t)
    (hreq : rd s.in_msg 0 = TLS_HS_CERTIFICATE_REQUEST) :
    ((parse_certificate_request_message env s).1 = Ret.ok ↔
      if s.minor_ver = SSL_MINOR_VERSION_3 then
        s.in_hslen = 9 + rd s.in_msg 4 +
          shl8_or (rd s.in_msg (5 + rd s.in_msg 4)) (rd s.in_msg (6 + rd s.in_msg 4)) +
          shl8_or
            (rd s.in_msg (5 + 2 + (rd s.in_msg 4 +
              shl8_or (rd s.in_msg (5 + rd s.in_msg 4)) (rd s.in_msg (6 + rd s.in_msg 4)))))
            (rd s.in_msg (6 + 2 + (rd s.in_msg 4 +
              shl8_or (rd s.in_msg (5 + rd s.in_msg 4)) (rd s.in_msg (6 + rd s.in_msg 4)))))
      else
        s.in_hslen = 7 + rd s.in_msg 4 +
          shl8_or (rd s.in_msg (5 + 0 + rd s.in_msg 4))
            (rd s.in_msg (6 + 0 + rd s.in_msg 4))) ∧
    ((parse_certificate_request_message env s).1 ≠ Ret.ok →
      (parse_certificate_request_message env s).1 = Ret.BAD_HS_CERT_REQ) := by
  rw [parse_certificate_request_message_request env s hreq]
  generalize parse_certificate_request_cert_types env (ctx_cert_request s) (rd s.in_msg 4)
    (s.in_msg.drop 5) = t
  generalize shl8_or (rd s.in_msg (5 + rd s.in_msg 4)) (rd s.in_msg (6 + rd s.in_msg 4)) = sig
  generalize shl8_or (rd s.in_msg (5 + 2 + (rd s.in_msg 4 + sig)))
    (rd s.in_msg (6 + 2 + (rd s.in_msg 4 + sig))) = dn
  generalize rd s.in_msg 4 = n
  by_cases hv : s.minor_ver = SSL_MINOR_VERSION_3
  · rw [if_pos hv, if_pos hv]
    by_cases c1 : s.in_hslen < 6 + n
    · rw [if_pos c1]
      exact ⟨⟨fun h => absurd h (by simp), fun h => by omega⟩, fun _ => rfl⟩
    rw [if_neg c1]
    by_cases c2 : s.in_hslen < 6 + (n + sig)
    · rw [if_pos c2]
      exact ⟨⟨fun h => absurd h (by simp), fun h => by omega⟩, fun _ => rfl⟩
    rw [if_neg c2]
    by_cases c3 : s.in_hslen ≠ 7 + 2 + (n + sig + dn)
    · rw [if_pos c3]
      exact ⟨⟨fun h => absurd h (by simp), fun h => by omega⟩, fun _ => rfl⟩
    rw [if_neg c3]
    exact ⟨⟨fun _ => by omega, fun _ => rfl⟩, fun h => absurd rfl h⟩
  · rw [if_neg hv, if_neg hv]
    by_cases c1 : s.in_hslen < 6 + n
    · rw [if_pos c1]
      exact ⟨⟨fun h => absurd h (by simp), fun h => by omega⟩, fun _ => rfl⟩
    rw [if_neg c1]
    by_cases c3 : s.in_hslen ≠ 7 + 0 + (n + sig)
    · rw [if_pos c3]
      exact ⟨⟨fun h => absurd h (by simp), fun h => by omega⟩, fun _ => rfl⟩
    rw [if_neg c3]
    exact ⟨⟨fun _ => by omega, fun _ => rfl⟩, fun h => absurd rfl h⟩

theorem parse_certificate_request_message_congr (env env' : Env) (s : ntbtls_t)
    (b' : Bytes) (henv : env'.pk_can_do = env.pk_can_do)
    (hreq : rd s.in_msg 0 = TLS_HS_CERTIFICATE_REQUEST)
    (hok : (parse_certificate_request_message env s).1 = Ret.ok)
    (hb : ∀ i, i < s.in_hslen → rd b' i = rd s.in_msg i) :
    parse_certificate_request_message env' { s with in_msg := b' } =
      (Ret.ok, { (parse_certificate_request_message env s).2 with in_msg := b' }) := by
  have hlen := (parse_certificate_request_message_ok_iff env s hreq).1.mp hok
  have hloop : ∀ k, k = rd s.in_msg 4 → 5 + k ≤ s.in_hslen →
      parse_certificate_request_cert_types env' (ctx_cert_request { s with in_msg := b' })
        k (b'.drop 5) =
      { parse_certificate_request_cert_types env (ctx_cert_request s) k (s.in_msg.drop 5)
        with in_msg := b' } := by
    intro k _ hk
    apply cert_types_congr env env' (ctx_cert_request s) b' k _ _ henv
    intro j hj
    rw [rd_drop, rd_drop]
    exact hb _ (by omega)
  have e := parse_certificate_request_message_request env s hreq
  by_cases hv : s.minor_ver = SSL_MINOR_VERSION_3
  · rw [if_pos hv] at hlen
    have q0 : rd b' 0 = TLS_HS_CERTIFICATE_REQUEST := by
      rw [hb 0 (by omega)]
      exact hreq
    have q4 : rd b' 4 = rd s.in_msg 4 := hb 4 (by omega)
    have q5 : rd b' (5 + rd s.in_msg 4) = rd s.in_msg (5 + rd s.in_msg 4) :=
      hb _ (by omega)
    have q6 : rd b' (6 + rd s.in_msg 4) = rd s.in_msg (6 + rd s.in_msg 4) :=
      hb _ (by omega)
    have e' := parse_certificate_request_message_request env' { s with in_msg := b' } q0
    simp only [] at e'
    rw [q4, q5, q6] at e'
    have q7 := hb (5 + 2 + (rd s.in_msg 4 +
      shl8_or (rd s.in_msg (5 + rd s.in_msg 4)) (rd s.in_msg (6 + rd s.in_msg 4))))
      (by omega)
    have q8 := hb (6 + 2 + (rd s.in_msg 4 +
      shl8_or (rd s.in_msg (5 + rd s.in_msg 4)) (rd s.in_msg (6 + rd s.in_msg 4))))
      (by omega)
    rw [q7, q8, hloop _ rfl (by omega)] at e'
    rw [e', e]
    generalize parse_certificate_request_cert_types env (ctx_cert_request s) (rd s.in_msg 4)
      (s.in_msg.drop 5) = t
    rw [if_neg (show ¬ (s.in_hslen < 6 + rd s.in_msg 4) by omega),
      if_neg (show ¬ (s.in_hslen < 6 + rd s.in_msg 4) by omega), if_pos hv, if_pos hv,
      if_neg (by omega), if_neg (by omega), if_neg (by omega), if_neg (by omega)]
  · rw [if_neg hv] at hlen
    have q0 : rd b' 0 = TLS_HS_CERTIFICATE_REQUEST := by
      rw [hb 0 (by omega)]
      exact hreq
    have q4 : rd b' 4 = rd s.in_msg 4 := hb 4 (by omega)
    have e' := parse_certificate_request_message_request env' { s with in_msg := b' } q0
    simp only [] at e'
    rw [q4] at e'
    have q5 := hb (5 + 0 + rd s.in_msg 4) (by omega)
    have q6 := hb (6 + 0 + rd s.in_msg 4) (by omega)
    rw [q5, q6, hloop _ rfl (by omega)] at e'
    rw [e', e]
    generalize parse_certificate_request_cert_types env (ctx_cert_request s) (rd s.in_msg 4)
      (s.in_msg.drop 5) = t
    rw [if_neg (show ¬ (s.in_hslen < 6 + rd s.in_msg 4) by omega),
      if_neg (show ¬ (s.in_hslen < 6 + rd s.in_msg 4) by omega), if_neg hv, if_neg hv,
      if_neg (by omega), if_neg (by omega)]

theorem parse_certificate_request_read_congr (env : Env) (ssl : ntbtls_t) (b' : Bytes) :
    parse_certificate_request_read { env with in_msg := b' } { ssl with in_msg := b' } =
      ((parse_certificate_request_read env ssl).1,
        { (parse_certificate_request_read env ssl).2 with in_msg := b' }) := by
  by_cases h0 : ssl.record_read = 0
  · by_cases h1 : env.read_record = Ret.ok
    · by_cases h2 : env.in_msgtype = 22
      · simp [parse_certificate_request_read, _ntbtls_read_record, h0, h1, h2]
      · simp [parse_certificate_request_read, _ntbtls_read_record, h0, h1, h2]
    · simp [parse_certificate_request_read, _ntbtls_read_record, h0, h1]
  · simp [parse_certificate_request_read, _ntbtls_read_record, h0]

/-- C26: when `parse_certificate_request` has a CertificateRequest at hand
(the suite is not a PSK suite, the record is a handshake message of type
CertificateRequest), it returns 0 if and only if `in_hslen` is, under
TLS 1.2, 9 + the length of `cert_types` + the length of
`supported_signature_algorithms` + the length of `certificate_authorities`
and, below TLS 1.2, 7 + the length of `cert_types` + the length of
`certificate_authorities`; every other declared length gives
`GPG_ERR_BAD_HS_CERT_REQ`; and an accepted message is read below `in_hslen`
only: replacing the input buffer by one that agrees with it on the first
`in_hslen` bytes gives the same result. -/
theorem parse_certificate_request_lengths (env : Env) (ssl : ntbtls_t)
    (ci : ssl_ciphersuite_t) (hci : ssl.ciphersuite_info = some ci)
    (h1 : ci.key_exchange ≠ key_exchange_type_t.PSK)
    (h2 : ci.key_exchange ≠ key_exchange_type_t.RSA_PSK)
    (h3 : ci.key_exchange ≠ key_exchange_type_t.DHE_PSK)
    (h4 : ci.key_exchange ≠ key_exchange_type_t.ECDHE_PSK)
    (hread : (parse_certificate_request_read env ssl).1 = Ret.ok)
    (hreq : rd (parse_certificate_request_read env ssl).2.in_msg 0 =
      TLS_HS_CERTIFICATE_REQUEST) :
    ((parse_certificate_request env ssl).1 = Ret.ok ↔
      if ssl.minor_ver = SSL_MINOR_VERSION_3 then
        (parse_certificate_request_read env ssl).2.in_hslen =
          9 + rd (parse_certificate_request_read env ssl).2.in_msg 4 +
            cert_req_sig_algs_len (parse_certificate_request_read env ssl).2.in_msg +
            cert_req_dn_len_tls12 (parse_certificate_request_read env ssl).2.in_msg
      else
        (parse_certificate_request_read env ssl).2.in_hslen =
          7 + rd (parse_certificate_request_read env ssl).2.in_msg 4 +
            cert_req_dn_len (parse_certificate_request_read env ssl).2.in_msg) ∧
    ((parse_certificate_request env ssl).1 ≠ Ret.ok →
      (parse_certificate_request env ssl).1 = Ret.BAD_HS_CERT_REQ) ∧
    ((parse_certificate_request env ssl).1 = Ret.ok →
      ∀ b' : Bytes,
        (∀ i, i < (parse_certificate_request_read env ssl).2.in_hslen →
          rd b' i = rd (parse_certificate_request_read env ssl).2.in_msg i) →
        parse_certificate_request { env with in_msg := b' } { ssl with in_msg := b' } =
          (Ret.ok, { (parse_certificate_request env ssl).2 with in_msg := b' })) := by
  have hfr := (parse_certificate_request_read_frame env ssl).2.2
  have hc := fun b' => parse_certificate_request_read_congr env ssl b'
  have ha := fun b' (hr : (parse_certificate_request_read { env with in_msg := b' }
      { ssl with in_msg := b' }).1 = Ret.ok) =>
    parse_certificate_request_after_read { env with in_msg := b' }
      { ssl with in_msg := b' } ci hci h1 h2 h3 h4 hr
  rw [parse_certificate_request_after_read env ssl ci hci h1 h2 h3 h4 hread]
  generalize parse_certificate_request_read env ssl = r at hread hreq hfr hc ⊢
  have key := parse_certificate_request_message_ok_iff env r.2 hreq
  rw [hfr] at key
  refine ⟨key.1, key.2, ?_⟩
  intro hok b' hb
  rw [ha b' (by rw [hc b']; exact hread), hc b']
  exact parse_certificate_request_message_congr env { env with in_msg := b' } r.2 b' rfl
    hreq hok hb

/-- Witness for C26: the CertificateRequest `cert_request_msg` of TLS 1.2,
whose vectors have the lengths 3, 2 and 0, is accepted with `in_hslen = 14`
and rejected with `in_hslen = 15`; a TLS 1.1 client rejects it. -/
theorem parse_certificate_request_lengths_witness :
    (parse_certificate_request (env_cert_request 14) ssl_awaits_cert_request).1 = Ret.ok ∧
    (parse_certificate_request (env_cert_request 15) ssl_awaits_cert_request).1 =
      Ret.BAD_HS_CERT_REQ ∧
    (parse_certificate_request (env_cert_request 14) ssl_awaits_cert_request_tls11).1 =
      Ret.BAD_HS_CERT_REQ := by
  have a := parse_certificate_request_lengths (env_cert_request 14)
    ssl_awaits_cert_request suite_rsa rfl (by decide) (by decide) (by decide) (by decide)
    (by decide) (by decide)
  have b := parse_certificate_request_lengths (env_cert_request 15)
    ssl_awaits_cert_request suite_rsa rfl (by decide) (by decide) (by decide) (by decide)
    (by decide) (by decide)
  have c := parse_certificate_request_lengths (env_cert_request 14)
    ssl_awaits_cert_request_tls11 suite_rsa rfl (by decide) (by decide) (by decide)
    (by decide) (by decide) (by decide)
  refine ⟨a.1.mpr (by decide), b.2.1 (fun h => absurd (b.1.mp h) (by decide)),
    c.2.1 (fun h => absurd (c.1.mp h) (by decide))⟩

/-! ## ClientHello: the renegotiation signal and the session id -/

theorem write_client_hello_versions_frame (tls : ntbtls_t) :
    (write_client_hello_versions tls).renegotiation = tls.renegotiation ∧
    (write_client_hello_versions tls).verify_data_len = tls.verify_data_len ∧
    (write_client_hello_versions tls).own_verify_data = tls.own_verify_data ∧
    (write_client_hello_versions tls).session_tickets = tls.session_tickets ∧
    (write_client_hello_versions tls).session_negotiate = tls.session_negotiate ∧
    (write_client_hello_versions tls).handshake = tls.handshake := by
  unfold write_client_hello_versions
  simp only []
  split_ifs <;> exact ⟨rfl, rfl, rfl, rfl, rfl, rfl⟩

theorem write_client_hello_sid_len_versions (tls : ntbtls_t) (out : Bytes)
    (r : Bytes) :
    write_client_hello_sid_len { write_client_hello_versions tls with
      out_msg := out,
      handshake := { (write_client_hello_versions tls).handshake with randbytes := r } } =
    write_client_hello_sid_len tls := by
  obtain ⟨h1, _, _, _, h5, h6⟩ := write_client_hello_versions_frame tls
  unfold write_client_hello_sid_len
  simp only []
  rw [h1, h5, h6]

theorem write_client_hello_sid_len_le (tls : ntbtls_t) :
    write_client_hello_sid_len tls ≤ 32 := by
  unfold write_client_hello_sid_len
  simp only []
  split_ifs with h
  · omega
  · simp only [not_or, not_lt] at h
    omega

theorem write_client_hello_message (env : Env) (tls : ntbtls_t)
    (hrng : write_client_hello_with_ticket tls = true → env.f_rng = Ret.ok) :
    ∃ (t : ntbtls_t) (n : Nat),
      (write_client_hello env tls).2.out_msg =
        store (store t.out_msg 4 (write_client_hello_head env (write_client_hello_versions tls)
          ++ write_client_hello_rest env t n)) 0 [TLS_HS_CLIENT_HELLO] ∧
      n = (if write_client_hello_with_ticket tls = true then 32
        else write_client_hello_sid_len tls) ∧
      t.renegotiation = tls.renegotiation ∧
      (write_client_hello env tls).2.renegotiation = tls.renegotiation ∧
      (write_client_hello env tls).2.verify_data_len = tls.verify_data_len ∧
      (write_client_hello env tls).2.own_verify_data = tls.own_verify_data ∧
      (write_client_hello env tls).2.session_tickets = tls.session_tickets ∧
      (write_client_hello env tls).2.session_negotiate.ticket =
        tls.session_negotiate.ticket ∧
      (write_client_hello env tls).2.session_negotiate.ticket_len =
        tls.session_negotiate.ticket_len ∧
      t.ciphersuite_list = (write_client_hello_versions tls).ciphersuite_list ∧
      t.minor_ver = (write_client_hello_versions tls).minor_ver ∧
      t.max_minor_ver = (write_client_hello_versions tls).max_minor_ver ∧
      t.min_minor_ver = (write_client_hello_versions tls).min_minor_ver ∧
      (write_client_hello_with_ticket tls = true →
        t.session_negotiate.id =
          store tls.session_negotiate.id 0 (rdn (env.rng_bytes 32) 32) ∧
        (write_client_hello env tls).2.session_negotiate.id =
          store tls.session_negotiate.id 0 (rdn (env.rng_bytes 32) 32) ∧
        (write_client_hello env tls).2.session_negotiate.length = 32) := by
  obtain ⟨v1, v2, v3, v4, v5, _⟩ := write_client_hello_versions_frame tls
  have hs := fun out r => write_client_hello_sid_len_versions tls out r
  unfold write_client_hello
  simp only []
  rw [write_client_hello_with_ticket_versions, hs]
  generalize write_client_hello_versions tls = t1 at v1 v2 v3 v4 v5 ⊢
  generalize write_client_hello_head env t1 = head
  have w1 : t1.session_negotiate.ticket = tls.session_negotiate.ticket := by rw [v5]
  have w2 : t1.session_negotiate.ticket_len = tls.session_negotiate.ticket_len := by rw [v5]
  have w3 : store t1.session_negotiate.id 0 (rdn (env.rng_bytes 32) 32) =
      store tls.session_negotiate.id 0 (rdn (env.rng_bytes 32) 32) := by rw [v5]
  by_cases hw : write_client_hello_with_ticket tls = true
  · rw [if_neg (by rw [hrng hw]; simp)]
    simp only [hw, if_true]
    by_cases hwr : env.write_record ≠ Ret.ok
    · rw [if_pos hwr]
      exact ⟨{ t1 with
          out_msg := store t1.out_msg 4 head,
          handshake := { t1.handshake with
            randbytes := memcpy t1.handshake.randbytes 0 (head.drop 2) 32 },
          session_negotiate := { t1.session_negotiate with
            id := store t1.session_negotiate.id 0 (rdn (env.rng_bytes 32) 32),
            length := 32 } }, 32, rfl, rfl, v1, v1, v2, v3, v4, w1, w2, rfl, rfl, rfl, rfl,
        fun _ => ⟨w3, w3, rfl⟩⟩
    · rw [if_neg hwr]
      exact ⟨{ t1 with
          out_msg := store t1.out_msg 4 head,
          handshake := { t1.handshake with
            randbytes := memcpy t1.handshake.randbytes 0 (head.drop 2) 32 },
          session_negotiate := { t1.session_negotiate with
            id := store t1.session_negotiate.id 0 (rdn (env.rng_bytes 32) 32),
            length := 32 } }, 32, rfl, rfl, v1, v1, v2, v3, v4, w1, w2, rfl, rfl, rfl, rfl,
        fun _ => ⟨w3, w3, rfl⟩⟩
  · rw [if_neg (fun h => hw h.1)]
    simp only [hw, if_false]
    by_cases hwr : env.write_record ≠ Ret.ok
    · rw [if_pos hwr]
      exact ⟨{ t1 with
          out_msg := store t1.out_msg 4 head,
          handshake := { t1.handshake with
            randbytes := memcpy t1.handshake.randbytes 0 (head.drop 2) 32 } },
        _, rfl, rfl, v1, v1, v2, v3, v4, w1, w2, rfl, rfl, rfl, rfl,
        fun h => absurd h (by simp)⟩
    · rw [if_neg hwr]
      exact ⟨{ t1 with
          out_msg := store t1.out_msg 4 head,
          handshake := { t1.handshake with
            randbytes := memcpy t1.handshake.randbytes 0 (head.drop 2) 32 } },
        _, rfl, rfl, v1, v1, v2, v3, v4, w1, w2, rfl, rfl, rfl, rfl,
        fun h => absurd h (by simp)⟩

theorem rd_append_right (a b : Bytes) (i : Nat) : rd (a ++ b) (a.length + i) = rd b i := by
  unfold rd
  rw [List.getD_eq_getElem?_getD, List.getD_eq_getElem?_getD,
    List.getElem?_append_right (Nat.le_add_right _ _), Nat.add_sub_cancel_left]

theorem rd_cons_zero (x : Nat) (l : Bytes) : rd (x :: l) 0 = x % 256 := rfl

theorem write_client_hello_head_length (env : Env) (tls : ntbtls_t) :
    (write_client_hello_head env tls).length = 34 := by
  simp [write_client_hello_head, rdn]

theorem write_client_hello_rest_suites (env : Env) (t : ntbtls_t) (n : Nat) :
    ∃ (len : Bytes) (tail : Bytes),
      len.length = 2 ∧
      write_client_hello_rest env t n =
        ([u8 n] ++ rdn t.session_negotiate.id n ++ len) ++
          ciphersuite_bytes
            ((if t.renegotiation = SSL_INITIAL_HANDSHAKE then
                [SSL_EMPTY_RENEGOTIATION_INFO] else []) ++
              write_client_hello_ciphersuites env t (t.ciphersuite_list t.minor_ver)) ++
          tail := by
  unfold write_client_hello_rest
  simp only []
  exact ⟨[_, _], _ ++ _, rfl, by simp only [List.append_assoc]; rfl⟩

theorem write_client_hello_ciphersuites_known (env : Env) (tls : ntbtls_t) (l : List Nat)
    (c : Nat) (h : c ∈ write_client_hello_ciphersuites env tls l) :
    env.ssl_ciphersuite_from_id c ≠ none := by
  induction l with
  | nil => simp [write_client_hello_ciphersuites] at h
  | cons d rest ih =>
    rw [write_client_hello_ciphersuites] at h
    by_cases h0 : d = 0
    · rw [if_pos h0] at h
      simp at h
    rw [if_neg h0] at h
    cases hd : env.ssl_ciphersuite_from_id d with
    | none =>
      rw [hd] at h
      exact ih h
    | some ci =>
      rw [hd] at h
      simp only [] at h
      split_ifs at h
      · exact ih h
      · rcases List.mem_cons.mp h with h1 | h1
        · rw [h1, hd]
          simp
        · exact ih h1

theorem write_client_hello_sid_byte (env : Env) (tls : ntbtls_t)
    (hrng : write_client_hello_with_ticket tls = true → env.f_rng = Ret.ok) :
    rd (write_client_hello env tls).2.out_msg 38 =
      if write_client_hello_with_ticket tls = true then 32
      else write_client_hello_sid_len tls := by
  obtain ⟨t, n, h1, h2, _⟩ := write_client_hello_message env tls hrng
  have hn : n ≤ 32 := by
    rw [h2]
    split_ifs
    · omega
    · exact write_client_hello_sid_len_le tls
  obtain ⟨len, tail, hl, hr⟩ := write_client_hello_rest_suites env t n
  have hh := write_client_hello_head_length env (write_client_hello_versions tls)
  subst h2
  rw [h1, rd_store, if_neg (by omega), if_neg (by simp), rd_store, if_neg (by omega),
    if_pos (by
      rw [List.length_append, hh, hr]
      simp only [List.length_append, List.length_cons, List.length_nil]
      omega)]
  have e : 38 - 4 = (write_client_hello_head env (write_client_hello_versions tls)).length
      + 0 := by rw [hh]
  rw [e, rd_append_right, hr]
  simp only [List.append_assoc, List.singleton_append, List.cons_append]
  rw [rd_cons_zero]
  unfold u8
  omega

theorem write_client_hello_ciphersuites_congr (env : Env) (a b : ntbtls_t) (l : List Nat)
    (h1 : a.max_minor_ver = b.max_minor_ver) (h2 : a.min_minor_ver = b.min_minor_ver) :
    write_client_hello_ciphersuites env a l = write_client_hello_ciphersuites env b l := by
  induction l with
  | nil => rfl
  | cons c rest ih =>
    rw [write_client_hello_ciphersuites, write_client_hello_ciphersuites, ih, h1, h2]

theorem write_client_hello_suites_layout (env : Env) (tls : ntbtls_t)
    (hrng : write_client_hello_with_ticket tls = true → env.f_rng = Ret.ok) :
    ∃ pre post,
      (write_client_hello env tls).2.out_msg =
        pre ++ ciphersuite_bytes (client_hello_suite_ids env tls) ++ post ∧
      pre.length = 41 + rd (write_client_hello env tls).2.out_msg 38 := by
  rw [write_client_hello_sid_byte env tls hrng]
  obtain ⟨t, n, h1, h2, h3, _, _, _, _, _, _, c1, c2, c3, c4, _⟩ :=
    write_client_hello_message env tls hrng
  obtain ⟨len, tail, hl, hr⟩ := write_client_hello_rest_suites env t n
  have hids : (if t.renegotiation = SSL_INITIAL_HANDSHAKE then
        [SSL_EMPTY_RENEGOTIATION_INFO] else []) ++
      write_client_hello_ciphersuites env t (t.ciphersuite_list t.minor_ver) =
      client_hello_suite_ids env tls := by
    unfold client_hello_suite_ids
    rw [h3, c1, c2, write_client_hello_ciphersuites_congr env t
      (write_client_hello_versions tls) _ c3 c4]
  rw [hids] at hr
  have hh := write_client_hello_head_length env (write_client_hello_versions tls)
  have hA : ([u8 n] ++ rdn t.session_negotiate.id n ++ len).length = 3 + n := by
    simp only [List.length_append, List.length_cons, List.length_nil, rdn_length, hl]
    omega
  rw [h1, hr, ← h2]
  generalize [u8 n] ++ rdn t.session_negotiate.id n ++ len = A at hA ⊢
  generalize write_client_hello_head env (write_client_hello_versions tls) = head at hh ⊢
  generalize ciphersuite_bytes (client_hello_suite_ids env tls) = cb
  have e : head ++ (A ++ cb ++ tail) = (head ++ A) ++ (cb ++ tail) := by
    simp only [List.append_assoc]
  rw [e]
  obtain ⟨pre, post, p1, p2⟩ := store_four_layout t.out_msg (head ++ A) (cb ++ tail)
    TLS_HS_CLIENT_HELLO
  refine ⟨pre, tail ++ post, ?_, ?_⟩
  · rw [p1]
    simp only [List.append_assoc]
  · rw [p2, List.length_append, hh, hA]
    omega

theorem write_cli_renegotiation_ext_result (env : Env) (tls : ntbtls_t)
    (hrng : write_client_hello_with_ticket tls = true → env.f_rng = Ret.ok) :
    write_cli_renegotiation_ext (write_client_hello env tls).2 =
      write_cli_renegotiation_ext tls := by
  obtain ⟨t, n, _, _, _, h4, h5, h6, _⟩ := write_client_hello_message env tls hrng
  unfold write_cli_renegotiation_ext
  rw [h4, h5, h6]

theorem client_hello_suite_ids_scsv (env : Env) (tls : ntbtls_t)
    (htab : env.ssl_ciphersuite_from_id SSL_EMPTY_RENEGOTIATION_INFO = none) :
    ((client_hello_suite_ids env tls).head? = some SSL_EMPTY_RENEGOTIATION_INFO ↔
      tls.renegotiation = SSL_INITIAL_HANDSHAKE) ∧
    (SSL_EMPTY_RENEGOTIATION_INFO ∈ client_hello_suite_ids env tls ↔
      tls.renegotiation = SSL_INITIAL_HANDSHAKE) := by
  unfold client_hello_suite_ids
  have hk := fun h => write_client_hello_ciphersuites_known env
    (write_client_hello_versions tls)
    ((write_client_hello_versions tls).ciphersuite_list
      (write_client_hello_versions tls).minor_ver) SSL_EMPTY_RENEGOTIATION_INFO h htab
  generalize write_client_hello_ciphersuites env (write_client_hello_versions tls)
    ((write_client_hello_versions tls).ciphersuite_list
      (write_client_hello_versions tls).minor_ver) = l at hk
  by_cases hi : tls.renegotiation = SSL_INITIAL_HANDSHAKE
  · rw [if_pos hi]
    exact ⟨⟨fun _ => hi, fun _ => rfl⟩, ⟨fun _ => hi, fun _ => List.mem_cons_self _ _⟩⟩
  · rw [if_neg hi, List.nil_append]
    refine ⟨⟨fun h => ?_, fun h => absurd h hi⟩, ⟨fun h => absurd h hk, fun h => absurd h hi⟩⟩
    cases l with
    | nil => simp at h
    | cons x xs =>
      simp only [List.head?_cons, Option.some.injEq] at h
      exact absurd (by rw [h]; exact List.mem_cons_self _ _) hk

/-- C27: let the random source not fail when a ticket is presented, let
`renegotiation` be `SSL_INITIAL_HANDSHAKE` or `TLS_RENEGOTIATION`, and let
the ciphersuite table know no suite with the id 0x00FF.  In the ClientHello
that `write_client_hello` writes, the ciphersuite ids stand at offset
41 + session id length; the list starts with
`SSL_EMPTY_RENEGOTIATION_INFO` (0x00FF), and contains it at all, if and only
if this is the initial handshake; the renegotiation_info extension is
written if and only if this is a renegotiation, and then it carries
`own_verify_data`; so that exactly one of the two signals is present. -/
theorem write_client_hello_renegotiation_signal (env : Env) (tls : ntbtls_t)
    (hrng : write_client_hello_with_ticket tls = true → env.f_rng = Ret.ok)
    (hren : tls.renegotiation = SSL_INITIAL_HANDSHAKE ∨
      tls.renegotiation = TLS_RENEGOTIATION)
    (htab : env.ssl_ciphersuite_from_id SSL_EMPTY_RENEGOTIATION_INFO = none) :
    (∃ pre post,
      (write_client_hello env tls).2.out_msg =
        pre ++ ciphersuite_bytes (client_hello_suite_ids env tls) ++ post ∧
      pre.length = 41 + rd (write_client_hello env tls).2.out_msg 38) ∧
    ((client_hello_suite_ids env tls).head? = some SSL_EMPTY_RENEGOTIATION_INFO ↔
      tls.renegotiation = SSL_INITIAL_HANDSHAKE) ∧
    (SSL_EMPTY_RENEGOTIATION_INFO ∈ client_hello_suite_ids env tls ↔
      tls.renegotiation = SSL_INITIAL_HANDSHAKE) ∧
    (tls.renegotiation = SSL_INITIAL_HANDSHAKE →
      rd (write_client_hello env tls).2.out_msg
        (41 + rd (write_client_hello env tls).2.out_msg 38) = 0x00 ∧
      rd (write_client_hello env tls).2.out_msg
        (41 + rd (write_client_hello env tls).2.out_msg 38 + 1) = 0xFF) ∧
    (∃ a b, (write_client_hello env tls).2.out_msg =
      a ++ write_cli_renegotiation_ext (write_client_hello env tls).2 ++ b) ∧
    (write_cli_renegotiation_ext (write_client_hello env tls).2 ≠ [] ↔
      tls.renegotiation = TLS_RENEGOTIATION) ∧
    (tls.renegotiation = TLS_RENEGOTIATION →
      write_cli_renegotiation_ext (write_client_hello env tls).2 =
        be16_bytes TLS_EXT_RENEGOTIATION_INFO
          ++ [0x00, u8 ((tls.verify_data_len + 1) &&& 0xFF),
              u8 (tls.verify_data_len &&& 0xFF)]
          ++ rdn tls.own_verify_data tls.verify_data_len) ∧
    ((SSL_EMPTY_RENEGOTIATION_INFO ∈ client_hello_suite_ids env tls ∧
        write_cli_renegotiation_ext (write_client_hello env tls).2 = []) ∨
      (SSL_EMPTY_RENEGOTIATION_INFO ∉ client_hello_suite_ids env tls ∧
        write_cli_renegotiation_ext (write_client_hello env tls).2 ≠ [])) := by
  have hlay := write_client_hello_suites_layout env tls hrng
  have hids := client_hello_suite_ids_scsv env tls htab
  have hext := write_cli_renegotiation_ext_result env tls hrng
  have hne : tls.renegotiation = TLS_RENEGOTIATION →
      write_cli_renegotiation_ext tls =
        be16_bytes TLS_EXT_RENEGOTIATION_INFO
          ++ [0x00, u8 ((tls.verify_data_len + 1) &&& 0xFF),
              u8 (tls.verify_data_len &&& 0xFF)]
          ++ rdn tls.own_verify_data tls.verify_data_len := by
    intro h
    unfold write_cli_renegotiation_ext
    rw [if_neg (not_not.mpr h)]
  have hnil : tls.renegotiation ≠ TLS_RENEGOTIATION → write_cli_renegotiation_ext tls = [] := by
    intro h
    unfold write_cli_renegotiation_ext
    rw [if_pos h]
  have hno : tls.renegotiation = TLS_RENEGOTIATION → write_cli_renegotiation_ext tls ≠ [] := by
    intro h
    rw [hne h]
    simp [be16_bytes]
  have hx : tls.renegotiation = SSL_INITIAL_HANDSHAKE →
      tls.renegotiation ≠ TLS_RENEGOTIATION := by
    intro h
    rw [h]
    decide
  refine ⟨hlay, hids.1, hids.2, ?_, ?_, ?_, ?_, ?_⟩
  · intro hi
    obtain ⟨pre, post, h1, h2⟩ := hlay
    have hcb : ∃ rest, ciphersuite_bytes (client_hello_suite_ids env tls) =
        0x00 :: 0xFF :: rest := by
      unfold client_hello_suite_ids
      rw [if_pos hi]
      exact ⟨_, rfl⟩
    obtain ⟨rest, hcb⟩ := hcb
    rw [← h2]
    generalize (write_client_hello env tls).2.out_msg = out at h1 ⊢
    rw [h1, hcb]
    constructor
    · rw [List.append_assoc]
      exact rd_append_right pre _ 0
    · rw [List.append_assoc]
      exact rd_append_right pre _ 1
  · obtain ⟨pre, post, h1, _⟩ := write_client_hello_layout env tls hrng
    refine ⟨pre ++ write_hostname_ext (write_client_hello env tls).2,
      write_signature_algorithms_ext (write_client_hello env tls).2
        ++ write_supported_elliptic_curves_ext env (write_client_hello env tls).2
        ++ write_cli_supported_point_formats_ext (write_client_hello env tls).2
        ++ write_cli_max_fragment_length_ext (write_client_hello env tls).2
        ++ write_cli_truncated_hmac_ext (write_client_hello env tls).2
        ++ write_cli_session_ticket_ext (write_client_hello env tls).2
        ++ write_cli_alpn_ext (write_client_hello env tls).2 ++ post, ?_⟩
    rw [h1]
    unfold write_client_hello_extensions
    simp only [List.append_assoc]
  · rw [hext]
    constructor
    · intro h
      by_contra hc
      exact h (hnil hc)
    · exact hno
  · rw [hext]
    exact hne
  · rw [hext]
    rcases hren with hi | hr
    · exact Or.inl ⟨hids.2.mpr hi, hnil (hx hi)⟩
    · refine Or.inr ⟨fun h => ?_, hno hr⟩
      have := hx (hids.2.mp h)
      exact this hr

/-- Witness for C27: a renegotiating client with the verify data `01 02`
writes no SCSV and the extension `FF 01 00 03 02 01 02`. -/
theorem write_client_hello_renegotiation_signal_witness :
    SSL_EMPTY_RENEGOTIATION_INFO ∉ client_hello_suite_ids {} ssl_renegotiating ∧
    write_cli_renegotiation_ext (write_client_hello {} ssl_renegotiating).2 =
      [0xFF, 0x01, 0x00, 0x03, 0x02, 0x01, 0x02] := by
  have h := write_client_hello_renegotiation_signal {} ssl_renegotiating (fun _ => rfl)
    (Or.inr rfl) rfl
  refine ⟨fun hc => absurd (h.2.2.1.mp hc) (by decide), ?_⟩
  rw [h.2.2.2.2.2.2.1 rfl]
  decide

/-! ## ClientHello: the session id sent with a ticket -/

theorem rd_append_left (a b : Bytes) (i : Nat) (h : i < a.length) :
    rd (a ++ b) i = rd a i := by
  unfold rd
  rw [List.getD_eq_getElem?_getD, List.getD_eq_getElem?_getD, List.getElem?_append_left h]

theorem write_client_hello_ticket_sid (env : Env) (tls : ntbtls_t)
    (hw : write_client_hello_with_ticket tls = true) (hrng : env.f_rng = Ret.ok) :
    rd (write_client_hello env tls).2.out_msg 38 = 32 ∧
    (∀ i, i < 32 →
      rd (write_client_hello env tls).2.out_msg (39 + i) = rd (env.rng_bytes 32) i) ∧
    (write_client_hello env tls).2.session_negotiate.length = 32 ∧
    (∀ i, i < 32 →
      rd (write_client_hello env tls).2.session_negotiate.id i =
        rd (env.rng_bytes 32) i) := by
  have hb := write_client_hello_sid_byte env tls (fun _ => hrng)
  rw [if_pos hw] at hb
  obtain ⟨t, n, h1, h2, _, _, _, _, _, _, _, _, _, _, _, hid⟩ :=
    write_client_hello_message env tls (fun _ => hrng)
  obtain ⟨q1, q2, q3⟩ := hid hw
  rw [if_pos hw] at h2
  subst h2
  have hrd : ∀ i, i < 32 →
      rd (store tls.session_negotiate.id 0 (rdn (env.rng_bytes 32) 32)) i =
        rd (env.rng_bytes 32) i := by
    intro i hi
    rw [rd_store, if_neg (by omega), if_pos (by rw [rdn_length]; omega), Nat.sub_zero,
      rd_rdn _ _ _ hi]
  refine ⟨hb, ?_, q3, ?_⟩
  · intro i hi
    obtain ⟨len, tail, hl, hr⟩ := write_client_hello_rest_suites env t 32
    have hh := write_client_hello_head_length env (write_client_hello_versions tls)
    rw [h1, rd_store, if_neg (by omega), if_neg (by simp), rd_store, if_neg (by omega),
      if_pos (by
        rw [List.length_append, hh, hr]
        simp only [List.length_append, List.length_cons, List.length_nil, rdn_length]
        omega)]
    have e : 39 + i - 4 =
        (write_client_hello_head env (write_client_hello_versions tls)).length + (1 + i) := by
      rw [hh]
      omega
    rw [e, rd_append_right, hr]
    simp only [List.append_assoc]
    have e1 := rd_append_right [u8 32] (rdn t.session_negotiate.id 32 ++ (len ++
      (ciphersuite_bytes
        ((if t.renegotiation = SSL_INITIAL_HANDSHAKE then
            [SSL_EMPTY_RENEGOTIATION_INFO] else []) ++
          write_client_hello_ciphersuites env t (t.ciphersuite_list t.minor_ver)) ++
        tail))) i
    rw [show [u8 32].length + i = 1 + i from rfl] at e1
    rw [e1, rd_append_left _ _ _ (by rw [rdn_length]; exact hi), rd_rdn _ _ _ hi, q1]
    exact hrd i hi
  · intro i hi
    rw [q2]
    exact hrd i hi

theorem write_cli_session_ticket_ext_result (env : Env) (tls : ntbtls_t)
    (hrng : write_client_hello_with_ticket tls = true → env.f_rng = Ret.ok) :
    write_cli_session_ticket_ext (write_client_hello env tls).2 =
      write_cli_session_ticket_ext tls := by
  obtain ⟨t, n, _, _, _, _, _, _, h7, h8, h9, _⟩ := write_client_hello_message env tls hrng
  unfold write_cli_session_ticket_ext
  simp only []
  rw [h7, h8, h9]

theorem write_client_hello_with_ticket_iff (tls : ntbtls_t) :
    write_client_hello_with_ticket tls = true ↔
      tls.renegotiation = SSL_INITIAL_HANDSHAKE ∧ tls.session_negotiate.ticket ≠ none ∧
        tls.session_negotiate.ticket_len ≠ 0 := by
  simp [write_client_hello_with_ticket]

theorem write_client_hello_ticket_ext_place (env : Env) (tls : ntbtls_t)
    (hrng : write_client_hello_with_ticket tls = true → env.f_rng = Ret.ok) :
    ∃ a b, (write_client_hello env tls).2.out_msg =
      a ++ write_cli_session_ticket_ext (write_client_hello env tls).2 ++ b := by
  obtain ⟨pre, post, h1, _⟩ := write_client_hello_layout env tls hrng
  refine ⟨pre ++ write_hostname_ext (write_client_hello env tls).2
      ++ write_cli_renegotiation_ext (write_client_hello env tls).2
      ++ write_signature_algorithms_ext (write_client_hello env tls).2
      ++ write_supported_elliptic_curves_ext env (write_client_hello env tls).2
      ++ write_cli_supported_point_formats_ext (write_client_hello env tls).2
      ++ write_cli_max_fragment_length_ext (write_client_hello env tls).2
      ++ write_cli_truncated_hmac_ext (write_client_hello env tls).2,
    write_cli_alpn_ext (write_client_hello env tls).2 ++ post, ?_⟩
  rw [h1]
  unfold write_client_hello_extensions
  simp only [List.append_assoc]

/-- C28, counterexample: a client on its initial handshake that offers
session tickets and has the ticket `01 02` in store writes a ClientHello
that carries the ticket in the session_ticket extension and whose session
id length byte is 32, not 0. -/
theorem write_client_hello_ticket_session_id_counterexample :
    ssl_offers_ticket.renegotiation = SSL_INITIAL_HANDSHAKE ∧
    ssl_offers_ticket.session_negotiate.ticket = some [1, 2] ∧
    write_cli_session_ticket_ext (write_client_hello {} ssl_offers_ticket).2 =
      [0, 35, 0, 2, 1, 2] ∧
    rd (write_client_hello {} ssl_offers_ticket).2.out_msg 38 = 32 ∧
    ¬ rd (write_client_hello {} ssl_offers_ticket).2.out_msg 38 = 0 := by
  have h := (write_client_hello_ticket_sid {} ssl_offers_ticket (by decide) rfl).1
  refine ⟨rfl, rfl, ?_, h, ?_⟩
  · rw [write_cli_session_ticket_ext_result {} ssl_offers_ticket (fun _ => rfl)]
    decide
  · rw [h]
    decide

/-- C28, amended: when the client presents a non-empty session ticket on an
initial handshake (session tickets enabled, the random source does not
fail), the ClientHello written by `write_client_hello` carries the ticket in
the session_ticket extension and a session id of 32 bytes drawn from the
random source: the session id length byte is 32, the 32 bytes after it are
the random bytes, and they are recorded as `session_negotiate->id` with
`session_negotiate->length = 32`. -/
theorem write_client_hello_ticket_session_id (env : Env) (tls : ntbtls_t)
    (ticket : Bytes)
    (hi : tls.renegotiation = SSL_INITIAL_HANDSHAKE)
    (ht : tls.session_negotiate.ticket = some ticket)
    (hl : tls.session_negotiate.ticket_len ≠ 0)
    (hen : tls.session_tickets ≠ SSL_SESSION_TICKETS_DISABLED)
    (hrng : env.f_rng = Ret.ok) :
    write_cli_session_ticket_ext (write_client_hello env tls).2 =
      be16_bytes TLS_EXT_SESSION_TICKET ++ be16_bytes tls.session_negotiate.ticket_len
        ++ rdn ticket tls.session_negotiate.ticket_len ∧
    (∃ a b, (write_client_hello env tls).2.out_msg =
      a ++ write_cli_session_ticket_ext (write_client_hello env tls).2 ++ b) ∧
    rd (write_client_hello env tls).2.out_msg 38 = 32 ∧
    (∀ i, i < 32 →
      rd (write_client_hello env tls).2.out_msg (39 + i) = rd (env.rng_bytes 32) i) ∧
    (write_client_hello env tls).2.session_negotiate.length = 32 ∧
    (∀ i, i < 32 →
      rd (write_client_hello env tls).2.session_negotiate.id i =
        rd (env.rng_bytes 32) i) := by
  have hw : write_client_hello_with_ticket tls = true :=
    (write_client_hello_with_ticket_iff tls).mpr ⟨hi, by rw [ht]; simp, hl⟩
  refine ⟨?_, write_client_hello_ticket_ext_place env tls (fun _ => hrng),
    write_client_hello_ticket_sid env tls hw hrng⟩
  rw [write_cli_session_ticket_ext_result env tls (fun _ => hrng)]
  unfold write_cli_session_ticket_ext
  simp only []
  rw [if_neg hen, ht]
  simp only []
  rw [if_neg hl]

/-- Witness for C28: the client `ssl_offers_ticket` sends the ticket `01 02`
and a session id whose length byte is 32. -/
theorem write_client_hello_ticket_session_id_witness :
    write_cli_session_ticket_ext (write_client_hello {} ssl_offers_ticket).2 =
      be16_bytes TLS_EXT_SESSION_TICKET ++ be16_bytes 2 ++ rdn [1, 2] 2 ∧
    (write_client_hello {} ssl_offers_ticket).2.session_negotiate.length = 32 :=
  ⟨(write_client_hello_ticket_session_id {} ssl_offers_ticket [1, 2] rfl rfl (by decide)
      (by decide) rfl).1,
   (write_client_hello_ticket_session_id {} ssl_offers_ticket [1, 2] rfl rfl (by decide)
      (by decide) rfl).2.2.2.2.1⟩

/-! ## ServerHello: the resumption decision -/

theorem session_frame_refl (a : ntbtls_t) : session_frame a a :=
  ⟨rfl, rfl, rfl, rfl, rfl⟩

theorem session_frame_trans {a b c : ntbtls_t} (h1 : session_frame a b)
    (h2 : session_frame b c) : session_frame a c :=
  ⟨h1.1.trans h2.1, h1.2.1.trans h2.2.1, h1.2.2.1.trans h2.2.2.1,
    h1.2.2.2.1.trans h2.2.2.2.1, h1.2.2.2.2.trans h2.2.2.2.2⟩

theorem point_formats_loop_session (ssl : ntbtls_t) (k : Nat) (p : Bytes) :
    session_frame ssl (ssl_parse_supported_point_formats_loop ssl k p).2 := by
  induction k generalizing p with
  | zero => simp [ssl_parse_supported_point_formats_loop, session_frame]
  | succ k ih =>
    rw [ssl_parse_supported_point_formats_loop]
    split
    · simp [session_frame]
    · exact ih _

theorem alpn_loop_session (ssl : ntbtls_t) (buf : Bytes) (k : Nat) (l : List Bytes) :
    session_frame ssl (ssl_parse_alpn_loop ssl buf k l).2 := by
  induction l with
  | nil => simp [ssl_parse_alpn_loop, session_frame]
  | cons p rest ih =>
    rw [ssl_parse_alpn_loop]
    split
    · simp [session_frame]
    · exact ih

theorem ext_switch_session (env : Env) (ssl : ntbtls_t) (id : Nat) (buf : Bytes)
    (size seen : Nat) :
    session_frame ssl (parse_server_hello_ext_switch env ssl id buf size seen).2.1 := by
  unfold parse_server_hello_ext_switch
  split_ifs
  · simp only [ssl_parse_renegotiation_info]; split_ifs <;> simp [session_frame]
  · simp only [ssl_parse_max_fragment_length_ext]; split_ifs <;> simp [session_frame]
  · simp only [ssl_parse_truncated_hmac_ext]; split_ifs <;> simp [session_frame]
  · simp only [ssl_parse_session_ticket_ext]; split_ifs <;> simp [session_frame]
  · simp only [ssl_parse_supported_point_formats_ext]
    split_ifs
    · simp [session_frame]
    · exact point_formats_loop_session _ _ _
  · simp only [ssl_parse_alpn_ext]
    split
    · simp [session_frame]
    · split_ifs
      · simp [session_frame]
      · simp [session_frame]
      · simp [session_frame]
      · exact alpn_loop_session _ _ _ _
  · simp [session_frame]

theorem ext_loop_session (env : Env) (ssl : ntbtls_t) (ext : Bytes) (ext_len seen : Nat) :
    session_frame ssl (parse_server_hello_ext_loop env ssl ext ext_len seen).2.1 := by
  induction ext_len using Nat.strong_induction_on generalizing ssl ext seen with
  | _ ext_len ih =>
    rw [ext_loop_unfold]
    split_ifs
    · exact session_frame_refl _
    · exact session_frame_refl _
    · exact ext_switch_session _ _ _ _ _ _
    · exact ext_switch_session _ _ _ _ _ _
    · exact session_frame_trans (ext_switch_session env ssl _ _ _ seen)
        (ih _ (by omega) _ _ _)

theorem tail_session (env : Env) (s : ntbtls_t) :
    (parse_server_hello_tail env s).2.handshake.resume = s.handshake.resume ∧
    (parse_server_hello_tail env s).2.session_negotiate.ciphersuite =
      s.session_negotiate.ciphersuite ∧
    ((parse_server_hello_tail env s).2.session_negotiate.compression =
        s.session_negotiate.compression ∨
      (parse_server_hello_tail env s).2.session_negotiate.compression =
        server_hello_comp s.in_msg) ∧
    (parse_server_hello_tail env s).2.session_negotiate.length =
      s.session_negotiate.length ∧
    (parse_server_hello_tail env s).2.session_negotiate.id = s.session_negotiate.id := by
  have hl := ext_loop_session env { s with session_negotiate :=
      { s.session_negotiate with compression := server_hello_comp s.in_msg } }
    (s.in_msg.drop (44 + server_hello_n s.in_msg))
    (server_hello_ext_len s.in_msg s.in_hslen) 0
  unfold parse_server_hello_tail
  simp only []
  generalize parse_server_hello_ext_loop env { s with session_negotiate :=
      { s.session_negotiate with compression := server_hello_comp s.in_msg } }
    (s.in_msg.drop (44 + server_hello_n s.in_msg))
    (server_hello_ext_len s.in_msg s.in_hslen) 0 = r at hl ⊢
  obtain ⟨l1, l2, l3, l4, l5⟩ := hl
  split_ifs
  · exact ⟨rfl, rfl, Or.inl rfl, rfl, rfl⟩
  · exact ⟨rfl, rfl, Or.inl rfl, rfl, rfl⟩
  · exact ⟨l1.symm, l2.symm, Or.inr l3.symm, l4.symm, l5.symm⟩
  · exact ⟨l1.symm, l2.symm, Or.inr l3.symm, l4.symm, l5.symm⟩
  · exact ⟨l1.symm, l2.symm, Or.inr l3.symm, l4.symm, l5.symm⟩
  · exact ⟨l1.symm, l2.symm, Or.inr l3.symm, l4.symm, l5.symm⟩

theorem session_matches_iff (env : Env) (ssl : ntbtls_t) :
    session_matches env ssl ↔ ¬ no_resume (ctx_after_fields env ssl) := by
  unfold session_matches no_resume
  show _ ↔ ¬ (ssl.renegotiation ≠ SSL_INITIAL_HANDSHAKE ∨
    ssl.handshake.resume = 0 ∨ server_hello_n env.in_msg = 0 ∨
    ssl.session_negotiate.ciphersuite ≠ server_hello_i env.in_msg ∨
    ssl.session_negotiate.compression ≠ server_hello_comp env.in_msg ∨
    ssl.session_negotiate.length ≠ server_hello_n env.in_msg ∨
    memeq ssl.session_negotiate.id (env.in_msg.drop 39) (server_hello_n env.in_msg) = false)
  have hm : memeq ssl.session_negotiate.id (env.in_msg.drop 39)
      (server_hello_n env.in_msg) = true ↔
      ∀ j, j < server_hello_n env.in_msg →
        rd env.in_msg (39 + j) = rd ssl.session_negotiate.id j := by
    rw [memeq_iff]
    constructor
    · intro h j hj
      rw [h j hj, rd_drop]
    · intro h j hj
      rw [rd_drop, h j hj]
  rw [← hm]
  simp only [not_or, ne_eq, not_not, Bool.not_eq_false]
  constructor
  · rintro ⟨a, b, c, d, e, f, g⟩
    exact ⟨a, b, c, d.symm, e.symm, f.symm, g⟩
  · rintro ⟨a, b, c, d, e, f, g⟩
    exact ⟨a, b, c, d.symm, e.symm, f.symm, g⟩

theorem parse_server_hello_resumed (env : Env) (ssl : ntbtls_t)
    (h : version_accepted env ssl) (hn : server_hello_n env.in_msg ≤ 32)
    (hlen : ¬ bad_length env.in_msg env.in_hslen)
    (hk : env.ssl_ciphersuite_from_id (server_hello_i env.in_msg) ≠ none)
    (hm : session_matches env ssl) :
    (parse_server_hello env ssl).2.state = TLS_SERVER_CHANGE_CIPHER_SPEC ∧
    (parse_server_hello env ssl).2.handshake.resume = ssl.handshake.resume ∧
    (parse_server_hello env ssl).2.session_negotiate.ciphersuite =
      ssl.session_negotiate.ciphersuite ∧
    (parse_server_hello env ssl).2.session_negotiate.length =
      ssl.session_negotiate.length ∧
    (parse_server_hello env ssl).2.session_negotiate.id = ssl.session_negotiate.id ∧
    (env.derive_keys ≠ Ret.ok → (parse_server_hello env ssl).1 = env.derive_keys) := by
  rw [parse_server_hello_after_fields env ssl h hn hlen hk,
    resume_yes env _ ((session_matches_iff env ssl).mp hm)]
  simp only []
  by_cases hd : env.derive_keys ≠ Ret.ok
  · rw [if_pos hd]
    exact ⟨rfl, rfl, rfl, rfl, rfl, fun _ => rfl⟩
  · rw [if_neg hd]
    have ts := tail_state env { ctx_after_fields env ssl with
      state := TLS_SERVER_CHANGE_CIPHER_SPEC }
    have tf := tail_session env { ctx_after_fields env ssl with
      state := TLS_SERVER_CHANGE_CIPHER_SPEC }
    exact ⟨ts, tf.1, tf.2.1, tf.2.2.2.1, tf.2.2.2.2, fun hd2 => absurd hd2 hd⟩

theorem parse_server_hello_not_resumed (env : Env) (ssl : ntbtls_t)
    (h : version_accepted env ssl) (hn : server_hello_n env.in_msg ≤ 32)
    (hlen : ¬ bad_length env.in_msg env.in_hslen)
    (hk : env.ssl_ciphersuite_from_id (server_hello_i env.in_msg) ≠ none)
    (hm : ¬ session_matches env ssl) :
    (parse_server_hello env ssl).2.state = ssl.state + 1 ∧
    (parse_server_hello env ssl).2.handshake.resume = 0 ∧
    (parse_server_hello env ssl).2.session_negotiate.ciphersuite =
      server_hello_i env.in_msg ∧
    (parse_server_hello env ssl).2.session_negotiate.compression =
      server_hello_comp env.in_msg ∧
    (parse_server_hello env ssl).2.session_negotiate.length =
      server_hello_n env.in_msg ∧
    (∀ j, j < server_hello_n env.in_msg →
      rd (parse_server_hello env ssl).2.session_negotiate.id j =
        rd env.in_msg (39 + j)) := by
  have hnr : no_resume (ctx_after_fields env ssl) := by
    by_contra hc
    exact hm ((session_matches_iff env ssl).mpr hc)
  have hr := resume_no env _ hnr
  have hid : ∀ j, j < server_hello_n env.in_msg →
      rd (memcpy ssl.session_negotiate.id 0 (env.in_msg.drop 39)
        (server_hello_n env.in_msg)) j = rd env.in_msg (39 + j) := by
    intro j hj
    unfold memcpy
    rw [rd_store, if_neg (by omega), if_pos (by rw [rdn_length]; omega), Nat.sub_zero,
      rd_rdn _ _ _ hj, rd_drop]
  rw [parse_server_hello_after_fields env ssl h hn hlen hk]
  generalize parse_server_hello_resume env (ctx_after_fields env ssl) = r at hr ⊢
  subst hr
  simp only []
  rw [if_neg (by simp)]
  have ts := tail_state env { ctx_after_fields env ssl with
    state := (ctx_after_fields env ssl).state + 1,
    handshake := { (ctx_after_fields env ssl).handshake with resume := 0 },
    session_negotiate := { (ctx_after_fields env ssl).session_negotiate with
      start := env.time,
      ciphersuite := server_hello_i (ctx_after_fields env ssl).in_msg,
      compression := server_hello_comp (ctx_after_fields env ssl).in_msg,
      length := server_hello_n (ctx_after_fields env ssl).in_msg,
      id := memcpy (ctx_after_fields env ssl).session_negotiate.id 0
        ((ctx_after_fields env ssl).in_msg.drop 39)
        (server_hello_n (ctx_after_fields env ssl).in_msg) } }
  have tf := tail_session env { ctx_after_fields env ssl with
    state := (ctx_after_fields env ssl).state + 1,
    handshake := { (ctx_after_fields env ssl).handshake with resume := 0 },
    session_negotiate := { (ctx_after_fields env ssl).session_negotiate with
      start := env.time,
      ciphersuite := server_hello_i (ctx_after_fields env ssl).in_msg,
      compression := server_hello_comp (ctx_after_fields env ssl).in_msg,
      length := server_hello_n (ctx_after_fields env ssl).in_msg,
      id := memcpy (ctx_after_fields env ssl).session_negotiate.id 0
        ((ctx_after_fields env ssl).in_msg.drop 39)
        (server_hello_n (ctx_after_fields env ssl).in_msg) } }
  refine ⟨ts, tf.1, tf.2.1, ?_, tf.2.2.2.1, ?_⟩
  · rcases tf.2.2.1 with hc | hc
    · exact hc
    · exact hc
  · intro j hj
    rw [tf.2.2.2.2]
    exact hid j hj

/-- C29: for a ServerHello that passes the checks before the resumption
decision (record, type, version, session id length, length fields, known
ciphersuite), `parse_server_hello` takes the resumption path exactly when the
cached session matches: initial handshake, `resume` set, a session id that is
not empty, and ciphersuite, compression, session id length and session id
bytes equal to the cached ones.  On that path the state becomes
`TLS_SERVER_CHANGE_CIPHER_SPEC`, the keys are derived (a failure of
`derive_keys` is the return code), and `resume` and the cached session stay
as they are.  In every other case the state advances by one, `resume` is
cleared and the ciphersuite, the compression method, the session id length
and the session id of the message are recorded in `session_negotiate`. -/
theorem parse_server_hello_resumption (env : Env) (ssl : ntbtls_t)
    (h : version_accepted env ssl) (hn : server_hello_n env.in_msg ≤ 32)
    (hlen : ¬ bad_length env.in_msg env.in_hslen)
    (hk : env.ssl_ciphersuite_from_id (server_hello_i env.in_msg) ≠ none) :
    (session_matches env ssl →
      (parse_server_hello env ssl).2.state = TLS_SERVER_CHANGE_CIPHER_SPEC ∧
      (parse_server_hello env ssl).2.handshake.resume = ssl.handshake.resume ∧
      (parse_server_hello env ssl).2.session_negotiate.ciphersuite =
        ssl.session_negotiate.ciphersuite ∧
      (parse_server_hello env ssl).2.session_negotiate.length =
        ssl.session_negotiate.length ∧
      (parse_server_hello env ssl).2.session_negotiate.id = ssl.session_negotiate.id ∧
      (env.derive_keys ≠ Ret.ok → (parse_server_hello env ssl).1 = env.derive_keys)) ∧
    (¬ session_matches env ssl →
      (parse_server_hello env ssl).2.state = ssl.state + 1 ∧
      (parse_server_hello env ssl).2.handshake.resume = 0 ∧
      (parse_server_hello env ssl).2.session_negotiate.ciphersuite =
        server_hello_i env.in_msg ∧
      (parse_server_hello env ssl).2.session_negotiate.compression =
        server_hello_comp env.in_msg ∧
      (parse_server_hello env ssl).2.session_negotiate.length =
        server_hello_n env.in_msg ∧
      (∀ j, j < server_hello_n env.in_msg →
        rd (parse_server_hello env ssl).2.session_negotiate.id j =
          rd env.in_msg (39 + j))) ∧
    (ssl.state = TLS_SERVER_HELLO →
      ((parse_server_hello env ssl).2.state = TLS_SERVER_CHANGE_CIPHER_SPEC ↔
        session_matches env ssl)) := by
  refine ⟨parse_server_hello_resumed env ssl h hn hlen hk,
    parse_server_hello_not_resumed env ssl h hn hlen hk, fun hs => ⟨fun hst => ?_,
      fun hm => (parse_server_hello_resumed env ssl h hn hlen hk hm).1⟩⟩
  by_contra hm
  have h1 := (parse_server_hello_not_resumed env ssl h hn hlen hk hm).1
  rw [hst, hs] at h1
  exact absurd h1 (by decide)

/-- Witness for C29: the ServerHello `hello_resumed` repeats the cached
session of `ssl_cached`, which jumps to `TLS_SERVER_CHANGE_CIPHER_SPEC`; the
client `ssl_cached_other` holds another session id, advances by one state
and clears `resume`. -/
theorem parse_server_hello_resumption_witness :
    (parse_server_hello env_resumed ssl_cached).2.state = TLS_SERVER_CHANGE_CIPHER_SPEC ∧
    (parse_server_hello env_resumed ssl_cached).2.handshake.resume = 1 ∧
    (parse_server_hello env_resumed ssl_cached_other).2.state = TLS_SERVER_HELLO + 1 ∧
    (parse_server_hello env_resumed ssl_cached_other).2.handshake.resume = 0 := by
  have a := (parse_server_hello_resumption env_resumed ssl_cached
    (by unfold version_accepted; decide) (by decide)
    (by unfold bad_length; decide) (by decide)).1
    (by unfold session_matches; decide)
  have b := (parse_server_hello_resumption env_resumed ssl_cached_other
    (by unfold version_accepted; decide) (by decide)
    (by unfold bad_length; decide) (by decide)).2.1
    (by unfold session_matches; decide)
  exact ⟨a.1, a.2.1, b.1, b.2.1⟩

/-! ## The client step never moves the state backwards -/

theorem write_client_hello_step (env : Env) (tls : ntbtls_t) :
    (write_client_hello env tls).2.state = tls.state ∨
    (write_client_hello env tls).2.state = tls.state + 1 := by
  unfold write_client_hello
  simp only []
  have hv := write_client_hello_versions_state tls
  generalize write_client_hello_versions tls = t1 at hv ⊢
  split_ifs
  all_goals first
    | (left; exact hv)
    | (right; simp [hv])

theorem parse_server_key_exchange_message_step (env : Env) (ssl : ntbtls_t)
    (ci : ssl_ciphersuite_t) :
    (parse_server_key_exchange_message env ssl ci).2.state = ssl.state ∨
    (parse_server_key_exchange_message env ssl ci).2.state = ssl.state + 1 := by
  unfold parse_server_key_exchange_message
  simp only []
  have hp := parse_server_key_exchange_params_state env ssl ci.key_exchange 4 ssl.in_hslen
  generalize parse_server_key_exchange_params env ssl ci.key_exchange 4 ssl.in_hslen = r
    at hp ⊢
  split_ifs
  all_goals first
    | exact Or.inl rfl
    | exact Or.inr rfl
    | (left; exact hp)
    | (right; simp [hp])

theorem parse_server_key_exchange_step (env : Env) (ssl : ntbtls_t) :
    (parse_server_key_exchange env ssl).2.state = ssl.state ∨
    (parse_server_key_exchange env ssl).2.state = ssl.state + 1 := by
  unfold parse_server_key_exchange
  cases hci : ssl.ciphersuite_info with
  | none => left; rfl
  | some ci =>
    simp only []
    have h1 := ssl_get_ecdh_params_from_cert_state env ssl
    have h2 := read_record_state env ssl
    generalize ssl_get_ecdh_params_from_cert env ssl = r1 at h1 ⊢
    generalize _ntbtls_read_record env ssl = r2 at h2 ⊢
    have h3 := parse_server_key_exchange_message_step env r2.2 ci
    rw [h2] at h3
    split_ifs
    all_goals first
      | exact Or.inl rfl
      | exact Or.inr rfl
      | (left; exact h1)
      | (left; exact h2)
      | (right; simp [h1])
      | exact h3

theorem parse_certificate_request_step (env : Env) (ssl : ntbtls_t) :
    (parse_certificate_request env ssl).2.state = ssl.state ∨
    (parse_certificate_request env ssl).2.state = ssl.state + 1 := by
  unfold parse_certificate_request
  cases hci : ssl.ciphersuite_info with
  | none => left; rfl
  | some ci =>
    simp only []
    have h1 := parse_certificate_request_read_state env ssl
    generalize parse_certificate_request_read env ssl = r1 at h1 ⊢
    have h2 := (parse_certificate_request_message_state env r1.2).1
    split_ifs
    · right; rfl
    · left; exact h1
    · right; rw [h2, h1]

theorem parse_server_hello_done_step (env : Env) (ssl : ntbtls_t) :
    (parse_server_hello_done env ssl).2.state = ssl.state ∨
    (parse_server_hello_done env ssl).2.state = ssl.state + 1 := by
  unfold parse_server_hello_done
  simp only []
  have h2 := parse_server_hello_done_read_state env ssl
  generalize parse_server_hello_done_read env ssl = r2 at h2 ⊢
  split_ifs
  all_goals first
    | (left; exact h2)
    | (right; simp [h2])

theorem write_client_key_exchange_step (env : Env) (ssl : ntbtls_t) :
    (write_client_key_exchange env ssl).2.state = ssl.state ∨
    (write_client_key_exchange env ssl).2.state = ssl.state + 1 := by
  unfold write_client_key_exchange
  cases hci : ssl.ciphersuite_info with
  | none => left; rfl
  | some ci =>
    simp only []
    have h1 := write_client_key_exchange_body_state env ssl ci.key_exchange
    generalize write_client_key_exchange_body env ssl ci.key_exchange = r at h1 ⊢
    split_ifs
    all_goals first
      | (left; exact h1)
      | (right; simp [h1])

theorem write_certificate_verify_step (env : Env) (ssl : ntbtls_t) :
    (write_certificate_verify env ssl).2.state = ssl.state ∨
    (write_certificate_verify env ssl).2.state = ssl.state + 1 := by
  unfold write_certificate_verify
  cases hci : ssl.ciphersuite_info with
  | none => left; rfl
  | some ci =>
    simp only []
    cases hk : ssl.own_key with
    | none =>
      simp only []
      split_ifs
      all_goals first
        | exact Or.inl rfl
        | exact Or.inr rfl
    | some key =>
      simp only []
      split_ifs
      all_goals first
        | exact Or.inl rfl
        | exact Or.inr rfl

theorem client_step_own_handlers (env : Env) (tls : ntbtls_t)
    (hd : ¬ delegated_state tls) :
    (_ntbtls_handshake_client_step env tls).2.state = tls.state ∨
    (_ntbtls_handshake_client_step env tls).2.state = tls.state + 1 ∨
    (tls.state = TLS_SERVER_HELLO ∧
      (_ntbtls_handshake_client_step env tls).2.state = TLS_SERVER_CHANGE_CIPHER_SPEC) := by
  unfold delegated_state at hd
  simp only [not_or] at hd
  obtain ⟨d3, d7, d10, d11, d12, d13, d15⟩ := hd
  unfold _ntbtls_handshake_client_step
  by_cases h0 : tls.state = TLS_HANDSHAKE_OVER
  · rw [if_pos h0]; left; rfl
  rw [if_neg h0]
  by_cases hf : env.flush_output ≠ Ret.ok
  · rw [if_pos hf]; left; rfl
  rw [if_neg hf]
  by_cases s0 : tls.state = TLS_HELLO_REQUEST
  · rw [if_pos s0]; right; left
    show TLS_CLIENT_HELLO = tls.state + 1
    rw [s0]
    rfl
  rw [if_neg s0]
  by_cases s1 : tls.state = TLS_CLIENT_HELLO
  · rw [if_pos s1]
    rcases write_client_hello_step env tls with e | e
    · left; exact e
    · right; left; exact e
  rw [if_neg s1]
  by_cases s2 : tls.state = TLS_SERVER_HELLO
  · rw [if_pos s2]
    rcases parse_server_hello_state env tls with e | ⟨_, e | e⟩
    · left; exact e
    · right; left; exact e
    · right; right; exact ⟨s2, e⟩
  rw [if_neg s2, if_neg d3]
  by_cases s4 : tls.state = TLS_SERVER_KEY_EXCHANGE
  · rw [if_pos s4]
    rcases parse_server_key_exchange_step env tls with e | e
    · left; exact e
    · right; left; exact e
  rw [if_neg s4]
  by_cases s5 : tls.state = TLS_CERTIFICATE_REQUEST
  · rw [if_pos s5]
    rcases parse_certificate_request_step env tls with e | e
    · left; exact e
    · right; left; exact e
  rw [if_neg s5]
  by_cases s6 : tls.state = TLS_SERVER_HELLO_DONE
  · rw [if_pos s6]
    rcases parse_server_hello_done_step env tls with e | e
    · left; exact e
    · right; left; exact e
  rw [if_neg s6, if_neg d7]
  by_cases s8 : tls.state = TLS_CLIENT_KEY_EXCHANGE
  · rw [if_pos s8]
    rcases write_client_key_exchange_step env tls with e | e
    · left; exact e
    · right; left; exact e
  rw [if_neg s8]
  by_cases s9 : tls.state = TLS_CERTIFICATE_VERIFY
  · rw [if_pos s9]
    rcases write_certificate_verify_step env tls with e | e
    · left; exact e
    · right; left; exact e
  rw [if_neg s9, if_neg d10, if_neg d11]
  by_cases s12 : tls.state = TLS_SERVER_CHANGE_CIPHER_SPEC
  · rw [if_pos s12, if_pos (fun hn => d12 ⟨s12, hn⟩)]
    left
    exact parse_new_session_ticket_state env tls
  rw [if_neg s12, if_neg d13]
  by_cases s14 : tls.state = TLS_FLUSH_BUFFERS
  · rw [if_pos s14]; right; left
    show TLS_HANDSHAKE_WRAPUP = tls.state + 1
    rw [s14]
    rfl
  rw [if_neg s14, if_neg d15]
  left; rfl

theorem client_step_delegated (env : Env) (tls : ntbtls_t) (hf : delegated_forward env)
    (hd : delegated_state tls) :
    tls.state ≤ (_ntbtls_handshake_client_step env tls).2.state := by
  obtain ⟨f1, f2, f3, f4, f5, f6, f7⟩ := hf tls
  unfold _ntbtls_handshake_client_step
  by_cases h0 : tls.state = TLS_HANDSHAKE_OVER
  · rw [if_pos h0]
  rw [if_neg h0]
  by_cases hfl : env.flush_output ≠ Ret.ok
  · rw [if_pos hfl]
  rw [if_neg hfl]
  unfold delegated_state at hd
  rcases hd with s | s | s | s | ⟨s, hn⟩ | s | s
  · simp [s] at f1 ⊢
    exact f1
  · simp [s] at f2 ⊢
    exact f2
  · simp [s] at f3 ⊢
    exact f3
  · simp [s] at f4 ⊢
    exact f4
  · simp [s, hn] at f5 ⊢
    exact f5
  · simp [s] at f6 ⊢
    exact f6
  · simp [s] at f7 ⊢
    exact f7

/-- C30: let the handlers of the other modules not lower the state.  Then a
call of `_ntbtls_handshake_client_step` never moves the state backwards in
the order `TLS_HELLO_REQUEST` < `TLS_CLIENT_HELLO` < ... <
`TLS_HANDSHAKE_OVER`: the state after the call is at least the state before
it, for every state and every input.  And in a state whose handler is in this
file the state after the call is the same, or one more, or the call is the
jump of `parse_server_hello` from `TLS_SERVER_HELLO` to
`TLS_SERVER_CHANGE_CIPHER_SPEC` on a resumed session. -/
theorem client_step_never_backwards (env : Env) (tls : ntbtls_t)
    (hf : delegated_forward env) :
    tls.state ≤ (_ntbtls_handshake_client_step env tls).2.state ∧
    (¬ delegated_state tls →
      (_ntbtls_handshake_client_step env tls).2.state = tls.state ∨
      (_ntbtls_handshake_client_step env tls).2.state = tls.state + 1 ∨
      (tls.state = TLS_SERVER_HELLO ∧
        (_ntbtls_handshake_client_step env tls).2.state =
          TLS_SERVER_CHANGE_CIPHER_SPEC)) ∧
    (TLS_HELLO_REQUEST < TLS_CLIENT_HELLO ∧ TLS_CLIENT_HELLO < TLS_SERVER_HELLO ∧
      TLS_SERVER_HELLO < TLS_SERVER_CERTIFICATE ∧
      TLS_SERVER_CERTIFICATE < TLS_SERVER_KEY_EXCHANGE ∧
      TLS_SERVER_KEY_EXCHANGE < TLS_CERTIFICATE_REQUEST ∧
      TLS_CERTIFICATE_REQUEST < TLS_SERVER_HELLO_DONE ∧
      TLS_SERVER_HELLO_DONE < TLS_CLIENT_CERTIFICATE ∧
      TLS_CLIENT_CERTIFICATE < TLS_CLIENT_KEY_EXCHANGE ∧
      TLS_CLIENT_KEY_EXCHANGE < TLS_CERTIFICATE_VERIFY ∧
      TLS_CERTIFICATE_VERIFY < TLS_CLIENT_CHANGE_CIPHER_SPEC ∧
      TLS_CLIENT_CHANGE_CIPHER_SPEC < TLS_CLIENT_FINISHED ∧
      TLS_CLIENT_FINISHED < TLS_SERVER_CHANGE_CIPHER_SPEC ∧
      TLS_SERVER_CHANGE_CIPHER_SPEC < TLS_SERVER_FINISHED ∧
      TLS_SERVER_FINISHED < TLS_FLUSH_BUFFERS ∧
      TLS_FLUSH_BUFFERS < TLS_HANDSHAKE_WRAPUP ∧
      TLS_HANDSHAKE_WRAPUP < TLS_HANDSHAKE_OVER) := by
  refine ⟨?_, client_step_own_handlers env tls, by decide⟩
  by_cases hd : delegated_state tls
  · exact client_step_delegated env tls hf hd
  · rcases client_step_own_handlers env tls hd with e | e | ⟨e1, e2⟩
    · rw [e]
    · rw [e]
      exact Nat.le_succ _
    · rw [e1, e2]
      decide

/-- Witness for C30: with handlers of the other modules that advance the
state by one, the step of the client `ssl_cached` on the ServerHello that
resumes its session moves from `TLS_SERVER_HELLO` to
`TLS_SERVER_CHANGE_CIPHER_SPEC`, forwards. -/
theorem client_step_never_backwards_witness :
    delegated_forward env_delegated_advance ∧
    ssl_cached.state ≤
      (_ntbtls_handshake_client_step env_delegated_advance ssl_cached).2.state ∧
    (_ntbtls_handshake_client_step env_delegated_advance ssl_cached).2.state =
      TLS_SERVER_CHANGE_CIPHER_SPEC := by
  have hf : delegated_forward env_delegated_advance := fun t =>
    ⟨Nat.le_succ _, Nat.le_succ _, Nat.le_succ _, Nat.le_succ _, Nat.le_succ _,
      Nat.le_succ _, Nat.le_succ _⟩
  refine ⟨hf, (client_step_never_backwards env_delegated_advance ssl_cached hf).1, ?_⟩
  rw [(client_step_handler env_delegated_advance ssl_cached rfl).1 rfl]
  exact (parse_server_hello_resumed env_delegated_advance ssl_cached
    (by unfold version_accepted; decide) (by decide) (by unfold bad_length; decide)
    (by decide) (by unfold session_matches; decide)).1

/-! ## ServerKeyExchange: the lookahead of the PSK suites -/

theorem parse_server_key_exchange_lookahead (env : Env) (tls : ntbtls_t)
    (ci : ssl_ciphersuite_t) (hci : tls.ciphersuite_info = some ci)
    (hr : env.read_record = Ret.ok) (hm : env.in_msgtype = TLS_MSG_HANDSHAKE)
    (hn : rd env.in_msg 0 ≠ TLS_HS_SERVER_KEY_EXCHANGE) :
    ((ci.key_exchange = key_exchange_type_t.PSK ∨
        ci.key_exchange = key_exchange_type_t.RSA_PSK) →
      parse_server_key_exchange env tls = (Ret.ok, ctx_lookahead env tls)) ∧
    ((ci.key_exchange = key_exchange_type_t.DHE_RSA ∨
        ci.key_exchange = key_exchange_type_t.ECDHE_RSA ∨
        ci.key_exchange = key_exchange_type_t.ECDHE_ECDSA ∨
        ci.key_exchange = key_exchange_type_t.DHE_PSK ∨
        ci.key_exchange = key_exchange_type_t.ECDHE_PSK) →
      parse_server_key_exchange env tls = (Ret.UNEXPECTED_MSG, ctx_after_read env tls)) := by
  have hm2 : (ctx_after_read env tls).in_msgtype = TLS_MSG_HANDSHAKE := hm
  have hn2 : rd (ctx_after_read env tls).in_msg 0 ≠ TLS_HS_SERVER_KEY_EXCHANGE := hn
  constructor
  · intro hk
    rw [parse_server_key_exchange_reads env tls ci hci
      (by rcases hk with h | h <;> rw [h] <;> decide)
      (by rcases hk with h | h <;> rw [h] <;> decide) hr]
    unfold parse_server_key_exchange_message
    simp only []
    rw [if_neg (not_not.mpr hm2), if_pos hn2, if_pos hk]
    rfl
  · intro hk
    rw [parse_server_key_exchange_reads env tls ci hci
      (by rcases hk with h | h | h | h | h <;> rw [h] <;> decide)
      (by rcases hk with h | h | h | h | h <;> rw [h] <;> decide) hr]
    unfold parse_server_key_exchange_message
    simp only []
    rw [if_neg (not_not.mpr hm2), if_pos hn2,
      if_neg (by rcases hk with h | h | h | h | h <;> rw [h] <;> decide)]

theorem parse_certificate_request_psk (env : Env) (t : ntbtls_t) (ci : ssl_ciphersuite_t)
    (hci : t.ciphersuite_info = some ci)
    (hk : ci.key_exchange = key_exchange_type_t.PSK ∨
      ci.key_exchange = key_exchange_type_t.RSA_PSK) :
    parse_certificate_request env t = (Ret.ok, { t with state := t.state + 1 }) := by
  unfold parse_certificate_request
  rw [hci]
  simp only []
  rw [if_pos (by
    rcases hk with h | h
    · exact Or.inl h
    · exact Or.inr (Or.inl h))]

theorem parse_server_hello_done_lookahead (env : Env) (t : ntbtls_t)
    (h : t.record_read ≠ 0) :
    parse_server_hello_done env t =
      if t.in_hslen ≠ 4 ∨ rd t.in_msg 0 ≠ TLS_HS_SERVER_HELLO_DONE then
        (Ret.BAD_HS_SERVER_HELLO_DONE, { t with record_read := 0 })
      else (Ret.ok, { t with record_read := 0, state := t.state + 1 }) := by
  unfold parse_server_hello_done parse_server_hello_done_read
  simp only []
  rw [if_neg h]
  simp only [ne_eq, not_true_eq_false, if_false]

/-- C31: let the step in state ServerKeyExchange read a handshake message
that is not a ServerKeyExchange.  For the key exchanges PSK and RSA_PSK the
step succeeds with `record_read = 1` and the state CertificateRequest; the
next step, whatever the record layer holds, reads nothing and only advances
to ServerHelloDone; the step after that, again whatever the record layer
holds, reads nothing, checks the message that was looked ahead (type
ServerHelloDone, `in_hslen = 4`) and leaves `record_read = 0`.  For the other
key exchanges that read the message (DHE_RSA, ECDHE_RSA, ECDHE_ECDSA,
DHE_PSK, ECDHE_PSK) the step fails with `GPG_ERR_UNEXPECTED_MSG`. -/
theorem client_step_psk_lookahead (env env2 env3 : Env) (tls : ntbtls_t)
    (ci : ssl_ciphersuite_t)
    (hs : tls.state = TLS_SERVER_KEY_EXCHANGE) (hci : tls.ciphersuite_info = some ci)
    (hf : env.flush_output = Ret.ok) (hf2 : env2.flush_output = Ret.ok)
    (hf3 : env3.flush_output = Ret.ok)
    (hr : env.read_record = Ret.ok) (hm : env.in_msgtype = TLS_MSG_HANDSHAKE)
    (hn : rd env.in_msg 0 ≠ TLS_HS_SERVER_KEY_EXCHANGE) :
    ((ci.key_exchange = key_exchange_type_t.PSK ∨
        ci.key_exchange = key_exchange_type_t.RSA_PSK) →
      _ntbtls_handshake_client_step env tls = (Ret.ok, ctx_lookahead env tls) ∧
      (ctx_lookahead env tls).record_read = 1 ∧
      (ctx_lookahead env tls).state = TLS_CERTIFICATE_REQUEST ∧
      (ctx_lookahead env tls).in_msg = env.in_msg ∧
      _ntbtls_handshake_client_step env2 (ctx_lookahead env tls) =
        (Ret.ok, { ctx_lookahead env tls with state := TLS_SERVER_HELLO_DONE }) ∧
      _ntbtls_handshake_client_step env3
          { ctx_lookahead env tls with state := TLS_SERVER_HELLO_DONE } =
        if env.in_hslen ≠ 4 ∨ rd env.in_msg 0 ≠ TLS_HS_SERVER_HELLO_DONE then
          (Ret.BAD_HS_SERVER_HELLO_DONE,
            { ctx_lookahead env tls with state := TLS_SERVER_HELLO_DONE, record_read := 0 })
        else
          (Ret.ok,
            { ctx_lookahead env tls with state := TLS_CLIENT_CERTIFICATE, record_read := 0 })) ∧
    ((ci.key_exchange = key_exchange_type_t.DHE_RSA ∨
        ci.key_exchange = key_exchange_type_t.ECDHE_RSA ∨
        ci.key_exchange = key_exchange_type_t.ECDHE_ECDSA ∨
        ci.key_exchange = key_exchange_type_t.DHE_PSK ∨
        ci.key_exchange = key_exchange_type_t.ECDHE_PSK) →
      _ntbtls_handshake_client_step env tls =
        (Ret.UNEXPECTED_MSG, ctx_after_read env tls)) := by
  have h1 := (client_step_handler env tls hf).2.1 hs
  have hl := parse_server_key_exchange_lookahead env tls ci hci hr hm hn
  have est : (ctx_lookahead env tls).state = TLS_CERTIFICATE_REQUEST := by
    show tls.state + 1 = _
    rw [hs]
    rfl
  refine ⟨fun hk => ⟨?_, rfl, est, rfl, ?_, ?_⟩, fun hk => ?_⟩
  · rw [h1]
    exact hl.1 hk
  · rw [(client_step_handler env2 (ctx_lookahead env tls) hf2).2.2.1 est,
      parse_certificate_request_psk env2 (ctx_lookahead env tls) ci hci hk, est]
    rfl
  · rw [(client_step_handler env3 { ctx_lookahead env tls with
        state := TLS_SERVER_HELLO_DONE } hf3).2.2.2 rfl,
      parse_server_hello_done_lookahead env3 _ (by
        show (1 : Nat) ≠ 0
        decide)]
    rfl
  · rw [h1]
    exact hl.2 hk

/-- Witness for C31: a PSK client that reads the ServerHelloDone in state
ServerKeyExchange looks ahead; the next two steps succeed although the
record layer has no input, and end in state ClientCertificate with
`record_read = 0`.  A DHE_PSK client rejects the same message. -/
theorem client_step_psk_lookahead_witness :
    _ntbtls_handshake_client_step env_hello_done ssl_psk =
      (Ret.ok, ctx_lookahead env_hello_done ssl_psk) ∧
    (_ntbtls_handshake_client_step env_would_block
      { ctx_lookahead env_hello_done ssl_psk with
        state := TLS_SERVER_HELLO_DONE }).1 = Ret.ok ∧
    (_ntbtls_handshake_client_step env_would_block
      { ctx_lookahead env_hello_done ssl_psk with
        state := TLS_SERVER_HELLO_DONE }).2.record_read = 0 ∧
    (_ntbtls_handshake_client_step env_hello_done ssl_awaits_kex_dhe_psk).1 =
      Ret.UNEXPECTED_MSG := by
  have a := (client_step_psk_lookahead env_hello_done env_would_block
    env_would_block ssl_psk suite_psk rfl rfl rfl rfl rfl rfl rfl (by decide)).1
    (Or.inl rfl)
  have b := (client_step_psk_lookahead env_hello_done env_would_block
    env_would_block ssl_awaits_kex_dhe_psk suite_dhe_psk rfl rfl rfl rfl rfl rfl rfl
    (by decide)).2 (Or.inr (Or.inr (Or.inr (Or.inl rfl))))
  have c := a.2.2.2.2.2
  rw [if_neg (by decide)] at c
  refine ⟨a.1, ?_, ?_, ?_⟩
  · rw [c]
  · rw [c]
  · rw [b]

/-! ## ServerHello: extension entries of unknown type -/

theorem be16_decode_mod (x : Nat) :
    shl8_or (u8 ((x >>> 8) &&& 0xFF) % 256) (u8 (x &&& 0xFF) % 256) = x % 65536 := by
  rw [shl8_or_eq _ _ (Nat.mod_lt _ (by omega))]
  unfold u8
  have h1 : x &&& 0xFF = x % 256 := Nat.and_pow_two_sub_one_eq_mod x 8
  have h2 : (x >>> 8) &&& 0xFF = (x >>> 8) % 256 := Nat.and_pow_two_sub_one_eq_mod _ 8
  rw [h1, h2, Nat.shiftRight_eq_div_pow]
  omega

theorem renegotiation_info_shift (env : Env) (ssl : ntbtls_t) (m : Bytes) (h : Nat)
    (buf : Bytes) (len : Nat) :
    ssl_parse_renegotiation_info env (with_in_msg ssl m h) buf len =
      ((ssl_parse_renegotiation_info env ssl buf len).1,
        with_in_msg (ssl_parse_renegotiation_info env ssl buf len).2 m h) := by
  unfold ssl_parse_renegotiation_info with_in_msg
  simp only []
  split_ifs <;> rfl

theorem max_fragment_length_shift (ssl : ntbtls_t) (m : Bytes) (h : Nat)
    (buf : Bytes) (len : Nat) :
    ssl_parse_max_fragment_length_ext (with_in_msg ssl m h) buf len =
      ((ssl_parse_max_fragment_length_ext ssl buf len).1,
        with_in_msg (ssl_parse_max_fragment_length_ext ssl buf len).2 m h) := by
  unfold ssl_parse_max_fragment_length_ext with_in_msg
  simp only []
  split_ifs <;> rfl

theorem truncated_hmac_shift (ssl : ntbtls_t) (m : Bytes) (h : Nat)
    (buf : Bytes) (len : Nat) :
    ssl_parse_truncated_hmac_ext (with_in_msg ssl m h) buf len =
      ((ssl_parse_truncated_hmac_ext ssl buf len).1,
        with_in_msg (ssl_parse_truncated_hmac_ext ssl buf len).2 m h) := by
  unfold ssl_parse_truncated_hmac_ext with_in_msg
  simp only []
  split_ifs <;> rfl

theorem session_ticket_shift (ssl : ntbtls_t) (m : Bytes) (h : Nat)
    (buf : Bytes) (len : Nat) :
    ssl_parse_session_ticket_ext (with_in_msg ssl m h) buf len =
      ((ssl_parse_session_ticket_ext ssl buf len).1,
        with_in_msg (ssl_parse_session_ticket_ext ssl buf len).2 m h) := by
  unfold ssl_parse_session_ticket_ext with_in_msg
  simp only []
  split_ifs <;> rfl

theorem point_formats_loop_shift (ssl : ntbtls_t) (m : Bytes) (h : Nat) (k : Nat)
    (p : Bytes) :
    ssl_parse_supported_point_formats_loop (with_in_msg ssl m h) k p =
      ((ssl_parse_supported_point_formats_loop ssl k p).1,
        with_in_msg (ssl_parse_supported_point_formats_loop ssl k p).2 m h) := by
  induction k generalizing p with
  | zero => rfl
  | succ k ih =>
    rw [ssl_parse_supported_point_formats_loop, ssl_parse_supported_point_formats_loop]
    split_ifs
    · rfl
    · exact ih _

theorem point_formats_shift (ssl : ntbtls_t) (m : Bytes) (h : Nat)
    (buf : Bytes) (len : Nat) :
    ssl_parse_supported_point_formats_ext (with_in_msg ssl m h) buf len =
      ((ssl_parse_supported_point_formats_ext ssl buf len).1,
        with_in_msg (ssl_parse_supported_point_formats_ext ssl buf len).2 m h) := by
  unfold ssl_parse_supported_point_formats_ext
  simp only []
  split_ifs
  · rfl
  · exact point_formats_loop_shift _ _ _ _ _

theorem alpn_loop_shift (ssl : ntbtls_t) (m : Bytes) (h : Nat) (buf : Bytes) (n : Nat)
    (l : List Bytes) :
    ssl_parse_alpn_loop (with_in_msg ssl m h) buf n l =
      ((ssl_parse_alpn_loop ssl buf n l).1,
        with_in_msg (ssl_parse_alpn_loop ssl buf n l).2 m h) := by
  induction l with
  | nil => rfl
  | cons p rest ih =>
    rw [ssl_parse_alpn_loop, ssl_parse_alpn_loop]
    split_ifs
    · rfl
    · exact ih

theorem alpn_shift (ssl : ntbtls_t) (m : Bytes) (h : Nat) (buf : Bytes) (len : Nat) :
    ssl_parse_alpn_ext (with_in_msg ssl m h) buf len =
      ((ssl_parse_alpn_ext ssl buf len).1,
        with_in_msg (ssl_parse_alpn_ext ssl buf len).2 m h) := by
  unfold ssl_parse_alpn_ext
  have e : (with_in_msg ssl m h).alpn_list = ssl.alpn_list := rfl
  rw [e]
  cases ssl.alpn_list with
  | none => rfl
  | some l =>
    simp only []
    split_ifs
    · rfl
    · rfl
    · rfl
    · exact alpn_loop_shift _ _ _ _ _ _

theorem ext_switch_shift (env : Env) (ssl : ntbtls_t) (m : Bytes) (h : Nat) (id : Nat)
    (buf : Bytes) (size seen : Nat) :
    parse_server_hello_ext_switch env (with_in_msg ssl m h) id buf size seen =
      ((parse_server_hello_ext_switch env ssl id buf size seen).1,
        with_in_msg (parse_server_hello_ext_switch env ssl id buf size seen).2.1 m h,
        (parse_server_hello_ext_switch env ssl id buf size seen).2.2) := by
  unfold parse_server_hello_ext_switch
  simp only []
  rw [renegotiation_info_shift, max_fragment_length_shift, truncated_hmac_shift,
    session_ticket_shift, point_formats_shift, alpn_shift]
  split_ifs <;> rfl

theorem ext_loop_shift (env : Env) (m : Bytes) (h : Nat) (ext_len : Nat) :
    ∀ (ssl : ntbtls_t) (ext : Bytes) (seen : Nat),
      parse_server_hello_ext_loop env (with_in_msg ssl m h) ext ext_len seen =
        ((parse_server_hello_ext_loop env ssl ext ext_len seen).1,
          with_in_msg (parse_server_hello_ext_loop env ssl ext ext_len seen).2.1 m h,
          (parse_server_hello_ext_loop env ssl ext ext_len seen).2.2) := by
  induction ext_len using Nat.strong_induction_on with
  | _ ext_len ih =>
    intro ssl ext seen
    rw [ext_loop_unfold env (with_in_msg ssl m h), ext_loop_unfold env ssl,
      ext_switch_shift]
    simp only []
    by_cases h0 : ext_len = 0
    · rw [if_pos h0, if_pos h0]
    rw [if_neg h0, if_neg h0]
    by_cases h1 : shl8_or (rd ext 2) (rd ext 3) + 4 > ext_len
    · rw [if_pos h1, if_pos h1]
    rw [if_neg h1, if_neg h1]
    by_cases h2 : (parse_server_hello_ext_switch env ssl (shl8_or (rd ext 0) (rd ext 1))
        (ext.drop 4) (shl8_or (rd ext 2) (rd ext 3)) seen).1 ≠ Ret.ok
    · rw [if_pos h2, if_pos h2]
    rw [if_neg h2, if_neg h2]
    by_cases h3 : 0 < ext_len - (4 + shl8_or (rd ext 2) (rd ext 3)) ∧
        ext_len - (4 + shl8_or (rd ext 2) (rd ext 3)) < 4
    · rw [if_pos h3, if_pos h3]
    rw [if_neg h3, if_neg h3]
    exact ih _ (by omega) _ _ _

theorem ext_switch_unknown (env : Env) (ssl : ntbtls_t) (id : Nat) (buf : Bytes)
    (size seen : Nat) (h : ext_known id = false) :
    parse_server_hello_ext_switch env ssl id buf size seen = (Ret.ok, ssl, seen) := by
  unfold ext_known at h
  simp only [decide_eq_false_iff_not, not_or] at h
  obtain ⟨h1, h2, h3, h4, h5, h6⟩ := h
  unfold parse_server_hello_ext_switch
  rw [if_neg h1, if_neg h2, if_neg h3, if_neg h4, if_neg h5, if_neg h6]

theorem ext_tiled_upto_length (fuel : Nat) (ext : Bytes) (ext_len : Nat)
    (h : ext_tiled_upto fuel ext ext_len) : ext_len = 0 ∨ 4 ≤ ext_len := by
  cases fuel with
  | zero => exact Or.inl h
  | succ fuel =>
    rw [ext_tiled_upto] at h
    rcases h with h | h
    · exact Or.inl h
    · exact Or.inr (by omega)

theorem ext_strip_upto_length (fuel : Nat) :
    ∀ (ext : Bytes) (ext_len : Nat),
      (ext_strip_upto fuel ext ext_len).length ≤ ext_len ∧
      ((ext_strip_upto fuel ext ext_len).length = 0 ∨
        4 ≤ (ext_strip_upto fuel ext ext_len).length) := by
  induction fuel with
  | zero =>
    intro ext ext_len
    rw [ext_strip_upto]
    exact ⟨Nat.zero_le _, Or.inl rfl⟩
  | succ fuel ih =>
    intro ext ext_len
    rw [ext_strip_upto]
    by_cases h0 : ext_len = 0
    · rw [if_pos h0]
      exact ⟨Nat.zero_le _, Or.inl rfl⟩
    rw [if_neg h0]
    by_cases h1 : shl8_or (rd ext 2) (rd ext 3) + 4 > ext_len
    · rw [if_pos h1]
      exact ⟨Nat.zero_le _, Or.inl rfl⟩
    rw [if_neg h1]
    obtain ⟨i1, i2⟩ := ih (ext.drop (4 + shl8_or (rd ext 2) (rd ext 3)))
      (ext_len - (4 + shl8_or (rd ext 2) (rd ext 3)))
    by_cases hk : ext_known (shl8_or (rd ext 0) (rd ext 1)) = true
    · rw [if_pos hk, List.length_append, rdn_length]
      exact ⟨by omega, Or.inr (by omega)⟩
    · rw [if_neg hk, List.nil_append]
      exact ⟨by omega, i2⟩

theorem ext_loop_empty (env : Env) (ssl : ntbtls_t) (ext : Bytes) (seen : Nat) :
    parse_server_hello_ext_loop env ssl ext 0 seen = (Ret.ok, ssl, seen) := by
  rw [ext_loop_unfold, if_pos rfl]

theorem ext_loop_strip (env : Env) (fuel : Nat) :
    ∀ (ssl : ntbtls_t) (ext : Bytes) (ext_len seen : Nat),
      ext_tiled_upto fuel ext ext_len →
      parse_server_hello_ext_loop env ssl (ext_strip_upto fuel ext ext_len)
          (ext_strip_upto fuel ext ext_len).length seen =
        parse_server_hello_ext_loop env ssl ext ext_len seen := by
  induction fuel with
  | zero =>
    intro ssl ext ext_len seen ht
    rw [ext_tiled_upto] at ht
    rw [ext_strip_upto, ht, List.length_nil, ext_loop_empty, ext_loop_empty]
  | succ fuel ih =>
    intro ssl ext ext_len seen ht
    rw [ext_tiled_upto] at ht
    by_cases h0 : ext_len = 0
    · rw [ext_strip_upto, if_pos h0, h0, List.length_nil, ext_loop_empty, ext_loop_empty]
    rcases ht with ht | ⟨hg, ht⟩
    · exact absurd ht h0
    have h1 : ¬ shl8_or (rd ext 2) (rd ext 3) + 4 > ext_len := by omega
    have hrest := ext_tiled_upto_length _ _ _ ht
    have h3 : ¬ (0 < ext_len - (4 + shl8_or (rd ext 2) (rd ext 3)) ∧
        ext_len - (4 + shl8_or (rd ext 2) (rd ext 3)) < 4) := by omega
    have hih := fun s k => ih s (ext.drop (4 + shl8_or (rd ext 2) (rd ext 3)))
      (ext_len - (4 + shl8_or (rd ext 2) (rd ext 3))) k ht
    obtain ⟨_, hS2⟩ := ext_strip_upto_length fuel
      (ext.drop (4 + shl8_or (rd ext 2) (rd ext 3)))
      (ext_len - (4 + shl8_or (rd ext 2) (rd ext 3)))
    rw [ext_strip_upto, if_neg h0, if_neg h1, ext_loop_unfold env ssl ext ext_len,
      if_neg h0, if_neg h1]
    generalize ext_strip_upto fuel (ext.drop (4 + shl8_or (rd ext 2) (rd ext 3)))
      (ext_len - (4 + shl8_or (rd ext 2) (rd ext 3))) = S2 at hih hS2 ⊢
    by_cases hk : ext_known (shl8_or (rd ext 0) (rd ext 1)) = true
    · rw [if_pos hk]
      have hlen : (rdn ext (4 + shl8_or (rd ext 2) (rd ext 3)) ++ S2).length =
          4 + shl8_or (rd ext 2) (rd ext 3) + S2.length := by
        rw [List.length_append, rdn_length]
      have hrd : ∀ i, i < 4 + shl8_or (rd ext 2) (rd ext 3) →
          rd (rdn ext (4 + shl8_or (rd ext 2) (rd ext 3)) ++ S2) i = rd ext i := by
        intro i hi
        rw [rd_append_left _ _ _ (by rw [rdn_length]; exact hi), rd_rdn _ _ _ hi]
      have hdrop : (rdn ext (4 + shl8_or (rd ext 2) (rd ext 3)) ++ S2).drop
          (4 + shl8_or (rd ext 2) (rd ext 3)) = S2 := by
        rw [List.drop_append_of_le_length (by rw [rdn_length]),
          List.drop_of_length_le (by rw [rdn_length]), List.nil_append]
      have hsw : parse_server_hello_ext_switch env ssl
          (shl8_or (rd ext 0) (rd ext 1))
          ((rdn ext (4 + shl8_or (rd ext 2) (rd ext 3)) ++ S2).drop 4)
          (shl8_or (rd ext 2) (rd ext 3)) seen =
          parse_server_hello_ext_switch env ssl (shl8_or (rd ext 0) (rd ext 1))
            (ext.drop 4) (shl8_or (rd ext 2) (rd ext 3)) seen := by
        apply ext_switch_congr
        intro i hi
        rw [rd_drop, rd_drop, hrd _ (by omega)]
      rw [ext_loop_unfold env ssl (rdn ext (4 + shl8_or (rd ext 2) (rd ext 3)) ++ S2),
        hrd 0 (by omega), hrd 1 (by omega), hrd 2 (by omega), hrd 3 (by omega), hsw,
        hdrop, hlen, if_neg (by omega), if_neg (by omega)]
      by_cases h2 : (parse_server_hello_ext_switch env ssl (shl8_or (rd ext 0) (rd ext 1))
          (ext.drop 4) (shl8_or (rd ext 2) (rd ext 3)) seen).1 ≠ Ret.ok
      · rw [if_pos h2, if_pos h2]
      rw [if_neg h2, if_neg h2, if_neg h3, if_neg (by omega)]
      have e : 4 + shl8_or (rd ext 2) (rd ext 3) + S2.length -
          (4 + shl8_or (rd ext 2) (rd ext 3)) = S2.length := by omega
      rw [e]
      exact hih _ _
    · rw [if_neg hk, List.nil_append,
        ext_switch_unknown env ssl _ _ _ _ (by simpa using hk)]
      simp only []
      rw [if_neg (by simp), if_neg h3]
      exact hih _ _

theorem rdn_congr (a b : Bytes) (n : Nat) (h : ∀ i, i < n → rd a i = rd b i) :
    rdn a n = rdn b n := by
  unfold rdn
  apply List.map_congr_left
  intro i hi
  exact h i (List.mem_range.mp hi)

theorem memeq_congr_right (a b b' : Bytes) (n : Nat) (h : ∀ i, i < n → rd b i = rd b' i) :
    memeq a b n = memeq a b' n := by
  unfold memeq
  rw [Bool.eq_iff_iff]
  simp only [List.all_eq_true, List.mem_range, beq_iff_eq]
  constructor
  · intro hh i hi
    rw [← h i hi]; exact hh i hi
  · intro hh i hi
    rw [h i hi]; exact hh i hi

theorem version_shift (s : ntbtls_t) (m : Bytes) (h : Nat)
    (e0 : rd m 0 = rd s.in_msg 0) (e4 : rd m 4 = rd s.in_msg 4)
    (e5 : rd m 5 = rd s.in_msg 5) (el : h < 42 ↔ s.in_hslen < 42) :
    parse_server_hello_version (with_in_msg s m h) =
      ((parse_server_hello_version s).1,
        with_in_msg (parse_server_hello_version s).2 m h) ∧
    (parse_server_hello_version s).2.in_msg = s.in_msg ∧
    (parse_server_hello_version s).2.in_hslen = s.in_hslen := by
  unfold parse_server_hello_version with_in_msg
  simp only [e0, e4, e5, el]
  split_ifs <;> exact ⟨rfl, rfl, rfl⟩

theorem fields_shift (env : Env) (s : ntbtls_t) (m : Bytes) (h : Nat)
    (e1 : ∀ i, i < 32 → rd (m.drop 6) i = rd (s.in_msg.drop 6) i)
    (e2 : server_hello_n m = server_hello_n s.in_msg)
    (e3 : bad_length m h ↔ bad_length s.in_msg s.in_hslen)
    (e4 : server_hello_i m = server_hello_i s.in_msg) :
    parse_server_hello_fields env (with_in_msg s m h) =
      ((parse_server_hello_fields env s).1,
        with_in_msg (parse_server_hello_fields env s).2 m h) ∧
    (parse_server_hello_fields env s).2.in_msg = s.in_msg ∧
    (parse_server_hello_fields env s).2.in_hslen = s.in_hslen := by
  have e1r := rdn_congr _ _ 32 e1
  unfold bad_length at e3
  rw [e2] at e3
  unfold parse_server_hello_fields with_in_msg memcpy
  simp only [e1r, e2, e4]
  by_cases hn : server_hello_n s.in_msg > 32
  · rw [if_pos hn, if_pos hn]
    exact ⟨rfl, rfl, rfl⟩
  rw [if_neg hn, if_neg hn]
  by_cases hb : s.in_hslen > 42 + server_hello_n s.in_msg ∧
      ((server_hello_ext_len s.in_msg s.in_hslen > 0 ∧
          server_hello_ext_len s.in_msg s.in_hslen < 4) ∨
        s.in_hslen ≠ 44 + server_hello_n s.in_msg +
          server_hello_ext_len s.in_msg s.in_hslen)
  · rw [if_pos hb, if_pos (e3.mpr hb)]
    exact ⟨rfl, rfl, rfl⟩
  rw [if_neg hb, if_neg (fun hc => hb (e3.mp hc))]
  split_ifs <;> exact ⟨rfl, rfl, rfl⟩

theorem resume_shift (env : Env) (s : ntbtls_t) (m : Bytes) (h : Nat)
    (e2 : server_hello_n m = server_hello_n s.in_msg)
    (e4 : server_hello_i m = server_hello_i s.in_msg)
    (e5 : server_hello_comp m = server_hello_comp s.in_msg)
    (e6 : ∀ i, i < server_hello_n s.in_msg → rd (m.drop 39) i = rd (s.in_msg.drop 39) i) :
    parse_server_hello_resume env (with_in_msg s m h) =
      ((parse_server_hello_resume env s).1,
        with_in_msg (parse_server_hello_resume env s).2 m h) ∧
    (parse_server_hello_resume env s).2.in_msg = s.in_msg ∧
    (parse_server_hello_resume env s).2.in_hslen = s.in_hslen := by
  have e6r := rdn_congr _ _ _ e6
  have e6m := memeq_congr_right s.session_negotiate.id _ _ _ e6
  unfold parse_server_hello_resume with_in_msg memcpy
  simp only [e2, e4, e5, e6r, e6m]
  split_ifs <;> exact ⟨rfl, rfl, rfl⟩

theorem tail_unfold (env : Env) (s : ntbtls_t) :
    parse_server_hello_tail env s =
      if parse_server_hello_find_ciphersuite (s.ciphersuite_list s.minor_ver)
          s.session_negotiate.ciphersuite = false then (Ret.BAD_HS_SERVER_HELLO, s)
      else if server_hello_comp s.in_msg ≠ TLS_COMPRESS_NULL ∧
          server_hello_comp s.in_msg ≠ TLS_COMPRESS_DEFLATE then
        (Ret.BAD_HS_SERVER_HELLO, s)
      else if (parse_server_hello_ext_loop env
          (with_compression s (server_hello_comp s.in_msg))
          (s.in_msg.drop (44 + server_hello_n s.in_msg))
          (server_hello_ext_len s.in_msg s.in_hslen) 0).1 ≠ Ret.ok then
        ((parse_server_hello_ext_loop env
            (with_compression s (server_hello_comp s.in_msg))
            (s.in_msg.drop (44 + server_hello_n s.in_msg))
            (server_hello_ext_len s.in_msg s.in_hslen) 0).1,
          (parse_server_hello_ext_loop env
            (with_compression s (server_hello_comp s.in_msg))
            (s.in_msg.drop (44 + server_hello_n s.in_msg))
            (server_hello_ext_len s.in_msg s.in_hslen) 0).2.1)
      else if parse_server_hello_handshake_failure
          (parse_server_hello_ext_loop env
            (with_compression s (server_hello_comp s.in_msg))
            (s.in_msg.drop (44 + server_hello_n s.in_msg))
            (server_hello_ext_len s.in_msg s.in_hslen) 0).2.1
          (parse_server_hello_ext_loop env
            (with_compression s (server_hello_comp s.in_msg))
            (s.in_msg.drop (44 + server_hello_n s.in_msg))
            (server_hello_ext_len s.in_msg s.in_hslen) 0).2.2 = 1 then
        if env.send_fatal_handshake_failure ≠ Ret.ok then
          (env.send_fatal_handshake_failure,
            (parse_server_hello_ext_loop env
              (with_compression s (server_hello_comp s.in_msg))
              (s.in_msg.drop (44 + server_hello_n s.in_msg))
              (server_hello_ext_len s.in_msg s.in_hslen) 0).2.1)
        else
          (Ret.BAD_HS_SERVER_HELLO,
            (parse_server_hello_ext_loop env
              (with_compression s (server_hello_comp s.in_msg))
              (s.in_msg.drop (44 + server_hello_n s.in_msg))
              (server_hello_ext_len s.in_msg s.in_hslen) 0).2.1)
      else
        (Ret.ok,
          (parse_server_hello_ext_loop env
            (with_compression s (server_hello_comp s.in_msg))
            (s.in_msg.drop (44 + server_hello_n s.in_msg))
            (server_hello_ext_len s.in_msg s.in_hslen) 0).2.1) := by
  unfold parse_server_hello_tail with_compression
  rfl

theorem tail_shift (env : Env) (s : ntbtls_t) (m : Bytes) (h : Nat)
    (e2 : server_hello_n m = server_hello_n s.in_msg)
    (e5 : server_hello_comp m = server_hello_comp s.in_msg)
    (el : ∀ (s0 : ntbtls_t) (seen : Nat),
      parse_server_hello_ext_loop env s0 (m.drop (44 + server_hello_n s.in_msg))
          (server_hello_ext_len m h) seen =
        parse_server_hello_ext_loop env s0 (s.in_msg.drop (44 + server_hello_n s.in_msg))
          (server_hello_ext_len s.in_msg s.in_hslen) seen) :
    parse_server_hello_tail env (with_in_msg s m h) =
      ((parse_server_hello_tail env s).1,
        with_in_msg (parse_server_hello_tail env s).2 m h) := by
  have hl := ext_loop_shift env m h (server_hello_ext_len s.in_msg s.in_hslen)
    (with_compression s (server_hello_comp s.in_msg))
    (s.in_msg.drop (44 + server_hello_n s.in_msg)) 0
  rw [← el] at hl
  rw [tail_unfold env (with_in_msg s m h), tail_unfold env s]
  have a1 : (with_in_msg s m h).in_msg = m := rfl
  have a2 : (with_in_msg s m h).in_hslen = h := rfl
  have a3 : (with_in_msg s m h).ciphersuite_list = s.ciphersuite_list := rfl
  have a4 : (with_in_msg s m h).minor_ver = s.minor_ver := rfl
  have a5 : (with_in_msg s m h).session_negotiate = s.session_negotiate := rfl
  have a6 : with_compression (with_in_msg s m h) (server_hello_comp s.in_msg) =
      with_in_msg (with_compression s (server_hello_comp s.in_msg)) m h := rfl
  rw [a1, a2, a3, a4, a5, e2, e5, a6, hl, ← el]
  generalize parse_server_hello_ext_loop env
    (with_compression s (server_hello_comp s.in_msg))
    (m.drop (44 + server_hello_n s.in_msg)) (server_hello_ext_len m h) 0 = r
  have a7 : parse_server_hello_handshake_failure (with_in_msg r.2.1 m h) r.2.2 =
      parse_server_hello_handshake_failure r.2.1 r.2.2 := rfl
  simp only [a7]
  split_ifs <;> rfl

theorem server_hello_stripped_layout (buf : Bytes) :
    ∃ hdr : Bytes,
      hdr.length = 42 + server_hello_n buf ∧
      server_hello_stripped buf =
        hdr ++ be16_bytes (server_hello_strip buf).length ++ server_hello_strip buf ∧
      rd hdr 0 = rd buf 0 ∧
      ∀ k, 4 ≤ k → k < 42 + server_hello_n buf → rd hdr k = rd buf k := by
  refine ⟨[rd buf 0,
      u8 ((40 + server_hello_n buf + (server_hello_strip buf).length) >>> 16),
      u8 ((40 + server_hello_n buf + (server_hello_strip buf).length) >>> 8),
      u8 (40 + server_hello_n buf + (server_hello_strip buf).length)]
      ++ rdn (buf.drop 4) (38 + server_hello_n buf), ?_, rfl, ?_, ?_⟩
  · rw [List.length_append, rdn_length]
    simp only [List.length_cons, List.length_nil]
    omega
  · have h := rd_lt buf 0
    simp only [rd, List.cons_append, List.getD_cons_zero] at h ⊢
    omega
  · intro k h4 hk
    have e : k = ([rd buf 0,
        u8 ((40 + server_hello_n buf + (server_hello_strip buf).length) >>> 16),
        u8 ((40 + server_hello_n buf + (server_hello_strip buf).length) >>> 8),
        u8 (40 + server_hello_n buf + (server_hello_strip buf).length)] : Bytes).length
        + (k - 4) := by
      simp only [List.length_cons, List.length_nil]
      omega
    rw [e, rd_append_right, rd_rdn _ _ _ (by omega), rd_drop]
    simp only [List.length_cons, List.length_nil]

theorem server_hello_stripped_facts (buf : Bytes) :
    rd (server_hello_stripped buf) 0 = rd buf 0 ∧
    (∀ k, 4 ≤ k → k < 42 + server_hello_n buf →
      rd (server_hello_stripped buf) k = rd buf k) ∧
    server_hello_n (server_hello_stripped buf) = server_hello_n buf ∧
    server_hello_ext_field (server_hello_stripped buf) =
      (server_hello_strip buf).length % 65536 ∧
    (server_hello_stripped buf).drop (44 + server_hello_n buf) = server_hello_strip buf := by
  obtain ⟨hdr, hlen, heq, h0, hk⟩ := server_hello_stripped_layout buf
  have f1 : ∀ k, k < 42 + server_hello_n buf →
      rd (server_hello_stripped buf) k = rd hdr k := by
    intro k hlt
    rw [heq, List.append_assoc, rd_append_left _ _ _ (by omega)]
  have fn : server_hello_n (server_hello_stripped buf) = server_hello_n buf := by
    unfold server_hello_n
    rw [f1 38 (by omega), hk 38 (by omega) (by omega)]
  refine ⟨by rw [f1 0 (by omega), h0], fun k h4 hlt => by rw [f1 k hlt, hk k h4 hlt], fn,
    ?_, ?_⟩
  · unfold server_hello_ext_field
    rw [fn]
    have e1 : 42 + server_hello_n buf = hdr.length + 0 := by omega
    have e2 : 43 + server_hello_n buf = hdr.length + 1 := by omega
    rw [heq, List.append_assoc, e1, rd_append_right, e2, rd_append_right,
      rd_append_left _ _ _ (by simp [be16_bytes]), rd_append_left _ _ _ (by simp [be16_bytes])]
    simp only [be16_bytes, rd, List.getD_cons_succ, List.getD_cons_zero]
    exact be16_decode_mod _
  · rw [heq]
    have e : 44 + server_hello_n buf =
        (hdr ++ be16_bytes (server_hello_strip buf).length).length := by
      simp only [List.length_append, be16_bytes, List.length_cons, List.length_nil]
      omega
    rw [e, List.drop_left]

theorem parse_server_hello_unfold (env : Env) (ssl : ntbtls_t) :
    parse_server_hello env ssl =
      if (_ntbtls_read_record env ssl).1 ≠ Ret.ok then _ntbtls_read_record env ssl
      else if (parse_server_hello_version (_ntbtls_read_record env ssl).2).1 ≠ Ret.ok then
        parse_server_hello_version (_ntbtls_read_record env ssl).2
      else if (parse_server_hello_fields env
          (parse_server_hello_version (_ntbtls_read_record env ssl).2).2).1 ≠ Ret.ok then
        parse_server_hello_fields env
          (parse_server_hello_version (_ntbtls_read_record env ssl).2).2
      else if (parse_server_hello_resume env (parse_server_hello_fields env
          (parse_server_hello_version (_ntbtls_read_record env ssl).2).2).2).1 ≠ Ret.ok then
        parse_server_hello_resume env (parse_server_hello_fields env
          (parse_server_hello_version (_ntbtls_read_record env ssl).2).2).2
      else
        parse_server_hello_tail env (parse_server_hello_resume env
          (parse_server_hello_fields env
            (parse_server_hello_version (_ntbtls_read_record env ssl).2).2).2).2 := rfl

theorem parse_server_hello_read (env : Env) (ssl : ntbtls_t) :
    parse_server_hello env ssl =
      if env.read_record ≠ Ret.ok then (env.read_record, ssl)
      else parse_server_hello_after_read env (ctx_after_read env ssl) := by
  by_cases h : env.read_record = Ret.ok
  · rw [if_neg (not_not.mpr h), parse_server_hello_unfold, read_record_ok env ssl h]
    rfl
  · rw [if_pos h, parse_server_hello_unfold, read_record_err env ssl h, if_pos h]

theorem after_read_shift (env : Env) (s : ntbtls_t) (m : Bytes) (h : Nat)
    (e0 : rd m 0 = rd s.in_msg 0) (e4 : rd m 4 = rd s.in_msg 4)
    (e5 : rd m 5 = rd s.in_msg 5) (el : h < 42 ↔ s.in_hslen < 42)
    (e1 : ∀ i, i < 32 → rd (m.drop 6) i = rd (s.in_msg.drop 6) i)
    (e2 : server_hello_n m = server_hello_n s.in_msg)
    (e3 : bad_length m h ↔ bad_length s.in_msg s.in_hslen)
    (ei : server_hello_i m = server_hello_i s.in_msg)
    (ec : server_hello_comp m = server_hello_comp s.in_msg)
    (e6 : ∀ i, i < server_hello_n s.in_msg → rd (m.drop 39) i = rd (s.in_msg.drop 39) i)
    (eloop : ∀ (s0 : ntbtls_t) (seen : Nat),
      parse_server_hello_ext_loop env s0 (m.drop (44 + server_hello_n s.in_msg))
          (server_hello_ext_len m h) seen =
        parse_server_hello_ext_loop env s0 (s.in_msg.drop (44 + server_hello_n s.in_msg))
          (server_hello_ext_len s.in_msg s.in_hslen) seen) :
    parse_server_hello_after_read env (with_in_msg s m h) =
      ((parse_server_hello_after_read env s).1,
        with_in_msg (parse_server_hello_after_read env s).2 m h) := by
  unfold parse_server_hello_after_read
  obtain ⟨v1, v2, v3⟩ := version_shift s m h e0 e4 e5 el
  simp only []
  rw [v1]
  dsimp only
  generalize parse_server_hello_version s = rv at v2 v3 ⊢
  by_cases c1 : rv.1 ≠ Ret.ok
  · rw [if_pos c1, if_pos c1]
  rw [if_neg c1, if_neg c1]
  obtain ⟨f1, f2, f3⟩ := fields_shift env rv.2 m h (by rw [v2]; exact e1)
    (by rw [v2]; exact e2) (by rw [v2, v3]; exact e3) (by rw [v2]; exact ei)
  rw [f1]
  dsimp only
  generalize parse_server_hello_fields env rv.2 = rf at f2 f3 ⊢
  by_cases c2 : rf.1 ≠ Ret.ok
  · rw [if_pos c2, if_pos c2]
  rw [if_neg c2, if_neg c2]
  obtain ⟨r1, r2, r3⟩ := resume_shift env rf.2 m h (by rw [f2, v2]; exact e2)
    (by rw [f2, v2]; exact ei) (by rw [f2, v2]; exact ec) (by rw [f2, v2]; exact e6)
  rw [r1]
  dsimp only
  generalize parse_server_hello_resume env rf.2 = rr at r2 r3 ⊢
  by_cases c3 : rr.1 ≠ Ret.ok
  · rw [if_pos c3, if_pos c3]
  rw [if_neg c3, if_neg c3]
  exact tail_shift env rr.2 m h (by rw [r2, f2, v2]; exact e2)
    (by rw [r2, f2, v2]; exact ec) (by rw [r2, r3, f2, f3, v2, v3]; exact eloop)

theorem ext_loop_env_stripped (env : Env) (ext_len : Nat) :
    ∀ (ssl : ntbtls_t) (ext : Bytes) (seen : Nat),
      parse_server_hello_ext_loop (env_stripped env) ssl ext ext_len seen =
        parse_server_hello_ext_loop env ssl ext ext_len seen := by
  induction ext_len using Nat.strong_induction_on with
  | _ ext_len ih =>
    intro ssl ext seen
    rw [ext_loop_unfold (env_stripped env), ext_loop_unfold env]
    have hs : ∀ id buf size k, parse_server_hello_ext_switch (env_stripped env) ssl id buf
        size k = parse_server_hello_ext_switch env ssl id buf size k := fun _ _ _ _ => rfl
    simp only [hs]
    by_cases h0 : ext_len = 0
    · rw [if_pos h0, if_pos h0]
    rw [if_neg h0, if_neg h0]
    by_cases h1 : shl8_or (rd ext 2) (rd ext 3) + 4 > ext_len
    · rw [if_pos h1, if_pos h1]
    rw [if_neg h1, if_neg h1]
    by_cases h2 : (parse_server_hello_ext_switch env ssl (shl8_or (rd ext 0) (rd ext 1))
        (ext.drop 4) (shl8_or (rd ext 2) (rd ext 3)) seen).1 ≠ Ret.ok
    · rw [if_pos h2, if_pos h2]
    rw [if_neg h2, if_neg h2]
    by_cases h3 : 0 < ext_len - (4 + shl8_or (rd ext 2) (rd ext 3)) ∧
        ext_len - (4 + shl8_or (rd ext 2) (rd ext 3)) < 4
    · rw [if_pos h3, if_pos h3]
    rw [if_neg h3, if_neg h3]
    exact ih _ (by omega) _ _ _

theorem after_read_env_stripped (env : Env) (s : ntbtls_t) :
    parse_server_hello_after_read (env_stripped env) s =
      parse_server_hello_after_read env s := by
  have ht : ∀ x, parse_server_hello_tail (env_stripped env) x =
      parse_server_hello_tail env x := by
    intro x
    rw [tail_unfold (env_stripped env), tail_unfold env]
    simp only [ext_loop_env_stripped]
    rfl
  have hf : ∀ x, parse_server_hello_fields (env_stripped env) x =
      parse_server_hello_fields env x := fun _ => rfl
  have hr : ∀ x, parse_server_hello_resume (env_stripped env) x =
      parse_server_hello_resume env x := fun _ => rfl
  unfold parse_server_hello_after_read
  simp only [ht, hf, hr]

theorem parse_server_hello_stripped_eq (env : Env) (ssl : ntbtls_t)
    (hr : env.read_record = Ret.ok)
    (hl : env.in_hslen =
      44 + server_hello_n env.in_msg + server_hello_ext_field env.in_msg)
    (ht : ext_tiled (env.in_msg.drop (44 + server_hello_n env.in_msg))
      (server_hello_ext_field env.in_msg)) :
    parse_server_hello (env_stripped env) ssl =
      ((parse_server_hello env ssl).1,
        with_in_msg (parse_server_hello env ssl).2 (env_stripped env).in_msg
          (env_stripped env).in_hslen) := by
  obtain ⟨g0, gk, gn, gf, gd⟩ := server_hello_stripped_facts env.in_msg
  have hL : server_hello_ext_field env.in_msg < 65536 := shl8_or_rd_lt _ _ _
  have hS : (server_hello_strip env.in_msg).length ≤ server_hello_ext_field env.in_msg ∧
      ((server_hello_strip env.in_msg).length = 0 ∨
        4 ≤ (server_hello_strip env.in_msg).length) :=
    ext_strip_upto_length _ _ _
  have hT := ext_tiled_upto_length _ _ _ ht
  rw [Nat.mod_eq_of_lt (by omega)] at gf
  have hx : server_hello_ext_len (server_hello_stripped env.in_msg)
      (44 + server_hello_n env.in_msg + (server_hello_strip env.in_msg).length) =
      (server_hello_strip env.in_msg).length := by
    unfold server_hello_ext_field at gf
    rw [gn] at gf
    unfold server_hello_ext_len
    rw [gn, if_pos (by omega)]
    exact gf
  have hx0 : server_hello_ext_len env.in_msg env.in_hslen =
      server_hello_ext_field env.in_msg := by
    unfold server_hello_ext_len
    rw [if_pos (by omega)]
    rfl
  have hb : ¬ bad_length env.in_msg env.in_hslen := by
    unfold bad_length
    rw [hx0]
    omega
  have hb2 : ¬ bad_length (server_hello_stripped env.in_msg)
      (44 + server_hello_n env.in_msg + (server_hello_strip env.in_msg).length) := by
    unfold bad_length
    rw [hx, gn]
    omega
  have hread : ctx_after_read (env_stripped env) ssl =
      with_in_msg (ctx_after_read env ssl) (env_stripped env).in_msg
        (env_stripped env).in_hslen := rfl
  have hm : (ctx_after_read env ssl).in_msg = env.in_msg := rfl
  have hh : (ctx_after_read env ssl).in_hslen = env.in_hslen := rfl
  have hr2 : (env_stripped env).read_record = Ret.ok := hr
  have a1 : (env_stripped env).in_msg = server_hello_stripped env.in_msg := rfl
  have a2 : (env_stripped env).in_hslen =
      44 + server_hello_n env.in_msg + (server_hello_strip env.in_msg).length := rfl
  rw [parse_server_hello_read (env_stripped env), parse_server_hello_read env,
    if_neg (not_not.mpr hr), if_neg (not_not.mpr hr2), hread, after_read_env_stripped]
  apply after_read_shift
  · rw [hm, a1]; exact g0
  · rw [hm, a1]; exact gk 4 (by omega) (by omega)
  · rw [hm, a1]; exact gk 5 (by omega) (by omega)
  · rw [hh, a2]; omega
  · intro i hi
    rw [hm, a1, rd_drop, rd_drop]
    exact gk _ (by omega) (by omega)
  · rw [hm, a1]; exact gn
  · rw [hm, hh, a1, a2]
    exact ⟨fun hc => absurd hc hb2, fun hc => absurd hc hb⟩
  · rw [hm, a1]
    unfold server_hello_i
    rw [gn, gk _ (by omega) (by omega), gk _ (by omega) (by omega)]
  · rw [hm, a1]
    unfold server_hello_comp
    rw [gn, gk _ (by omega) (by omega)]
  · intro i hi
    rw [hm] at hi ⊢
    rw [a1, rd_drop, rd_drop]
    exact gk _ (by omega) (by omega)
  · intro s0 seen
    rw [hm, hh, a1, a2, gd, hx, hx0]
    exact ext_loop_strip env _ s0 _ _ seen ht

/-- C32: for every ServerHello whose length fields agree
(`in_hslen = 44 + n + ext_len`) and whose extension block is made of
entries, each with its header and payload inside the block, the entries
whose type is none of renegotiation_info, max_fragment_length,
truncated_hmac, session_ticket, ec_point_formats and ALPN are ignored:
for the message with those entries removed and the length fields adjusted
(`env_stripped`), `parse_server_hello` returns the same code and leaves the
same context; the context holds the message read in `in_msg` and `in_hslen`,
and these two fields are those of the message that was parsed. -/
theorem parse_server_hello_ignores_unknown (env : Env) (ssl : ntbtls_t)
    (hl : env.in_hslen =
      44 + server_hello_n env.in_msg + server_hello_ext_field env.in_msg)
    (ht : ext_tiled (env.in_msg.drop (44 + server_hello_n env.in_msg))
      (server_hello_ext_field env.in_msg)) :
    (parse_server_hello (env_stripped env) ssl).1 = (parse_server_hello env ssl).1 ∧
    with_in_msg (parse_server_hello (env_stripped env) ssl).2 [] 0 =
      with_in_msg (parse_server_hello env ssl).2 [] 0 ∧
    (env.read_record = Ret.ok →
      (parse_server_hello (env_stripped env) ssl).2 =
        with_in_msg (parse_server_hello env ssl).2 (server_hello_stripped env.in_msg)
          (44 + server_hello_n env.in_msg + (server_hello_strip env.in_msg).length)) ∧
    (env.read_record ≠ Ret.ok →
      (parse_server_hello (env_stripped env) ssl).2 = (parse_server_hello env ssl).2) ∧
    server_hello_n (server_hello_stripped env.in_msg) = server_hello_n env.in_msg ∧
    server_hello_ext_field (server_hello_stripped env.in_msg) =
      (server_hello_strip env.in_msg).length ∧
    (server_hello_stripped env.in_msg).drop (44 + server_hello_n env.in_msg) =
      server_hello_strip env.in_msg := by
  obtain ⟨_, _, gn, gf, gd⟩ := server_hello_stripped_facts env.in_msg
  have hL : server_hello_ext_field env.in_msg < 65536 := shl8_or_rd_lt _ _ _
  have hS : (server_hello_strip env.in_msg).length ≤ server_hello_ext_field env.in_msg :=
    (ext_strip_upto_length _ _ _).1
  rw [Nat.mod_eq_of_lt (by omega)] at gf
  by_cases hr : env.read_record = Ret.ok
  · have h := parse_server_hello_stripped_eq env ssl hr hl ht
    refine ⟨by rw [h], by rw [h]; rfl, fun _ => by rw [h]; rfl,
      fun hc => absurd hr hc, gn, gf, gd⟩
  · have hr2 : (env_stripped env).read_record ≠ Ret.ok := hr
    have h : parse_server_hello (env_stripped env) ssl = parse_server_hello env ssl := by
      rw [parse_server_hello_read (env_stripped env), parse_server_hello_read env,
        if_pos hr, if_pos hr2]
      rfl
    refine ⟨by rw [h], by rw [h], fun hc => absurd hc hr, fun _ => by rw [h], gn, gf, gd⟩

theorem parse_server_hello_unknown_ext_ok :
    (parse_server_hello env_unknown_ext ssl_plain).1 = Ret.ok := by
  simp [parse_server_hello, parse_server_hello_version, parse_server_hello_fields,
    parse_server_hello_resume, parse_server_hello_tail, parse_server_hello_ext_loop,
    parse_server_hello_ext_switch, _ntbtls_read_record, env_unknown_ext, ssl_plain,
    hello_unknown_ext, table_all, rd, shl8_or, server_hello_n, server_hello_i,
    server_hello_comp, server_hello_ext_len, parse_server_hello_find_ciphersuite,
    parse_server_hello_handshake_failure, ssl_parse_truncated_hmac_ext]

/-- Witness for C32: the ServerHello `hello_unknown_ext` carries an entry of
the unknown type 99 and an empty truncated_hmac entry; without the unknown
entry it is the ServerHello `hello_plain`, and `parse_server_hello` accepts
both. -/
theorem parse_server_hello_ignores_unknown_witness :
    server_hello_stripped env_unknown_ext.in_msg = hello_plain ∧
    (env_stripped env_unknown_ext).in_hslen = 48 ∧
    (parse_server_hello env_unknown_ext ssl_plain).1 = Ret.ok ∧
    (parse_server_hello (env_stripped env_unknown_ext) ssl_plain).1 =
      (parse_server_hello env_unknown_ext ssl_plain).1 :=
  ⟨by decide, by decide, parse_server_hello_unknown_ext_ok,
    (parse_server_hello_ignores_unknown env_unknown_ext ssl_plain (by decide)
      (by simp [ext_tiled, ext_tiled_upto, env_unknown_ext, hello_unknown_ext,
        server_hello_n, server_hello_ext_field, rd, shl8_or])).1⟩

/-! ## Extensions: the decoders accept the client's own encodings -/

theorem client_payloads (ssl : ntbtls_t) :
    (ssl.mfl_code ≠ SSL_MAX_FRAG_LEN_NONE →
      write_cli_max_fragment_length_ext ssl =
        be16_bytes TLS_EXT_MAX_FRAGMENT_LENGTH ++ [0x00, 1, u8 ssl.mfl_code]) ∧
    (ssl.trunc_hmac ≠ SSL_TRUNC_HMAC_DISABLED →
      (write_cli_truncated_hmac_ext ssl).drop 4 = []) ∧
    (write_cli_supported_point_formats_ext ssl).drop 4 =
      [1, POLARSSL_ECP_PF_UNCOMPRESSED] := by
  refine ⟨fun h => ?_, fun h => ?_, ?_⟩
  · unfold write_cli_max_fragment_length_ext
    rw [if_neg h]
  · unfold write_cli_truncated_hmac_ext
    rw [if_neg h]
    rfl
  · rfl

/-- C33: the decoders of the client accept what its encoders write, the
payload being the bytes after the 4-byte header and its length the one the
header declares.  For every `mfl_code` other than NONE (a byte) the
max_fragment_length payload, the code itself, is accepted and the context
stays; with truncated HMAC enabled the empty truncated_hmac payload is
accepted and sets `session_negotiate->trunc_hmac`; the ec_point_formats
payload `01 00` is accepted and selects the uncompressed format; and for an
ALPN list of one protocol name of 1 to 255 bytes the payload is accepted and
`alpn_chosen` is that name. -/
theorem client_encodings_accepted (ssl : ntbtls_t) :
    (ssl.mfl_code ≠ SSL_MAX_FRAG_LEN_NONE → ssl.mfl_code < 256 →
      (write_cli_max_fragment_length_ext ssl).drop 4 = [ssl.mfl_code] ∧
      ssl_parse_max_fragment_length_ext ssl ((write_cli_max_fragment_length_ext ssl).drop 4)
        (shl8_or (rd (write_cli_max_fragment_length_ext ssl) 2)
          (rd (write_cli_max_fragment_length_ext ssl) 3)) = (Ret.ok, ssl)) ∧
    (ssl.trunc_hmac ≠ SSL_TRUNC_HMAC_DISABLED →
      (write_cli_truncated_hmac_ext ssl).drop 4 = [] ∧
      ssl_parse_truncated_hmac_ext ssl ((write_cli_truncated_hmac_ext ssl).drop 4)
        (shl8_or (rd (write_cli_truncated_hmac_ext ssl) 2)
          (rd (write_cli_truncated_hmac_ext ssl) 3)) =
        (Ret.ok, { ssl with session_negotiate :=
          { ssl.session_negotiate with trunc_hmac := SSL_TRUNC_HMAC_ENABLED } })) ∧
    ((write_cli_supported_point_formats_ext ssl).drop 4 =
        [1, POLARSSL_ECP_PF_UNCOMPRESSED] ∧
      ssl_parse_supported_point_formats_ext ssl
        ((write_cli_supported_point_formats_ext ssl).drop 4)
        (shl8_or (rd (write_cli_supported_point_formats_ext ssl) 2)
          (rd (write_cli_supported_point_formats_ext ssl) 3)) =
      (Ret.ok, { ssl with handshake :=
        { ssl.handshake with ecdh_point_format := POLARSSL_ECP_PF_UNCOMPRESSED } })) ∧
    (∀ name : Bytes, ssl.alpn_list = some [name] → 1 ≤ name.length →
      name.length ≤ 255 →
      ssl_parse_alpn_ext ssl ((write_cli_alpn_ext ssl).drop 4)
        (shl8_or (rd (write_cli_alpn_ext ssl) 2) (rd (write_cli_alpn_ext ssl) 3)) =
        (Ret.ok, { ssl with alpn_chosen := some name })) := by
  obtain ⟨p1, p2, p3⟩ := client_payloads ssl
  refine ⟨fun h hb => ⟨?_, max_fragment_length_round_trip ssl h hb⟩,
    fun h => ⟨p2 h, truncated_hmac_round_trip ssl h⟩,
    ⟨p3, point_formats_round_trip ssl⟩, alpn_round_trip ssl⟩
  rw [p1 h]
  show [u8 ssl.mfl_code] = _
  unfold u8
  rw [Nat.mod_eq_of_lt hb]

/-- Witness for C33: the client `ssl_mfl` (code 1) has its
max_fragment_length payload `01` accepted, and the client that offers the
protocol name `h2` has it chosen. -/
theorem client_encodings_accepted_witness :
    ((write_cli_max_fragment_length_ext ssl_mfl).drop 4 = [1] ∧
      ssl_parse_max_fragment_length_ext ssl_mfl
        ((write_cli_max_fragment_length_ext ssl_mfl).drop 4)
        (shl8_or (rd (write_cli_max_fragment_length_ext ssl_mfl) 2)
          (rd (write_cli_max_fragment_length_ext ssl_mfl) 3)) = (Ret.ok, ssl_mfl)) ∧
    ssl_parse_alpn_ext ssl_offers_one_protocol
      ((write_cli_alpn_ext ssl_offers_one_protocol).drop 4)
      (shl8_or (rd (write_cli_alpn_ext ssl_offers_one_protocol) 2)
        (rd (write_cli_alpn_ext ssl_offers_one_protocol) 3)) =
      (Ret.ok, { ssl_offers_one_protocol with alpn_chosen := some [104, 50] }) :=
  ⟨(client_encodings_accepted ssl_mfl).1 (by decide) (by decide),
    (client_encodings_accepted ssl_offers_one_protocol).2.2.2 [104, 50] rfl (by decide)
      (by decide)⟩

/-! ## ServerHello: the accepted suite and the suites of the ClientHello -/

theorem write_client_hello_config (env : Env) (tls : ntbtls_t) :
    (write_client_hello env tls).2.ciphersuite_list = tls.ciphersuite_list ∧
    (write_client_hello_versions tls).ciphersuite_list = tls.ciphersuite_list := by
  have hv : (write_client_hello_versions tls).ciphersuite_list = tls.ciphersuite_list := by
    unfold write_client_hello_versions
    simp only []
    split_ifs <;> rfl
  refine ⟨?_, hv⟩
  unfold write_client_hello
  simp only []
  split_ifs <;> exact hv

theorem write_client_hello_ciphersuites_mem (env : Env) (t : ntbtls_t) (l : List Nat)
    (c : Nat) (ci : ssl_ciphersuite_t) (hc : c ∈ zero_terminated l)
    (hk : env.ssl_ciphersuite_from_id c = some ci)
    (h1 : ci.min_minor_ver ≤ t.max_minor_ver) (h2 : t.min_minor_ver ≤ ci.max_minor_ver) :
    c ∈ write_client_hello_ciphersuites env t l := by
  induction l with
  | nil => simp [zero_terminated] at hc
  | cons d rest ih =>
    rw [write_client_hello_ciphersuites]
    by_cases h0 : d = 0
    · simp [zero_terminated, h0] at hc
    rw [if_neg h0]
    have hm : c = d ∨ c ∈ zero_terminated rest := by
      unfold zero_terminated at hc ⊢
      rw [List.takeWhile_cons] at hc
      simp only [ne_eq, h0, not_false_eq_true, decide_True, if_true, List.mem_cons] at hc
      exact hc
    rcases hm with hm | hm
    · subst hm
      rw [hk]
      simp only []
      rw [if_neg (by omega)]
      exact List.mem_cons_self _ _
    · cases hd : env.ssl_ciphersuite_from_id d with
      | none => exact ih hm
      | some di =>
        simp only []
        split_ifs
        · exact ih hm
        · exact List.mem_cons_of_mem _ (ih hm)

theorem parse_server_hello_versioned_ok :
    (parse_server_hello env_plain (write_client_hello env_plain ssl_versioned_lists).2).1 =
      Ret.ok := by
  simp [parse_server_hello, parse_server_hello_version, parse_server_hello_fields,
    parse_server_hello_resume, parse_server_hello_tail, parse_server_hello_ext_loop,
    parse_server_hello_ext_switch, _ntbtls_read_record, env_plain, ssl_versioned_lists,
    hello_plain,
    table_all, rd, shl8_or, server_hello_n, server_hello_i, server_hello_comp,
    server_hello_ext_len, parse_server_hello_find_ciphersuite,
    parse_server_hello_handshake_failure, ssl_parse_truncated_hmac_ext,
    write_client_hello, write_client_hello_versions, write_client_hello_with_ticket,
    write_client_hello_sid_len]

theorem parse_server_hello_filtered_ok :
    (parse_server_hello env_plain_ssl3_suites
      (write_client_hello env_plain_ssl3_suites ssl_min_tls10).2).1 = Ret.ok := by
  simp [parse_server_hello, parse_server_hello_version, parse_server_hello_fields,
    parse_server_hello_resume, parse_server_hello_tail, parse_server_hello_ext_loop,
    parse_server_hello_ext_switch, _ntbtls_read_record, env_plain_ssl3_suites,
    ssl_min_tls10, hello_plain,
    table_ssl3_only, rd, shl8_or, server_hello_n, server_hello_i, server_hello_comp,
    server_hello_ext_len, parse_server_hello_find_ciphersuite,
    parse_server_hello_handshake_failure, ssl_parse_truncated_hmac_ext,
    write_client_hello, write_client_hello_versions, write_client_hello_with_ticket,
    write_client_hello_sid_len]

theorem hello_plain_suite : server_hello_i hello_plain = 0x2F := by
  decide

/-- C34, counterexample: two clients whose ServerHello `hello_plain`
(version 3.3, suite `0x002F`) is accepted by `parse_server_hello` after
`write_client_hello`, although the ClientHello did not offer the suite.  The
first client has the list `0x0035` for minor version 1, with which the
ClientHello is written, and `0x002F` for the other versions; the second has
one list for all versions, and the table gives suite `0x002F` the version
range 0..0, which does not overlap the offered range 1..3, so that the
ClientHello leaves it out. -/
theorem parse_server_hello_suite_offered_counterexample :
    (¬ ∀ (env : Env) (tls : ntbtls_t),
      (write_client_hello_with_ticket tls = true → env.f_rng = Ret.ok) →
      (parse_server_hello env (write_client_hello env tls).2).1 = Ret.ok →
      server_hello_i env.in_msg ∈ client_hello_suite_ids env tls) ∧
    (¬ ∀ (env : Env) (tls : ntbtls_t),
      (write_client_hello_with_ticket tls = true → env.f_rng = Ret.ok) →
      (∀ v w, tls.ciphersuite_list v = tls.ciphersuite_list w) →
      (parse_server_hello env (write_client_hello env tls).2).1 = Ret.ok →
      server_hello_i env.in_msg ∈ client_hello_suite_ids env tls) := by
  constructor
  · intro h
    have h1 := h env_plain ssl_versioned_lists (fun _ => rfl)
      parse_server_hello_versioned_ok
    revert h1
    decide
  · intro h
    have h1 := h env_plain_ssl3_suites ssl_min_tls10 (fun _ => rfl) (fun _ _ => rfl)
      parse_server_hello_filtered_ok
    revert h1
    decide

/-- C34, amended: every ciphersuite that `parse_server_hello` accepts, after
`write_client_hello` wrote the ClientHello from the same configuration, is
known to the ciphersuite table and is an id of the zero-terminated
`ciphersuite_list` of the negotiated minor version.  The ids written into
the ClientHello ciphersuite list are those of `ciphersuite_list` of the
version in `minor_ver` (the minimum version on an initial handshake),
filtered to known suites whose version range overlaps the offered range, and
the accepted id is one of them whenever the list of the negotiated version
is that list and the version range of the accepted suite overlaps the
offered range. -/
theorem parse_server_hello_suite_offered (env : Env) (tls : ntbtls_t)
    (hrng : write_client_hello_with_ticket tls = true → env.f_rng = Ret.ok)
    (hok : (parse_server_hello env (write_client_hello env tls).2).1 = Ret.ok) :
    env.ssl_ciphersuite_from_id (server_hello_i env.in_msg) ≠ none ∧
    server_hello_i env.in_msg ∈
      zero_terminated (tls.ciphersuite_list (rd env.in_msg 5)) ∧
    (∃ pre post,
      (write_client_hello env tls).2.out_msg =
        pre ++ ciphersuite_bytes (client_hello_suite_ids env tls) ++ post ∧
      pre.length = 41 + rd (write_client_hello env tls).2.out_msg 38) ∧
    (tls.renegotiation = SSL_INITIAL_HANDSHAKE →
      (write_client_hello_versions tls).minor_ver = tls.min_minor_ver) ∧
    (tls.ciphersuite_list (rd env.in_msg 5) =
        tls.ciphersuite_list (write_client_hello_versions tls).minor_ver →
      (∀ ci, env.ssl_ciphersuite_from_id (server_hello_i env.in_msg) = some ci →
        ci.min_minor_ver ≤ (write_client_hello_versions tls).max_minor_ver ∧
        (write_client_hello_versions tls).min_minor_ver ≤ ci.max_minor_ver) →
      server_hello_i env.in_msg ∈ client_hello_suite_ids env tls) := by
  obtain ⟨c1, c2⟩ := write_client_hello_config env tls
  obtain ⟨_, _, _, _, _, _, _, _, _, hk, s, s1, s2, s3, s4, s5, s6, hts, _⟩ :=
    parse_server_hello_ok env _ hok
  have ht := (tail_ok env s hts).1
  rw [find_ciphersuite_iff, s3, s5, s4.2.2.1, c1] at ht
  refine ⟨hk, ht, write_client_hello_suites_layout env tls hrng, fun hi => ?_,
    fun hl hv => ?_⟩
  · unfold write_client_hello_versions
    simp only []
    rw [if_pos hi]
    split_ifs <;> rfl
  · obtain ⟨ci, hci⟩ := Option.ne_none_iff_exists'.mp hk
    obtain ⟨v1, v2⟩ := hv ci hci
    unfold client_hello_suite_ids
    rw [c2]
    rw [hl] at ht
    exact List.mem_append_right _
      (write_client_hello_ciphersuites_mem env _ _ _ ci ht hci v1 v2)

/-- Witness for C34: the client `ssl_plain`, which has the list `0x002F` for
every version, accepts the ServerHello `hello_plain`, and the suite `0x002F`
is one of the ids of its ClientHello. -/
theorem parse_server_hello_suite_offered_witness :
    (parse_server_hello env_plain (write_client_hello env_plain ssl_plain).2).1 = Ret.ok ∧
    server_hello_i env_plain.in_msg ∈ client_hello_suite_ids env_plain ssl_plain :=
  have hok : (parse_server_hello env_plain
      (write_client_hello env_plain ssl_plain).2).1 = Ret.ok := by
    simp [parse_server_hello, parse_server_hello_version, parse_server_hello_fields,
      parse_server_hello_resume, parse_server_hello_tail, parse_server_hello_ext_loop,
      parse_server_hello_ext_switch, _ntbtls_read_record, env_plain, ssl_plain,
      hello_plain,
      table_all, rd, shl8_or, server_hello_n, server_hello_i, server_hello_comp,
      server_hello_ext_len, parse_server_hello_find_ciphersuite,
      parse_server_hello_handshake_failure, ssl_parse_truncated_hmac_ext,
      write_client_hello, write_client_hello_versions, write_client_hello_with_ticket,
      write_client_hello_sid_len]
  ⟨hok, (parse_server_hello_suite_offered env_plain ssl_plain (fun _ => rfl) hok).2.2.2.2
    rfl (fun ci hci => by
      have e : ci = ⟨0x2F, key_exchange_type_t.RSA, md_type_t.SHA1, 0, 3⟩ :=
        (Option.some.inj hci).symm
      subst e
      decide)⟩

/-! ## ClientHello extensions: the length field of each encoder -/

theorem well_framed_nil : well_framed [] := fun h => absurd h (by simp)

theorem well_framed_be16 (a b x : Nat) (rest : Bytes) (hx : x < 65536)
    (hl : rest.length = x) : well_framed ([a, b] ++ be16_bytes x ++ rest) := by
  intro _
  have hd := be16_decode x hx
  constructor
  · simp only [be16_bytes, List.length_append, List.length_cons, List.length_nil]
    omega
  · simp only [be16_bytes, rd, List.cons_append, List.nil_append, List.getD_cons_succ,
      List.getD_cons_zero, List.length_cons, List.length_append, List.length_nil]
    rw [hd, hl]
    omega

theorem write_supported_elliptic_curves_list_length (env : Env) (l : List Nat) :
    (write_supported_elliptic_curves_list env l).length = 2 * (zero_terminated l).length := by
  induction l with
  | nil => rfl
  | cons g rest ih =>
    rw [write_supported_elliptic_curves_list]
    unfold zero_terminated at ih ⊢
    by_cases h0 : g = 0
    · simp [h0]
    · rw [if_neg h0, List.takeWhile_cons]
      simp only [ne_eq, h0, not_false_eq_true, decide_True, if_true, List.length_cons,
        List.length_append, List.length_nil, ih]
      omega

theorem write_cli_alpn_list_length (l : List Bytes) (h : ∀ name ∈ l, name.length < 256) :
    (write_cli_alpn_list l).length = (l.map fun name => 1 + name.length).sum := by
  induction l with
  | nil => rfl
  | cons c rest ih =>
    have hc : c.length < 256 := h c (List.mem_cons_self _ _)
    have e : u8 (c.length &&& 0xFF) = c.length := by
      have h1 : c.length &&& 0xFF = c.length % 256 := Nat.and_pow_two_sub_one_eq_mod _ 8
      unfold u8
      rw [h1]
      omega
    rw [write_cli_alpn_list, e, List.map_cons, List.sum_cons,
      ← ih (fun n hn => h n (List.mem_cons_of_mem _ hn))]
    simp only [List.length_append, List.length_cons, List.length_nil, rdn_length]

theorem write_hostname_ext_framed (ssl : ntbtls_t) (h : ssl.hostname_len + 5 < 65536) :
    well_framed (write_hostname_ext ssl) := by
  unfold write_hostname_ext
  cases ssl.hostname with
  | none => exact well_framed_nil
  | some hostname =>
    simp only []
    have e : be16_bytes TLS_EXT_SERVERNAME ++ be16_bytes (ssl.hostname_len + 5)
        ++ be16_bytes (ssl.hostname_len + 3) ++ [u8 (TLS_EXT_SERVERNAME &&& 0xFF)]
        ++ be16_bytes ssl.hostname_len ++ rdn hostname ssl.hostname_len =
        [u8 ((TLS_EXT_SERVERNAME >>> 8) &&& 0xFF), u8 (TLS_EXT_SERVERNAME &&& 0xFF)]
          ++ be16_bytes (ssl.hostname_len + 5)
          ++ (be16_bytes (ssl.hostname_len + 3) ++ [u8 (TLS_EXT_SERVERNAME &&& 0xFF)]
            ++ be16_bytes ssl.hostname_len ++ rdn hostname ssl.hostname_len) := by
      simp only [be16_bytes, List.append_assoc, List.cons_append, List.nil_append]
    rw [e]
    apply well_framed_be16 _ _ _ _ h
    simp only [be16_bytes, List.length_append, List.length_cons, List.length_nil, rdn_length]
    omega

theorem write_cli_renegotiation_ext_framed (ssl : ntbtls_t)
    (h : ssl.verify_data_len + 1 < 256) : well_framed (write_cli_renegotiation_ext ssl) := by
  unfold write_cli_renegotiation_ext
  split_ifs
  · exact well_framed_nil
  · intro _
    have h1 : (ssl.verify_data_len + 1) &&& 0xFF = (ssl.verify_data_len + 1) % 256 :=
      Nat.and_pow_two_sub_one_eq_mod _ 8
    constructor
    · simp only [be16_bytes, List.length_append, List.length_cons, List.length_nil]
      omega
    · simp only [be16_bytes, rd, List.cons_append, List.nil_append, List.getD_cons_succ,
        List.getD_cons_zero, List.length_cons, List.length_append, List.length_nil,
        rdn_length]
      rw [shl8_or_eq _ _ (Nat.mod_lt _ (by omega)), h1]
      unfold u8
      omega

theorem write_signature_algorithms_ext_framed (ssl : ntbtls_t) :
    well_framed (write_signature_algorithms_ext ssl) := by
  unfold write_signature_algorithms_ext
  split_ifs
  · exact well_framed_nil
  · intro _
    decide

theorem write_supported_elliptic_curves_ext_framed (env : Env) (ssl : ntbtls_t)
    (h : 2 * (zero_terminated ssl.curve_list).length + 2 < 65536) :
    well_framed (write_supported_elliptic_curves_ext env ssl) := by
  have hl := write_supported_elliptic_curves_list_length env ssl.curve_list
  unfold write_supported_elliptic_curves_ext
  simp only []
  generalize write_supported_elliptic_curves_list env ssl.curve_list = cl at hl ⊢
  split_ifs
  · exact well_framed_nil
  · have e : be16_bytes TLS_EXT_SUPPORTED_ELLIPTIC_CURVES ++ be16_bytes (cl.length + 2)
        ++ be16_bytes cl.length ++ cl =
        [u8 ((TLS_EXT_SUPPORTED_ELLIPTIC_CURVES >>> 8) &&& 0xFF),
          u8 (TLS_EXT_SUPPORTED_ELLIPTIC_CURVES &&& 0xFF)]
          ++ be16_bytes (cl.length + 2) ++ (be16_bytes cl.length ++ cl) := by
      simp only [be16_bytes, List.append_assoc, List.cons_append, List.nil_append]
    rw [e]
    apply well_framed_be16 _ _ _ _ (by omega)
    simp only [be16_bytes, List.length_append, List.length_cons, List.length_nil]
    omega

theorem write_cli_session_ticket_ext_framed (ssl : ntbtls_t)
    (h : ssl.session_negotiate.ticket_len < 65536)
    (hn : ssl.session_negotiate.ticket = none → ssl.session_negotiate.ticket_len = 0) :
    well_framed (write_cli_session_ticket_ext ssl) := by
  unfold write_cli_session_ticket_ext
  simp only []
  by_cases h0 : ssl.session_tickets = SSL_SESSION_TICKETS_DISABLED
  · rw [if_pos h0]
    exact well_framed_nil
  · rw [if_neg h0]
    have hopt : ssl.session_negotiate.ticket = none ∨
        ∃ t, ssl.session_negotiate.ticket = some t := by
      cases ssl.session_negotiate.ticket with
      | none => exact Or.inl rfl
      | some t => exact Or.inr ⟨t, rfl⟩
    rcases hopt with hnone | ⟨t, ht⟩
    · rw [hnone, hn hnone]
      intro _
      decide
    · rw [ht]
      simp only []
      by_cases hz : ssl.session_negotiate.ticket_len = 0
      · rw [if_pos hz, hz]
        intro _
        decide
      · rw [if_neg hz]
        have e : be16_bytes TLS_EXT_SESSION_TICKET
            ++ be16_bytes ssl.session_negotiate.ticket_len
            ++ rdn t ssl.session_negotiate.ticket_len =
            [u8 ((TLS_EXT_SESSION_TICKET >>> 8) &&& 0xFF),
              u8 (TLS_EXT_SESSION_TICKET &&& 0xFF)]
              ++ be16_bytes ssl.session_negotiate.ticket_len
              ++ rdn t ssl.session_negotiate.ticket_len := rfl
        rw [e]
        exact well_framed_be16 _ _ _ _ h (rdn_length _ _)

theorem write_cli_alpn_ext_framed (ssl : ntbtls_t) (l : List Bytes)
    (hl : ssl.alpn_list = some l) (hn : ∀ name ∈ l, name.length < 256)
    (h : (l.map fun name => 1 + name.length).sum + 2 < 65536) :
    well_framed (write_cli_alpn_ext ssl) := by
  have hlen := write_cli_alpn_list_length l hn
  unfold write_cli_alpn_ext
  rw [hl]
  simp only []
  generalize write_cli_alpn_list l = names at hlen ⊢
  have e : be16_bytes TLS_EXT_ALPN ++ be16_bytes (6 + names.length - 4)
      ++ be16_bytes (6 + names.length - 6) ++ names =
      [u8 ((TLS_EXT_ALPN >>> 8) &&& 0xFF), u8 (TLS_EXT_ALPN &&& 0xFF)]
        ++ be16_bytes (6 + names.length - 4)
        ++ (be16_bytes (6 + names.length - 6) ++ names) := by
    simp only [be16_bytes, List.append_assoc, List.cons_append, List.nil_append]
  rw [e]
  apply well_framed_be16 _ _ _ _ (by omega)
  simp only [be16_bytes, List.length_append, List.length_cons, List.length_nil]
  omega

theorem not_well_framed_head (a b c d : Nat) (rest : Bytes)
    (hx : shl8_or (c % 256) (d % 256) ≠ rest.length) :
    ¬ well_framed ([a, b, c, d] ++ rest) := by
  intro h
  have h2 := (h (by simp)).2
  simp only [rd, List.cons_append, List.nil_append, List.getD_cons_succ,
    List.getD_cons_zero, List.length_cons, List.length_append, List.length_nil] at h2
  omega

theorem not_well_framed_be16 (a b x : Nat) (rest : Bytes) (hx : x % 65536 ≠ rest.length) :
    ¬ well_framed ([a, b] ++ be16_bytes x ++ rest) := by
  intro h
  have h2 := (h (by simp [be16_bytes])).2
  simp only [be16_bytes, rd, List.cons_append, List.nil_append, List.getD_cons_succ,
    List.getD_cons_zero, List.length_cons, List.length_append, List.length_nil] at h2
  rw [be16_decode_mod] at h2
  omega

theorem write_supported_elliptic_curves_ext_wraps (env : Env) (ssl : ntbtls_t)
    (hz : (zero_terminated ssl.curve_list).length = 32767) :
    ¬ well_framed (write_supported_elliptic_curves_ext env ssl) := by
  have hl := write_supported_elliptic_curves_list_length env ssl.curve_list
  rw [hz] at hl
  unfold write_supported_elliptic_curves_ext
  simp only []
  generalize write_supported_elliptic_curves_list env ssl.curve_list = cl at hl ⊢
  rw [if_neg (by omega), hl]
  have e : be16_bytes TLS_EXT_SUPPORTED_ELLIPTIC_CURVES ++ be16_bytes (2 * 32767 + 2)
      ++ be16_bytes (2 * 32767) ++ cl =
      [u8 ((TLS_EXT_SUPPORTED_ELLIPTIC_CURVES >>> 8) &&& 0xFF),
        u8 (TLS_EXT_SUPPORTED_ELLIPTIC_CURVES &&& 0xFF)]
        ++ be16_bytes (2 * 32767 + 2) ++ (be16_bytes (2 * 32767) ++ cl) := by
    simp only [be16_bytes, List.append_assoc, List.cons_append, List.nil_append]
  rw [e]
  apply not_well_framed_be16
  simp only [be16_bytes, List.length_append, List.length_cons, List.length_nil, hl]
  omega

theorem write_cli_alpn_ext_wraps (ssl : ntbtls_t) (l : List Bytes)
    (hl : ssl.alpn_list = some l) (hn : ∀ name ∈ l, name.length < 256)
    (hs : (l.map fun name => 1 + name.length).sum = 65536) :
    ¬ well_framed (write_cli_alpn_ext ssl) := by
  have hlen := write_cli_alpn_list_length l hn
  rw [hs] at hlen
  unfold write_cli_alpn_ext
  rw [hl]
  simp only []
  generalize write_cli_alpn_list l = names at hlen ⊢
  rw [hlen]
  have e3 : be16_bytes TLS_EXT_ALPN ++ be16_bytes (6 + 65536 - 4)
      ++ be16_bytes (6 + 65536 - 6) ++ names =
      [u8 ((TLS_EXT_ALPN >>> 8) &&& 0xFF), u8 (TLS_EXT_ALPN &&& 0xFF)]
        ++ be16_bytes (6 + 65536 - 4) ++ (be16_bytes (6 + 65536 - 6) ++ names) := by
    simp only [be16_bytes, List.append_assoc, List.cons_append, List.nil_append]
  rw [e3]
  apply not_well_framed_be16
  simp only [be16_bytes, List.length_append, List.length_cons, List.length_nil, hlen]
  omega

theorem write_cli_renegotiation_ext_wraps (ssl : ntbtls_t)
    (hr : ssl.renegotiation = TLS_RENEGOTIATION) (hv : ssl.verify_data_len = 255) :
    ¬ well_framed (write_cli_renegotiation_ext ssl) := by
  unfold write_cli_renegotiation_ext
  rw [if_neg (not_not.mpr hr), hv]
  have e2 : be16_bytes TLS_EXT_RENEGOTIATION_INFO
      ++ [0x00, u8 ((255 + 1) &&& 0xFF), u8 (255 &&& 0xFF)]
      ++ rdn ssl.own_verify_data 255 =
      [u8 ((TLS_EXT_RENEGOTIATION_INFO >>> 8) &&& 0xFF),
        u8 (TLS_EXT_RENEGOTIATION_INFO &&& 0xFF), 0x00, u8 ((255 + 1) &&& 0xFF)]
        ++ ([u8 (255 &&& 0xFF)] ++ rdn ssl.own_verify_data 255) := rfl
  rw [e2]
  apply not_well_framed_head
  rw [List.length_append, rdn_length]
  decide

theorem many_protocols_short (name : Bytes)
    (hn : name ∈ List.replicate 256 (List.replicate 255 104)) : name.length < 256 := by
  rw [List.eq_of_mem_replicate hn, List.length_replicate]
  omega

/-- C35, counterexample: four configurations whose hostname, ticket and
protocol-name lengths fit their length fields and for which an encoder
reports `olen > 0` with a length field that is not `olen - 4`.  With no
ticket in store and `ticket_len = 5`, `write_cli_session_ticket_ext` writes
`00 23 00 05` and reports 4; with `verify_data_len = 255`,
`write_cli_renegotiation_ext` reports 260 and writes the length bytes
`00 00`; with 32767 curves, `write_supported_elliptic_curves_ext` reports
65540 and writes the length 0; with 256 protocol names of 255 bytes,
`write_cli_alpn_ext` reports 65542 and writes the length 2. -/
theorem client_extensions_framed_counterexample :
    (lengths_fit ssl_ticket_len_only ∧
      ¬ well_framed (write_cli_session_ticket_ext ssl_ticket_len_only)) ∧
    (lengths_fit ssl_long_verify_data ∧
      ¬ well_framed (write_cli_renegotiation_ext ssl_long_verify_data)) ∧
    (lengths_fit ssl_many_curves ∧
      ¬ well_framed (write_supported_elliptic_curves_ext env_curves_known ssl_many_curves)) ∧
    (lengths_fit ssl_many_protocols ∧
      ¬ well_framed (write_cli_alpn_ext ssl_many_protocols)) := by
  refine ⟨⟨⟨by decide, by decide, fun l hl => ?_⟩, ?_⟩, ⟨⟨by decide, by decide,
    fun l hl => ?_⟩, ?_⟩, ⟨⟨by decide, by decide, fun l hl => ?_⟩, ?_⟩,
    ⟨⟨by decide, by decide, fun l hl name hn => ?_⟩, ?_⟩⟩
  · exact absurd hl (by simp [ssl_ticket_len_only])
  · exact not_well_framed_be16 0 35 5 [] (by decide)
  · exact absurd hl (by simp [ssl_long_verify_data])
  · exact write_cli_renegotiation_ext_wraps ssl_long_verify_data rfl rfl
  · have e : ssl_many_curves.alpn_list = none := rfl
    rw [e] at hl
    exact absurd hl (by simp)
  · apply write_supported_elliptic_curves_ext_wraps
    have e : ssl_many_curves.curve_list = List.replicate 32767 1 := rfl
    rw [e]
    unfold zero_terminated
    rw [List.takeWhile_replicate, if_pos (by decide), List.length_replicate]
  · have e : ssl_many_protocols.alpn_list =
        some (List.replicate 256 (List.replicate 255 104)) := rfl
    rw [e] at hl
    have e2 := Option.some.inj hl
    subst e2
    exact many_protocols_short name hn
  · apply write_cli_alpn_ext_wraps ssl_many_protocols
      (List.replicate 256 (List.replicate 255 104)) rfl many_protocols_short
    rw [List.map_replicate, List.sum_replicate, List.length_replicate]
    rfl

/-- C35, amended: every extension emitted by the nine ClientHello extension
encoders is well framed: whenever an encoder reports `olen > 0`,
`olen >= 4` and the big-endian 16-bit length field in bytes 2..3 of its
output equals `olen - 4`, for every configuration whose lengths fit their
length fields: `hostname_len + 5 < 65536` for the hostname,
`verify_data_len + 1 < 256` for the renegotiation data, twice the number of
curves plus 2 under 65536, `ticket_len < 65536` with `ticket_len = 0` when no
ticket is in store, and each ALPN name under 256 bytes with the names and
their length bytes, plus 2, under 65536 in total. -/
theorem client_extensions_framed (env : Env) (ssl : ntbtls_t) :
    (ssl.hostname_len + 5 < 65536 → well_framed (write_hostname_ext ssl)) ∧
    (ssl.verify_data_len + 1 < 256 → well_framed (write_cli_renegotiation_ext ssl)) ∧
    well_framed (write_signature_algorithms_ext ssl) ∧
    (2 * (zero_terminated ssl.curve_list).length + 2 < 65536 →
      well_framed (write_supported_elliptic_curves_ext env ssl)) ∧
    well_framed (write_cli_supported_point_formats_ext ssl) ∧
    well_framed (write_cli_max_fragment_length_ext ssl) ∧
    well_framed (write_cli_truncated_hmac_ext ssl) ∧
    (ssl.session_negotiate.ticket_len < 65536 →
      (ssl.session_negotiate.ticket = none → ssl.session_negotiate.ticket_len = 0) →
      well_framed (write_cli_session_ticket_ext ssl)) ∧
    (∀ l, ssl.alpn_list = some l → (∀ name ∈ l, name.length < 256) →
      (l.map fun name => 1 + name.length).sum + 2 < 65536 →
      well_framed (write_cli_alpn_ext ssl)) ∧
    (ssl.alpn_list = none → well_framed (write_cli_alpn_ext ssl)) := by
  refine ⟨write_hostname_ext_framed ssl, write_cli_renegotiation_ext_framed ssl,
    write_signature_algorithms_ext_framed ssl,
    write_supported_elliptic_curves_ext_framed env ssl, ?_, ?_, ?_,
    write_cli_session_ticket_ext_framed ssl,
    fun l hl hn h => write_cli_alpn_ext_framed ssl l hl hn h, fun hl => ?_⟩
  · unfold write_cli_supported_point_formats_ext
    intro _
    decide
  · unfold write_cli_max_fragment_length_ext
    split_ifs
    · exact well_framed_nil
    · exact well_framed_be16 _ _ 1 [u8 ssl.mfl_code] (by omega) rfl
  · unfold write_cli_truncated_hmac_ext
    split_ifs
    · exact well_framed_nil
    · intro _
      decide
  · unfold write_cli_alpn_ext
    rw [hl]
    exact well_framed_nil

/-- Witness for C35: the client `ssl_all_extensions` has every extension
written, and each of the nine is well framed; the hostname extension is
`00 00 00 08 00 06 00 00 03 61 2E 62`, of 12 bytes with the length 8. -/
theorem client_extensions_framed_witness :
    write_hostname_ext ssl_all_extensions = [0, 0, 0, 8, 0, 6, 0, 0, 3, 97, 46, 98] ∧
    well_framed (write_hostname_ext ssl_all_extensions) ∧
    well_framed (write_cli_renegotiation_ext ssl_all_extensions) ∧
    well_framed (write_supported_elliptic_curves_ext env_curves_known ssl_all_extensions) ∧
    well_framed (write_cli_session_ticket_ext ssl_all_extensions) ∧
    well_framed (write_cli_alpn_ext ssl_all_extensions) :=
  have h := client_extensions_framed env_curves_known ssl_all_extensions
  ⟨by decide, h.1 (by decide), h.2.1 (by decide), h.2.2.2.1 (by decide),
    h.2.2.2.2.2.2.2.1 (by decide) (fun hn => absurd hn (by decide)),
    h.2.2.2.2.2.2.2.2.1 [[104, 50], [104, 51]] rfl (by decide) (by decide)⟩

/-! ## ServerHello: the extension loop ends and the entries tile the block -/

theorem size_t_sub_exact (w a b : Nat) (ha : a < 2 ^ w) (hb : b ≤ a) :
    size_t_sub w a b = a - b := by
  unfold size_t_sub
  rw [Nat.mod_eq_of_lt (show b < 2 ^ w by omega)]
  have e : a + 2 ^ w - b = (a - b) + 2 ^ w := by omega
  rw [e, Nat.add_mod_right]
  exact Nat.mod_eq_of_lt (by omega)

theorem parse_server_hello_ext_body_exact (w : Nat) (env : Env) (ssl : ntbtls_t)
    (ext : Bytes) (ext_len seen : Nat) (hw : ext_len < 2 ^ w) :
    parse_server_hello_ext_body w env ssl ext ext_len seen =
      if shl8_or (rd ext 2) (rd ext 3) + 4 > ext_len then
        Sum.inl (Ret.BAD_HS_SERVER_HELLO, ssl, seen)
      else if (parse_server_hello_ext_switch env ssl (shl8_or (rd ext 0) (rd ext 1))
          (ext.drop 4) (shl8_or (rd ext 2) (rd ext 3)) seen).1 ≠ Ret.ok then
        Sum.inl (parse_server_hello_ext_switch env ssl (shl8_or (rd ext 0) (rd ext 1))
          (ext.drop 4) (shl8_or (rd ext 2) (rd ext 3)) seen)
      else if 0 < ext_len - (4 + shl8_or (rd ext 2) (rd ext 3)) ∧
          ext_len - (4 + shl8_or (rd ext 2) (rd ext 3)) < 4 then
        Sum.inl (Ret.BAD_HS_SERVER_HELLO,
          (parse_server_hello_ext_switch env ssl (shl8_or (rd ext 0) (rd ext 1))
            (ext.drop 4) (shl8_or (rd ext 2) (rd ext 3)) seen).2.1,
          (parse_server_hello_ext_switch env ssl (shl8_or (rd ext 0) (rd ext 1))
            (ext.drop 4) (shl8_or (rd ext 2) (rd ext 3)) seen).2.2)
      else
        Sum.inr ((parse_server_hello_ext_switch env ssl (shl8_or (rd ext 0) (rd ext 1))
            (ext.drop 4) (shl8_or (rd ext 2) (rd ext 3)) seen).2.1,
          ext.drop (4 + shl8_or (rd ext 2) (rd ext 3)),
          ext_len - (4 + shl8_or (rd ext 2) (rd ext 3)),
          (parse_server_hello_ext_switch env ssl (shl8_or (rd ext 0) (rd ext 1))
            (ext.drop 4) (shl8_or (rd ext 2) (rd ext 3)) seen).2.2) := by
  unfold parse_server_hello_ext_body
  simp only []
  by_cases hg : shl8_or (rd ext 2) (rd ext 3) + 4 > ext_len
  · rw [if_pos hg, if_pos hg]
  · rw [if_neg hg, if_neg hg, size_t_sub_exact w ext_len _ hw (by omega)]

theorem parse_server_hello_ext_body_continues (w : Nat) (env : Env) (ssl : ntbtls_t)
    (ext : Bytes) (ext_len seen : Nat) (hw : ext_len < 2 ^ w)
    (s : ntbtls_t) (e : Bytes) (l k : Nat)
    (h : parse_server_hello_ext_body w env ssl ext ext_len seen = Sum.inr (s, e, l, k)) :
    4 + shl8_or (rd ext 2) (rd ext 3) ≤ ext_len ∧
    l = ext_len - (4 + shl8_or (rd ext 2) (rd ext 3)) ∧
    e = ext.drop (4 + shl8_or (rd ext 2) (rd ext 3)) ∧
    (l = 0 ∨ 4 ≤ l) := by
  rw [parse_server_hello_ext_body_exact w env ssl ext ext_len seen hw] at h
  split_ifs at h with h1 h2 h3
  have h4 := Sum.inr.inj h
  simp only [Prod.mk.injEq] at h4
  obtain ⟨_, he, hl, _⟩ := h4
  refine ⟨by omega, hl.symm, he.symm, ?_⟩
  omega

theorem parse_server_hello_ext_while_ends (w : Nat) (env : Env) (fuel : Nat) :
    ∀ (ssl : ntbtls_t) (ext : Bytes) (ext_len seen : Nat),
      ext_len < 2 ^ w → ext_len < 4 * fuel →
      parse_server_hello_ext_while w env fuel ssl ext ext_len seen =
        some (parse_server_hello_ext_loop env ssl ext ext_len seen) := by
  induction fuel with
  | zero =>
    intro ssl ext ext_len seen _ h
    omega
  | succ fuel ih =>
    intro ssl ext ext_len seen hw hf
    rw [parse_server_hello_ext_while, ext_loop_unfold]
    by_cases h0 : ext_len = 0
    · rw [if_pos h0, if_pos h0]
    rw [if_neg h0, if_neg h0, parse_server_hello_ext_body_exact w env ssl ext ext_len seen hw]
    by_cases h1 : shl8_or (rd ext 2) (rd ext 3) + 4 > ext_len
    · rw [if_pos h1, if_pos h1]
    rw [if_neg h1, if_neg h1]
    by_cases h2 : (parse_server_hello_ext_switch env ssl (shl8_or (rd ext 0) (rd ext 1))
        (ext.drop 4) (shl8_or (rd ext 2) (rd ext 3)) seen).1 ≠ Ret.ok
    · rw [if_pos h2, if_pos h2]
    rw [if_neg h2, if_neg h2]
    by_cases h3 : 0 < ext_len - (4 + shl8_or (rd ext 2) (rd ext 3)) ∧
        ext_len - (4 + shl8_or (rd ext 2) (rd ext 3)) < 4
    · rw [if_pos h3, if_pos h3]
    rw [if_neg h3, if_neg h3]
    exact ih _ _ _ _ (by omega) (by omega)

theorem ext_entry_sizes_upto_sum (env : Env) (fuel : Nat) :
    ∀ (ssl : ntbtls_t) (ext : Bytes) (ext_len seen : Nat),
      ext_len ≤ fuel →
      (parse_server_hello_ext_loop env ssl ext ext_len seen).1 = Ret.ok →
      ((ext_entry_sizes_upto fuel ext ext_len).map fun s => 4 + s).sum = ext_len := by
  induction fuel with
  | zero =>
    intro ssl ext ext_len seen h _
    rw [ext_entry_sizes_upto]
    simp only [List.map_nil, List.sum_nil]
    omega
  | succ fuel ih =>
    intro ssl ext ext_len seen hf hok
    rw [ext_loop_unfold] at hok
    rw [ext_entry_sizes_upto]
    by_cases h0 : ext_len = 0
    · rw [if_pos h0]
      simp only [List.map_nil, List.sum_nil]
      omega
    rw [if_neg h0] at hok ⊢
    by_cases h1 : shl8_or (rd ext 2) (rd ext 3) + 4 > ext_len
    · rw [if_pos h1] at hok
      exact absurd hok (by simp)
    rw [if_neg h1] at hok ⊢
    by_cases h2 : (parse_server_hello_ext_switch env ssl (shl8_or (rd ext 0) (rd ext 1))
        (ext.drop 4) (shl8_or (rd ext 2) (rd ext 3)) seen).1 ≠ Ret.ok
    · rw [if_pos h2] at hok
      exact absurd hok h2
    rw [if_neg h2] at hok
    by_cases h3 : 0 < ext_len - (4 + shl8_or (rd ext 2) (rd ext 3)) ∧
        ext_len - (4 + shl8_or (rd ext 2) (rd ext 3)) < 4
    · rw [if_pos h3] at hok
      exact absurd hok (by simp)
    rw [if_neg h3] at hok
    rw [List.map_cons, List.sum_cons, ih _ _ _ _ (by omega) hok]
    omega

/-- C36: the extension loop of `parse_server_hello` ends for every extension
block.  With `size_t` of `w` bits and `ext_len` a value of that type: a pass
through the body either returns or goes on with `ext_len` decreased by
`4 + ext_size`, which is at least 4 and at most `ext_len`, so that the
unsigned subtraction does not wrap and the new `ext_len` is smaller; the
loop run for `fuel` passes, `ext_len < 4 * fuel`, has ended and gives the
result of `parse_server_hello_ext_loop`, and 16384 passes are enough for the
16-bit length that `parse_server_hello` reads; and when the loop ends
without error, the sum of `4 + ext_size` over the entries of the block is
`ext_len`. -/
theorem parse_server_hello_ext_loop_ends (w : Nat) (env : Env) (ssl : ntbtls_t)
    (ext : Bytes) (ext_len seen : Nat) (hw : ext_len < 2 ^ w) :
    (∀ (s : ntbtls_t) (e : Bytes) (l k : Nat),
      parse_server_hello_ext_body w env ssl ext ext_len seen = Sum.inr (s, e, l, k) →
      4 ≤ 4 + shl8_or (rd ext 2) (rd ext 3) ∧
      4 + shl8_or (rd ext 2) (rd ext 3) ≤ ext_len ∧
      l + (4 + shl8_or (rd ext 2) (rd ext 3)) = ext_len ∧
      l < ext_len ∧ (l = 0 ∨ 4 ≤ l)) ∧
    (∀ fuel, ext_len < 4 * fuel →
      parse_server_hello_ext_while w env fuel ssl ext ext_len seen =
        some (parse_server_hello_ext_loop env ssl ext ext_len seen)) ∧
    (∀ (buf : Bytes) (in_hslen : Nat), 16 ≤ w →
      parse_server_hello_ext_while w env 16384 ssl ext
          (server_hello_ext_len buf in_hslen) seen =
        some (parse_server_hello_ext_loop env ssl ext
          (server_hello_ext_len buf in_hslen) seen)) ∧
    ((parse_server_hello_ext_loop env ssl ext ext_len seen).1 = Ret.ok →
      ((ext_entry_sizes ext ext_len).map fun s => 4 + s).sum = ext_len) := by
  refine ⟨fun s e l k h => ?_, fun fuel hf =>
    parse_server_hello_ext_while_ends w env fuel ssl ext ext_len seen hw hf,
    fun buf in_hslen h16 => ?_,
    fun hok => ext_entry_sizes_upto_sum env ext_len ssl ext ext_len seen (le_refl _) hok⟩
  · obtain ⟨h1, h2, _, h4⟩ :=
      parse_server_hello_ext_body_continues w env ssl ext ext_len seen hw s e l k h
    refine ⟨by omega, h1, by omega, by omega, h4⟩
  · have hlt : server_hello_ext_len buf in_hslen < 65536 := by
      unfold server_hello_ext_len
      split_ifs
      · exact shl8_or_rd_lt _ _ _
      · omega
    have hp : (65536 : Nat) ≤ 2 ^ w :=
      le_trans (show (65536 : Nat) = 2 ^ 16 from rfl).le (Nat.pow_le_pow_right (by omega) h16)
    exact parse_server_hello_ext_while_ends w env 16384 ssl ext _ seen (by omega) (by omega)

theorem ext_loop_two_entries :
    (parse_server_hello_ext_loop {} ssl_plain [0, 99, 0, 2, 1, 2, 0, 4, 0, 0] 10 0).1 =
      Ret.ok := by
  simp [parse_server_hello_ext_loop, parse_server_hello_ext_switch, ssl_plain, rd, shl8_or,
    ssl_parse_truncated_hmac_ext]

/-- Witness for C36: the block `00 63 00 02 01 02 00 04 00 00` of 10 bytes
holds an entry of an unknown type with 2 bytes of payload and an empty
truncated_hmac entry; with `size_t` of 64 bits the loop has ended after 3
passes, and the entry sizes 2 and 0 give `6 + 4 = 10`. -/
theorem parse_server_hello_ext_loop_ends_witness :
    parse_server_hello_ext_while 64 {} 3 ssl_plain [0, 99, 0, 2, 1, 2, 0, 4, 0, 0] 10 0 =
      some (parse_server_hello_ext_loop {} ssl_plain [0, 99, 0, 2, 1, 2, 0, 4, 0, 0] 10 0) ∧
    ext_entry_sizes [0, 99, 0, 2, 1, 2, 0, 4, 0, 0] 10 = [2, 0] ∧
    ((ext_entry_sizes [0, 99, 0, 2, 1, 2, 0, 4, 0, 0] 10).map fun s => 4 + s).sum = 10 :=
  ⟨(parse_server_hello_ext_loop_ends 64 {} ssl_plain [0, 99, 0, 2, 1, 2, 0, 4, 0, 0] 10 0
      (by decide)).2.1 3 (by decide),
    by decide,
    (parse_server_hello_ext_loop_ends 64 {} ssl_plain [0, 99, 0, 2, 1, 2, 0, 4, 0, 0] 10 0
      (by decide)).2.2.2 ext_loop_two_entries⟩

/-! ## ServerKeyExchange: the length of the signature -/

theorem parse_server_key_exchange_after_params (env : Env) (ssl s : ntbtls_t)
    (ci : ssl_ciphersuite_t) (p : Nat)
    (hci : ssl.ciphersuite_info = some ci)
    (hkx : ci.key_exchange = key_exchange_type_t.DHE_RSA ∨
      ci.key_exchange = key_exchange_type_t.ECDHE_RSA ∨
      ci.key_exchange = key_exchange_type_t.ECDHE_ECDSA)
    (hr : env.read_record = Ret.ok) (hm : env.in_msgtype = TLS_MSG_HANDSHAKE)
    (ht : rd env.in_msg 0 = TLS_HS_SERVER_KEY_EXCHANGE)
    (hp : parse_server_key_exchange_params env (ctx_after_read env ssl) ci.key_exchange 4
      env.in_hslen = (Ret.ok, s, p)) :
    kex_frame s (ctx_after_read env ssl) ∧
    parse_server_key_exchange env ssl =
      if parse_server_key_exchange_signature env s ci p env.in_hslen ≠ Ret.ok then
        (parse_server_key_exchange_signature env s ci p env.in_hslen, s)
      else (Ret.ok, { s with state := s.state + 1 }) := by
  have h1 : ci.key_exchange ≠ key_exchange_type_t.RSA := by
    rcases hkx with h | h | h <;> rw [h] <;> simp
  have h2 : ¬ (ci.key_exchange = key_exchange_type_t.ECDH_RSA ∨
      ci.key_exchange = key_exchange_type_t.ECDH_ECDSA) := by
    rcases hkx with h | h | h <;> rw [h] <;> simp
  have hf := parse_server_key_exchange_params_frame env (ctx_after_read env ssl)
    ci.key_exchange 4 env.in_hslen
  rw [hp] at hf
  refine ⟨hf, ?_⟩
  rw [parse_server_key_exchange_reads env ssl ci hci h1 h2 hr]
  exact parse_server_key_exchange_message_signed env (ctx_after_read env ssl) s ci p hkx
    hm ht hp

theorem parse_server_key_exchange_signature_length (env : Env) (s : ntbtls_t)
    (ci : ssl_ciphersuite_t) (p e : Nat) (hver : s.minor_ver = SSL_MINOR_VERSION_3) :
    (parse_server_key_exchange_signature env s ci p e = Ret.ok →
      e = p + 4 + shl8_or (rd s.in_msg (p + 2)) (rd s.in_msg (p + 3))) ∧
    (e ≠ p + 4 + shl8_or (rd s.in_msg (p + 2)) (rd s.in_msg (p + 3)) →
      parse_server_key_exchange_signature env s ci p e = Ret.BAD_HS_SERVER_KEX) := by
  have key : e ≠ p + 4 + shl8_or (rd s.in_msg (p + 2)) (rd s.in_msg (p + 3)) →
      parse_server_key_exchange_signature env s ci p e = Ret.BAD_HS_SERVER_KEX := by
    intro hne
    by_cases hend : p + 2 ≤ e
    · rw [parse_server_key_exchange_signature_tls12 env s ci p e hver hend]
      have e1 : p + 2 + 1 = p + 3 := by omega
      have e2 : p + 2 + 2 = p + 4 := by omega
      rw [e1, e2]
      by_cases c1 : env.md_alg_from_hash (rd s.in_msg p) = md_type_t.NONE
      · rw [if_pos c1]
      rw [if_neg c1]
      by_cases c2 : env.pk_alg_from_sig (rd s.in_msg (p + 1)) = pk_type_t.NONE
      · rw [if_pos c2]
      rw [if_neg c2]
      by_cases c3 : env.pk_alg_from_sig (rd s.in_msg (p + 1)) ≠
          env.ssl_get_ciphersuite_sig_pk_alg ci
      · rw [if_pos c3]
      rw [if_neg c3, if_pos hne]
    · unfold parse_server_key_exchange_signature ssl_parse_signature_algorithm
      simp only []
      rw [if_pos hver, if_neg (not_not.mpr hver), if_pos (show p + 2 > e by omega)]
      simp only [ne_eq, reduceCtorEq, not_false_eq_true, if_true]
  refine ⟨fun hok => ?_, key⟩
  by_contra hne
  rw [key hne] at hok
  exact absurd hok (by simp)

/-- C37: for a signed suite (DHE_RSA, ECDHE_RSA, ECDHE_ECDSA) under TLS 1.2,
once the ServerKeyExchange is read and its parameters are accepted up to the
offset `p`, `parse_server_key_exchange` returns 0 only if the two bytes at
`p + 2` (the signature length, after the SignatureAndHashAlgorithm) hold
exactly the number of bytes that remain up to `in_hslen`:
`in_hslen = p + 4 + sig_len`.  With any other value, trailing bytes after the
signature as well as a signature that overruns the message, the function
returns `GPG_ERR_BAD_HS_SERVER_KEX` and the state does not advance. -/
theorem parse_server_key_exchange_signature_fills (env : Env) (ssl s : ntbtls_t)
    (ci : ssl_ciphersuite_t) (p : Nat)
    (hci : ssl.ciphersuite_info = some ci)
    (hkx : ci.key_exchange = key_exchange_type_t.DHE_RSA ∨
      ci.key_exchange = key_exchange_type_t.ECDHE_RSA ∨
      ci.key_exchange = key_exchange_type_t.ECDHE_ECDSA)
    (hver : ssl.minor_ver = SSL_MINOR_VERSION_3)
    (hr : env.read_record = Ret.ok) (hm : env.in_msgtype = TLS_MSG_HANDSHAKE)
    (ht : rd env.in_msg 0 = TLS_HS_SERVER_KEY_EXCHANGE)
    (hp : parse_server_key_exchange_params env (ctx_after_read env ssl) ci.key_exchange 4
      env.in_hslen = (Ret.ok, s, p)) :
    ((parse_server_key_exchange env ssl).1 = Ret.ok →
      env.in_hslen = p + 4 + shl8_or (rd env.in_msg (p + 2)) (rd env.in_msg (p + 3))) ∧
    (env.in_hslen ≠ p + 4 + shl8_or (rd env.in_msg (p + 2)) (rd env.in_msg (p + 3)) →
      (parse_server_key_exchange env ssl).1 = Ret.BAD_HS_SERVER_KEX ∧
      (parse_server_key_exchange env ssl).2.state = ssl.state) := by
  obtain ⟨hf, hres⟩ := parse_server_key_exchange_after_params env ssl s ci p hci hkx hr hm
    ht hp
  obtain ⟨f1, _, f3, _, _, f6⟩ := hf
  have g1 : s.in_msg = env.in_msg := f1
  have g3 : s.minor_ver = SSL_MINOR_VERSION_3 := by rw [f3]; exact hver
  have g6 : s.state = ssl.state := f6
  have hl := parse_server_key_exchange_signature_length env s ci p env.in_hslen g3
  rw [g1] at hl
  rw [hres]
  constructor
  · intro hok
    apply hl.1
    by_contra hne
    rw [if_pos hne] at hok
    exact hne hok
  · intro hne
    rw [hl.2 hne, if_pos (by simp)]
    exact ⟨rfl, g6⟩

/-- Witness for C37: the ServerKeyExchange of `env_signed` declares a
signature of 2 bytes; with `in_hslen = 15`, one byte more than the message
of 14 bytes, it is rejected with `GPG_ERR_BAD_HS_SERVER_KEX`. -/
theorem parse_server_key_exchange_signature_fills_witness :
    (parse_server_key_exchange { env_signed 4 1 Ret.ok with in_hslen := 15 }
      ssl_dhe_rsa).1 = Ret.BAD_HS_SERVER_KEX :=
  ((parse_server_key_exchange_signature_fills
    { env_signed 4 1 Ret.ok with in_hslen := 15 } ssl_dhe_rsa
    { ctx_after_read { env_signed 4 1 Ret.ok with in_hslen := 15 } ssl_dhe_rsa with
      handshake := { ssl_dhe_rsa.handshake with dhm_len := 64 } } suite_dhe_rsa 8
    rfl (Or.inl rfl) rfl rfl rfl (by simp [env_signed, server_kex_signed, rd])
    (by
      have hp := parse_server_key_exchange_params_dh
        { env_signed 4 1 Ret.ok with in_hslen := 15 }
        (ctx_after_read { env_signed 4 1 Ret.ok with in_hslen := 15 } ssl_dhe_rsa)
        key_exchange_type_t.DHE_RSA 15 (Or.inl rfl) (fun h => absurd h (by simp)) rfl
      show parse_server_key_exchange_params _ _ key_exchange_type_t.DHE_RSA 4 15 = _
      rw [hp]
      simp [env_signed, server_dh_params_offset, ctx_after_read, ssl_dhe_rsa])).2
    (by simp [env_signed, server_kex_signed, rd, shl8_or])).1

/-! ## ServerKeyExchange: a signed suite below TLS 1.2 -/

theorem parse_server_key_exchange_signature_legacy (env : Env) (s : ntbtls_t)
    (ci : ssl_ciphersuite_t) (p e : Nat) (hver : s.minor_ver ≠ SSL_MINOR_VERSION_3) :
    parse_server_key_exchange_signature env s ci p e = Ret.INTERNAL := by
  unfold parse_server_key_exchange_signature
  simp only []
  rw [if_neg hver]

theorem parse_server_key_exchange_message_legacy (env : Env) (s : ntbtls_t)
    (ci : ssl_ciphersuite_t)
    (hkx : ci.key_exchange = key_exchange_type_t.DHE_RSA ∨
      ci.key_exchange = key_exchange_type_t.ECDHE_RSA ∨
      ci.key_exchange = key_exchange_type_t.ECDHE_ECDSA)
    (hver : s.minor_ver ≠ SSL_MINOR_VERSION_3) :
    (parse_server_key_exchange_message env s ci).1 ≠ Ret.ok ∧
    (s.in_msgtype = TLS_MSG_HANDSHAKE → rd s.in_msg 0 = TLS_HS_SERVER_KEY_EXCHANGE →
      (parse_server_key_exchange_params env s ci.key_exchange 4 s.in_hslen).1 = Ret.ok →
      (parse_server_key_exchange_message env s ci).1 = Ret.INTERNAL) := by
  have hf := parse_server_key_exchange_params_frame env s ci.key_exchange 4 s.in_hslen
  have hnp : ¬ (ci.key_exchange = key_exchange_type_t.PSK ∨
      ci.key_exchange = key_exchange_type_t.RSA_PSK) := by
    rcases hkx with h | h | h <;> rw [h] <;> simp
  unfold parse_server_key_exchange_message
  simp only []
  generalize parse_server_key_exchange_params env s ci.key_exchange 4 s.in_hslen = r at hf ⊢
  have hv : r.2.1.minor_ver ≠ SSL_MINOR_VERSION_3 := by
    rw [hf.2.2.1]
    exact hver
  rw [if_pos hkx, parse_server_key_exchange_signature_legacy env r.2.1 ci r.2.2 s.in_hslen hv]
  by_cases c1 : s.in_msgtype ≠ TLS_MSG_HANDSHAKE
  · rw [if_pos c1]
    exact ⟨by simp, fun h => absurd h c1⟩
  rw [if_neg c1]
  by_cases c2 : rd s.in_msg 0 ≠ TLS_HS_SERVER_KEY_EXCHANGE
  · rw [if_pos c2, if_neg hnp]
    exact ⟨by simp, fun _ h => absurd h c2⟩
  rw [if_neg c2]
  by_cases c3 : r.1 ≠ Ret.ok
  · rw [if_pos c3]
    exact ⟨c3, fun _ _ h => absurd h c3⟩
  rw [if_neg c3, if_pos (by simp)]
  exact ⟨by simp, fun _ _ _ => rfl⟩

/-- C38: when a signed suite (DHE_RSA, ECDHE_RSA or ECDHE_ECDSA) is
negotiated with a minor version other than 3, `parse_server_key_exchange`
never returns 0 and never advances the state, whatever the record layer
delivers; when the ServerKeyExchange is read and its parameters are accepted,
the code it returns is `GPG_ERR_INTERNAL`. -/
theorem parse_server_key_exchange_signed_legacy (env : Env) (ssl : ntbtls_t)
    (ci : ssl_ciphersuite_t) (hci : ssl.ciphersuite_info = some ci)
    (hkx : ci.key_exchange = key_exchange_type_t.DHE_RSA ∨
      ci.key_exchange = key_exchange_type_t.ECDHE_RSA ∨
      ci.key_exchange = key_exchange_type_t.ECDHE_ECDSA)
    (hver : ssl.minor_ver ≠ SSL_MINOR_VERSION_3) :
    (parse_server_key_exchange env ssl).1 ≠ Ret.ok ∧
    (parse_server_key_exchange env ssl).2.state = ssl.state ∧
    (env.read_record = Ret.ok → env.in_msgtype = TLS_MSG_HANDSHAKE →
      rd env.in_msg 0 = TLS_HS_SERVER_KEY_EXCHANGE →
      (parse_server_key_exchange_params env (ctx_after_read env ssl) ci.key_exchange 4
        env.in_hslen).1 = Ret.ok →
      (parse_server_key_exchange env ssl).1 = Ret.INTERNAL) := by
  have h1 : ci.key_exchange ≠ key_exchange_type_t.RSA := by
    rcases hkx with h | h | h <;> rw [h] <;> simp
  have h2 : ci.key_exchange ≠ key_exchange_type_t.ECDH_RSA := by
    rcases hkx with h | h | h <;> rw [h] <;> simp
  have h3 : ci.key_exchange ≠ key_exchange_type_t.ECDH_ECDSA := by
    rcases hkx with h | h | h <;> rw [h] <;> simp
  have hm := parse_server_key_exchange_message_legacy env (ctx_after_read env ssl) ci hkx
    hver
  have hno : (parse_server_key_exchange env ssl).1 ≠ Ret.ok := by
    by_cases hr : env.read_record = Ret.ok
    · rw [parse_server_key_exchange_reads env ssl ci hci h1
        (by simp only [not_or]; exact ⟨h2, h3⟩) hr]
      exact hm.1
    · rw [parse_server_key_exchange_read_error env ssl ci hci h1 h2 h3 hr]
      exact hr
  refine ⟨hno, parse_server_key_exchange_state env ssl hno, fun hr a b c => ?_⟩
  rw [parse_server_key_exchange_reads env ssl ci hci h1
    (by simp only [not_or]; exact ⟨h2, h3⟩) hr]
  exact hm.2 a b c

/-- Witness for C38: the client `ssl_dhe_rsa_tls11`, which negotiated
`DHE_RSA` under TLS 1.1, gets `GPG_ERR_INTERNAL` for a ServerKeyExchange with
accepted parameters and stays in its state. -/
theorem parse_server_key_exchange_signed_legacy_witness :
    (parse_server_key_exchange (env_signed 4 1 Ret.ok) ssl_dhe_rsa_tls11).1 =
      Ret.INTERNAL ∧
    (parse_server_key_exchange (env_signed 4 1 Ret.ok) ssl_dhe_rsa_tls11).2.state =
      ssl_dhe_rsa_tls11.state := by
  have h := parse_server_key_exchange_signed_legacy (env_signed 4 1 Ret.ok)
    ssl_dhe_rsa_tls11 suite_dhe_rsa rfl (Or.inl rfl) (by decide)
  refine ⟨h.2.2 rfl rfl (by simp [env_signed, server_kex_signed, rd]) ?_, h.2.1⟩
  have hp := parse_server_key_exchange_params_dh (env_signed 4 1 Ret.ok)
    (ctx_after_read (env_signed 4 1 Ret.ok) ssl_dhe_rsa_tls11)
    key_exchange_type_t.DHE_RSA (env_signed 4 1 Ret.ok).in_hslen (Or.inl rfl)
    (fun h => absurd h (by simp)) rfl
  show (parse_server_key_exchange_params _ _ key_exchange_type_t.DHE_RSA 4 _).1 = _
  rw [hp]
  simp [env_signed, server_dh_params_offset, ctx_after_read, ssl_dhe_rsa_tls11,
    ssl_dhe_rsa]

/-! ## The ALPN extension of the ServerHello -/

theorem alpn_name_matches_iff (buf p : Bytes) :
    (rd buf 2 = p.length ∧ memeq (buf.drop 3) p (rd buf 2) = true) ↔
      alpn_name_matches buf p := by
  unfold alpn_name_matches
  rw [memeq_iff]
  constructor
  · rintro ⟨h1, h2⟩
    refine ⟨h1.symm, fun k hk => ?_⟩
    rw [← h2 k hk, rd_drop]
  · rintro ⟨h1, h2⟩
    refine ⟨h1.symm, fun k hk => ?_⟩
    rw [rd_drop, h2 k hk]

theorem ssl_parse_alpn_loop_none (ssl : ntbtls_t) (buf : Bytes) (l : List Bytes)
    (h : ∀ q, q ∈ l → ¬ alpn_name_matches buf q) :
    ssl_parse_alpn_loop ssl buf (rd buf 2) l = (Ret.BAD_HS_SERVER_HELLO, ssl) := by
  induction l with
  | nil => rfl
  | cons p rest ih =>
    rw [ssl_parse_alpn_loop, if_neg (fun hc =>
      h p (List.mem_cons_self _ _) ((alpn_name_matches_iff buf p).mp hc))]
    exact ih (fun q hq => h q (List.mem_cons_of_mem _ hq))

theorem ssl_parse_alpn_loop_first (ssl : ntbtls_t) (buf : Bytes) (pre : List Bytes)
    (p : Bytes) (post : List Bytes) (hp : alpn_name_matches buf p)
    (h : ∀ q, q ∈ pre → ¬ alpn_name_matches buf q) :
    ssl_parse_alpn_loop ssl buf (rd buf 2) (pre ++ p :: post) =
      (Ret.ok, { ssl with alpn_chosen := some p }) := by
  induction pre with
  | nil =>
    rw [List.nil_append, ssl_parse_alpn_loop,
      if_pos ((alpn_name_matches_iff buf p).mpr hp)]
  | cons q rest ih =>
    rw [List.cons_append, ssl_parse_alpn_loop, if_neg (fun hc =>
      h q (List.mem_cons_self _ _) ((alpn_name_matches_iff buf q).mp hc))]
    exact ih (fun r hr => h r (List.mem_cons_of_mem _ hr))

theorem alpn_first_match (buf : Bytes) (l : List Bytes) :
    (∀ q, q ∈ l → ¬ alpn_name_matches buf q) ∨
    ∃ pre p post, l = pre ++ p :: post ∧ alpn_name_matches buf p ∧
      ∀ q, q ∈ pre → ¬ alpn_name_matches buf q := by
  induction l with
  | nil =>
    left
    intro q hq
    simp at hq
  | cons a rest ih =>
    by_cases ha : alpn_name_matches buf a
    · right
      exact ⟨[], a, rest, rfl, ha, fun q hq => by simp at hq⟩
    · rcases ih with h | ⟨pre, p, post, e, hp, hpre⟩
      · left
        intro q hq
        rcases List.mem_cons.mp hq with e | e
        · rw [e]
          exact ha
        · exact h q e
      · right
        refine ⟨a :: pre, p, post, by rw [e]; rfl, hp, ?_⟩
        intro q hq
        rcases List.mem_cons.mp hq with e | e
        · rw [e]
          exact ha
        · exact hpre q e

theorem ssl_parse_alpn_ext_checked (ssl : ntbtls_t) (buf : Bytes) (len : Nat)
    (list : List Bytes) (hl : ssl.alpn_list = some list) :
    ssl_parse_alpn_ext ssl buf len =
      if len < 4 ∨ shl8_or (rd buf 0) (rd buf 1) ≠ len - 2 ∨
          rd buf 2 ≠ shl8_or (rd buf 0) (rd buf 1) - 1 then
        (Ret.BAD_HS_SERVER_HELLO, ssl)
      else ssl_parse_alpn_loop ssl buf (rd buf 2) list := by
  unfold ssl_parse_alpn_ext
  rw [hl]
  simp only []
  by_cases c1 : len < 4
  · rw [if_pos c1, if_pos (Or.inl c1)]
  rw [if_neg c1]
  by_cases c2 : shl8_or (rd buf 0) (rd buf 1) ≠ len - 2
  · rw [if_pos c2, if_pos (Or.inr (Or.inl c2))]
  rw [if_neg c2]
  by_cases c3 : rd buf 2 ≠ shl8_or (rd buf 0) (rd buf 1) - 1
  · rw [if_pos c3, if_pos (Or.inr (Or.inr c3))]
  rw [if_neg c3, if_neg (by
    intro hc
    rcases hc with hc | hc | hc
    · exact c1 hc
    · exact c2 hc
    · exact c3 hc)]

/-- C39: if `ssl_parse_alpn_ext` returns 0, the payload holds exactly one
protocol name (`len = 3 + name_len`, list length `len - 2`, `name_len >= 1`),
and `alpn_chosen` is the first entry of the configured `alpn_list` that has
the length and the bytes of that name.  When no configured name is the name
of the payload, or the list length of the payload is not that of its first
name alone (more than one name), or no list is configured, the function
returns `GPG_ERR_BAD_HS_SERVER_HELLO` and changes nothing. -/
theorem ssl_parse_alpn_ext_chosen (ssl : ntbtls_t) (buf : Bytes) (len : Nat) :
    ((ssl_parse_alpn_ext ssl buf len).1 = Ret.ok →
      len = 3 + rd buf 2 ∧ shl8_or (rd buf 0) (rd buf 1) = len - 2 ∧ 1 ≤ rd buf 2 ∧
      ∃ pre p post, ssl.alpn_list = some (pre ++ p :: post) ∧
        alpn_name_matches buf p ∧ (∀ q, q ∈ pre → ¬ alpn_name_matches buf q) ∧
        ssl_parse_alpn_ext ssl buf len = (Ret.ok, { ssl with alpn_chosen := some p })) ∧
    ((ssl_parse_alpn_ext ssl buf len).1 ≠ Ret.ok →
      ssl_parse_alpn_ext ssl buf len = (Ret.BAD_HS_SERVER_HELLO, ssl)) ∧
    ((∀ list, ssl.alpn_list = some list → ∀ q, q ∈ list → ¬ alpn_name_matches buf q) →
      ssl_parse_alpn_ext ssl buf len = (Ret.BAD_HS_SERVER_HELLO, ssl)) ∧
    (shl8_or (rd buf 0) (rd buf 1) ≠ 1 + rd buf 2 →
      ssl_parse_alpn_ext ssl buf len = (Ret.BAD_HS_SERVER_HELLO, ssl)) := by
  have hopt : ssl.alpn_list = none ∨ ∃ list, ssl.alpn_list = some list := by
    cases ssl.alpn_list with
    | none => exact Or.inl rfl
    | some l => exact Or.inr ⟨l, rfl⟩
  rcases hopt with hl | ⟨list, hl⟩
  · have e : ssl_parse_alpn_ext ssl buf len = (Ret.BAD_HS_SERVER_HELLO, ssl) := by
      unfold ssl_parse_alpn_ext
      rw [hl]
    rw [e]
    exact ⟨fun h => absurd h (by simp), fun _ => rfl, fun _ => rfl, fun _ => rfl⟩
  · rw [ssl_parse_alpn_ext_checked ssl buf len list hl]
    by_cases c : len < 4 ∨ shl8_or (rd buf 0) (rd buf 1) ≠ len - 2 ∨
        rd buf 2 ≠ shl8_or (rd buf 0) (rd buf 1) - 1
    · rw [if_pos c]
      exact ⟨fun h => absurd h (by simp), fun _ => rfl, fun _ => rfl, fun _ => rfl⟩
    · rw [if_neg c]
      simp only [not_or, not_lt, ne_eq, not_not] at c
      obtain ⟨c1, c2, c3⟩ := c
      rcases alpn_first_match buf list with hn | ⟨pre, p, post, e, hp, hpre⟩
      · rw [ssl_parse_alpn_loop_none ssl buf list hn]
        exact ⟨fun h => absurd h (by simp), fun _ => rfl, fun _ => rfl, fun _ => rfl⟩
      · subst e
        rw [ssl_parse_alpn_loop_first ssl buf pre p post hp hpre]
        refine ⟨fun _ => ⟨by omega, c2, by omega, pre, p, post, hl, hp, hpre, rfl⟩,
          fun h => absurd rfl h, fun h => ?_, fun h => ?_⟩
        · exact absurd hp (h (pre ++ p :: post) hl p (by simp))
        · exact absurd (show shl8_or (rd buf 0) (rd buf 1) = 1 + rd buf 2 by omega) h

/-- Witness for C39: for the configured names `h2, h3` the payload that
names `h3` is accepted, the chosen name being the first configured one that
matches; a payload with two names is rejected. -/
theorem ssl_parse_alpn_ext_chosen_witness :
    (∃ pre p post, ssl_offers_two_protocols.alpn_list = some (pre ++ p :: post) ∧
      alpn_name_matches alpn_payload_h3 p ∧
      (∀ q, q ∈ pre → ¬ alpn_name_matches alpn_payload_h3 q) ∧
      ssl_parse_alpn_ext ssl_offers_two_protocols alpn_payload_h3 5 =
        (Ret.ok, { ssl_offers_two_protocols with alpn_chosen := some p })) ∧
    (ssl_parse_alpn_ext ssl_offers_two_protocols alpn_payload_h3 5).2.alpn_chosen =
      some [104, 51] ∧
    ssl_parse_alpn_ext ssl_offers_two_protocols alpn_payload_two 8 =
      (Ret.BAD_HS_SERVER_HELLO, ssl_offers_two_protocols) :=
  ⟨((ssl_parse_alpn_ext_chosen ssl_offers_two_protocols alpn_payload_h3 5).1
      (by decide)).2.2.2,
    by decide,
    (ssl_parse_alpn_ext_chosen ssl_offers_two_protocols alpn_payload_two 8).2.2.2
      (by decide)⟩

/-! ## ClientHello: the length of the ciphersuite list -/

theorem suite_count_bytes (n : Nat) (h : n < 32768) :
    shl8_or (u8 (n >>> 7)) (u8 (n <<< 1)) = 2 * n := by
  have hlo : u8 (n <<< 1) < 256 := by
    unfold u8
    omega
  rw [shl8_or_eq _ _ hlo]
  unfold u8
  rw [Nat.shiftRight_eq_div_pow, Nat.shiftLeft_eq]
  omega

theorem ciphersuite_bytes_length (ids : List Nat) :
    (ciphersuite_bytes ids).length = 2 * ids.length := by
  induction ids with
  | nil => rfl
  | cons c rest ih =>
    rw [ciphersuite_bytes, List.length_append, ih]
    simp only [List.length_cons, List.length_nil]
    omega

theorem write_client_hello_rest_count (env : Env) (t : ntbtls_t) (n : Nat) :
    ∃ (ids : List Nat) (tail : Bytes),
      ids = (if t.renegotiation = SSL_INITIAL_HANDSHAKE then
              [SSL_EMPTY_RENEGOTIATION_INFO] else []) ++
            write_client_hello_ciphersuites env t (t.ciphersuite_list t.minor_ver) ∧
      write_client_hello_rest env t n =
        ([u8 n] ++ rdn t.session_negotiate.id n) ++
          ([u8 (ids.length >>> 7), u8 (ids.length <<< 1)] ++ tail) := by
  unfold write_client_hello_rest
  simp only []
  exact ⟨_, _ ++ _, rfl, by simp only [List.append_assoc]; rfl⟩

theorem write_client_hello_count_bytes (env : Env) (tls : ntbtls_t)
    (hrng : write_client_hello_with_ticket tls = true → env.f_rng = Ret.ok) :
    rd (write_client_hello env tls).2.out_msg
        (39 + rd (write_client_hello env tls).2.out_msg 38) =
      u8 ((client_hello_suite_ids env tls).length >>> 7) ∧
    rd (write_client_hello env tls).2.out_msg
        (40 + rd (write_client_hello env tls).2.out_msg 38) =
      u8 ((client_hello_suite_ids env tls).length <<< 1) := by
  rw [write_client_hello_sid_byte env tls hrng]
  obtain ⟨t, n, h1, h2, h3, _, _, _, _, _, _, c1, c2, c3, c4, _⟩ :=
    write_client_hello_message env tls hrng
  obtain ⟨ids, tail, hi, hr⟩ := write_client_hello_rest_count env t n
  have hids : ids = client_hello_suite_ids env tls := by
    unfold client_hello_suite_ids
    rw [hi, h3, c1, c2, write_client_hello_ciphersuites_congr env t
      (write_client_hello_versions tls) _ c3 c4]
  subst hids
  have hh := write_client_hello_head_length env (write_client_hello_versions tls)
  have hA : ([u8 n] ++ rdn t.session_negotiate.id n).length = 1 + n := by
    simp only [List.length_append, List.length_cons, List.length_nil, rdn_length]
  rw [h1, hr, ← h2]
  generalize [u8 n] ++ rdn t.session_negotiate.id n = A at hA ⊢
  generalize write_client_hello_head env (write_client_hello_versions tls) = head at hh ⊢
  generalize (client_hello_suite_ids env tls).length = k
  have hlen : (head ++ (A ++ ([u8 (k >>> 7), u8 (k <<< 1)] ++ tail))).length =
      37 + n + tail.length := by
    simp only [List.length_append, List.length_cons, List.length_nil, hh, hA]
    omega
  have e : head ++ (A ++ ([u8 (k >>> 7), u8 (k <<< 1)] ++ tail)) =
      (head ++ A) ++ ([u8 (k >>> 7), u8 (k <<< 1)] ++ tail) := by
    simp only [List.append_assoc]
  have hHA : (head ++ A).length = 35 + n := by
    rw [List.length_append, hh, hA]
    omega
  have hu : ∀ x, u8 x % 256 = u8 x := fun x => by
    unfold u8
    omega
  constructor
  · rw [rd_store, if_neg (by omega), if_neg (by simp), rd_store, if_neg (by omega),
      if_pos (by rw [hlen]; omega), e]
    have e2 : 39 + n - 4 = (head ++ A).length + 0 := by rw [hHA]; omega
    rw [e2, rd_append_right]
    exact hu _
  · rw [rd_store, if_neg (by omega), if_neg (by simp), rd_store, if_neg (by omega),
      if_pos (by rw [hlen]; omega), e]
    have e2 : 40 + n - 4 = (head ++ A).length + 1 := by rw [hHA]; omega
    rw [e2, rd_append_right]
    exact hu _

/-- C40: the two bytes that `write_client_hello` back-patches in front of
the ciphersuite list, at `out_msg[39 + sid_len]` and `out_msg[40 + sid_len]`,
are `(unsigned char) (n >> 7)` and `(unsigned char) (n << 1)`, where `n`
counts the suite ids written, the SCSV of an initial handshake included; for
`n < 32768` they are the big-endian encoding of `2 * n`, which is the byte
length of the list. -/
theorem write_client_hello_suites_length (env : Env) (tls : ntbtls_t)
    (hrng : write_client_hello_with_ticket tls = true → env.f_rng = Ret.ok)
    (hn : (client_hello_suite_ids env tls).length < 32768) :
    rd (write_client_hello env tls).2.out_msg
        (39 + rd (write_client_hello env tls).2.out_msg 38) =
      u8 ((client_hello_suite_ids env tls).length >>> 7) ∧
    rd (write_client_hello env tls).2.out_msg
        (40 + rd (write_client_hello env tls).2.out_msg 38) =
      u8 ((client_hello_suite_ids env tls).length <<< 1) ∧
    shl8_or
        (rd (write_client_hello env tls).2.out_msg
          (39 + rd (write_client_hello env tls).2.out_msg 38))
        (rd (write_client_hello env tls).2.out_msg
          (40 + rd (write_client_hello env tls).2.out_msg 38)) =
      2 * (client_hello_suite_ids env tls).length ∧
    (ciphersuite_bytes (client_hello_suite_ids env tls)).length =
      2 * (client_hello_suite_ids env tls).length ∧
    (tls.renegotiation = SSL_INITIAL_HANDSHAKE →
      (client_hello_suite_ids env tls).length =
        1 + (write_client_hello_ciphersuites env (write_client_hello_versions tls)
          ((write_client_hello_versions tls).ciphersuite_list
            (write_client_hello_versions tls).minor_ver)).length) := by
  obtain ⟨b1, b2⟩ := write_client_hello_count_bytes env tls hrng
  refine ⟨b1, b2, ?_, ciphersuite_bytes_length _, fun hr => ?_⟩
  · rw [b1, b2]
    exact suite_count_bytes _ hn
  · unfold client_hello_suite_ids
    rw [if_pos hr, List.length_append, List.length_singleton]

/-- Witness for C40: the client `ssl_plain` writes the SCSV and the suite
`0x002F`, two ids, and the length bytes encode 4. -/
theorem write_client_hello_suites_length_witness :
    (client_hello_suite_ids env_plain ssl_plain).length = 2 ∧
    shl8_or
        (rd (write_client_hello env_plain ssl_plain).2.out_msg
          (39 + rd (write_client_hello env_plain ssl_plain).2.out_msg 38))
        (rd (write_client_hello env_plain ssl_plain).2.out_msg
          (40 + rd (write_client_hello env_plain ssl_plain).2.out_msg 38)) =
      2 * (client_hello_suite_ids env_plain ssl_plain).length :=
  ⟨by decide,
    (write_client_hello_suites_length env_plain ssl_plain (fun _ => rfl) (by decide)).2.2.1⟩

/-! ## The client step: where a failing step has advanced the state -/

theorem parse_server_hello_undecided (env : Env) (ssl : ntbtls_t)
    (hd : ¬ server_hello_decided env ssl) :
    (parse_server_hello env ssl).2.state = ssl.state := by
  by_cases hr : env.read_record = Ret.ok
  swap
  · rw [parse_server_hello_read_error env ssl hr]
  rw [parse_server_hello_read env ssl, if_neg (not_not.mpr hr)]
  unfold parse_server_hello_after_read
  simp only []
  by_cases hv : (parse_server_hello_version (ctx_after_read env ssl)).1 = Ret.ok
  swap
  · rw [if_pos hv, version_state]
    rfl
  rw [if_neg (not_not.mpr hv)]
  by_cases hf : (parse_server_hello_fields env
      (parse_server_hello_version (ctx_after_read env ssl)).2).1 = Ret.ok
  swap
  · rw [if_pos hf, fields_state, version_state]
    rfl
  exfalso
  apply hd
  have a := (version_ok_iff _).mp hv
  have b := (fields_ok_iff env _).mp hf
  rw [version_snd_ok _ hv] at b
  exact ⟨⟨hr, a.1, a.2.1, a.2.2.1, a.2.2.2.1, a.2.2.2.2.1, a.2.2.2.2.2⟩, b.1, b.2.1, b.2.2⟩

theorem parse_server_hello_decided_state (env : Env) (ssl : ntbtls_t)
    (hd : server_hello_decided env ssl) :
    (no_resume (ctx_after_fields env ssl) →
      (parse_server_hello env ssl).2.state = ssl.state + 1) ∧
    (¬ no_resume (ctx_after_fields env ssl) →
      (parse_server_hello env ssl).2.state = TLS_SERVER_CHANGE_CIPHER_SPEC) := by
  rw [parse_server_hello_after_fields env ssl hd.1 hd.2.1 hd.2.2.1 hd.2.2.2]
  constructor
  · intro hn
    have e1 : (parse_server_hello_resume env (ctx_after_fields env ssl)).2.state =
        ssl.state + 1 := by
      rw [resume_no env _ hn]
      rfl
    split_ifs
    · exact e1
    · rw [tail_state]
      exact e1
  · intro hn
    have e1 : (parse_server_hello_resume env (ctx_after_fields env ssl)).2.state =
        TLS_SERVER_CHANGE_CIPHER_SPEC := by
      rw [resume_yes env _ hn]
    split_ifs
    · exact e1
    · rw [tail_state]
      exact e1

theorem parse_certificate_request_read_ok_iff (env : Env) (ssl : ntbtls_t) :
    (parse_certificate_request_read env ssl).1 = Ret.ok ↔
      (ssl.record_read ≠ 0 ∨
        (env.read_record = Ret.ok ∧ env.in_msgtype = TLS_MSG_HANDSHAKE)) := by
  unfold parse_certificate_request_read
  by_cases h0 : ssl.record_read = 0
  swap
  · rw [if_neg h0]
    exact ⟨fun _ => Or.inl h0, fun _ => rfl⟩
  rw [if_pos h0]
  simp only []
  by_cases hr : env.read_record = Ret.ok
  swap
  · rw [read_record_err env ssl hr, if_pos hr]
    exact ⟨fun h => absurd h hr, fun h => h.elim (fun c => absurd h0 c)
      (fun c => absurd c.1 hr)⟩
  have e : _ntbtls_read_record env ssl = (Ret.ok, ctx_after_read env ssl) :=
    read_record_ok env ssl hr
  rw [e]
  dsimp only
  rw [if_neg (by simp)]
  have em : (ctx_after_read env ssl).in_msgtype = env.in_msgtype := rfl
  rw [em]
  by_cases hm : env.in_msgtype = TLS_MSG_HANDSHAKE
  · rw [if_neg (not_not.mpr hm)]
    exact ⟨fun _ => Or.inr ⟨hr, hm⟩, fun _ => rfl⟩
  · rw [if_pos hm]
    exact ⟨fun h => absurd h (by simp), fun h => h.elim (fun c => absurd h0 c)
      (fun c => absurd c.2 hm)⟩

theorem parse_certificate_request_message_other (env : Env) (ssl : ntbtls_t)
    (hc : rd ssl.in_msg 0 ≠ TLS_HS_CERTIFICATE_REQUEST) :
    (parse_certificate_request_message env ssl).1 = Ret.ok := by
  unfold parse_certificate_request_message
  simp only [hc, if_false]
  rfl

theorem parse_certificate_request_error_state (env : Env) (ssl : ntbtls_t)
    (h : (parse_certificate_request env ssl).1 ≠ Ret.ok) :
    (cert_request_at_hand env ssl →
      (parse_certificate_request env ssl).2.state = ssl.state + 1 ∧
      (parse_certificate_request env ssl).1 = Ret.BAD_HS_CERT_REQ ∧
      rd (parse_certificate_request_read env ssl).2.in_msg 0 =
        TLS_HS_CERTIFICATE_REQUEST) ∧
    (¬ cert_request_at_hand env ssl →
      (parse_certificate_request env ssl).2.state = ssl.state) := by
  have hiff := parse_certificate_request_read_ok_iff env ssl
  unfold cert_request_at_hand
  unfold parse_certificate_request at h ⊢
  have hopt : ssl.ciphersuite_info = none ∨ ∃ ci, ssl.ciphersuite_info = some ci := by
    cases ssl.ciphersuite_info with
    | none => exact Or.inl rfl
    | some ci => exact Or.inr ⟨ci, rfl⟩
  rcases hopt with hci | ⟨ci, hci⟩
  · simp only [hci] at h ⊢
    exact ⟨fun hc => absurd rfl hc.1, fun _ => trivial⟩
  simp only [hci] at h ⊢
  have h1 := parse_certificate_request_read_state env ssl
  generalize parse_certificate_request_read env ssl = r1 at h h1 hiff ⊢
  have h2 := (parse_certificate_request_message_state env r1.2).1
  have h3 := (parse_certificate_request_message_state env r1.2).2
  have h4 := parse_certificate_request_message_other env r1.2
  split_ifs at h ⊢ with a b
  · exact absurd rfl h
  · exact ⟨fun hc => absurd (hiff.mpr hc.2) b, fun _ => h1⟩
  · refine ⟨fun _ => ⟨by rw [h2, h1], ?_, ?_⟩, fun hc => ?_⟩
    · rcases h3 with h3 | h3
      · exact absurd h3 h
      · exact h3
    · by_contra hc
      exact h (h4 hc)
    · exact absurd ⟨by simp, hiff.mp (not_not.mp b)⟩ hc

theorem write_client_hello_error_state (env : Env) (tls : ntbtls_t)
    (h : (write_client_hello env tls).1 ≠ Ret.ok) :
    (write_client_hello_with_ticket tls = true →
      env.f_rng ≠ Ret.ok ∧ (write_client_hello env tls).1 = env.f_rng ∧
      (write_client_hello env tls).2.state = tls.state) ∧
    (write_client_hello_with_ticket tls = false →
      env.write_record ≠ Ret.ok ∧ (write_client_hello env tls).1 = env.indeterminate ∧
      (write_client_hello env tls).2.state = tls.state + 1) := by
  unfold write_client_hello at h ⊢
  simp only [] at h ⊢
  rw [write_client_hello_with_ticket_versions] at h ⊢
  have hv := write_client_hello_versions_state tls
  generalize write_client_hello_versions tls = t1 at h hv ⊢
  by_cases hw : write_client_hello_with_ticket tls = true
  · simp only [hw, true_and, if_true] at h ⊢
    by_cases hr : env.f_rng ≠ Ret.ok
    · rw [if_pos hr] at h ⊢
      exact ⟨fun _ => ⟨hr, rfl, hv⟩, fun hc => absurd hc (by simp)⟩
    · rw [if_neg hr] at h
      exfalso
      split_ifs at h
      · exact hr h
      · exact h rfl
  · have hw2 : write_client_hello_with_ticket tls = false := by simpa using hw
    simp only [hw2, Bool.false_eq_true, false_and, if_false] at h ⊢
    by_cases hwr : env.write_record ≠ Ret.ok
    · rw [if_pos hwr] at h ⊢
      exact ⟨fun hc => absurd hc (by simp), fun _ => ⟨hwr, rfl, by simp [hv]⟩⟩
    · rw [if_neg hwr] at h
      exact absurd rfl h

theorem write_client_key_exchange_error_state (env : Env) (ssl : ntbtls_t)
    (h : (write_client_key_exchange env ssl).1 ≠ Ret.ok) :
    (client_key_exchange_built env ssl →
      env.write_record ≠ Ret.ok ∧
      (write_client_key_exchange env ssl).1 = env.write_record ∧
      (write_client_key_exchange env ssl).2.state = ssl.state + 1) ∧
    (¬ client_key_exchange_built env ssl →
      (write_client_key_exchange env ssl).2.state = ssl.state) := by
  have hopt : ssl.ciphersuite_info = none ∨ ∃ ci, ssl.ciphersuite_info = some ci := by
    cases ssl.ciphersuite_info with
    | none => exact Or.inl rfl
    | some ci => exact Or.inr ⟨ci, rfl⟩
  rcases hopt with hci | ⟨ci, hci⟩
  · have hb : ¬ client_key_exchange_built env ssl := by
      rintro ⟨c, hc1, _⟩
      rw [hci] at hc1
      exact absurd hc1 (by simp)
    unfold write_client_key_exchange
    simp only [hci]
    exact ⟨fun hc => absurd hc hb, fun _ => trivial⟩
  have hb : client_key_exchange_built env ssl ↔
      ((write_client_key_exchange_body env ssl ci.key_exchange).1 = Ret.ok ∧
        env.derive_keys = Ret.ok) := by
    constructor
    · rintro ⟨c, hc, hx⟩
      rw [hci] at hc
      rw [Option.some.inj hc]
      exact hx
    · intro hx
      exact ⟨ci, hci, hx⟩
  unfold write_client_key_exchange at h ⊢
  simp only [hci] at h ⊢
  have h1 := write_client_key_exchange_body_state env ssl ci.key_exchange
  generalize write_client_key_exchange_body env ssl ci.key_exchange = r at h h1 hb ⊢
  generalize client_key_exchange_built env ssl = B at hb ⊢
  split_ifs at h ⊢ with a b c
  · exact ⟨fun hc => absurd (hb.mp hc).1 a, fun _ => h1⟩
  · exact ⟨fun hc => absurd (hb.mp hc).2 b, fun _ => h1⟩
  · exact ⟨fun _ => ⟨c, rfl, by simp [h1]⟩,
      fun hc => absurd (hb.mpr ⟨not_not.mp a, not_not.mp b⟩) hc⟩
  · exact absurd rfl h

theorem write_certificate_verify_error_state (env : Env) (ssl : ntbtls_t)
    (h : (write_certificate_verify env ssl).1 ≠ Ret.ok) :
    (certificate_verify_signed env ssl →
      env.write_record ≠ Ret.ok ∧
      (write_certificate_verify env ssl).1 = env.write_record ∧
      (write_certificate_verify env ssl).2.state = ssl.state + 1) ∧
    (¬ certificate_verify_signed env ssl →
      (write_certificate_verify env ssl).2.state = ssl.state) := by
  have hopt : ssl.ciphersuite_info = none ∨ ∃ ci, ssl.ciphersuite_info = some ci := by
    cases ssl.ciphersuite_info with
    | none => exact Or.inl rfl
    | some ci => exact Or.inr ⟨ci, rfl⟩
  have hkey : ssl.own_key = none ∨ ∃ key, ssl.own_key = some key := by
    cases ssl.own_key with
    | none => exact Or.inl rfl
    | some key => exact Or.inr ⟨key, rfl⟩
  rcases hopt with hci | ⟨ci, hci⟩
  · have hb : ¬ certificate_verify_signed env ssl := by
      rintro ⟨c, k, hc1, _⟩
      rw [hci] at hc1
      exact absurd hc1 (by simp)
    unfold write_certificate_verify
    simp only [hci]
    exact ⟨fun hc => absurd hc hb, fun _ => trivial⟩
  rcases hkey with hk | ⟨key, hk⟩
  · have hb : ¬ certificate_verify_signed env ssl := by
      rintro ⟨c, k, _, hc2, _⟩
      rw [hk] at hc2
      exact absurd hc2 (by simp)
    unfold write_certificate_verify at h ⊢
    simp only [hci, hk] at h ⊢
    refine ⟨fun hc => absurd hc hb, fun _ => ?_⟩
    split_ifs at h ⊢
    all_goals first
      | (exfalso; exact h rfl)
      | rfl
  have hb : certificate_verify_signed env ssl ↔
      (ssl.minor_ver = SSL_MINOR_VERSION_3 ∧
        (env.pk_sign key
          (if ci.mac = md_type_t.SHA384 then md_type_t.SHA384 else md_type_t.SHA256)
          env.calc_verify 0).1 = Ret.ok) := by
    constructor
    · rintro ⟨c, k, hc, hk2, hx⟩
      rw [hci] at hc
      rw [hk] at hk2
      rw [Option.some.inj hc, Option.some.inj hk2]
      exact hx
    · intro hx
      exact ⟨ci, key, hci, hk, hx⟩
  unfold write_certificate_verify at h ⊢
  simp only [hci, hk] at h ⊢
  generalize env.pk_sign key
    (if ci.mac = md_type_t.SHA384 then md_type_t.SHA384 else md_type_t.SHA256)
    env.calc_verify 0 = sg at h hb ⊢
  generalize certificate_verify_signed env ssl = B at hb ⊢
  split_ifs at h ⊢ with a b c d e
  all_goals first
    | (exfalso; exact h rfl)
    | exact ⟨fun hc => absurd (hb.mp hc).2 ‹_›, fun _ => rfl⟩
    | exact ⟨fun hc => absurd (hb.mp hc).1 ‹_›, fun _ => rfl⟩
    | exact ⟨fun _ => ⟨‹_›, rfl, rfl⟩,
        fun hc => absurd (hb.mpr ⟨‹_›, not_not.mp ‹_›⟩) hc⟩

theorem client_step_writer (env : Env) (tls : ntbtls_t)
    (hf : env.flush_output = Ret.ok) :
    (tls.state = TLS_CLIENT_HELLO →
      _ntbtls_handshake_client_step env tls = write_client_hello env tls) ∧
    (tls.state = TLS_CLIENT_KEY_EXCHANGE →
      _ntbtls_handshake_client_step env tls = write_client_key_exchange env tls) ∧
    (tls.state = TLS_CERTIFICATE_VERIFY →
      _ntbtls_handshake_client_step env tls = write_certificate_verify env tls) := by
  refine ⟨?_, ?_, ?_⟩
  all_goals
    intro hs
    unfold _ntbtls_handshake_client_step
    simp only [hs, hf, TLS_SERVER_CHANGE_CIPHER_SPEC, TLS_HANDSHAKE_OVER, TLS_HELLO_REQUEST,
      TLS_CLIENT_HELLO, TLS_SERVER_HELLO, TLS_SERVER_CERTIFICATE, TLS_SERVER_KEY_EXCHANGE,
      TLS_CERTIFICATE_REQUEST, TLS_SERVER_HELLO_DONE, TLS_CLIENT_CERTIFICATE,
      TLS_CLIENT_KEY_EXCHANGE, TLS_CERTIFICATE_VERIFY, TLS_CLIENT_CHANGE_CIPHER_SPEC,
      TLS_CLIENT_FINISHED, ne_eq, not_true_eq_false, if_false, if_true,
      Nat.reduceEqDiff, reduceIte]

theorem client_step_flush_error (env : Env) (tls : ntbtls_t)
    (hf : env.flush_output ≠ Ret.ok) :
    (_ntbtls_handshake_client_step env tls).2.state = tls.state := by
  unfold _ntbtls_handshake_client_step
  by_cases h0 : tls.state = TLS_HANDSHAKE_OVER
  · rw [if_pos h0]
  · rw [if_neg h0, if_pos hf]

/-- C1, amended: if `_ntbtls_handshake_client_step` returns a non-zero
code, the state is the same as before the call, except that it has already
been advanced when (a) `parse_server_hello` fails after the record was read
and every check before the resumption decision was passed (state + 1, or
ServerChangeCipherSpec on the resumption path), (b)
`parse_certificate_request` rejects the CertificateRequest at hand
(state + 1, code `GPG_ERR_BAD_HS_CERT_REQ`), or (c) `write_client_hello`,
`write_client_key_exchange` or `write_certificate_verify` have built their
message and the record write fails (state + 1).  In each of these states a
failure that comes earlier leaves the state as it was, and so does a failing
`_ntbtls_flush_output`.  Nothing is said of the states whose handlers live
in other modules. -/
theorem client_step_error_state (env : Env) (tls : ntbtls_t)
    (h : (_ntbtls_handshake_client_step env tls).1 ≠ Ret.ok) :
    (env.flush_output ≠ Ret.ok →
      (_ntbtls_handshake_client_step env tls).2.state = tls.state) ∧
    (env.flush_output = Ret.ok →
      (tls.state = TLS_SERVER_HELLO →
        (¬ server_hello_decided env tls →
          (_ntbtls_handshake_client_step env tls).2.state = tls.state) ∧
        (server_hello_decided env tls → no_resume (ctx_after_fields env tls) →
          (_ntbtls_handshake_client_step env tls).2.state = tls.state + 1) ∧
        (server_hello_decided env tls → ¬ no_resume (ctx_after_fields env tls) →
          (_ntbtls_handshake_client_step env tls).2.state =
            TLS_SERVER_CHANGE_CIPHER_SPEC)) ∧
      (tls.state = TLS_CERTIFICATE_REQUEST →
        (cert_request_at_hand env tls →
          (_ntbtls_handshake_client_step env tls).2.state = tls.state + 1 ∧
          (_ntbtls_handshake_client_step env tls).1 = Ret.BAD_HS_CERT_REQ ∧
          rd (parse_certificate_request_read env tls).2.in_msg 0 =
            TLS_HS_CERTIFICATE_REQUEST) ∧
        (¬ cert_request_at_hand env tls →
          (_ntbtls_handshake_client_step env tls).2.state = tls.state)) ∧
      (tls.state = TLS_CLIENT_HELLO →
        (write_client_hello_with_ticket tls = true →
          env.f_rng ≠ Ret.ok ∧
          (_ntbtls_handshake_client_step env tls).1 = env.f_rng ∧
          (_ntbtls_handshake_client_step env tls).2.state = tls.state) ∧
        (write_client_hello_with_ticket tls = false →
          env.write_record ≠ Ret.ok ∧
          (_ntbtls_handshake_client_step env tls).1 = env.indeterminate ∧
          (_ntbtls_handshake_client_step env tls).2.state = tls.state + 1)) ∧
      (tls.state = TLS_CLIENT_KEY_EXCHANGE →
        (client_key_exchange_built env tls →
          env.write_record ≠ Ret.ok ∧
          (_ntbtls_handshake_client_step env tls).1 = env.write_record ∧
          (_ntbtls_handshake_client_step env tls).2.state = tls.state + 1) ∧
        (¬ client_key_exchange_built env tls →
          (_ntbtls_handshake_client_step env tls).2.state = tls.state)) ∧
      (tls.state = TLS_CERTIFICATE_VERIFY →
        (certificate_verify_signed env tls →
          env.write_record ≠ Ret.ok ∧
          (_ntbtls_handshake_client_step env tls).1 = env.write_record ∧
          (_ntbtls_handshake_client_step env tls).2.state = tls.state + 1) ∧
        (¬ certificate_verify_signed env tls →
          (_ntbtls_handshake_client_step env tls).2.state = tls.state)) ∧
      (tls.state ≠ TLS_SERVER_HELLO → tls.state ≠ TLS_CERTIFICATE_REQUEST →
        tls.state ≠ TLS_CLIENT_HELLO → tls.state ≠ TLS_CLIENT_KEY_EXCHANGE →
        tls.state ≠ TLS_CERTIFICATE_VERIFY → ¬ delegated_state tls →
        (_ntbtls_handshake_client_step env tls).2.state = tls.state)) := by
  refine ⟨client_step_flush_error env tls, fun hf => ⟨fun hs => ?_, fun hs => ?_,
    fun hs => ?_, fun hs => ?_, fun hs => ?_, fun h1 h2 h3 h4 h5 hd => ?_⟩⟩
  · rw [(client_step_handler env tls hf).1 hs]
    exact ⟨parse_server_hello_undecided env tls,
      fun hd => (parse_server_hello_decided_state env tls hd).1,
      fun hd => (parse_server_hello_decided_state env tls hd).2⟩
  · rw [(client_step_handler env tls hf).2.2.1 hs] at h ⊢
    exact parse_certificate_request_error_state env tls h
  · rw [(client_step_writer env tls hf).1 hs] at h ⊢
    exact write_client_hello_error_state env tls h
  · rw [(client_step_writer env tls hf).2.1 hs] at h ⊢
    exact write_client_key_exchange_error_state env tls h
  · rw [(client_step_writer env tls hf).2.2 hs] at h ⊢
    exact write_certificate_verify_error_state env tls h
  · rcases client_step_error_cases env tls h with e | e | e | e | e
    · exact e
    · exact absurd e.1 h1
    · exact absurd e.1 h2
    · rcases e.1 with c | c | c
      · exact absurd c h3
      · exact absurd c h4
      · exact absurd c h5
    · exfalso
      apply hd
      unfold delegated_state
      rcases e with c | c | c | c | c | c
      · exact Or.inl c
      · exact Or.inr (Or.inl c)
      · exact Or.inr (Or.inr (Or.inl c))
      · exact Or.inr (Or.inr (Or.inr (Or.inl c)))
      · exact Or.inr (Or.inr (Or.inr (Or.inr (Or.inl c))))
      · exact Or.inr (Or.inr (Or.inr (Or.inr (Or.inr (Or.inl c)))))

theorem server_hello_decided_plain : server_hello_decided env_plain ssl_other_suite := by
  refine ⟨version_accepted_plain _ _ rfl rfl rfl rfl (by simp [ssl_other_suite])
    (by simp [ssl_other_suite]), ?_, hello_plain_fields.2.2.2.2.2, ?_⟩
  · show server_hello_n hello_plain ≤ 32
    rw [hello_plain_fields.1]
    omega
  · simp [env_plain, table_all]

/-- Witness for C1 (amended): the ServerHello `hello_plain`, whose suite
`0x002F` was not offered, passes every check before the resumption decision
and is not a resumption; the failing step has advanced the state by one. -/
theorem client_step_error_state_witness :
    (_ntbtls_handshake_client_step env_plain ssl_other_suite).1 ≠ Ret.ok ∧
    server_hello_decided env_plain ssl_other_suite ∧
    no_resume (ctx_after_fields env_plain ssl_other_suite) ∧
    (_ntbtls_handshake_client_step env_plain ssl_other_suite).2.state =
      ssl_other_suite.state + 1 :=
  ⟨by rw [client_step_other_suite.1]; simp, server_hello_decided_plain,
    Or.inr (Or.inl rfl),
    (((client_step_error_state env_plain ssl_other_suite
      (by rw [client_step_other_suite.1]; simp)).2 rfl).1 rfl).2.1
      server_hello_decided_plain (Or.inr (Or.inl rfl))⟩

end Ntbtls
